import Mathlib

/-!
# Pixel shader UID derivation and code generation (Source/Core/VideoCommon/PixelShaderGen.cpp)

A shallow embedding of the UID encoder (GetPixelShaderUid), the UID canonicaliser
(ClearUnusedPixelShaderUidBits) and the combiner statements of the per-stage emitter
(WriteTevRegular and the colour / alpha combine blocks of WriteStage), with an integer
semantics for the emitted statements, followed by the properties proved about them.

Conventions of the embedding.
* One-bit members are Bool, wider bit-field members are Nat.  Within the hardware limits
  (at most 16 stages, 8 texture coordinate generators, 4 indirect stages) every value the
  encoder stores is a register field of the same width, a boolean, or a mask of such
  fields, so bit-field truncation on assignment is not modelled.
* C++ arrays indexed by a stage or register number are total functions of the index
  on the snapshot side and lists of fixed length inside the UID.
* The process-wide state a C++ function can reach (bpmem, xfmem, g_ActiveConfig, ...)
  is the explicit argument `g : Globals` of the public entry points.
* A function whose body is a long run of assignments is split into blocks that follow the
  source order; each block names the source lines it embeds.
* out.Write(format, args...) is ShaderCode.Write applied to the formatted string.
-/

namespace PixelShaderGen

/-! ## Data model -/

/-- Target graphics API, enum class APIType. -/
inductive APIType where
  | OpenGL
  | D3D
  | Vulkan
  | Nothing
  deriving DecidableEq, Repr

/-- Modelled from the spec: AlphaTest::TEST_RESULT (BPMemory.h is not among the sources);
the statically evaluated alpha-test result, UNDETERMINED being the zero value. -/
inductive TEST_RESULT where
  | UNDETERMINED
  | FAIL
  | PASS
  deriving DecidableEq, Repr

instance : Inhabited TEST_RESULT := ⟨TEST_RESULT.UNDETERMINED⟩

/-- Modelled from the spec: the members of ShaderHostConfig (ShaderGenCommon.h is not among
the sources) that PixelShaderGen.cpp reads; each is a one-bit member. -/
structure ShaderHostConfig where
  msaa : Bool
  ssaa : Bool
  stereo : Bool
  per_pixel_lighting : Bool
  fast_depth_calc : Bool
  bounding_box : Bool
  backend_dual_source_blend : Bool
  backend_geometry_shaders : Bool
  backend_bbox : Bool
  backend_reversed_depth_range : Bool
  backend_shader_framebuffer_fetch : Bool
  backend_logic_op : Bool
  deriving DecidableEq, Repr, Inhabited

/-- Modelled from the spec: LightingUidData (LightingShaderGen.h is not among the sources),
the per-pixel lighting sub-UID, kept as one number. -/
structure LightingUidData where
  bits : Nat
  deriving DecidableEq, Repr, Inhabited

/-- Modelled from the spec: one element of pixel_shader_uid_data::stagehash (PixelShaderGen.h
is not among the sources), with the members PixelShaderGen.cpp reads and writes. -/
structure StageHash where
  cc : Nat
  ac : Nat
  tevorders_texmap : Nat
  tevorders_texcoord : Nat
  tevorders_enable : Bool
  tevorders_colorchan : Nat
  hasindstage : Bool
  tevind : Nat
  tevksel_swap1a : Nat
  tevksel_swap2a : Nat
  tevksel_swap1b : Nat
  tevksel_swap2b : Nat
  tevksel_swap1c : Nat
  tevksel_swap2c : Nat
  tevksel_swap1d : Nat
  tevksel_swap2d : Nat
  tevksel_kc : Nat
  tevksel_ka : Nat
  deriving DecidableEq, Repr

/-- The all-zero stage record of a freshly constructed UID. -/
def StageHash.zero : StageHash :=
  { cc := 0, ac := 0, tevorders_texmap := 0, tevorders_texcoord := 0, tevorders_enable := false,
    tevorders_colorchan := 0, hasindstage := false, tevind := 0,
    tevksel_swap1a := 0, tevksel_swap2a := 0, tevksel_swap1b := 0, tevksel_swap2b := 0,
    tevksel_swap1c := 0, tevksel_swap2c := 0, tevksel_swap1d := 0, tevksel_swap2d := 0,
    tevksel_kc := 0, tevksel_ka := 0 }

instance : Inhabited StageHash := ⟨StageHash.zero⟩

/-- Modelled from the spec: pixel_shader_uid_data (PixelShaderGen.h is not among the sources),
with the members PixelShaderGen.cpp reads and writes.  The four (texcoord, texmap) pairs
behind SetTevindrefValues / GetTevindirefCoord / GetTevindirefMap are the list tevindref. -/
structure pixel_shader_uid_data where
  num_values : Nat
  useDstAlpha : Bool
  Pretest : TEST_RESULT
  nIndirectStagesUsed : Nat
  genMode_numtexgens : Nat
  genMode_numtevstages : Nat
  genMode_numindstages : Nat
  alpha_test_comp0 : Nat
  alpha_test_comp1 : Nat
  alpha_test_logic : Nat
  alpha_test_use_zcomploc_hack : Bool
  fog_proj : Nat
  fog_fsel : Nat
  fog_RangeBaseEnabled : Bool
  ztex_op : Nat
  per_pixel_depth : Bool
  forced_early_z : Bool
  early_ztest : Bool
  late_ztest : Bool
  bounding_box : Bool
  zfreeze : Bool
  numColorChans : Nat
  rgba6_format : Bool
  dither : Bool
  uint_output : Bool
  blend_enable : Bool
  blend_src_factor : Nat
  blend_src_factor_alpha : Nat
  blend_dst_factor : Nat
  blend_dst_factor_alpha : Nat
  blend_subtract : Bool
  blend_subtract_alpha : Bool
  texMtxInfo_n_projection : Nat
  tevindref : List (Nat × Nat)
  stagehash : List StageHash
  lighting : LightingUidData
  deriving DecidableEq, Repr

/-- The UID wrapper `PixelShaderUid`; GetUidData is the identity. -/
abbrev PixelShaderUid := pixel_shader_uid_data

/-- Modelled from the spec: the state of a freshly constructed PixelShaderUid (the constructor
lives in ShaderGenCommon.h, not among the sources): every member is zero, with sixteen stage
slots and four indirect-reference slots. -/
def PixelShaderUid.zero : PixelShaderUid :=
  { num_values := 0, useDstAlpha := false, Pretest := TEST_RESULT.UNDETERMINED,
    nIndirectStagesUsed := 0, genMode_numtexgens := 0, genMode_numtevstages := 0,
    genMode_numindstages := 0, alpha_test_comp0 := 0, alpha_test_comp1 := 0,
    alpha_test_logic := 0, alpha_test_use_zcomploc_hack := false, fog_proj := 0, fog_fsel := 0,
    fog_RangeBaseEnabled := false, ztex_op := 0, per_pixel_depth := false,
    forced_early_z := false, early_ztest := false, late_ztest := false, bounding_box := false,
    zfreeze := false, numColorChans := 0, rgba6_format := false, dither := false,
    uint_output := false, blend_enable := false, blend_src_factor := 0,
    blend_src_factor_alpha := 0, blend_dst_factor := 0, blend_dst_factor_alpha := 0,
    blend_subtract := false, blend_subtract_alpha := false, texMtxInfo_n_projection := 0,
    tevindref := List.replicate 4 (0, 0), stagehash := List.replicate 16 StageHash.zero,
    lighting := ⟨0⟩ }

/-! ## Hardware state snapshot

BPMemory.h, XFMemory.h, VideoConfig.h, RenderState.h and BoundingBox.h are not among the
sources.  The register file is modelled with the members PixelShaderGen.cpp reads.  A method
whose body lives in one of those headers (UseEarlyDepthTest, UseLateDepthTest,
AlphaTest::TestResult, BlendMode::UseLogicOp, TevStageIndirect::IsActive) is taken as a
parameter: its value at the snapshot is a member of the record. -/

/-- Modelled from the spec: TevStageCombiner::ColorCombiner.  The 24-bit register packs, from
the low bits up, d:4 c:4 b:4 a:4 bias:2 op:1 clamp:1 shift:2 dest:2. -/
structure ColorCombiner where
  hex : Nat
  deriving DecidableEq, Repr, Inhabited

/-- Operand selector d of a colour combiner. -/
def ColorCombiner.d (cc : ColorCombiner) : Nat := cc.hex % 16
/-- Operand selector c of a colour combiner. -/
def ColorCombiner.c (cc : ColorCombiner) : Nat := cc.hex / 2 ^ 4 % 16
/-- Operand selector b of a colour combiner. -/
def ColorCombiner.b (cc : ColorCombiner) : Nat := cc.hex / 2 ^ 8 % 16
/-- Operand selector a of a colour combiner. -/
def ColorCombiner.a (cc : ColorCombiner) : Nat := cc.hex / 2 ^ 12 % 16
/-- Bias field of a colour combiner (3 is compare mode). -/
def ColorCombiner.bias (cc : ColorCombiner) : Nat := cc.hex / 2 ^ 16 % 4
/-- Operation field of a colour combiner (0 add, 1 subtract). -/
def ColorCombiner.op (cc : ColorCombiner) : Nat := cc.hex / 2 ^ 18 % 2
/-- Clamp flag of a colour combiner. -/
def ColorCombiner.clamp (cc : ColorCombiner) : Nat := cc.hex / 2 ^ 19 % 2
/-- Shift (scale) field of a colour combiner. -/
def ColorCombiner.shift (cc : ColorCombiner) : Nat := cc.hex / 2 ^ 20 % 4
/-- Destination register of a colour combiner. -/
def ColorCombiner.dest (cc : ColorCombiner) : Nat := cc.hex / 2 ^ 22 % 4

/-- Modelled from the spec: TevStageCombiner::AlphaCombiner.  The 24-bit register packs, from
the low bits up, rswap:2 tswap:2 d:3 c:3 b:3 a:3 bias:2 op:1 clamp:1 shift:2 dest:2. -/
structure AlphaCombiner where
  hex : Nat
  deriving DecidableEq, Repr, Inhabited

/-- Rasterised-colour swap table index of an alpha combiner. -/
def AlphaCombiner.rswap (ac : AlphaCombiner) : Nat := ac.hex % 4
/-- Texture swap table index of an alpha combiner. -/
def AlphaCombiner.tswap (ac : AlphaCombiner) : Nat := ac.hex / 2 ^ 2 % 4
/-- Operand selector d of an alpha combiner. -/
def AlphaCombiner.d (ac : AlphaCombiner) : Nat := ac.hex / 2 ^ 4 % 8
/-- Operand selector c of an alpha combiner. -/
def AlphaCombiner.c (ac : AlphaCombiner) : Nat := ac.hex / 2 ^ 7 % 8
/-- Operand selector b of an alpha combiner. -/
def AlphaCombiner.b (ac : AlphaCombiner) : Nat := ac.hex / 2 ^ 10 % 8
/-- Operand selector a of an alpha combiner. -/
def AlphaCombiner.a (ac : AlphaCombiner) : Nat := ac.hex / 2 ^ 13 % 8
/-- Bias field of an alpha combiner (3 is compare mode). -/
def AlphaCombiner.bias (ac : AlphaCombiner) : Nat := ac.hex / 2 ^ 16 % 4
/-- Operation field of an alpha combiner (0 add, 1 subtract). -/
def AlphaCombiner.op (ac : AlphaCombiner) : Nat := ac.hex / 2 ^ 18 % 2
/-- Clamp flag of an alpha combiner. -/
def AlphaCombiner.clamp (ac : AlphaCombiner) : Nat := ac.hex / 2 ^ 19 % 2
/-- Shift (scale) field of an alpha combiner. -/
def AlphaCombiner.shift (ac : AlphaCombiner) : Nat := ac.hex / 2 ^ 20 % 4
/-- Destination register of an alpha combiner. -/
def AlphaCombiner.dest (ac : AlphaCombiner) : Nat := ac.hex / 2 ^ 22 % 4

/-- Modelled from the spec: one TevStageCombiner, the colour and the alpha register. -/
structure TevStageCombiner where
  colorC : ColorCombiner
  alphaC : AlphaCombiner
  deriving DecidableEq, Repr, Inhabited

/-- Colour operand selectors, in the order of tev_c_input_table. -/
def TEVCOLORARG_RASC : Nat := 10
/-- Colour operand selector: rasterised alpha. -/
def TEVCOLORARG_RASA : Nat := 11
/-- Colour operand selector: constant colour. -/
def TEVCOLORARG_KONST : Nat := 14
/-- Alpha operand selectors, in the order of tev_a_input_table. -/
def TEVALPHAARG_RASA : Nat := 5
/-- Alpha operand selector: constant alpha. -/
def TEVALPHAARG_KONST : Nat := 6
/-- Bias value selecting compare mode. -/
def TEVBIAS_COMPARE : Nat := 3
/-- Z-texture operation: disabled. -/
def ZTEXTURE_DISABLE : Nat := 0
/-- Z-texture operation: add. -/
def ZTEXTURE_ADD : Nat := 1
/-- Modelled from the spec: PEControl::RGBA6_Z24, the 6-bit-per-channel pixel format. -/
def PEControl_RGBA6_Z24 : Nat := 1

/-- Modelled from the spec: TevStageIndirect, the 21-bit register with the indirect stage id
bt in its two low bits; IsActive is the value of the method of that name. -/
structure TevStageIndirect where
  hex : Nat
  IsActive : Bool
  deriving DecidableEq, Repr, Inhabited

/-- Indirect texture stage id of an indirect-stage register. -/
def TevStageIndirect.bt (t : TevStageIndirect) : Nat := t.hex % 4

/-- Modelled from the spec: TEVINDREF, four (texmap, texcoord) pairs of three bits each. -/
structure TEVINDREF where
  hex : Nat
  deriving DecidableEq, Repr, Inhabited

/-- Texture coordinate of indirect stage i. -/
def TEVINDREF.getTexCoord (r : TEVINDREF) (i : Nat) : Nat := r.hex / 2 ^ (6 * i + 3) % 8
/-- Texture map of indirect stage i. -/
def TEVINDREF.getTexMap (r : TEVINDREF) (i : Nat) : Nat := r.hex / 2 ^ (6 * i) % 8

/-- Modelled from the spec: TwoTevStageOrders, the texture-order register shared by an even
stage (members 0) and the following odd stage (members 1). -/
structure TwoTevStageOrders where
  texmap0 : Nat
  texcoord0 : Nat
  enable0 : Bool
  colorchan0 : Nat
  texmap1 : Nat
  texcoord1 : Nat
  enable1 : Bool
  colorchan1 : Nat
  deriving DecidableEq, Repr, Inhabited

/-- Texture map of slot i. -/
def TwoTevStageOrders.getTexMap (o : TwoTevStageOrders) (i : Nat) : Nat :=
  if i ≠ 0 then o.texmap1 else o.texmap0
/-- Texture coordinate generator of slot i. -/
def TwoTevStageOrders.getTexCoord (o : TwoTevStageOrders) (i : Nat) : Nat :=
  if i ≠ 0 then o.texcoord1 else o.texcoord0
/-- Texture enable of slot i. -/
def TwoTevStageOrders.getEnable (o : TwoTevStageOrders) (i : Nat) : Bool :=
  if i ≠ 0 then o.enable1 else o.enable0
/-- Rasterised colour channel of slot i. -/
def TwoTevStageOrders.getColorChan (o : TwoTevStageOrders) (i : Nat) : Nat :=
  if i ≠ 0 then o.colorchan1 else o.colorchan0

/-- Modelled from the spec: TevKSel, one k-select register: a pair of swap-table entries and
the constant colour / alpha indices of an even stage (members 0) and the following odd stage
(members 1). -/
structure TevKSel where
  swap1 : Nat
  swap2 : Nat
  kcsel0 : Nat
  kasel0 : Nat
  kcsel1 : Nat
  kasel1 : Nat
  deriving DecidableEq, Repr, Inhabited

/-- Constant colour index of slot i. -/
def TevKSel.getKC (k : TevKSel) (i : Nat) : Nat := if i ≠ 0 then k.kcsel1 else k.kcsel0
/-- Constant alpha index of slot i. -/
def TevKSel.getKA (k : TevKSel) (i : Nat) : Nat := if i ≠ 0 then k.kasel1 else k.kasel0

/-- Modelled from the spec: GenMode. -/
structure GenMode where
  numtexgens : Nat
  numtevstages : Nat
  numindstages : Nat
  zfreeze : Bool
  deriving DecidableEq, Repr, Inhabited

/-- Modelled from the spec: ZMode, depth test enable and depth write enable. -/
structure ZMode where
  testenable : Bool
  updateenable : Bool
  deriving DecidableEq, Repr, Inhabited

/-- Modelled from the spec: BlendMode; UseLogicOp is the value of the method of that name. -/
structure BlendMode where
  alphaupdate : Bool
  dither : Bool
  UseLogicOp : Bool
  deriving DecidableEq, Repr, Inhabited

/-- Modelled from the spec: ConstantAlpha (bpmem.dstalpha). -/
structure ConstantAlpha where
  enable : Bool
  deriving DecidableEq, Repr, Inhabited

/-- Modelled from the spec: PEControl (bpmem.zcontrol). -/
structure PEControl where
  pixel_format : Nat
  deriving DecidableEq, Repr, Inhabited

/-- Modelled from the spec: AlphaTest; TestResult is the value of the method of that name. -/
structure AlphaTest where
  comp0 : Nat
  comp1 : Nat
  logic : Nat
  TestResult : TEST_RESULT
  deriving DecidableEq, Repr, Inhabited

/-- Modelled from the spec: ZTex2. -/
structure ZTex2 where
  op : Nat
  deriving DecidableEq, Repr, Inhabited

/-- Modelled from the spec: FogParam3 (bpmem.fog.c_proj_fsel). -/
structure FogParam3 where
  proj : Nat
  fsel : Nat
  deriving DecidableEq, Repr, Inhabited

/-- Modelled from the spec: FogParams (bpmem.fog). -/
structure FogParams where
  c_proj_fsel : FogParam3
  deriving DecidableEq, Repr, Inhabited

/-- Modelled from the spec: FogRangeParams::RangeBase. -/
structure FogRangeBase where
  Enabled : Bool
  deriving DecidableEq, Repr, Inhabited

/-- Modelled from the spec: FogRangeParams (bpmem.fogRange). -/
structure FogRangeParams where
  Base : FogRangeBase
  deriving DecidableEq, Repr, Inhabited

/-- Modelled from the spec: BPMemory, the register file.  UseEarlyDepthTest and
UseLateDepthTest are the values of the methods of those names. -/
structure BPMemory where
  genMode : GenMode
  tevorders : Nat → TwoTevStageOrders
  combiners : Nat → TevStageCombiner
  tevind : Nat → TevStageIndirect
  tevindref : TEVINDREF
  tevksel : Nat → TevKSel
  zmode : ZMode
  blendmode : BlendMode
  dstalpha : ConstantAlpha
  zcontrol : PEControl
  alpha_test : AlphaTest
  ztex2 : ZTex2
  fog : FogParams
  fogRange : FogRangeParams
  UseEarlyDepthTest : Bool
  UseLateDepthTest : Bool
  deriving Inhabited

/-- Modelled from the spec: one TexMtxInfo of xfmem, its projection bit. -/
structure TexMtxInfo where
  projection : Nat
  deriving DecidableEq, Repr, Inhabited

/-- Modelled from the spec: NumColorChannel of xfmem. -/
structure NumColorChannel where
  numColorChans : Nat
  deriving DecidableEq, Repr, Inhabited

/-- Modelled from the spec: XFMemory. -/
structure XFMemory where
  numChan : NumColorChannel
  texMtxInfo : Nat → TexMtxInfo
  deriving Inhabited

/-- Modelled from the spec: VideoConfig::backend_info. -/
structure BackendInfo where
  bSupportsEarlyZ : Bool
  bSupportsFramebufferFetch : Bool
  bSupportsDualSourceBlend : Bool
  bSupportsReversedDepthRange : Bool
  deriving DecidableEq, Repr, Inhabited

/-- Modelled from the spec: VideoConfig (g_ActiveConfig). -/
structure VideoConfig where
  bBBoxEnable : Bool
  bForceTrueColor : Bool
  bFastDepthCalc : Bool
  bEnablePixelLighting : Bool
  backend_info : BackendInfo
  deriving DecidableEq, Repr, Inhabited

/-- Modelled from the spec: BlendingState after state.Generate(bpmem). -/
structure BlendingState where
  blendenable : Bool
  usedualsrc : Bool
  dstalpha : Bool
  subtract : Bool
  subtractAlpha : Bool
  srcfactor : Nat
  srcfactoralpha : Nat
  dstfactor : Nat
  dstfactoralpha : Nat
  deriving DecidableEq, Repr, Inhabited

/-- The process-wide state reachable from PixelShaderGen.cpp.  The results of the external
routines BoundingBox::IsEnabled, GetLightingShaderUid (applied to a zeroed record) and
BlendingState::Generate(bpmem) at this state are members. -/
structure Globals where
  bpmem : BPMemory
  xfmem : XFMemory
  g_ActiveConfig : VideoConfig
  BoundingBox_IsEnabled : Bool
  GetLightingShaderUid : LightingUidData
  BlendingState_Generate : BlendingState
  deriving Inhabited

/-- Modelled from the spec: the byte layout of pixel_shader_uid_data that num_values refers
to: total size, offset of stagehash[0] and size of one stage slot. -/
structure UidLayout where
  sizeof_uid_data : Nat
  offset_stagehash : Nat
  sizeof_stage : Nat
  deriving DecidableEq, Repr, Inhabited

/-! ## UID encoder -/

/-- Modelled from the spec: pixel_shader_uid_data::SetTevindrefValues (PixelShaderGen.h is not
among the sources): records the (texcoord, texmap) pair of indirect stage index. -/
def pixel_shader_uid_data.SetTevindrefValues (uid_data : pixel_shader_uid_data) (index : Nat)
    (texcoord texmap : Nat) : pixel_shader_uid_data :=
  { uid_data with tevindref := uid_data.tevindref.set index (texcoord, texmap) }

/-- The test of GetPixelShaderUid and WriteStage for a stage that reads the rasterised colour:
one of the four colour operands is RASA or RASC, or one of the four alpha operands is RASA. -/
def usesRas (cc : ColorCombiner) (ac : AlphaCombiner) : Bool :=
  cc.a == TEVCOLORARG_RASA || cc.a == TEVCOLORARG_RASC || cc.b == TEVCOLORARG_RASA ||
  cc.b == TEVCOLORARG_RASC || cc.c == TEVCOLORARG_RASA || cc.c == TEVCOLORARG_RASC ||
  cc.d == TEVCOLORARG_RASA || cc.d == TEVCOLORARG_RASC || ac.a == TEVALPHAARG_RASA ||
  ac.b == TEVALPHAARG_RASA || ac.c == TEVALPHAARG_RASA || ac.d == TEVALPHAARG_RASA

/-- The test of GetPixelShaderUid and WriteStage for a stage that reads a constant: one of the
eight combiner operands is KONST. -/
def usesKonst (cc : ColorCombiner) (ac : AlphaCombiner) : Bool :=
  cc.a == TEVCOLORARG_KONST || cc.b == TEVCOLORARG_KONST || cc.c == TEVCOLORARG_KONST ||
  cc.d == TEVCOLORARG_KONST || ac.a == TEVALPHAARG_KONST || ac.b == TEVALPHAARG_KONST ||
  ac.c == TEVALPHAARG_KONST || ac.d == TEVALPHAARG_KONST

/-- Lines 239-253 of GetPixelShaderUid, for stage n acting on the slot stagehash[n]: the
texture coordinate, the indirect stage and the masked combiner registers. -/
def GetPixelShaderUid_stage_head (bpmem : BPMemory) (n : Nat) (stage : StageHash) : StageHash :=
  let texcoord := (bpmem.tevorders (n / 2)).getTexCoord (n &&& 1)
  let bHasTexCoord : Bool := decide (texcoord < bpmem.genMode.numtexgens)
  -- HACK to handle cases where the tex gen is not enabled
  let texcoord := if !bHasTexCoord then bpmem.genMode.numtexgens else texcoord
  let stage := { stage with
    hasindstage := decide ((bpmem.tevind n).bt < bpmem.genMode.numindstages),
    tevorders_texcoord := texcoord }
  let stage := if stage.hasindstage then { stage with tevind := (bpmem.tevind n).hex } else stage
  let cc := (bpmem.combiners n).colorC
  let ac := (bpmem.combiners n).alphaC
  { stage with
    cc := cc.hex &&& 0xFFFFFF,
    -- Storing rswap and tswap later
    ac := ac.hex &&& 0xFFFFF0 }

/-- Lines 255-266 of GetPixelShaderUid: the rasterised-colour swap entries and colour channel,
only for a stage that reads the rasterised colour. -/
def GetPixelShaderUid_stage_ras (bpmem : BPMemory) (n : Nat) (stage : StageHash) : StageHash :=
  let cc := (bpmem.combiners n).colorC
  let ac := (bpmem.combiners n).alphaC
  if usesRas cc ac then
    let i := (bpmem.combiners n).alphaC.rswap
    { stage with
      tevksel_swap1a := (bpmem.tevksel (i * 2)).swap1,
      tevksel_swap2a := (bpmem.tevksel (i * 2)).swap2,
      tevksel_swap1b := (bpmem.tevksel (i * 2 + 1)).swap1,
      tevksel_swap2b := (bpmem.tevksel (i * 2 + 1)).swap2,
      tevorders_colorchan := (bpmem.tevorders (n / 2)).getColorChan (n &&& 1) }
  else stage

/-- Lines 268-277 of GetPixelShaderUid: the texture enable and, only for a stage that samples
a texture, the texture swap entries and texture map. -/
def GetPixelShaderUid_stage_tex (bpmem : BPMemory) (n : Nat) (stage : StageHash) : StageHash :=
  let stage := { stage with tevorders_enable := (bpmem.tevorders (n / 2)).getEnable (n &&& 1) }
  if stage.tevorders_enable then
    let i := (bpmem.combiners n).alphaC.tswap
    { stage with
      tevksel_swap1c := (bpmem.tevksel (i * 2)).swap1,
      tevksel_swap2c := (bpmem.tevksel (i * 2)).swap2,
      tevksel_swap1d := (bpmem.tevksel (i * 2 + 1)).swap1,
      tevksel_swap2d := (bpmem.tevksel (i * 2 + 1)).swap2,
      tevorders_texmap := (bpmem.tevorders (n / 2)).getTexMap (n &&& 1) }
  else stage

/-- Lines 279-285 of GetPixelShaderUid: the k-select indices, only for a stage one of whose
operands is KONST. -/
def GetPixelShaderUid_stage_konst (bpmem : BPMemory) (n : Nat) (stage : StageHash) : StageHash :=
  let cc := (bpmem.combiners n).colorC
  let ac := (bpmem.combiners n).alphaC
  if usesKonst cc ac then
    { stage with
      tevksel_kc := (bpmem.tevksel (n / 2)).getKC (n &&& 1),
      tevksel_ka := (bpmem.tevksel (n / 2)).getKA (n &&& 1) }
  else stage

/-- Body of the stage loop of GetPixelShaderUid (lines 239-285) for stage n, acting on the
slot stagehash[n]: the four blocks above in source order. -/
def GetPixelShaderUid_stage (bpmem : BPMemory) (n : Nat) (stage : StageHash) : StageHash :=
  let stage := GetPixelShaderUid_stage_head bpmem n stage
  let stage := GetPixelShaderUid_stage_ras bpmem n stage
  let stage := GetPixelShaderUid_stage_tex bpmem n stage
  let stage := GetPixelShaderUid_stage_konst bpmem n stage
  stage

/-- Lines 176-202 of GetPixelShaderUid: the scalar flags and counts, forced_early_z and
per_pixel_depth. -/
def GetPixelShaderUid_flags (g : Globals) (uid_data : pixel_shader_uid_data) :
    pixel_shader_uid_data :=
  let bpmem := g.bpmem
  let g_ActiveConfig := g.g_ActiveConfig
  let uid_data := { uid_data with
    useDstAlpha := bpmem.dstalpha.enable && bpmem.blendmode.alphaupdate &&
      bpmem.zcontrol.pixel_format == PEControl_RGBA6_Z24,
    genMode_numindstages := bpmem.genMode.numindstages,
    genMode_numtevstages := bpmem.genMode.numtevstages,
    genMode_numtexgens := bpmem.genMode.numtexgens,
    bounding_box := g_ActiveConfig.bBBoxEnable && g.BoundingBox_IsEnabled,
    rgba6_format := bpmem.zcontrol.pixel_format == PEControl_RGBA6_Z24 &&
      !g_ActiveConfig.bForceTrueColor }
  let forced_early_z : Bool :=
    bpmem.UseEarlyDepthTest &&
    (g_ActiveConfig.bFastDepthCalc ||
      bpmem.alpha_test.TestResult == TEST_RESULT.UNDETERMINED)
    -- We can't allow early_ztest for zfreeze because depth is overridden per-pixel.
    -- This means it's impossible for zcomploc to be emulated on a zfrozen polygon.
    && !(bpmem.zmode.testenable && bpmem.genMode.zfreeze)
  let per_pixel_depth : Bool :=
    (bpmem.ztex2.op != ZTEXTURE_DISABLE && bpmem.UseLateDepthTest) ||
    (!g_ActiveConfig.bFastDepthCalc && bpmem.zmode.testenable && !forced_early_z) ||
    (bpmem.zmode.testenable && bpmem.genMode.zfreeze)
  { uid_data with
    dither := bpmem.blendmode.dither && uid_data.rgba6_format,
    uint_output := bpmem.blendmode.UseLogicOp,
    per_pixel_depth := per_pixel_depth,
    forced_early_z := forced_early_z }

/-- Lines 204-208 of GetPixelShaderUid: the per-pixel lighting sub-UID. -/
def GetPixelShaderUid_lighting (g : Globals) (uid_data : pixel_shader_uid_data) :
    pixel_shader_uid_data :=
  if g.g_ActiveConfig.bEnablePixelLighting then
    { uid_data with
      numColorChans := g.xfmem.numChan.numColorChans,
      lighting := g.GetLightingShaderUid }
  else uid_data

/-- Lines 210-217 of GetPixelShaderUid: one projection bit per texture coordinate
generator. -/
def GetPixelShaderUid_projection (g : Globals) (uid_data : pixel_shader_uid_data) :
    pixel_shader_uid_data :=
  if uid_data.genMode_numtexgens > 0 then
    (List.range uid_data.genMode_numtexgens).foldl
      (fun (u : pixel_shader_uid_data) i =>
        -- optional perspective divides
        { u with texMtxInfo_n_projection :=
            u.texMtxInfo_n_projection ||| ((g.xfmem.texMtxInfo i).projection <<< i) })
      uid_data
  else uid_data

/-- Lines 219-235 of GetPixelShaderUid: the mask of referenced indirect stages and their
texture coordinate / texture map. -/
def GetPixelShaderUid_indirect (g : Globals) (uid_data : pixel_shader_uid_data) :
    pixel_shader_uid_data :=
  let bpmem := g.bpmem
  let numStages := uid_data.genMode_numtevstages + 1
  -- indirect texture map lookup
  let nIndirectStagesUsed : Nat := 0
  let nIndirectStagesUsed :=
    if uid_data.genMode_numindstages > 0 then
      (List.range numStages).foldl
        (fun (used : Nat) i =>
          if (bpmem.tevind i).IsActive && (bpmem.tevind i).bt < uid_data.genMode_numindstages
          then used ||| (1 <<< (bpmem.tevind i).bt)
          else used)
        nIndirectStagesUsed
    else nIndirectStagesUsed
  let uid_data := { uid_data with nIndirectStagesUsed := nIndirectStagesUsed }
  (List.range uid_data.genMode_numindstages).foldl
    (fun (u : pixel_shader_uid_data) i =>
      if u.nIndirectStagesUsed &&& (1 <<< i) ≠ 0 then
        u.SetTevindrefValues i (bpmem.tevindref.getTexCoord i) (bpmem.tevindref.getTexMap i)
      else u)
    uid_data

/-- Lines 237-286 of GetPixelShaderUid: the loop over the numtevstages + 1 stages. -/
def GetPixelShaderUid_stages (g : Globals) (uid_data : pixel_shader_uid_data) :
    pixel_shader_uid_data :=
  let numStages := uid_data.genMode_numtevstages + 1
  (List.range numStages).foldl
    (fun (u : pixel_shader_uid_data) n =>
      { u with stagehash :=
          u.stagehash.set n (GetPixelShaderUid_stage g.bpmem n (u.stagehash.getD n default)) })
    uid_data

/-- Lines 288-291 of GetPixelShaderUid: the number of significant bytes. -/
def GetPixelShaderUid_numValues (L : UidLayout) (g : Globals)
    (uid_data : pixel_shader_uid_data) : pixel_shader_uid_data :=
  let numStages := uid_data.genMode_numtevstages + 1
  { uid_data with
    num_values :=
      if g.g_ActiveConfig.bEnablePixelLighting then L.sizeof_uid_data
      else L.offset_stagehash + numStages * L.sizeof_stage }

/-- Lines 293-317 of GetPixelShaderUid: the static alpha-test result and, when it does not
settle the test, the comparator fields. -/
def GetPixelShaderUid_alphaTest (g : Globals) (uid_data : pixel_shader_uid_data) :
    pixel_shader_uid_data :=
  let bpmem := g.bpmem
  let Pretest := bpmem.alpha_test.TestResult
  let uid_data := { uid_data with
    Pretest := Pretest,
    late_ztest := bpmem.UseLateDepthTest }
  -- NOTE: Fragment may not be discarded if alpha test always fails and early depth test is
  -- enabled (in this case we need to write a depth value if depth test passes regardless of
  -- the alpha testing result)
  if uid_data.Pretest == TEST_RESULT.UNDETERMINED ||
      (uid_data.Pretest == TEST_RESULT.FAIL && uid_data.late_ztest) then
    { uid_data with
      alpha_test_comp0 := bpmem.alpha_test.comp0,
      alpha_test_comp1 := bpmem.alpha_test.comp1,
      alpha_test_logic := bpmem.alpha_test.logic,
      -- ZCOMPLOC HACK
      alpha_test_use_zcomploc_hack :=
        bpmem.UseEarlyDepthTest && bpmem.zmode.updateenable &&
        !g.g_ActiveConfig.backend_info.bSupportsEarlyZ && !bpmem.genMode.zfreeze }
  else uid_data

/-- Lines 319-325 of GetPixelShaderUid: z-freeze, z-texture, early depth test and fog. -/
def GetPixelShaderUid_depthFog (g : Globals) (uid_data : pixel_shader_uid_data) :
    pixel_shader_uid_data :=
  let bpmem := g.bpmem
  { uid_data with
    zfreeze := bpmem.genMode.zfreeze,
    ztex_op := bpmem.ztex2.op,
    early_ztest := bpmem.UseEarlyDepthTest,
    fog_fsel := bpmem.fog.c_proj_fsel.fsel,
    fog_proj := bpmem.fog.c_proj_fsel.proj,
    fog_RangeBaseEnabled := bpmem.fogRange.Base.Enabled }

/-- Lines 327-340 of GetPixelShaderUid: the blend fields of the shader-emulated blend path. -/
def GetPixelShaderUid_blend (g : Globals) (uid_data : pixel_shader_uid_data) :
    pixel_shader_uid_data :=
  let state := g.BlendingState_Generate
  if state.usedualsrc && state.dstalpha &&
      g.g_ActiveConfig.backend_info.bSupportsFramebufferFetch &&
      !g.g_ActiveConfig.backend_info.bSupportsDualSourceBlend then
    { uid_data with
      blend_enable := state.blendenable,
      blend_src_factor := state.srcfactor,
      blend_src_factor_alpha := state.srcfactoralpha,
      blend_dst_factor := state.dstfactor,
      blend_dst_factor_alpha := state.dstfactoralpha,
      blend_subtract := state.subtract,
      blend_subtract_alpha := state.subtractAlpha }
  else uid_data

/-- PixelShaderUid GetPixelShaderUid(): derives the UID from the register file, the transform
unit state and the active configuration, all reached through g.  The body is the sequence of
the blocks above, in source order, starting from a zeroed UID; L gives the byte offsets
behind num_values. -/
def GetPixelShaderUid (L : UidLayout) (g : Globals) : PixelShaderUid :=
  let out : PixelShaderUid := PixelShaderUid.zero
  let uid_data := GetPixelShaderUid_flags g out
  let uid_data := GetPixelShaderUid_lighting g uid_data
  let uid_data := GetPixelShaderUid_projection g uid_data
  let uid_data := GetPixelShaderUid_indirect g uid_data
  let uid_data := GetPixelShaderUid_stages g uid_data
  let uid_data := GetPixelShaderUid_numValues L g uid_data
  let uid_data := GetPixelShaderUid_alphaTest g uid_data
  let uid_data := GetPixelShaderUid_depthFog g uid_data
  let uid_data := GetPixelShaderUid_blend g uid_data
  uid_data

/-! ## UID canonicaliser -/

/-- void ClearUnusedPixelShaderUidBits(APIType, const ShaderHostConfig&, PixelShaderUid*):
the UID is updated in place, so the embedding returns the updated UID. -/
def ClearUnusedPixelShaderUidBits (_g : Globals) (api_type : APIType)
    (host_config : ShaderHostConfig) (uid : PixelShaderUid) : PixelShaderUid :=
  let uid_data := uid
  -- OpenGL and Vulkan convert implicitly normalized color outputs to their uint
  -- representation.  We also disable the uint output when logic op is not supported.
  let uid_data :=
    if api_type ≠ APIType.D3D || !host_config.backend_logic_op then
      { uid_data with uint_output := false }
    else uid_data
  -- If bounding box is enabled when a UID cache is created, then later disabled, we
  -- shouldn't emit the bounding box portion of the shader.
  let uid_data := { uid_data with
    bounding_box :=
      uid_data.bounding_box && (host_config.bounding_box && host_config.backend_bbox) }
  uid_data

/-! ## Shader text: the combiner emitter -/

/-- Modelled from the spec: ShaderCode (ShaderGenCommon.h is not among the sources): an
append-only text buffer together with the record of the uniform-constant index ranges marked
as used. -/
structure ShaderCode where
  text : String
  constants_used : List (Nat × Nat)
  deriving DecidableEq, Repr

/-- A fresh ShaderCode: no text, no constant marked. -/
def ShaderCode.empty : ShaderCode := { text := "", constants_used := [] }

/-- The call out.Write(...) with its format arguments already substituted: appends s. -/
def ShaderCode.Write (out : ShaderCode) (s : String) : ShaderCode :=
  { out with text := out.text ++ s }

/-- The call out.SetConstantsUsed(first_index, last_index): records the range. -/
def ShaderCode.SetConstantsUsed (out : ShaderCode) (first_index last_index : Nat) : ShaderCode :=
  { out with constants_used := out.constants_used ++ [(first_index, last_index)] }

/-- The table tev_c_output_table (lines 154-159). -/
def tev_c_output_table : List String := ["prev.rgb", "c0.rgb", "c1.rgb", "c2.rgb"]

/-- The table tev_a_output_table (lines 161-166). -/
def tev_a_output_table : List String := ["prev.a", "c0.a", "c1.a", "c2.a"]

/-- The table tev_scale_table_left of WriteTevRegular: SCALE_1, SCALE_2, SCALE_4, DIVIDE_2. -/
def tev_scale_table_left : List String := ["", " << 1", " << 2", ""]

/-- The table tev_scale_table_right of WriteTevRegular. -/
def tev_scale_table_right : List String := ["", "", "", " >> 1"]

/-- The table tev_lerp_bias of WriteTevRegular, indexed by 2*op+(shift==3). -/
def tev_lerp_bias : List String := ["", " + 128", "", " + 127"]

/-- The table tev_bias_table of WriteTevRegular: ZERO, ADDHALF, SUBHALF, and the unused
compare entry. -/
def tev_bias_table : List String := ["", " + 128", " - 128", ""]

/-- The table tev_op_table of WriteTevRegular: TEVOP_ADD, TEVOP_SUB. -/
def tev_op_table : List String := ["+", "-"]

/-- static void WriteTevRegular(ShaderCode& out, std::string_view components, int bias, int op,
int clamp, int shift, bool alpha) (lines 1318-1366).  Regular TEV stage:
(d + bias + lerp(a,b,c)) * scale. -/
def WriteTevRegular (out : ShaderCode) (components : String) (bias op _clamp shift : Nat)
    (alpha : Bool) : ShaderCode :=
  let out := out.Write ("(((tevin_d." ++ components ++ tev_bias_table.getD bias "" ++ ")" ++
    tev_scale_table_left.getD shift "" ++ ")")
  let out := out.Write (" " ++ tev_op_table.getD op "" ++ " ")
  let out := out.Write ("(((((tevin_a." ++ components ++ "<<8) + (tevin_b." ++ components ++
    "-tevin_a." ++ components ++ ")*(tevin_c." ++ components ++ "+(tevin_c." ++ components ++
    ">>7)))" ++ tev_scale_table_left.getD shift "" ++ ")" ++
    tev_lerp_bias.getD (2 * op + (if (shift == 3) == alpha then 1 else 0)) "" ++ ")>>8)")
  out.Write (")" ++ tev_scale_table_right.getD shift "")

/-- The colour function_table of WriteStage (lines 1262-1275), indexed by (shift << 1) | op. -/
def color_function_table : List String :=
  [ "((tevin_a.r > tevin_b.r) ? tevin_c.rgb : int3(0,0,0))",
    "((tevin_a.r == tevin_b.r) ? tevin_c.rgb : int3(0,0,0))",
    "((idot(tevin_a.rgb, comp16) >  idot(tevin_b.rgb, comp16)) ? tevin_c.rgb : int3(0,0,0))",
    "((idot(tevin_a.rgb, comp16) == idot(tevin_b.rgb, comp16)) ? tevin_c.rgb : int3(0,0,0))",
    "((idot(tevin_a.rgb, comp24) >  idot(tevin_b.rgb, comp24)) ? tevin_c.rgb : int3(0,0,0))",
    "((idot(tevin_a.rgb, comp24) == idot(tevin_b.rgb, comp24)) ? tevin_c.rgb : int3(0,0,0))",
    "(max(sign(tevin_a.rgb - tevin_b.rgb), int3(0,0,0)) * tevin_c.rgb)",
    "((int3(1,1,1) - sign(abs(tevin_a.rgb - tevin_b.rgb))) * tevin_c.rgb)" ]

/-- The alpha function_table of WriteStage (lines 1295-1304), indexed by (shift << 1) | op. -/
def alpha_function_table : List String :=
  [ "((tevin_a.r > tevin_b.r) ? tevin_c.a : 0)",
    "((tevin_a.r == tevin_b.r) ? tevin_c.a : 0)",
    "((idot(tevin_a.rgb, comp16) >  idot(tevin_b.rgb, comp16)) ? tevin_c.a : 0)",
    "((idot(tevin_a.rgb, comp16) == idot(tevin_b.rgb, comp16)) ? tevin_c.a : 0)",
    "((idot(tevin_a.rgb, comp24) >  idot(tevin_b.rgb, comp24)) ? tevin_c.a : 0)",
    "((idot(tevin_a.rgb, comp24) == idot(tevin_b.rgb, comp24)) ? tevin_c.a : 0)",
    "((tevin_a.a >  tevin_b.a) ? tevin_c.a : 0)",
    "((tevin_a.a == tevin_b.a) ? tevin_c.a : 0)" ]

/-- Lines 1254-1285 of WriteStage: the statement that combines the colour channels of a
stage whose stored colour combiner is cc. -/
def WriteStage_colorCombine (out : ShaderCode) (cc : ColorCombiner) : ShaderCode :=
  let out := out.Write "\t// color combine\n"
  let out := out.Write ("\t" ++ tev_c_output_table.getD cc.dest "" ++ " = clamp(")
  let out :=
    if cc.bias ≠ TEVBIAS_COMPARE then
      WriteTevRegular out "rgb" cc.bias cc.op cc.clamp cc.shift false
    else
      let mode := (cc.shift <<< 1) ||| cc.op
      let out := out.Write "   tevin_d.rgb + "
      out.Write (color_function_table.getD mode "")
  let out :=
    if cc.clamp ≠ 0 then out.Write ", int3(0,0,0), int3(255,255,255))"
    else out.Write ", int3(-1024,-1024,-1024), int3(1023,1023,1023))"
  out.Write ";\n"

/-- Lines 1287-1315 of WriteStage: the statement that combines the alpha channel of a stage
whose stored alpha combiner is ac. -/
def WriteStage_alphaCombine (out : ShaderCode) (ac : AlphaCombiner) : ShaderCode :=
  let out := out.Write "\t// alpha combine\n"
  let out := out.Write ("\t" ++ tev_a_output_table.getD ac.dest "" ++ " = clamp(")
  let out :=
    if ac.bias ≠ TEVBIAS_COMPARE then
      WriteTevRegular out "a" ac.bias ac.op ac.clamp ac.shift true
    else
      let mode := (ac.shift <<< 1) ||| ac.op
      let out := out.Write "   tevin_d.a + "
      out.Write (alpha_function_table.getD mode "")
  let out :=
    if ac.clamp ≠ 0 then out.Write ", 0, 255)"
    else out.Write ", -1024, 1023)"
  out.Write ";\n"

/-! ## Uniform names and constant indices -/

/-- Modelled from the spec: the string macro I_COLORS (ShaderGenCommon.h is not among the
sources), the name of the uniform array of the four TEV colour registers. -/
def I_COLORS : String := "color"
/-- Modelled from the spec: the string macro I_KCOLORS, the name of the uniform array of the
four constant colours. -/
def I_KCOLORS : String := "k"
/-- Modelled from the spec: the string macro I_ALPHA, the name of the uniform holding the two
alpha-test references (r and g) and the destination alpha (a). -/
def I_ALPHA : String := "alphaRef"
/-- Modelled from the spec: the string macro I_TEXDIMS. -/
def I_TEXDIMS : String := "texdim"
/-- Modelled from the spec: the string macro I_ZBIAS. -/
def I_ZBIAS : String := "czbias"
/-- Modelled from the spec: the string macro I_INDTEXSCALE. -/
def I_INDTEXSCALE : String := "cindscale"
/-- Modelled from the spec: the string macro I_INDTEXMTX. -/
def I_INDTEXMTX : String := "cindmtx"
/-- Modelled from the spec: the string macro I_FOGCOLOR. -/
def I_FOGCOLOR : String := "cfogcolor"
/-- Modelled from the spec: the string macro I_FOGI. -/
def I_FOGI : String := "cfogi"
/-- Modelled from the spec: the string macro I_FOGF. -/
def I_FOGF : String := "cfogf"
/-- Modelled from the spec: the string macro I_FOGRANGE. -/
def I_FOGRANGE : String := "cfogrange"
/-- Modelled from the spec: the string macro I_ZSLOPE. -/
def I_ZSLOPE : String := "czslope"
/-- Modelled from the spec: the string macro I_EFBSCALE. -/
def I_EFBSCALE : String := "cefbscale"
/-- Modelled from the spec: the constant EFB_HEIGHT (VideoCommon.h is not among the sources),
the height of the embedded frame buffer in lines. -/
def EFB_HEIGHT : Nat := 528

/-- Constant index C_COLORS (lines 25-41). -/
def C_COLORS : Nat := 0
/-- Constant index C_KCOLORS. -/
def C_KCOLORS : Nat := C_COLORS + 4
/-- Constant index C_ALPHA. -/
def C_ALPHA : Nat := C_KCOLORS + 4
/-- Constant index C_TEXDIMS. -/
def C_TEXDIMS : Nat := C_ALPHA + 1
/-- Constant index C_ZBIAS. -/
def C_ZBIAS : Nat := C_TEXDIMS + 8
/-- Constant index C_INDTEXSCALE. -/
def C_INDTEXSCALE : Nat := C_ZBIAS + 2
/-- Constant index C_INDTEXMTX. -/
def C_INDTEXMTX : Nat := C_INDTEXSCALE + 2
/-- Constant index C_FOGCOLOR. -/
def C_FOGCOLOR : Nat := C_INDTEXMTX + 6
/-- Constant index C_FOGI. -/
def C_FOGI : Nat := C_FOGCOLOR + 1
/-- Constant index C_FOGF. -/
def C_FOGF : Nat := C_FOGI + 1
/-- Constant index C_ZSLOPE. -/
def C_ZSLOPE : Nat := C_FOGF + 2
/-- Constant index C_EFBSCALE. -/
def C_EFBSCALE : Nat := C_ZSLOPE + 1
/-- Constant index C_PENVCONST_END. -/
def C_PENVCONST_END : Nat := C_EFBSCALE + 1

/-! ## Shader text: operand tables and operand assembly -/

/-- The table tev_ksel_table_c (lines 43-76), indexed by the 5-bit constant colour
selector. -/
def tev_ksel_table_c : List String :=
  [ "255,255,255", "223,223,223", "191,191,191", "159,159,159",
    "128,128,128", "96,96,96", "64,64,64", "32,32,32",
    "0,0,0", "0,0,0", "0,0,0", "0,0,0",
    I_KCOLORS ++ "[0].rgb", I_KCOLORS ++ "[1].rgb", I_KCOLORS ++ "[2].rgb",
    I_KCOLORS ++ "[3].rgb",
    I_KCOLORS ++ "[0].rrr", I_KCOLORS ++ "[1].rrr", I_KCOLORS ++ "[2].rrr",
    I_KCOLORS ++ "[3].rrr",
    I_KCOLORS ++ "[0].ggg", I_KCOLORS ++ "[1].ggg", I_KCOLORS ++ "[2].ggg",
    I_KCOLORS ++ "[3].ggg",
    I_KCOLORS ++ "[0].bbb", I_KCOLORS ++ "[1].bbb", I_KCOLORS ++ "[2].bbb",
    I_KCOLORS ++ "[3].bbb",
    I_KCOLORS ++ "[0].aaa", I_KCOLORS ++ "[1].aaa", I_KCOLORS ++ "[2].aaa",
    I_KCOLORS ++ "[3].aaa" ]

/-- The table tev_ksel_table_a (lines 78-111), indexed by the 5-bit constant alpha
selector. -/
def tev_ksel_table_a : List String :=
  [ "255", "223", "191", "159", "128", "96", "64", "32",
    "0", "0", "0", "0", "0", "0", "0", "0",
    I_KCOLORS ++ "[0].r", I_KCOLORS ++ "[1].r", I_KCOLORS ++ "[2].r", I_KCOLORS ++ "[3].r",
    I_KCOLORS ++ "[0].g", I_KCOLORS ++ "[1].g", I_KCOLORS ++ "[2].g", I_KCOLORS ++ "[3].g",
    I_KCOLORS ++ "[0].b", I_KCOLORS ++ "[1].b", I_KCOLORS ++ "[2].b", I_KCOLORS ++ "[3].b",
    I_KCOLORS ++ "[0].a", I_KCOLORS ++ "[1].a", I_KCOLORS ++ "[2].a", I_KCOLORS ++ "[3].a" ]

/-- The table tev_c_input_table (lines 113-130), indexed by a 4-bit colour operand
selector. -/
def tev_c_input_table : List String :=
  [ "prev.rgb", "prev.aaa", "c0.rgb", "c0.aaa", "c1.rgb", "c1.aaa", "c2.rgb", "c2.aaa",
    "textemp.rgb", "textemp.aaa", "rastemp.rgb", "rastemp.aaa",
    "int3(255,255,255)", "int3(128,128,128)", "konsttemp.rgb", "int3(0,0,0)" ]

/-- The table tev_a_input_table (lines 132-141), indexed by a 3-bit alpha operand
selector. -/
def tev_a_input_table : List String :=
  [ "prev.a", "c0.a", "c1.a", "c2.a", "textemp.a", "rastemp.a", "konsttemp.a", "0" ]

/-- Lines 1216-1217 of WriteStage: the statement that loads konsttemp from the two k-select
tables, emitted for a stage one of whose operands is KONST. -/
def WriteStage_konsttemp (out : ShaderCode) (stage : StageHash) : ShaderCode :=
  out.Write ("\tkonsttemp = int4(" ++ tev_ksel_table_c.getD stage.tevksel_kc "" ++ ", " ++
    tev_ksel_table_a.getD stage.tevksel_ka "" ++ ");\n")

/-- Lines 1246-1252 of WriteStage: the four statements that assemble the combiner inputs of
a stage whose stored combiners are cc and ac. -/
def WriteStage_inputs (out : ShaderCode) (cc : ColorCombiner) (ac : AlphaCombiner) :
    ShaderCode :=
  let out := out.Write ("\ttevin_a = int4(" ++ tev_c_input_table.getD cc.a "" ++ ", " ++
    tev_a_input_table.getD ac.a "" ++ ")&int4(255, 255, 255, 255);\n")
  let out := out.Write ("\ttevin_b = int4(" ++ tev_c_input_table.getD cc.b "" ++ ", " ++
    tev_a_input_table.getD ac.b "" ++ ")&int4(255, 255, 255, 255);\n")
  let out := out.Write ("\ttevin_c = int4(" ++ tev_c_input_table.getD cc.c "" ++ ", " ++
    tev_a_input_table.getD ac.c "" ++ ")&int4(255, 255, 255, 255);\n")
  out.Write ("\ttevin_d = int4(" ++ tev_c_input_table.getD cc.d "" ++ ", " ++
    tev_a_input_table.getD ac.d "" ++ ");\n")

/-! ## Shader text: fog -/

/-- The table tev_fog_funcs_table (lines 1463-1472), indexed by the fog selector. -/
def tev_fog_funcs_table : List String :=
  [ "", "", "", "",
    "\tfog = 1.0 - exp2(-8.0 * fog);\n",
    "\tfog = 1.0 - exp2(-8.0 * fog * fog);\n",
    "\tfog = exp2(-8.0 * (1.0 - fog));\n",
    "\tfog = 1.0 - fog;\n   fog = exp2(-8.0 * fog * fog);\n" ]

/-- static void WriteFog(ShaderCode& out, const pixel_shader_uid_data* uid_data) (lines
1474-1530).  The call of WARN_LOG_FMT for a selector other than 2 below 4 writes to the log
only, which is outside the state modelled, and generation goes on. -/
def WriteFog (out : ShaderCode) (uid_data : pixel_shader_uid_data) : ShaderCode :=
  if uid_data.fog_fsel == 0 then
    out  -- no Fog
  else
    let out := out.SetConstantsUsed C_FOGCOLOR C_FOGCOLOR
    let out := out.SetConstantsUsed C_FOGI C_FOGI
    let out := out.SetConstantsUsed C_FOGF (C_FOGF + 1)
    let out :=
      if uid_data.fog_proj == 0 then
        -- perspective
        out.Write ("\tfloat ze = (" ++ I_FOGF ++ ".x * 16777216.0) / float(" ++ I_FOGI ++
          ".y - (zCoord >> " ++ I_FOGI ++ ".w));\n")
      else
        -- orthographic
        out.Write ("\tfloat ze = " ++ I_FOGF ++ ".x * float(zCoord) / 16777216.0;\n")
    let out :=
      if uid_data.fog_RangeBaseEnabled then
        let out := out.SetConstantsUsed C_FOGF C_FOGF
        out.Write ("\tfloat offset = (2.0 * (rawpos.x / " ++ I_FOGF ++ ".w)) - 1.0 - " ++
          I_FOGF ++ ".z;\n" ++
          "\tfloat floatindex = clamp(9.0 - abs(offset) * 9.0, 0.0, 9.0);\n" ++
          "\tuint indexlower = uint(floatindex);\n" ++
          "\tuint indexupper = indexlower + 1u;\n" ++
          "\tfloat klower = " ++ I_FOGRANGE ++ "[indexlower >> 2u][indexlower & 3u];\n" ++
          "\tfloat kupper = " ++ I_FOGRANGE ++ "[indexupper >> 2u][indexupper & 3u];\n" ++
          "\tfloat k = lerp(klower, kupper, frac(floatindex));\n" ++
          "\tfloat x_adjust = sqrt(offset * offset + k * k) / k;\n" ++
          "\tze *= x_adjust;\n")
      else out
    let out := out.Write ("\tfloat fog = clamp(ze - " ++ I_FOGF ++ ".y, 0.0, 1.0);\n")
    let out :=
      if uid_data.fog_fsel > 3 then
        out.Write (tev_fog_funcs_table.getD uid_data.fog_fsel "")
      else
        -- Unknown Fog Type: a warning is logged unless the selector is 2
        out
    let out := out.Write "\tint ifog = iround(fog * 256.0);\n"
    out.Write ("\tprev.rgb = (prev.rgb * (256 - ifog) + " ++ I_FOGCOLOR ++
      ".rgb * ifog) >> 8;\n")

/-! ## Shader text: alpha test -/

/-- Modelled from the spec: the known-defect flags of the active host driver that
PixelShaderGen.cpp queries through DriverDetails::HasBug (DriverDetails.h is not among the
sources); each member is the answer of HasBug for the bug of that name. -/
structure DriverDetails where
  BUG_BROKEN_NEGATED_BOOLEAN : Bool
  BUG_BROKEN_BITWISE_OP_NEGATION : Bool
  BUG_BROKEN_DUAL_SOURCE_BLENDING : Bool
  BUG_BROKEN_FRAGMENT_SHADER_INDEX_DECORATION : Bool
  deriving DecidableEq, Repr, Inhabited

/-- The table tev_alpha_funcs_table (lines 1386-1395): format strings with one replacement
field for the reference, except NEVER and ALWAYS. -/
def tev_alpha_funcs_table : List String :=
  [ "(false)",              -- NEVER
    "(prev.a <  \x7b\x7d)",  -- LESS
    "(prev.a == \x7b\x7d)",  -- EQUAL
    "(prev.a <= \x7b\x7d)",  -- LEQUAL
    "(prev.a >  \x7b\x7d)",  -- GREATER
    "(prev.a != \x7b\x7d)",  -- NEQUAL
    "(prev.a >= \x7b\x7d)",  -- GEQUAL
    "(true)" ]              -- ALWAYS

/-- The table tev_alpha_funclogic_table (lines 1397-1402): and, or, xor, xnor. -/
def tev_alpha_funclogic_table : List String := [" && ", " || ", " != ", " == "]

/-- The characters of a format string with its first replacement field (an opening brace
directly followed by a closing brace) replaced by arg. -/
def formatChars (arg : List Char) : List Char → List Char
  | [] => []
  | [c] => [c]
  | c1 :: c2 :: cs =>
    if c1 = Char.ofNat 123 ∧ c2 = Char.ofNat 125 then arg ++ cs
    else c1 :: formatChars arg (c2 :: cs)

/-- The text out.Write(fmt, arg) appends for a format string with one replacement field. -/
def format1 (fmt arg : String) : String := String.mk (formatChars arg.toList fmt.toList)

/-- The table alpha_ref of WriteAlphaTest (lines 1407-1410). -/
def alpha_ref : List String := [I_ALPHA ++ ".r", I_ALPHA ++ ".g"]

/-- The lambda write_alpha_func of WriteAlphaTest (lines 1412-1418). -/
def write_alpha_func (out : ShaderCode) (index : Nat) (ref : String) : ShaderCode :=
  let has_no_arguments : Bool := index == 0 || index == tev_alpha_funcs_table.length - 1
  if has_no_arguments then
    out.Write (tev_alpha_funcs_table.getD index "")
  else
    out.Write (format1 (tev_alpha_funcs_table.getD index "") ref)

/-- static void WriteAlphaTest(ShaderCode& out, const pixel_shader_uid_data* uid_data,
APIType api_type, bool per_pixel_depth, bool use_dual_source) (lines 1404-1461).  The
process-wide state it reads is g (g_ActiveConfig) and the driver-defect flags bugs. -/
def WriteAlphaTest (g : Globals) (bugs : DriverDetails) (out : ShaderCode)
    (uid_data : pixel_shader_uid_data) (api_type : APIType)
    (per_pixel_depth use_dual_source : Bool) : ShaderCode :=
  let out := out.SetConstantsUsed C_ALPHA C_ALPHA
  let out :=
    if bugs.BUG_BROKEN_NEGATED_BOOLEAN then out.Write "\tif(( "
    else out.Write "\tif(!( "
  -- Lookup the first component from the alpha function table
  let comp0_index := uid_data.alpha_test_comp0
  let out := write_alpha_func out comp0_index (alpha_ref.getD 0 "")
  -- Lookup the logic op
  let out := out.Write (tev_alpha_funclogic_table.getD uid_data.alpha_test_logic "")
  -- Lookup the second component from the alpha function table
  let comp1_index := uid_data.alpha_test_comp1
  let out := write_alpha_func out comp1_index (alpha_ref.getD 1 "")
  let out :=
    if bugs.BUG_BROKEN_NEGATED_BOOLEAN then out.Write ") == false) \x7b\n"
    else out.Write ")) \x7b\n"
  let out := out.Write "\t\tocol0 = float4(0.0, 0.0, 0.0, 0.0);\n"
  let out :=
    if use_dual_source && !(api_type == APIType.D3D && uid_data.uint_output) then
      out.Write "\t\tocol1 = float4(0.0, 0.0, 0.0, 0.0);\n"
    else out
  let out :=
    if per_pixel_depth then
      out.Write ("\t\tdepth = " ++
        (if !g.g_ActiveConfig.backend_info.bSupportsReversedDepthRange then "0.0" else "1.0") ++
        ";\n")
    else out
  -- ZCOMPLOC HACK:
  let out :=
    if !uid_data.alpha_test_use_zcomploc_hack then
      let out := out.Write "\t\tdiscard;\n"
      if api_type == APIType.D3D then out.Write "\t\treturn;\n" else out
    else out
  out.Write "\t\x7d\n"

/-! ## Shader text: depth -/

/-- Lines 849-881 of GeneratePixelShaderCode: the declaration of zCoord, in its z-freeze,
non-fast-depth or fast-depth variant. -/
def GeneratePixelShaderCode_zCoord (out : ShaderCode) (api_type : APIType)
    (host_config : ShaderHostConfig) (uid_data : pixel_shader_uid_data) : ShaderCode :=
  if uid_data.zfreeze then
    let out := out.SetConstantsUsed C_ZSLOPE C_ZSLOPE
    let out := out.SetConstantsUsed C_EFBSCALE C_EFBSCALE
    let out := out.Write ("\tfloat2 screenpos = rawpos.xy * " ++ I_EFBSCALE ++ ".xy;\n")
    -- Opengl has reversed vertical screenspace coordinates
    let out :=
      if api_type == APIType.OpenGL then
        out.Write ("\tscreenpos.y = " ++ toString EFB_HEIGHT ++ ".0 - screenpos.y;\n")
      else out
    out.Write ("\tint zCoord = int(" ++ I_ZSLOPE ++ ".z + " ++ I_ZSLOPE ++
      ".x * screenpos.x + " ++ I_ZSLOPE ++ ".y * screenpos.y);\n")
  else if !host_config.fast_depth_calc then
    -- For disabled FastDepth we just calculate the depth value again.
    let out := out.SetConstantsUsed (C_ZBIAS + 1) (C_ZBIAS + 1)
    -- the screen space depth value = far z + (clip z / clip w) * z range
    out.Write ("\tint zCoord = " ++ I_ZBIAS ++ "[1].x + int((clipPos.z / clipPos.w) * float(" ++
      I_ZBIAS ++ "[1].y));\n")
  else
    if !host_config.backend_reversed_depth_range then
      out.Write "\tint zCoord = int((1.0 - rawpos.z) * 16777216.0);\n"
    else
      out.Write "\tint zCoord = int(rawpos.z * 16777216.0);\n"

/-- The statement that writes the depth output from zCoord (lines 890-894 and 912-915),
emitted when enabled holds. -/
def GeneratePixelShaderCode_depthWrite (out : ShaderCode) (host_config : ShaderHostConfig)
    (enabled : Bool) : ShaderCode :=
  if enabled then
    if !host_config.backend_reversed_depth_range then
      out.Write "\tdepth = 1.0 - float(zCoord) / 16777216.0;\n"
    else
      out.Write "\tdepth = float(zCoord) / 16777216.0;\n"
  else out

/-- Lines 884-886 and 897-908 of GeneratePixelShaderCode: the z-texture override of zCoord
and its mask. -/
def GeneratePixelShaderCode_zTexture (out : ShaderCode) (uid_data : pixel_shader_uid_data) :
    ShaderCode :=
  -- depth texture can safely be ignored if the result won't be written to the depth buffer
  -- (early_ztest) and isn't used for fog either
  let skip_ztexture : Bool := !uid_data.per_pixel_depth && uid_data.fog_fsel == 0
  -- Note: depth texture output is only written to depth buffer if late depth test is used
  if uid_data.ztex_op != ZTEXTURE_DISABLE && !skip_ztexture then
    let out := out.SetConstantsUsed C_ZBIAS (C_ZBIAS + 1)
    let out := out.Write ("\tzCoord = idot(" ++ I_ZBIAS ++ "[0].xyzw, textemp.xyzw) + " ++
      I_ZBIAS ++ "[1].w " ++ (if uid_data.ztex_op == ZTEXTURE_ADD then "+ zCoord" else "") ++
      ";\n")
    out.Write "\tzCoord = zCoord & 0xFFFFFF;\n"
  else out

/-- Lines 849-916 of GeneratePixelShaderCode: the declaration of zCoord, its clamp, the
early depth write, the z-texture override and the late depth write. -/
def GeneratePixelShaderCode_depth (out : ShaderCode) (api_type : APIType)
    (host_config : ShaderHostConfig) (uid_data : pixel_shader_uid_data) : ShaderCode :=
  let out := GeneratePixelShaderCode_zCoord out api_type host_config uid_data
  let out := out.Write "\tzCoord = clamp(zCoord, 0, 0xFFFFFF);\n"
  -- Note: z-textures are not written to depth buffer if early depth test is used
  let out := GeneratePixelShaderCode_depthWrite out host_config
    (uid_data.per_pixel_depth && uid_data.early_ztest)
  let out := GeneratePixelShaderCode_zTexture out uid_data
  GeneratePixelShaderCode_depthWrite out host_config
    (uid_data.per_pixel_depth && uid_data.late_ztest)

/-- Lines 918-925 of GeneratePixelShaderCode: 2x2 ordered dithering for the 6-bit format. -/
def GeneratePixelShaderCode_dither (out : ShaderCode) (uid_data : pixel_shader_uid_data) :
    ShaderCode :=
  -- No dithering for RGB8 mode
  if uid_data.dither then
    -- Flipper uses a standard 2x2 Bayer Matrix for 6 bit dithering
    let out := out.Write "\tint2 dither = int2(rawpos.xy) & 1;\n"
    out.Write "\tprev.rgb = (prev.rgb - (prev.rgb >> 6)) + abs(dither.y * 3 - dither.x * 2);\n"
  else out

/-- Lines 849-927 of GeneratePixelShaderCode: the depth block, the dithering block and the
call of WriteFog, in source order. -/
def GeneratePixelShaderCode_depthToFog (out : ShaderCode) (api_type : APIType)
    (host_config : ShaderHostConfig) (uid_data : pixel_shader_uid_data) : ShaderCode :=
  let out := GeneratePixelShaderCode_depth out api_type host_config uid_data
  let out := GeneratePixelShaderCode_dither out uid_data
  WriteFog out uid_data
/-! ## Integer semantics of the emitted statements: lexer -/

/-- Binary operators of the shader expression language. -/
inductive BinOp where
  | mul | div | mod | add | sub | shl | shr | lt | gt | le | ge | eq | ne
  | band | bxor | bor | land | lor
  deriving DecidableEq, Repr

/-- Tokens of the shader text. -/
inductive Tok where
  | num (n : Nat)
  | flt (mantissa : Nat) (digits : Nat)
  | ident (s : List Char)
  | op (o : BinOp)
  | lparen | rparen | lbrack | rbrack | comma | semi | dot | assign | bang | tilde
  | question | colon
  deriving DecidableEq, Repr

/-- State of the lexer between two characters. -/
inductive LexState where
  | start
  | ident (acc : List Char)
  | num (n : Nat)
  | frac (mantissa : Nat) (digits : Nat)
  | sym (c : Char)
  | comment
  | hex (n : Nat)
  deriving DecidableEq, Repr

/-- First character of an identifier. -/
def isIdentStart (c : Char) : Bool := c.isAlpha || c == '_'
/-- Later character of an identifier. -/
def isIdentChar (c : Char) : Bool := c.isAlphanum || c == '_'
/-- Value of a decimal digit. -/
def digitVal (c : Char) : Nat := c.toNat - '0'.toNat

/-- Value of a hexadecimal digit, if c is one. -/
def hexDigitVal (c : Char) : Option Nat :=
  if c.isDigit then some (c.toNat - '0'.toNat)
  else if 'a'.toNat ≤ c.toNat ∧ c.toNat ≤ 'f'.toNat then some (c.toNat - 'a'.toNat + 10)
  else if 'A'.toNat ≤ c.toNat ∧ c.toNat ≤ 'F'.toNat then some (c.toNat - 'A'.toNat + 10)
  else none

/-- Token of a one-character symbol. -/
def symTok (c : Char) : Option Tok :=
  if c == '(' then some Tok.lparen
  else if c == ')' then some Tok.rparen
  else if c == '[' then some Tok.lbrack
  else if c == ']' then some Tok.rbrack
  else if c == ',' then some Tok.comma
  else if c == ';' then some Tok.semi
  else if c == '.' then some Tok.dot
  else if c == '=' then some Tok.assign
  else if c == '!' then some Tok.bang
  else if c == '~' then some Tok.tilde
  else if c == '?' then some Tok.question
  else if c == ':' then some Tok.colon
  else if c == '*' then some (Tok.op BinOp.mul)
  else if c == '/' then some (Tok.op BinOp.div)
  else if c == '%' then some (Tok.op BinOp.mod)
  else if c == '+' then some (Tok.op BinOp.add)
  else if c == '-' then some (Tok.op BinOp.sub)
  else if c == '<' then some (Tok.op BinOp.lt)
  else if c == '>' then some (Tok.op BinOp.gt)
  else if c == '&' then some (Tok.op BinOp.band)
  else if c == '^' then some (Tok.op BinOp.bxor)
  else if c == '|' then some (Tok.op BinOp.bor)
  else none

/-- Token of a two-character symbol. -/
def sym2Tok (c1 c2 : Char) : Option Tok :=
  if c1 == '<' && c2 == '<' then some (Tok.op BinOp.shl)
  else if c1 == '>' && c2 == '>' then some (Tok.op BinOp.shr)
  else if c1 == '<' && c2 == '=' then some (Tok.op BinOp.le)
  else if c1 == '>' && c2 == '=' then some (Tok.op BinOp.ge)
  else if c1 == '=' && c2 == '=' then some (Tok.op BinOp.eq)
  else if c1 == '!' && c2 == '=' then some (Tok.op BinOp.ne)
  else if c1 == '&' && c2 == '&' then some (Tok.op BinOp.land)
  else if c1 == '|' && c2 == '|' then some (Tok.op BinOp.lor)
  else none

/-- One character read in the start state. -/
def lexStart (c : Char) : Option LexState :=
  if c == ' ' || c == '\t' || c == '\n' || c == '\r' then some LexState.start
  else if isIdentStart c then some (LexState.ident [c])
  else if c.isDigit then some (LexState.num (digitVal c))
  else if (symTok c).isSome then some (LexState.sym c)
  else none

/-- Tokens completed when the lexer leaves a state. -/
def lexFlush (st : LexState) : Option (List Tok) :=
  match st with
  | LexState.start => some []
  | LexState.comment => some []
  | LexState.ident acc => some [Tok.ident acc.reverse]
  | LexState.num n => some [Tok.num n]
  | LexState.frac m k => some [Tok.flt m k]
  | LexState.sym c => (symTok c).map fun t => [t]
  | LexState.hex n => some [Tok.num n]

/-- One step of the lexer: the next state and the tokens completed. -/
def lexStep (st : LexState) (c : Char) : Option (LexState × List Tok) :=
  match st with
  | LexState.comment => if c == '\n' then some (LexState.start, []) else some (LexState.comment, [])
  | LexState.ident acc =>
    if isIdentChar c then some (LexState.ident (c :: acc), [])
    else (lexStart c).map fun s => (s, [Tok.ident acc.reverse])
  | LexState.num n =>
    if c.isDigit then some (LexState.num (10 * n + digitVal c), [])
    else if c == '.' then some (LexState.frac n 0, [])
    else if n = 0 ∧ (c == 'x' || c == 'X') then some (LexState.hex 0, [])
    else (lexStart c).map fun s => (s, [Tok.num n])
  | LexState.hex n =>
    match hexDigitVal c with
    | some v => some (LexState.hex (16 * n + v), [])
    | none => (lexStart c).map fun s => (s, [Tok.num n])
  | LexState.frac m k =>
    if c.isDigit then some (LexState.frac (10 * m + digitVal c) (k + 1), [])
    else (lexStart c).map fun s => (s, [Tok.flt m k])
  | LexState.sym c1 =>
    if c1 == '/' && c == '/' then some (LexState.comment, [])
    else
      match sym2Tok c1 c with
      | some t => some (LexState.start, [t])
      | none =>
        match symTok c1, lexStart c with
        | some t, some s => some (s, [t])
        | _, _ => none
  | LexState.start => (lexStart c).map fun s => (s, [])

/-- Tokens of a character list, from a lexer state. -/
def lexFrom (st : LexState) : List Char → Option (List Tok)
  | [] => lexFlush st
  | c :: cs =>
    match lexStep st c with
    | none => none
    | some (st2, out) => (lexFrom st2 cs).map fun rest => out ++ rest

/-- Tokens of a shader text; blanks and line comments are skipped. -/
def lex (s : String) : Option (List Tok) := lexFrom LexState.start s.toList

/-! ## Parser -/

/-- Variables of the generated shader: the combiner registers by name, any other by its
spelling. -/
inductive Var where
  | tevin_a | tevin_b | tevin_c | tevin_d
  | prev | c0 | c1 | c2 | textemp | rastemp | konsttemp
  | other (name : List Char)
  deriving DecidableEq, Repr

/-- Functions and constructors called by the generated shader. -/
inductive Fn where
  | clamp | int | int2 | int3 | int4 | idot | max | min | abs | sign
  | other (name : List Char)
  deriving DecidableEq, Repr

/-- Unary operators of the shader expression language. -/
inductive UnOp where
  | neg | not | bnot
  deriving DecidableEq, Repr

/-- Abstract syntax of shader expressions; argNil and argCons build argument lists. -/
inductive ShaderExpr where
  | num (n : Int)
  | flt (mantissa : Nat) (digits : Nat)
  | var (v : Var)
  | swz (e : ShaderExpr) (sel : List Nat)
  | field (e : ShaderExpr) (name : List Char)
  | index (e : ShaderExpr) (i : ShaderExpr)
  | un (o : UnOp) (e : ShaderExpr)
  | bin (o : BinOp) (l : ShaderExpr) (r : ShaderExpr)
  | cond (c : ShaderExpr) (t : ShaderExpr) (e : ShaderExpr)
  | call (f : Fn) (args : ShaderExpr)
  | argNil
  | argCons (hd : ShaderExpr) (tl : ShaderExpr)
  deriving DecidableEq, Repr

/-- Variable named by an identifier. -/
def varOfName (s : List Char) : Var :=
  if s = "tevin_a".toList then Var.tevin_a
  else if s = "tevin_b".toList then Var.tevin_b
  else if s = "tevin_c".toList then Var.tevin_c
  else if s = "tevin_d".toList then Var.tevin_d
  else if s = "prev".toList then Var.prev
  else if s = "c0".toList then Var.c0
  else if s = "c1".toList then Var.c1
  else if s = "c2".toList then Var.c2
  else if s = "textemp".toList then Var.textemp
  else if s = "rastemp".toList then Var.rastemp
  else if s = "konsttemp".toList then Var.konsttemp
  else Var.other s

/-- Function named by an identifier. -/
def fnOfName (s : List Char) : Fn :=
  if s = "clamp".toList then Fn.clamp
  else if s = "int".toList then Fn.int
  else if s = "int2".toList then Fn.int2
  else if s = "int3".toList then Fn.int3
  else if s = "int4".toList then Fn.int4
  else if s = "idot".toList then Fn.idot
  else if s = "max".toList then Fn.max
  else if s = "min".toList then Fn.min
  else if s = "abs".toList then Fn.abs
  else if s = "sign".toList then Fn.sign
  else Fn.other s

/-- Component index of a swizzle letter (xyzw, rgba or stpq). -/
def swizzleIndex (c : Char) : Option Nat :=
  if c == 'x' || c == 'r' || c == 's' then some 0
  else if c == 'y' || c == 'g' || c == 't' then some 1
  else if c == 'z' || c == 'b' || c == 'p' then some 2
  else if c == 'w' || c == 'a' || c == 'q' then some 3
  else none

/-- Component indices of a swizzle. -/
def swizzleOf : List Char → Option (List Nat)
  | [] => some []
  | c :: cs =>
    match swizzleIndex c, swizzleOf cs with
    | some i, some is => some (i :: is)
    | _, _ => none

/-- Member access: a swizzle of one to four component letters, any other name a field. -/
def mkField (e : ShaderExpr) (name : List Char) : ShaderExpr :=
  match swizzleOf name with
  | some sel => if 1 ≤ sel.length ∧ sel.length ≤ 4 then ShaderExpr.swz e sel else ShaderExpr.field e name
  | none => ShaderExpr.field e name

/-- Binding strength of a binary operator, as in C and GLSL. -/
def BinOp.prec : BinOp → Nat
  | BinOp.mul => 10 | BinOp.div => 10 | BinOp.mod => 10
  | BinOp.add => 9 | BinOp.sub => 9
  | BinOp.shl => 8 | BinOp.shr => 8
  | BinOp.lt => 7 | BinOp.gt => 7 | BinOp.le => 7 | BinOp.ge => 7
  | BinOp.eq => 6 | BinOp.ne => 6
  | BinOp.band => 5 | BinOp.bxor => 4 | BinOp.bor => 3
  | BinOp.land => 2 | BinOp.lor => 1

/-! The parser is a precedence-climbing parser over the token list, with fuel. -/

mutual
/-- Reads a literal, a variable, a call, a parenthesised expression or a unary operator with
its operand, then the member accesses that follow. -/
def parsePrimary : Nat → List Tok → Option (ShaderExpr × List Tok)
  | 0, _ => none
  | fuel + 1, toks =>
    match toks with
    | Tok.num n :: rest => parseMember fuel (ShaderExpr.num n) rest
    | Tok.flt m k :: rest => parseMember fuel (ShaderExpr.flt m k) rest
    | Tok.ident s :: Tok.lparen :: Tok.rparen :: rest =>
      parseMember fuel (ShaderExpr.call (fnOfName s) ShaderExpr.argNil) rest
    | Tok.ident s :: Tok.lparen :: rest =>
      match parseArgs fuel rest with
      | some (args, rest2) => parseMember fuel (ShaderExpr.call (fnOfName s) args) rest2
      | none => none
    | Tok.ident s :: rest => parseMember fuel (ShaderExpr.var (varOfName s)) rest
    | Tok.lparen :: rest =>
      match parseExpr fuel 0 rest with
      | some (e, Tok.rparen :: rest2) => parseMember fuel e rest2
      | _ => none
    | Tok.op BinOp.sub :: rest =>
      match parsePrimary fuel rest with
      | some (e, rest2) => some (ShaderExpr.un UnOp.neg e, rest2)
      | none => none
    | Tok.bang :: rest =>
      match parsePrimary fuel rest with
      | some (e, rest2) => some (ShaderExpr.un UnOp.not e, rest2)
      | none => none
    | Tok.tilde :: rest =>
      match parsePrimary fuel rest with
      | some (e, rest2) => some (ShaderExpr.un UnOp.bnot e, rest2)
      | none => none
    | _ => none
/-- Reads the member accesses and indexings that follow an operand. -/
def parseMember : Nat → ShaderExpr → List Tok → Option (ShaderExpr × List Tok)
  | 0, _, _ => none
  | fuel + 1, e, toks =>
    match toks with
    | Tok.dot :: Tok.ident f :: rest => parseMember fuel (mkField e f) rest
    | Tok.lbrack :: rest =>
      match parseExpr fuel 0 rest with
      | some (i, Tok.rbrack :: rest2) => parseMember fuel (ShaderExpr.index e i) rest2
      | _ => none
    | _ => some (e, toks)
/-- Reads an argument list up to its closing parenthesis. -/
def parseArgs : Nat → List Tok → Option (ShaderExpr × List Tok)
  | 0, _ => none
  | fuel + 1, toks =>
    match parseExpr fuel 0 toks with
    | some (e, Tok.comma :: rest) =>
      match parseArgs fuel rest with
      | some (es, rest2) => some (ShaderExpr.argCons e es, rest2)
      | none => none
    | some (e, Tok.rparen :: rest) => some (ShaderExpr.argCons e ShaderExpr.argNil, rest)
    | _ => none
/-- Reads an operand and the binary operators binding at least as strongly as p. -/
def parseExpr : Nat → Nat → List Tok → Option (ShaderExpr × List Tok)
  | 0, _, _ => none
  | fuel + 1, p, toks =>
    match parsePrimary fuel toks with
    | some (lhs, rest) => parseLoop fuel p lhs rest
    | none => none
/-- Reads the binary operators binding at least as strongly as p that follow lhs, and the
conditional operator when p = 0. -/
def parseLoop : Nat → Nat → ShaderExpr → List Tok → Option (ShaderExpr × List Tok)
  | 0, _, _, _ => none
  | fuel + 1, p, lhs, toks =>
    match toks with
    | Tok.op o :: rest =>
      if p ≤ o.prec then
        match parseExpr fuel (o.prec + 1) rest with
        | some (rhs, rest2) => parseLoop fuel p (ShaderExpr.bin o lhs rhs) rest2
        | none => none
      else some (lhs, toks)
    | Tok.question :: rest =>
      if p = 0 then
        match parseExpr fuel 0 rest with
        | some (t, Tok.colon :: rest2) =>
          match parseExpr fuel 0 rest2 with
          | some (e, rest3) => some (ShaderExpr.cond lhs t e, rest3)
          | none => none
        | _ => none
      else some (lhs, toks)
    | _ => some (lhs, toks)
end

/-- A whole expression. -/
def parseExprText (s : String) : Option ShaderExpr :=
  match lex s with
  | some toks =>
    match parseExpr (4 * toks.length + 4) 0 toks with
    | some (e, []) => some e
    | _ => none
  | none => none

/-- One assignment statement: target = value; -/
def parseAssign (s : String) : Option (ShaderExpr × ShaderExpr) :=
  match lex s with
  | some toks =>
    match parsePrimary (4 * toks.length + 4) toks with
    | some (lhs, Tok.assign :: rest) =>
      match parseExpr (4 * toks.length + 4) 0 rest with
      | some (rhs, [Tok.semi]) => some (lhs, rhs)
      | _ => none
    | _ => none
  | none => none

/-! ## Evaluator -/

/-- A shader value: the list of its integer components (one for a scalar). -/
abbrev Val := List Int

/-- Components selected by a swizzle. -/
def Val.swizzle (v : Val) : List Nat → Option Val
  | [] => some []
  | i :: is =>
    match v[i]?, Val.swizzle v is with
    | some x, some xs => some (x :: xs)
    | _, _ => none

/-- Component-wise partial map. -/
def mapOpt (f : Int → Option Int) : Val → Option Val
  | [] => some []
  | x :: xs =>
    match f x, mapOpt f xs with
    | some y, some ys => some (y :: ys)
    | _, _ => none

/-- Component-wise partial operation on two values of the same size. -/
def zipOpt (f : Int → Int → Option Int) : Val → Val → Option Val
  | [], [] => some []
  | x :: xs, y :: ys =>
    match f x y, zipOpt f xs ys with
    | some z, some zs => some (z :: zs)
    | _, _ => none
  | _, _ => none

/-- Component-wise operation; a scalar operand is applied to every component of the other. -/
def broadcast2 (f : Int → Int → Option Int) (x y : Val) : Option Val :=
  match x, y with
  | [a], _ :: _ :: _ => mapOpt (f a) y
  | _ :: _ :: _, [b] => mapOpt (fun a => f a b) x
  | _, _ => zipOpt f x y

/-- Truth value as an integer. -/
def boolInt (b : Bool) : Int := if b then 1 else 0

/-- A binary operator on two integers; w is applied to the result of the operators that can
leave the machine range (the identity gives arithmetic on the integers). -/
def evalBin (w : Int → Int) (o : BinOp) (x y : Int) : Option Int :=
  match o with
  | BinOp.mul => some (w (x * y))
  | BinOp.div => if y = 0 then none else some (w (Int.tdiv x y))
  | BinOp.mod => if y = 0 then none else some (Int.tmod x y)
  | BinOp.add => some (w (x + y))
  | BinOp.sub => some (w (x - y))
  | BinOp.shl => if 0 ≤ y then some (w (x * 2 ^ y.toNat)) else none
  | BinOp.shr => if 0 ≤ y then some (x / 2 ^ y.toNat) else none
  | BinOp.lt => some (boolInt (decide (x < y)))
  | BinOp.gt => some (boolInt (decide (y < x)))
  | BinOp.le => some (boolInt (decide (x ≤ y)))
  | BinOp.ge => some (boolInt (decide (y ≤ x)))
  | BinOp.eq => some (boolInt (decide (x = y)))
  | BinOp.ne => some (boolInt (decide (x ≠ y)))
  | BinOp.band => some (Int.land x y)
  | BinOp.bxor => some (Int.xor x y)
  | BinOp.bor => some (Int.lor x y)
  | BinOp.land => some (boolInt (decide (x ≠ 0 ∧ y ≠ 0)))
  | BinOp.lor => some (boolInt (decide (x ≠ 0 ∨ y ≠ 0)))

/-- A unary operator on an integer. -/
def evalUn (w : Int → Int) (o : UnOp) (x : Int) : Option Int :=
  match o with
  | UnOp.neg => some (w (-x))
  | UnOp.not => some (boolInt (decide (x = 0)))
  | UnOp.bnot => some (-x - 1)

/-- A constructor intN(...): the components of the arguments in order, n in all; a single
scalar argument fills all n components. -/
def construct (n : Nat) (args : List Val) : Option Val :=
  match args with
  | [[x]] => some (List.replicate n x)
  | _ => if args.flatten.length = n then some args.flatten else none

/-- Value of a call: clamp(x, lo, hi) is min(max(x, lo), hi) component-wise. -/
def applyFn (f : Fn) (args : List Val) : Option Val :=
  match f, args with
  | Fn.clamp, [x, lo, hi] =>
    match broadcast2 (fun a b => some (max a b)) x lo with
    | some m => broadcast2 (fun a b => some (min a b)) m hi
    | none => none
  | Fn.max, [x, y] => broadcast2 (fun a b => some (max a b)) x y
  | Fn.min, [x, y] => broadcast2 (fun a b => some (min a b)) x y
  | Fn.abs, [x] => some (x.map fun a => |a|)
  | Fn.sign, [x] => some (x.map Int.sign)
  | Fn.idot, [x, y] =>
    match zipOpt (fun a b => some (a * b)) x y with
    | some p => some [p.sum]
    | none => none
  | Fn.int, as => construct 1 as
  | Fn.int2, as => construct 2 as
  | Fn.int3, as => construct 3 as
  | Fn.int4, as => construct 4 as
  | _, _ => none

mutual
/-- Value of an expression in an environment. -/
def evalExpr (w : Int → Int) (env : Var → Option Val) : ShaderExpr → Option Val
  | ShaderExpr.num n => some [n]
  | ShaderExpr.flt _ _ => none
  | ShaderExpr.var v => env v
  | ShaderExpr.swz e sel =>
    match evalExpr w env e with
    | some v => v.swizzle sel
    | none => none
  | ShaderExpr.field _ _ => none
  | ShaderExpr.index _ _ => none
  | ShaderExpr.un o e =>
    match evalExpr w env e with
    | some v => mapOpt (evalUn w o) v
    | none => none
  | ShaderExpr.bin o l r =>
    match evalExpr w env l, evalExpr w env r with
    | some x, some y => broadcast2 (evalBin w o) x y
    | _, _ => none
  | ShaderExpr.cond c t e =>
    match evalExpr w env c with
    | some [b] => if b ≠ 0 then evalExpr w env t else evalExpr w env e
    | _ => none
  | ShaderExpr.call f args =>
    match evalArgs w env args with
    | some vs => applyFn f vs
    | none => none
  | ShaderExpr.argNil => none
  | ShaderExpr.argCons _ _ => none
/-- Values of an argument list. -/
def evalArgs (w : Int → Int) (env : Var → Option Val) : ShaderExpr → Option (List Val)
  | ShaderExpr.argNil => some []
  | ShaderExpr.argCons hd tl =>
    match evalExpr w env hd, evalArgs w env tl with
    | some v, some vs => some (v :: vs)
    | _, _ => none
  | _ => none
end

/-- The value assigned by a single assignment statement. -/
def evalAssigned (w : Int → Int) (env : Var → Option Val) (text : String) : Option Val :=
  match parseAssign text with
  | some (_, rhs) => evalExpr w env rhs
  | none => none

/-- The four combiner inputs, every other variable undefined. -/
def tevInputs (a b c d : Val) : Var → Option Val
  | Var.tevin_a => some a
  | Var.tevin_b => some b
  | Var.tevin_c => some c
  | Var.tevin_d => some d
  | _ => none

/-- A four-component integer vector of the shader (int4). -/
structure int4 where
  r : Int
  g : Int
  b : Int
  a : Int
  deriving DecidableEq, Repr

/-- Components of an int4 in order. -/
def int4.val (v : int4) : Val := [v.r, v.g, v.b, v.a]

/-- The environment in which tevin_a, tevin_b, tevin_c, tevin_d hold a, b, c, d. -/
def tevInputs4 (a b c d : int4) : Var → Option Val := tevInputs a.val b.val c.val d.val

/-! ## Expected syntax of the regular combiner statement -/

/-- Syntax of (a<<8) + (b-a)*(c+(c>>7)), plus the rounding bias when there is one. -/
def lerpAst (sel : List Nat) (bias : Option Int) : ShaderExpr :=
  let lerp :=
    ShaderExpr.bin BinOp.add
      (ShaderExpr.bin BinOp.shl (ShaderExpr.swz (ShaderExpr.var Var.tevin_a) sel)
        (ShaderExpr.num 8))
      (ShaderExpr.bin BinOp.mul
        (ShaderExpr.bin BinOp.sub (ShaderExpr.swz (ShaderExpr.var Var.tevin_b) sel)
          (ShaderExpr.swz (ShaderExpr.var Var.tevin_a) sel))
        (ShaderExpr.bin BinOp.add (ShaderExpr.swz (ShaderExpr.var Var.tevin_c) sel)
          (ShaderExpr.bin BinOp.shr (ShaderExpr.swz (ShaderExpr.var Var.tevin_c) sel)
            (ShaderExpr.num 7))))
  match bias with
  | some k => ShaderExpr.bin BinOp.add lerp (ShaderExpr.num k)
  | none => lerp

/-- Syntax of d + (lerp >> 8). -/
def regularAst (sel : List Nat) (bias : Option Int) : ShaderExpr :=
  ShaderExpr.bin BinOp.add (ShaderExpr.swz (ShaderExpr.var Var.tevin_d) sel)
    (ShaderExpr.bin BinOp.shr (lerpAst sel bias) (ShaderExpr.num 8))

/-- Syntax of int3(n,n,n). -/
def int3Ast (n : Int) : ShaderExpr :=
  ShaderExpr.call Fn.int3 (ShaderExpr.argCons (ShaderExpr.num n)
    (ShaderExpr.argCons (ShaderExpr.num n) (ShaderExpr.argCons (ShaderExpr.num n)
      ShaderExpr.argNil)))

/-- Syntax of clamp(e, lo, hi). -/
def clampAst (e lo hi : ShaderExpr) : ShaderExpr :=
  ShaderExpr.call Fn.clamp
    (ShaderExpr.argCons e (ShaderExpr.argCons lo (ShaderExpr.argCons hi ShaderExpr.argNil)))

/-- The register written by destination field k: prev, c0, c1, c2. -/
def tevDest : Nat → Var
  | 0 => Var.prev
  | 1 => Var.c0
  | 2 => Var.c1
  | _ => Var.c2

/-! ## Snapshots that differ in one register field -/

/-- The k-select register k with the constant colour / alpha indices of slot i replaced by kc
and ka; the swap entries and the other slot are kept. -/
def TevKSel.withK (k : TevKSel) (i kc ka : Nat) : TevKSel :=
  if i ≠ 0 then { k with kcsel1 := kc, kasel1 := ka } else { k with kcsel0 := kc, kasel0 := ka }

/-- The state g with the k-select colour / alpha index (KC / KA) of stage n replaced by kc and
ka, and nothing else changed. -/
def Globals.withStageKSel (g : Globals) (n kc ka : Nat) : Globals :=
  { g with bpmem := { g.bpmem with
      tevksel := Function.update g.bpmem.tevksel (n / 2)
        ((g.bpmem.tevksel (n / 2)).withK (n &&& 1) kc ka) } }

/-- The state g with the alpha combiner register of stage n replaced by hex, and nothing else
changed. -/
def Globals.withAlphaCombiner (g : Globals) (n hex : Nat) : Globals :=
  { g with bpmem := { g.bpmem with
      combiners := Function.update g.bpmem.combiners n
        { colorC := (g.bpmem.combiners n).colorC, alphaC := ⟨hex⟩ } } }

/-! ## Concrete snapshots used as test inputs -/

/-- A register file with every field zero and the method results given explicitly. -/
def BPMemory.blank (testenable early late : Bool) (pretest : TEST_RESULT) : BPMemory :=
  { genMode := { numtexgens := 0, numtevstages := 0, numindstages := 0, zfreeze := false },
    tevorders := fun _ => ⟨0, 0, false, 0, 0, 0, false, 0⟩,
    combiners := fun _ => ⟨⟨0⟩, ⟨0⟩⟩,
    tevind := fun _ => ⟨0, false⟩,
    tevindref := ⟨0⟩,
    tevksel := fun _ => ⟨0, 0, 0, 0, 0, 0⟩,
    zmode := { testenable := testenable, updateenable := false },
    blendmode := { alphaupdate := false, dither := false, UseLogicOp := false },
    dstalpha := ⟨false⟩,
    zcontrol := ⟨0⟩,
    alpha_test := { comp0 := 0, comp1 := 0, logic := 0, TestResult := pretest },
    ztex2 := ⟨ZTEXTURE_DISABLE⟩,
    fog := ⟨⟨0, 0⟩⟩,
    fogRange := ⟨⟨false⟩⟩,
    UseEarlyDepthTest := early,
    UseLateDepthTest := late }

/-- The process-wide state around a register file: no pixel lighting, no fast depth, no
bounding box, a backend without early-z, framebuffer fetch or dual-source blending. -/
def Globals.around (bpmem : BPMemory) : Globals :=
  { bpmem := bpmem,
    xfmem := { numChan := ⟨0⟩, texMtxInfo := fun _ => ⟨0⟩ },
    g_ActiveConfig :=
      { bBBoxEnable := false, bForceTrueColor := false, bFastDepthCalc := false,
        bEnablePixelLighting := false,
        backend_info :=
          { bSupportsEarlyZ := false, bSupportsFramebufferFetch := false,
            bSupportsDualSourceBlend := false, bSupportsReversedDepthRange := false } },
    BoundingBox_IsEnabled := false,
    GetLightingShaderUid := ⟨0⟩,
    BlendingState_Generate :=
      { blendenable := false, usedualsrc := false, dstalpha := false, subtract := false,
        subtractAlpha := false, srcfactor := 0, srcfactoralpha := 0, dstfactor := 0,
        dstfactoralpha := 0 } }

/-- Depth test enabled and done early, alpha test not statically decided, fast depth off,
no z-freeze, no z-texture. -/
def snapshotEarlyZ : Globals :=
  Globals.around (BPMemory.blank true true false TEST_RESULT.UNDETERMINED)

/-- Z-freeze with the depth test disabled, no z-texture. -/
def snapshotZFreezeNoTest : Globals :=
  Globals.around
    { BPMemory.blank false false false TEST_RESULT.PASS with
      genMode := { numtexgens := 0, numtevstages := 0, numindstages := 0, zfreeze := true } }

/-- Two stages whose operands are all ZERO (no RAS, no KONST operand), textures disabled.
The colour register 0x108FFFF has a bit above bit 23; the alpha register 0x08FFFF has rswap =
tswap = 3.  Every k-select register holds swap entries 1, 2 and constant indices 12, 28, 13,
29. -/
def snapshotStage : Globals :=
  Globals.around
    { BPMemory.blank false false false TEST_RESULT.PASS with
      genMode := { numtexgens := 0, numtevstages := 1, numindstages := 0, zfreeze := false },
      combiners := fun _ => ⟨⟨0x108FFFF⟩, ⟨0x08FFFF⟩⟩,
      tevksel := fun _ => ⟨1, 2, 12, 28, 13, 29⟩ }

/-- A byte layout for test inputs: 8 bytes of header, 16 bytes per stage slot. -/
def layoutExample : UidLayout :=
  { sizeof_uid_data := 8 + 16 * 16 + 8, offset_stagehash := 8, sizeof_stage := 16 }

/-- Depth test and depth write enabled, depth test done late (early depth test not in use),
alpha test not statically decided, backend without early-z, no z-freeze. -/
def snapshotLateZ : Globals :=
  Globals.around
    { BPMemory.blank true false true TEST_RESULT.UNDETERMINED with
      zmode := { testenable := true, updateenable := true } }

/-- Depth test and depth write enabled, depth test done early, alpha test not statically
decided, backend without early-z, no z-freeze. -/
def snapshotEarlyZWrite : Globals :=
  Globals.around
    { BPMemory.blank true true false TEST_RESULT.UNDETERMINED with
      zmode := { testenable := true, updateenable := true } }

/-! ## Rounding bias and constant tables: the lookup and the expected entries -/

/-- The index expression 2 * op + ((shift == 3) == alpha) of line 1364, with which
WriteTevRegular looks up tev_lerp_bias. -/
def lerp_bias_index (op shift : Nat) (alpha : Bool) : Nat :=
  2 * op + (if (shift == 3) == alpha then 1 else 0)

/-- The gray levels of entries 0..7 of the k-select tables. -/
def kselGray : List String := ["255", "223", "191", "159", "128", "96", "64", "32"]

/-- The channel selections of the groups of four entries 12..31 of tev_ksel_table_c. -/
def kselChannelsC : List String := ["rgb", "rrr", "ggg", "bbb", "aaa"]

/-- The channel selections of the groups of four entries 16..31 of tev_ksel_table_a. -/
def kselChannelsA : List String := ["r", "g", "b", "a"]

/-- The text that selects the given channels of slot j of the uniform constant colours. -/
def kselSlot (j : Nat) (channels : String) : String :=
  I_KCOLORS ++ "[" ++ toString j ++ "]." ++ channels

/-! ## Operand assembly: expected syntax -/

/-- Syntax of int4(255, 255, 255, 255). -/
def mask255Ast : ShaderExpr :=
  ShaderExpr.call Fn.int4 (ShaderExpr.argCons (ShaderExpr.num 255)
    (ShaderExpr.argCons (ShaderExpr.num 255) (ShaderExpr.argCons (ShaderExpr.num 255)
      (ShaderExpr.argCons (ShaderExpr.num 255) ShaderExpr.argNil))))

/-- Syntax of int4(colour, alpha). -/
def int4OfAst (colour alpha : ShaderExpr) : ShaderExpr :=
  ShaderExpr.call Fn.int4 (ShaderExpr.argCons colour (ShaderExpr.argCons alpha ShaderExpr.argNil))

/-- The syntax expected of an operand statement: the assignment to target of
int4(colour, alpha), masked with int4(255, 255, 255, 255) or not, when both table entries
parse. -/
def operandAst (target : Var) (masked : Bool) (colour alpha : String) :
    Option (ShaderExpr × ShaderExpr) :=
  (parseExprText colour).bind fun C =>
    (parseExprText alpha).map fun A =>
      (ShaderExpr.var target,
        if masked then ShaderExpr.bin BinOp.band (int4OfAst C A) mask255Ast else int4OfAst C A)

/-! ## Compare mode of the combiner: constants, expected syntax and meaning -/

/-- The shader constant comp16, declared in the shader header (line 741) as
int3(1, 256, 0). -/
def comp16 : Val := [1, 256, 0]

/-- The shader constant comp24, declared in the shader header (line 741) as
int3(1, 256, 256*256). -/
def comp24 : Val := [1, 256, 256 * 256]

/-- The environment in which tevin_a, tevin_b, tevin_c, tevin_d hold a, b, c, d and comp16,
comp24 hold their declared values. -/
def compareInputs (a b c d : int4) : Var → Option Val
  | Var.tevin_a => some a.val
  | Var.tevin_b => some b.val
  | Var.tevin_c => some c.val
  | Var.tevin_d => some d.val
  | Var.other name =>
    if name = "comp16".toList then some comp16
    else if name = "comp24".toList then some comp24
    else none
  | _ => none

/-- Syntax of idot(v.rgb, k) for a combiner input v and a named constant k. -/
def idotAst (v : Var) (k : String) : ShaderExpr :=
  ShaderExpr.call Fn.idot
    (ShaderExpr.argCons (ShaderExpr.swz (ShaderExpr.var v) [0, 1, 2])
      (ShaderExpr.argCons (ShaderExpr.var (Var.other k.toList)) ShaderExpr.argNil))

/-- Syntax of int3(e, e, e). -/
def int3OfAst (e : ShaderExpr) : ShaderExpr :=
  ShaderExpr.call Fn.int3
    (ShaderExpr.argCons e (ShaderExpr.argCons e (ShaderExpr.argCons e ShaderExpr.argNil)))

/-- The comparison operator of compare entry mode: greater-than for an even entry, equal for
an odd one. -/
def compareOp (mode : Nat) : BinOp := if mode % 2 = 0 then BinOp.gt else BinOp.eq

/-- Syntax of the test of compare entry mode; last is the component the entries 6 and 7 of
the alpha table compare. -/
def compareTestAst (mode : Nat) : ShaderExpr :=
  match mode / 2 with
  | 0 =>
    ShaderExpr.bin (compareOp mode) (ShaderExpr.swz (ShaderExpr.var Var.tevin_a) [0])
      (ShaderExpr.swz (ShaderExpr.var Var.tevin_b) [0])
  | 1 =>
    ShaderExpr.bin (compareOp mode) (idotAst Var.tevin_a "comp16") (idotAst Var.tevin_b "comp16")
  | 2 =>
    ShaderExpr.bin (compareOp mode) (idotAst Var.tevin_a "comp24") (idotAst Var.tevin_b "comp24")
  | _ =>
    ShaderExpr.bin (compareOp mode) (ShaderExpr.swz (ShaderExpr.var Var.tevin_a) [3])
      (ShaderExpr.swz (ShaderExpr.var Var.tevin_b) [3])

/-- Syntax of tevin_a.rgb - tevin_b.rgb. -/
def diffRgbAst : ShaderExpr :=
  ShaderExpr.bin BinOp.sub (ShaderExpr.swz (ShaderExpr.var Var.tevin_a) [0, 1, 2])
    (ShaderExpr.swz (ShaderExpr.var Var.tevin_b) [0, 1, 2])

/-- Expected syntax of entry mode of the colour function_table. -/
def colorCompareAst (mode : Nat) : ShaderExpr :=
  if mode = 6 then
    ShaderExpr.bin BinOp.mul
      (ShaderExpr.call Fn.max
        (ShaderExpr.argCons
          (ShaderExpr.call Fn.sign (ShaderExpr.argCons diffRgbAst ShaderExpr.argNil))
          (ShaderExpr.argCons (int3OfAst (ShaderExpr.num 0)) ShaderExpr.argNil)))
      (ShaderExpr.swz (ShaderExpr.var Var.tevin_c) [0, 1, 2])
  else if mode = 7 then
    ShaderExpr.bin BinOp.mul
      (ShaderExpr.bin BinOp.sub (int3OfAst (ShaderExpr.num 1))
        (ShaderExpr.call Fn.sign
          (ShaderExpr.argCons
            (ShaderExpr.call Fn.abs (ShaderExpr.argCons diffRgbAst ShaderExpr.argNil))
            ShaderExpr.argNil)))
      (ShaderExpr.swz (ShaderExpr.var Var.tevin_c) [0, 1, 2])
  else
    ShaderExpr.cond (compareTestAst mode)
      (ShaderExpr.swz (ShaderExpr.var Var.tevin_c) [0, 1, 2]) (int3OfAst (ShaderExpr.num 0))

/-- Expected syntax of entry mode of the alpha function_table. -/
def alphaCompareAst (mode : Nat) : ShaderExpr :=
  ShaderExpr.cond (compareTestAst mode)
    (ShaderExpr.swz (ShaderExpr.var Var.tevin_c) [3]) (ShaderExpr.num 0)

/-- Expected syntax of the lower clamp bound: 0 when the clamp flag is set, -1024
otherwise. -/
def clampLoAst (clamp : Nat) : ShaderExpr :=
  if clamp ≠ 0 then ShaderExpr.num 0 else ShaderExpr.un UnOp.neg (ShaderExpr.num 1024)

/-- Expected syntax of the upper clamp bound: 255 when the clamp flag is set, 1023
otherwise. -/
def clampHiAst (clamp : Nat) : ShaderExpr :=
  if clamp ≠ 0 then ShaderExpr.num 255 else ShaderExpr.num 1023

/-- The compare-mode register with the given destination, shift, op and clamp fields, every
operand selector zero. -/
def compareRegister (dest shift op clamp : Nat) : Nat :=
  0x30000 + op * 0x40000 + clamp * 0x80000 + shift * 0x100000 + dest * 0x400000

/-- The clamp range of a combiner: (0, 255) when the clamp flag is set, (-1024, 1023)
otherwise. -/
def clampRange (clamp : Nat) : Int × Int := if clamp ≠ 0 then (0, 255) else (-1024, 1023)

/-- The test a compare entry makes on two compared values: greater-than for an even entry,
equal for an odd one. -/
def compareHolds (mode : Nat) (x y : Int) : Bool :=
  if mode % 2 = 0 then decide (y < x) else decide (x = y)

/-- The operand gated by a test: x when the test holds, 0 otherwise. -/
def gated (t : Bool) (x : Int) : Int := if t then x else 0

/-- What entry mode of the colour function_table yields: tevin_c.rgb when the test holds and
0 otherwise, the test being on the red components (0, 1), on the 16-bit values r + 256 g
(2, 3), on the 24-bit values r + 256 g + 65536 b (4, 5), or channel by channel (6, 7). -/
def compareColor (mode : Nat) (a b c : int4) : Val :=
  match mode / 2 with
  | 0 => [c.r, c.g, c.b].map (gated (compareHolds mode a.r b.r))
  | 1 => [c.r, c.g, c.b].map (gated (compareHolds mode (a.r + 256 * a.g) (b.r + 256 * b.g)))
  | 2 =>
    [c.r, c.g, c.b].map
      (gated (compareHolds mode (a.r + 256 * a.g + 65536 * a.b)
        (b.r + 256 * b.g + 65536 * b.b)))
  | _ =>
    [gated (compareHolds mode a.r b.r) c.r, gated (compareHolds mode a.g b.g) c.g,
      gated (compareHolds mode a.b b.b) c.b]

/-- What entry mode of the alpha function_table yields: tevin_c.a when the test holds and 0
otherwise, the test being on the red components (0, 1), on the 16-bit values (2, 3), on the
24-bit values (4, 5), or on the alpha components (6, 7). -/
def compareAlpha (mode : Nat) (a b c : int4) : Int :=
  match mode / 2 with
  | 0 => gated (compareHolds mode a.r b.r) c.a
  | 1 => gated (compareHolds mode (a.r + 256 * a.g) (b.r + 256 * b.g)) c.a
  | 2 =>
    gated (compareHolds mode (a.r + 256 * a.g + 65536 * a.b) (b.r + 256 * b.g + 65536 * b.b))
      c.a
  | _ => gated (compareHolds mode a.a b.a) c.a

/-! ## Fog: expected text -/

/-- The statements of WriteFog that compute the eye-space distance ze: the perspective or
orthographic formula, then the range adjustment when it is enabled. -/
def fogDistanceText (uid_data : pixel_shader_uid_data) : String :=
  (if uid_data.fog_proj == 0 then
    "\tfloat ze = (" ++ I_FOGF ++ ".x * 16777216.0) / float(" ++ I_FOGI ++
      ".y - (zCoord >> " ++ I_FOGI ++ ".w));\n"
  else "\tfloat ze = " ++ I_FOGF ++ ".x * float(zCoord) / 16777216.0;\n") ++
  (if uid_data.fog_RangeBaseEnabled then
    "\tfloat offset = (2.0 * (rawpos.x / " ++ I_FOGF ++ ".w)) - 1.0 - " ++
      I_FOGF ++ ".z;\n" ++
      "\tfloat floatindex = clamp(9.0 - abs(offset) * 9.0, 0.0, 9.0);\n" ++
      "\tuint indexlower = uint(floatindex);\n" ++
      "\tuint indexupper = indexlower + 1u;\n" ++
      "\tfloat klower = " ++ I_FOGRANGE ++ "[indexlower >> 2u][indexlower & 3u];\n" ++
      "\tfloat kupper = " ++ I_FOGRANGE ++ "[indexupper >> 2u][indexupper & 3u];\n" ++
      "\tfloat k = lerp(klower, kupper, frac(floatindex));\n" ++
      "\tfloat x_adjust = sqrt(offset * offset + k * k) / k;\n" ++
      "\tze *= x_adjust;\n"
  else "")

/-- The statement of WriteFog that computes the linear ramp clamp(ze - far bias, 0, 1). -/
def fogRampText : String := "\tfloat fog = clamp(ze - " ++ I_FOGF ++ ".y, 0.0, 1.0);\n"

/-- The two statements of WriteFog that blend prev.rgb toward the fog colour. -/
def fogBlendText : String :=
  "\tint ifog = iround(fog * 256.0);\n" ++
  ("\tprev.rgb = (prev.rgb * (256 - ifog) + " ++ I_FOGCOLOR ++ ".rgb * ifog) >> 8;\n")

/-- The constant ranges WriteFog marks as used for a selector other than 0. -/
def fogConstants (uid_data : pixel_shader_uid_data) : List (Nat × Nat) :=
  [(C_FOGCOLOR, C_FOGCOLOR), (C_FOGI, C_FOGI), (C_FOGF, C_FOGF + 1)] ++
    (if uid_data.fog_RangeBaseEnabled then [(C_FOGF, C_FOGF)] else [])

/-- A UID with every member zero but the fog selector. -/
def uidFog (fsel : Nat) : pixel_shader_uid_data := { PixelShaderUid.zero with fog_fsel := fsel }

/-! ## Alpha test: expected text, syntax and meaning -/

/-- The text write_alpha_func appends for a comparator index and a reference. -/
def alphaFuncText (index : Nat) (ref : String) : String :=
  (write_alpha_func ShaderCode.empty index ref).text

/-- The header of the conditional WriteAlphaTest emits, up to and including the opening
brace: the negated combination of the two comparisons, the negation being spelt == false for
a driver with BUG_BROKEN_NEGATED_BOOLEAN. -/
def alphaTestCondText (broken_negated_boolean : Bool) (comp0 comp1 logic : Nat) : String :=
  (if broken_negated_boolean then "\tif(( " else "\tif(!( ") ++
  alphaFuncText comp0 (alpha_ref.getD 0 "") ++
  tev_alpha_funclogic_table.getD logic "" ++
  alphaFuncText comp1 (alpha_ref.getD 1 "") ++
  (if broken_negated_boolean then ") == false) \x7b\n" else ")) \x7b\n")

/-- The statements of the failure block of WriteAlphaTest, between the braces. -/
def alphaTestFailText (reversed_depth_range uint_output zcomploc_hack : Bool)
    (api_type : APIType) (per_pixel_depth use_dual_source : Bool) : String :=
  "\t\tocol0 = float4(0.0, 0.0, 0.0, 0.0);\n" ++
  (if use_dual_source && !(api_type == APIType.D3D && uint_output) then
    "\t\tocol1 = float4(0.0, 0.0, 0.0, 0.0);\n" else "") ++
  (if per_pixel_depth then
    "\t\tdepth = " ++ (if !reversed_depth_range then "0.0" else "1.0") ++ ";\n" else "") ++
  (if !zcomploc_hack then
    "\t\tdiscard;\n" ++ (if api_type == APIType.D3D then "\t\treturn;\n" else "") else "")

/-- The condition of an if statement: the expression between the parentheses that follow the
keyword, read from the characters before the first opening brace. -/
def parseIfCondition (s : String) : Option ShaderExpr :=
  match lexFrom LexState.start (s.toList.takeWhile fun c => c != Char.ofNat 123) with
  | some (Tok.ident name :: Tok.lparen :: rest) =>
    if name = "if".toList then
      match parseExpr (4 * rest.length + 4) 0 rest with
      | some (e, [Tok.rparen]) => some e
      | _ => none
    else none
  | _ => none

/-- The environment of the alpha test: prev holds the colour computed by the stages, the
uniform I_ALPHA holds the two references in its r and g components, and the literals true
and false hold 1 and 0. -/
def alphaTestInputs (prev alphaRef : int4) : Var → Option Val
  | Var.prev => some prev.val
  | Var.other name =>
    if name = I_ALPHA.toList then some alphaRef.val
    else if name = "true".toList then some [1]
    else if name = "false".toList then some [0]
    else none
  | _ => none

/-- The comparators of the alpha test by index: 0 never, 1 less, 2 equal, 3 lequal,
4 greater, 5 nequal, 6 gequal, 7 always. -/
def alphaCompare (comp : Nat) (x ref : Int) : Bool :=
  match comp with
  | 0 => false
  | 1 => decide (x < ref)
  | 2 => decide (x = ref)
  | 3 => decide (x ≤ ref)
  | 4 => decide (x > ref)
  | 5 => decide (x ≠ ref)
  | 6 => decide (x ≥ ref)
  | _ => true

/-- The logic operations of the alpha test by index: 0 AND, 1 OR, 2 XOR, 3 XNOR. -/
def alphaLogic (logic : Nat) (p q : Bool) : Bool :=
  match logic with
  | 0 => p && q
  | 1 => p || q
  | 2 => p != q
  | _ => p == q

/-- Expected syntax of the comparison with index comp against component refSel of the
reference uniform. -/
def alphaFuncAst (comp refSel : Nat) : ShaderExpr :=
  let x := ShaderExpr.swz (ShaderExpr.var Var.prev) [3]
  let ref := ShaderExpr.swz (ShaderExpr.var (Var.other I_ALPHA.toList)) [refSel]
  match comp with
  | 0 => ShaderExpr.var (Var.other "false".toList)
  | 1 => ShaderExpr.bin BinOp.lt x ref
  | 2 => ShaderExpr.bin BinOp.eq x ref
  | 3 => ShaderExpr.bin BinOp.le x ref
  | 4 => ShaderExpr.bin BinOp.gt x ref
  | 5 => ShaderExpr.bin BinOp.ne x ref
  | 6 => ShaderExpr.bin BinOp.ge x ref
  | _ => ShaderExpr.var (Var.other "true".toList)

/-- The operator that spells logic operation index logic: and, or, unequal, equal. -/
def alphaLogicOp (logic : Nat) : BinOp :=
  match logic with
  | 0 => BinOp.land
  | 1 => BinOp.lor
  | 2 => BinOp.ne
  | _ => BinOp.eq

/-- Expected syntax of the condition of the alpha-test conditional. -/
def alphaTestCondAst (broken_negated_boolean : Bool) (comp0 comp1 logic : Nat) : ShaderExpr :=
  let e := ShaderExpr.bin (alphaLogicOp logic) (alphaFuncAst comp0 0) (alphaFuncAst comp1 1)
  if broken_negated_boolean then ShaderExpr.bin BinOp.eq e (ShaderExpr.var (Var.other "false".toList))
  else ShaderExpr.un UnOp.not e

/-- A UID with every member zero but the comparators and the logic operation of the alpha
test. -/
def uidAlphaTest (comp0 comp1 logic : Nat) : pixel_shader_uid_data :=
  { PixelShaderUid.zero with
    alpha_test_comp0 := comp0, alpha_test_comp1 := comp1, alpha_test_logic := logic }

/-- A host driver without any of the known defects. -/
def driverSound : DriverDetails :=
  { BUG_BROKEN_NEGATED_BOOLEAN := false, BUG_BROKEN_BITWISE_OP_NEGATION := false,
    BUG_BROKEN_DUAL_SOURCE_BLENDING := false,
    BUG_BROKEN_FRAGMENT_SHADER_INDEX_DECORATION := false }

/-! ## Depth: expected text, and the range of zCoord along the statements -/

/-- The statement that clamps zCoord after its declaration. -/
def zClampText : String := "\tzCoord = clamp(zCoord, 0, 0xFFFFFF);\n"

/-- The statement that masks zCoord after the z-texture override. -/
def zMaskText : String := "\tzCoord = zCoord & 0xFFFFFF;\n"

/-- What is known about zCoord between two statements: nothing, that it lies in
0..0xFFFFFF, or that a statement has read it while nothing was known. -/
inductive ZRange where
  | unbounded | bounded | violated
  deriving DecidableEq, Repr

/-- The variable zCoord. -/
def zCoordVar : Var := Var.other "zCoord".toList

/-- Syntax of clamp(zCoord, 0, 0xFFFFFF). -/
def clampZAst : ShaderExpr :=
  clampAst (ShaderExpr.var zCoordVar) (ShaderExpr.num 0) (ShaderExpr.num 0xFFFFFF)

/-- Syntax of zCoord & 0xFFFFFF. -/
def maskZAst : ShaderExpr :=
  ShaderExpr.bin BinOp.band (ShaderExpr.var zCoordVar) (ShaderExpr.num 0xFFFFFF)

/-- Whether a token list names zCoord. -/
def mentionsZ (toks : List Tok) : Bool := toks.contains (Tok.ident "zCoord".toList)

/-- A statement that reads zCoord needs it bounded. -/
def zRead (st : ZRange) (reads : Bool) (after : ZRange) : ZRange :=
  if reads && st != ZRange.bounded then ZRange.violated else after

/-- Effect on the range of an assignment to zCoord of the expression with tokens rhs: the
clamp and the mask bound it whatever it held, any other expression leaves it unbounded. -/
def zAssign (st : ZRange) (rhs : List Tok) : ZRange :=
  match parseExpr (4 * rhs.length + 4) 0 rhs with
  | some (e, [Tok.semi]) =>
    if e = clampZAst ∨ e = maskZAst then ZRange.bounded
    else zRead st (mentionsZ rhs) ZRange.unbounded
  | _ => zRead st (mentionsZ rhs) ZRange.unbounded

/-- Effect on the range of one line of shader text: a declaration of zCoord with an
initialiser or an assignment to it, or else a statement that may read it. -/
def zStep (st : ZRange) (line : List Char) : ZRange :=
  match st with
  | ZRange.violated => ZRange.violated
  | _ =>
    match lexFrom LexState.start line with
    | none => ZRange.violated
    | some toks =>
      match toks with
      | Tok.ident t :: Tok.ident x :: Tok.assign :: rhs =>
        if x = "zCoord".toList then zAssign st rhs
        else zRead st (mentionsZ (Tok.ident t :: rhs)) st
      | Tok.ident x :: Tok.assign :: rhs =>
        if x = "zCoord".toList then zAssign st rhs
        else zRead st (mentionsZ rhs) st
      | _ => zRead st (mentionsZ toks) st

/-- The range after the lines of a character list, cur being the characters of the current
line read so far, last first. -/
def zScanFrom (st : ZRange) (cur : List Char) : List Char → ZRange
  | [] => if cur = [] then st else zStep st cur.reverse
  | c :: cs =>
    if c = '\n' then zScanFrom (zStep st cur.reverse) [] cs
    else zScanFrom st (c :: cur) cs

/-- The range of zCoord after the statements of a text, one statement to a line. -/
def zScan (st : ZRange) (s : String) : ZRange := zScanFrom st [] s.toList

/-- Whether a text is empty or ends with a line break. -/
def lineAligned (s : String) : Bool :=
  s.toList.isEmpty || s.toList.getLast? == some '\n'

/-- The environment in which zCoord holds z. -/
def zInputs (z : Int) : Var → Option Val :=
  fun v => if v = zCoordVar then some [z] else none

/-! ## Shader text: the indirect operation of a stage -/

/-- Modelled from the spec: the members of TevStageIndirect above bt (BPMemory.h is not among
the sources).  The 21-bit register packs, from the low bits up, bt:2 fmt:2 bias:3 bs:2 mid:4
sw:3 tw:3 lb_utclod:1 fb_addprev:1.  This one is the format of the indirect texture value. -/
def TevStageIndirect.fmt (t : TevStageIndirect) : Nat := t.hex / 2 ^ 2 % 4
/-- Bias selector of an indirect-stage register. -/
def TevStageIndirect.bias (t : TevStageIndirect) : Nat := t.hex / 2 ^ 4 % 8
/-- Bump-alpha selector of an indirect-stage register. -/
def TevStageIndirect.bs (t : TevStageIndirect) : Nat := t.hex / 2 ^ 7 % 4
/-- Matrix id of an indirect-stage register. -/
def TevStageIndirect.mid (t : TevStageIndirect) : Nat := t.hex / 2 ^ 9 % 16
/-- Wrap selector of the S coordinate of an indirect-stage register. -/
def TevStageIndirect.sw (t : TevStageIndirect) : Nat := t.hex / 2 ^ 13 % 8
/-- Wrap selector of the T coordinate of an indirect-stage register. -/
def TevStageIndirect.tw (t : TevStageIndirect) : Nat := t.hex / 2 ^ 16 % 8
/-- Add-previous flag of an indirect-stage register. -/
def TevStageIndirect.fb_addprev (t : TevStageIndirect) : Bool := t.hex / 2 ^ 20 % 2 != 0

/-- Modelled from the spec: bump-alpha selector ITBA_OFF. -/
def ITBA_OFF : Nat := 0
/-- Modelled from the spec: bias selectors ITB_S .. ITB_STU, one bit per coordinate. -/
def ITB_S : Nat := 1
/-- Bias selector: T. -/
def ITB_T : Nat := 2
/-- Bias selector: S and T. -/
def ITB_ST : Nat := 3
/-- Bias selector: U. -/
def ITB_U : Nat := 4
/-- Bias selector: S and U. -/
def ITB_SU : Nat := 5
/-- Bias selector: T and U. -/
def ITB_TU : Nat := 6
/-- Bias selector: S, T and U. -/
def ITB_STU : Nat := 7
/-- Modelled from the spec: wrap selector ITW_OFF, no wrapping. -/
def ITW_OFF : Nat := 0
/-- Modelled from the spec: wrap selector ITW_0, the coordinate is replaced by zero. -/
def ITW_0 : Nat := 6
/-- Modelled from the spec: GX_TEVREG0, the first destination register after prev. -/
def GX_TEVREG0 : Nat := 1
/-- Colour operand selectors of the three colour registers, in the order of
tev_c_input_table. -/
def TEVCOLORARG_C0 : Nat := 2
/-- Colour operand selector: alpha of register 0. -/
def TEVCOLORARG_A0 : Nat := 3
/-- Colour operand selector: colour of register 1. -/
def TEVCOLORARG_C1 : Nat := 4
/-- Colour operand selector: alpha of register 1. -/
def TEVCOLORARG_A1 : Nat := 5
/-- Colour operand selector: colour of register 2. -/
def TEVCOLORARG_C2 : Nat := 6
/-- Colour operand selector: alpha of register 2. -/
def TEVCOLORARG_A2 : Nat := 7
/-- Alpha operand selectors of the three colour registers, in the order of
tev_a_input_table. -/
def TEVALPHAARG_A0 : Nat := 1
/-- Alpha operand selector: alpha of register 1. -/
def TEVALPHAARG_A1 : Nat := 2
/-- Alpha operand selector: alpha of register 2. -/
def TEVALPHAARG_A2 : Nat := 3

/-- The value of an integer expression converted to u32. -/
def u32 (x : Int) : Nat := (x % 2 ^ 32).toNat

/-- The table tev_ras_table (lines 143-152), indexed by the rasterised colour channel. -/
def tev_ras_table : List String :=
  [ "iround(col0 * 255.0)",
    "iround(col1 * 255.0)",
    "ERROR13",                                              -- 2
    "ERROR14",                                              -- 3
    "ERROR15",                                              -- 4
    "(int4(1, 1, 1, 1) * alphabump)",                       -- bump alpha (0..248)
    "(int4(1, 1, 1, 1) * (alphabump | (alphabump >> 5)))",  -- normalized bump alpha (0..255)
    "int4(0, 0, 0, 0)" ]                                    -- zero

/-- The table tev_ind_alpha_sel of WriteStage (lines 967-972). -/
def tev_ind_alpha_sel : List String := ["", "x", "y", "z"]

/-- The table tev_ind_alpha_mask of WriteStage (lines 975-980): 0b11111000, 0b11100000,
0b11110000, 0b11111000. -/
def tev_ind_alpha_mask : List String := ["248", "224", "240", "248"]

/-- The table tev_ind_fmt_mask of WriteStage (lines 993-998). -/
def tev_ind_fmt_mask : List String := ["255", "31", "15", "7"]

/-- The table tev_ind_bias_field of WriteStage (lines 1004-1006), indexed by bias. -/
def tev_ind_bias_field : List String := ["", "x", "y", "xy", "z", "xz", "yz", "xyz"]

/-- The table tev_ind_bias_add of WriteStage (lines 1009-1014), indexed by fmt. -/
def tev_ind_bias_add : List String := ["-128", "1", "1", "1"]

/-- The table tev_ind_wrap_start of WriteStage (lines 1119-1121). -/
def tev_ind_wrap_start : List String :=
  ["0", "(256<<7)", "(128<<7)", "(64<<7)", "(32<<7)", "(16<<7)", "1"]

/-- Lines 965-988 of WriteStage: the bump alpha taken from the indirect texture value. -/
def WriteStage_alphabump (out : ShaderCode) (tevind : TevStageIndirect) : ShaderCode :=
  if tevind.bs ≠ ITBA_OFF then
    out.Write ("alphabump = iindtex" ++ toString tevind.bt ++ "." ++
      tev_ind_alpha_sel.getD tevind.bs "" ++ " & " ++ tev_ind_alpha_mask.getD tevind.fmt "" ++
      ";\n")
  else
    -- TODO: Should we reset alphabump to 0 here?
    out

/-- Lines 992-1031 of WriteStage: the indirect coordinate of stage n, masked to its format and
biased. -/
def WriteStage_indcoord (out : ShaderCode) (n : Nat) (tevind : TevStageIndirect) : ShaderCode :=
  -- format
  let out := out.Write ("\tint3 iindtevcrd" ++ toString n ++ " = iindtex" ++ toString tevind.bt ++
    " & " ++ tev_ind_fmt_mask.getD tevind.fmt "" ++ ";\n")
  -- bias
  if tevind.bias == ITB_S || tevind.bias == ITB_T || tevind.bias == ITB_U then
    out.Write ("\tiindtevcrd" ++ toString n ++ "." ++ tev_ind_bias_field.getD tevind.bias "" ++
      " += int(" ++ tev_ind_bias_add.getD tevind.fmt "" ++ ");\n")
  else if tevind.bias == ITB_ST || tevind.bias == ITB_SU || tevind.bias == ITB_TU then
    out.Write ("\tiindtevcrd" ++ toString n ++ "." ++ tev_ind_bias_field.getD tevind.bias "" ++
      " += int2(" ++ tev_ind_bias_add.getD tevind.fmt "" ++ ", " ++
      tev_ind_bias_add.getD tevind.fmt "" ++ ");\n")
  else if tevind.bias == ITB_STU then
    out.Write ("\tiindtevcrd" ++ toString n ++ "." ++ tev_ind_bias_field.getD tevind.bias "" ++
      " += int3(" ++ tev_ind_bias_add.getD tevind.fmt "" ++ ", " ++
      tev_ind_bias_add.getD tevind.fmt "" ++ ", " ++ tev_ind_bias_add.getD tevind.fmt "" ++
      ");\n")
  else out

/-- The statement shared by the six shift blocks of WriteStage (lines 1048, 1054, 1070, 1076,
1093, 1099): the right shift of the offset by a non-negative matrix scale. -/
def indtevtrans_shift_right (n mtxidx : Nat) : String :=
  "\tif (" ++ I_INDTEXMTX ++ "[" ++ toString mtxidx ++ "].w >= 0) indtevtrans" ++ toString n ++
    " >>= " ++ I_INDTEXMTX ++ "[" ++ toString mtxidx ++ "].w;\n"

/-- Lines 1035-1058 of WriteStage: the offset of stage n through one of the three offset
matrices, for a matrix id of at most 3. -/
def WriteStage_indmtx_offset (bugs : DriverDetails) (out : ShaderCode) (n : Nat)
    (tevind : TevStageIndirect) : ShaderCode :=
  let mtxidx : Nat := u32 (2 * ((tevind.mid : Int) - 1))
  let out := out.SetConstantsUsed (u32 (C_INDTEXMTX + mtxidx)) (u32 (C_INDTEXMTX + mtxidx))
  let out := out.Write ("\tint2 indtevtrans" ++ toString n ++ " = int2(idot(" ++ I_INDTEXMTX ++
    "[" ++ toString mtxidx ++ "].xyz, iindtevcrd" ++ toString n ++ "), idot(" ++ I_INDTEXMTX ++
    "[" ++ toString (u32 (mtxidx + 1)) ++ "].xyz, iindtevcrd" ++ toString n ++ ")) >> 3;\n")
  -- TODO: should use a shader uid branch for this for better performance
  if bugs.BUG_BROKEN_BITWISE_OP_NEGATION then
    let out := out.Write ("\tint indtexmtx_w_inverse_" ++ toString n ++ " = -" ++ I_INDTEXMTX ++
      "[" ++ toString mtxidx ++ "].w;\n")
    let out := out.Write (indtevtrans_shift_right n mtxidx)
    out.Write ("\telse indtevtrans" ++ toString n ++ " <<= indtexmtx_w_inverse_" ++ toString n ++
      ";\n")
  else
    let out := out.Write (indtevtrans_shift_right n mtxidx)
    out.Write ("\telse indtevtrans" ++ toString n ++ " <<= (-" ++ I_INDTEXMTX ++ "[" ++
      toString mtxidx ++ "].w);\n")

/-- Lines 1059-1103 of WriteStage without their first line: the offset of stage n through the
S matrix (component xx, lowest id 5) or the T matrix (component yy, lowest id 9); base is
that lowest id.  The ASSERT on the first line of either block is ASSERT_indmtx below; with
assertions compiled out, or after the failure is dismissed, generation goes on here. -/
def WriteStage_indmtx_scale (bugs : DriverDetails) (out : ShaderCode) (n : Nat)
    (tevind : TevStageIndirect) (texcoord : Nat) (base : Nat) (component : String) : ShaderCode :=
  let mtxidx : Nat := u32 (2 * ((tevind.mid : Int) - base))
  let out := out.SetConstantsUsed (u32 (C_INDTEXMTX + mtxidx)) (u32 (C_INDTEXMTX + mtxidx))
  let out := out.Write ("\tint2 indtevtrans" ++ toString n ++ " = int2(fixpoint_uv" ++
    toString texcoord ++ " * iindtevcrd" ++ toString n ++ "." ++ component ++ ") >> 8;\n")
  if bugs.BUG_BROKEN_BITWISE_OP_NEGATION then
    let out := out.Write ("\tint  indtexmtx_w_inverse_" ++ toString n ++ " = -" ++ I_INDTEXMTX ++
      "[" ++ toString mtxidx ++ "].w;\n")
    let out := out.Write (indtevtrans_shift_right n mtxidx)
    out.Write ("\telse indtevtrans" ++ toString n ++ " <<= (indtexmtx_w_inverse_" ++ toString n ++
      ");\n")
  else
    let out := out.Write (indtevtrans_shift_right n mtxidx)
    out.Write ("\telse indtevtrans" ++ toString n ++ " <<= (-" ++ I_INDTEXMTX ++ "[" ++
      toString mtxidx ++ "].w);\n")

/-- Lines 1033-1107 of WriteStage: the offset of stage n for a matrix id other than 0. -/
def WriteStage_indmtx (bugs : DriverDetails) (out : ShaderCode) (n : Nat)
    (tevind : TevStageIndirect) (texcoord : Nat) (has_tex_coord : Bool) : ShaderCode :=
  -- multiply by offset matrix and scale - calculations are likely to overflow badly,
  -- yet it works out since we only care about the lower 23 bits (+1 sign bit) of the result
  if tevind.mid ≤ 3 then
    WriteStage_indmtx_offset bugs out n tevind
  else if tevind.mid ≤ 7 && has_tex_coord then
    -- s matrix
    WriteStage_indmtx_scale bugs out n tevind texcoord 5 "xx"
  else if tevind.mid ≤ 11 && has_tex_coord then
    -- t matrix
    WriteStage_indmtx_scale bugs out n tevind texcoord 9 "yy"
  else
    out.Write ("\tint2 indtevtrans" ++ toString n ++ " = int2(0, 0);\n")

/-- The two assertions of WriteStage, ASSERT(tevind.mid >= 5) of line 1061 and
ASSERT(tevind.mid >= 9) of line 1083: the value is false when the stage reaches one of them
with its condition false, and true otherwise (also when none is reached). -/
def ASSERT_indmtx (tevind : TevStageIndirect) (has_tex_coord : Bool) : Bool :=
  if tevind.mid ≠ 0 then
    if tevind.mid ≤ 3 then true
    else if tevind.mid ≤ 7 && has_tex_coord then decide (tevind.mid ≥ 5)
    else if tevind.mid ≤ 11 && has_tex_coord then decide (tevind.mid ≥ 9)
    else true
  else true

/-- The local mtxidx of WriteStage (lines 1037, 1062, 1084) for the branch the matrix id
selects, when that branch declares one. -/
def WriteStage_mtxidx (tevind : TevStageIndirect) (has_tex_coord : Bool) : Option Nat :=
  if tevind.mid ≠ 0 then
    if tevind.mid ≤ 3 then some (u32 (2 * ((tevind.mid : Int) - 1)))
    else if tevind.mid ≤ 7 && has_tex_coord then some (u32 (2 * ((tevind.mid : Int) - 5)))
    else if tevind.mid ≤ 11 && has_tex_coord then some (u32 (2 * ((tevind.mid : Int) - 9)))
    else none
  else none

/-- Lines 1123-1151 of WriteStage: the wrapped regular coordinate. -/
def WriteStage_wrap (out : ShaderCode) (tevind : TevStageIndirect) (texcoord : Nat) :
    ShaderCode :=
  -- wrap S
  let out :=
    if tevind.sw == ITW_OFF then
      out.Write ("\twrappedcoord.x = fixpoint_uv" ++ toString texcoord ++ ".x;\n")
    else if tevind.sw == ITW_0 then
      out.Write "\twrappedcoord.x = 0;\n"
    else
      out.Write ("\twrappedcoord.x = fixpoint_uv" ++ toString texcoord ++ ".x & (" ++
        tev_ind_wrap_start.getD tevind.sw "" ++ " - 1);\n")
  -- wrap T
  if tevind.tw == ITW_OFF then
    out.Write ("\twrappedcoord.y = fixpoint_uv" ++ toString texcoord ++ ".y;\n")
  else if tevind.tw == ITW_0 then
    out.Write "\twrappedcoord.y = 0;\n"
  else
    out.Write ("\twrappedcoord.y = fixpoint_uv" ++ toString texcoord ++ ".y & (" ++
      tev_ind_wrap_start.getD tevind.tw "" ++ " - 1);\n")

/-- Lines 1153-1159 of WriteStage: the new texture coordinate of stage n, replacing or added
to the previous one, and its reduction to 24 bits. -/
def WriteStage_tevcoord (out : ShaderCode) (n : Nat) (tevind : TevStageIndirect) : ShaderCode :=
  let out :=
    if tevind.fb_addprev then  -- add previous tevcoord
      out.Write ("\ttevcoord.xy += wrappedcoord + indtevtrans" ++ toString n ++ ";\n")
    else
      out.Write ("\ttevcoord.xy = wrappedcoord + indtevtrans" ++ toString n ++ ";\n")
  -- Emulate s24 overflows
  out.Write "\ttevcoord.xy = (tevcoord.xy << 8) >> 8;\n"

/-- Lines 958-1159 of WriteStage: the body of the test on hasindstage, for the register
tevind of stage n. -/
def WriteStage_indirect (bugs : DriverDetails) (out : ShaderCode) (n : Nat)
    (tevind : TevStageIndirect) (texcoord : Nat) (has_tex_coord : Bool) : ShaderCode :=
  let out := out.Write "\t// indirect op\n"
  -- Perform the indirect op on the incoming regular coordinates
  -- using iindtex as the offset coords
  let out := WriteStage_alphabump out tevind
  let out :=
    if tevind.mid ≠ 0 then
      let out := WriteStage_indcoord out n tevind
      WriteStage_indmtx bugs out n tevind texcoord has_tex_coord
    else
      out.Write ("\tint2 indtevtrans" ++ toString n ++ " = int2(0, 0);\n")
  let out := WriteStage_wrap out tevind texcoord
  WriteStage_tevcoord out n tevind

/-! ## Shader text: the stage emitter -/

/-- static void SampleTexture(ShaderCode& out, std::string_view texcoords,
std::string_view texswap, int texmap, bool stereo, APIType api_type) (lines 1368-1384). -/
def SampleTexture (out : ShaderCode) (texcoords texswap : String) (texmap : Nat)
    (stereo : Bool) (api_type : APIType) : ShaderCode :=
  let out := out.SetConstantsUsed (C_TEXDIMS + texmap) (C_TEXDIMS + texmap)
  if api_type == APIType.D3D then
    out.Write ("iround(255.0 * Tex[" ++ toString texmap ++ "].Sample(samp[" ++ toString texmap ++
      "], float3(" ++ texcoords ++ ".xy * " ++ I_TEXDIMS ++ "[" ++ toString texmap ++ "].xy, " ++
      (if stereo then "layer" else "0.0") ++ ")))." ++ texswap ++ ";\n")
  else
    out.Write ("iround(255.0 * texture(samp[" ++ toString texmap ++ "], float3(" ++ texcoords ++
      ".xy * " ++ I_TEXDIMS ++ "[" ++ toString texmap ++ "].xy, " ++
      (if stereo then "layer" else "0.0") ++ ")))." ++ texswap ++ ";\n")

/-- The character "rgba"[i] of a swizzle string of WriteStage (lines 1173-1179 and
1187-1193); index 4 of the literal is its terminator. -/
def swapChar (i : Nat) : Char := "rgba".toList.getD i (Char.ofNat 0)

/-- Lines 1167-1182 of WriteStage: the rasterised colour of a stage that reads it, through
its swap table. -/
def WriteStage_ras (out : ShaderCode) (stage : StageHash) (cc : ColorCombiner)
    (ac : AlphaCombiner) : ShaderCode :=
  if usesRas cc ac then
    -- Generate swizzle string to represent the Ras color channel swapping
    let rasswap : String := String.mk
      [ swapChar stage.tevksel_swap1a, swapChar stage.tevksel_swap2a,
        swapChar stage.tevksel_swap1b, swapChar stage.tevksel_swap2b ]
    out.Write ("\trastemp = " ++ tev_ras_table.getD stage.tevorders_colorchan "" ++ "." ++
      rasswap ++ ";\n")
  else out

/-- Lines 1184-1210 of WriteStage: the texture sample of the stage, or opaque white when the
stage samples no texture. -/
def WriteStage_tex (out : ShaderCode) (stage : StageHash) (texcoord : Nat)
    (has_tex_coord stereo : Bool) (api_type : APIType) : ShaderCode :=
  if stage.tevorders_enable then
    -- Generate swizzle string to represent the texture color channel swapping
    let texswap : String := String.mk
      [ swapChar stage.tevksel_swap1c, swapChar stage.tevksel_swap2c,
        swapChar stage.tevksel_swap1d, swapChar stage.tevksel_swap2d ]
    let out :=
      if !stage.hasindstage then
        -- calc tevcord
        if has_tex_coord then
          out.Write ("\ttevcoord.xy = fixpoint_uv" ++ toString texcoord ++ ";\n")
        else
          out.Write "\ttevcoord.xy = int2(0, 0);\n"
      else out
    let out := out.Write "\ttextemp = "
    SampleTexture out "float2(tevcoord.xy + (1 << 6))" texswap stage.tevorders_texmap stereo
      api_type
  else
    out.Write "\ttextemp = int4(255, 255, 255, 255);\n"

/-- The index C_KCOLORS + ((k - 0xc) % 4) of lines 1221-1222 and 1226-1227 for the k-select
index k: the five-bit member promotes to int, so the difference and the remainder (of the
sign of the dividend) are signed, and the sum with the u32 constant is taken in u32. -/
def kselConstant (k : Nat) : Nat := u32 ((C_KCOLORS : Int) + Int.tmod ((k : Int) - 0xc) 4)

/-- Lines 1212-1229 of WriteStage: the constant colour of a stage one of whose operands is
KONST, and the uniform constants it reads. -/
def WriteStage_konst (out : ShaderCode) (stage : StageHash) (cc : ColorCombiner)
    (ac : AlphaCombiner) : ShaderCode :=
  if usesKonst cc ac then
    let out := WriteStage_konsttemp out stage
    let out :=
      if stage.tevksel_kc > 7 then
        out.SetConstantsUsed (kselConstant stage.tevksel_kc) (kselConstant stage.tevksel_kc)
      else out
    if stage.tevksel_ka > 7 then
      out.SetConstantsUsed (kselConstant stage.tevksel_ka) (kselConstant stage.tevksel_ka)
    else out
  else out

/-- Lines 1231-1244 of WriteStage: the colour registers the stage reads as operand d or
writes. -/
def WriteStage_colors (out : ShaderCode) (cc : ColorCombiner) (ac : AlphaCombiner) :
    ShaderCode :=
  let out :=
    if cc.d == TEVCOLORARG_C0 || cc.d == TEVCOLORARG_A0 || ac.d == TEVALPHAARG_A0 then
      out.SetConstantsUsed (C_COLORS + 1) (C_COLORS + 1)
    else out
  let out :=
    if cc.d == TEVCOLORARG_C1 || cc.d == TEVCOLORARG_A1 || ac.d == TEVALPHAARG_A1 then
      out.SetConstantsUsed (C_COLORS + 2) (C_COLORS + 2)
    else out
  let out :=
    if cc.d == TEVCOLORARG_C2 || cc.d == TEVCOLORARG_A2 || ac.d == TEVALPHAARG_A2 then
      out.SetConstantsUsed (C_COLORS + 3) (C_COLORS + 3)
    else out
  let out :=
    if cc.dest ≥ GX_TEVREG0 then out.SetConstantsUsed (C_COLORS + cc.dest) (C_COLORS + cc.dest)
    else out
  if ac.dest ≥ GX_TEVREG0 then out.SetConstantsUsed (C_COLORS + ac.dest) (C_COLORS + ac.dest)
  else out

/-- Lines 950-954 of WriteStage: the texture coordinate index the stage uses, 0 when the
stored index names no enabled generator. -/
def WriteStage_texcoord (uid_data : pixel_shader_uid_data) (stage : StageHash) : Nat :=
  -- HACK to handle cases where the tex gen is not enabled
  let texcoord := stage.tevorders_texcoord
  let has_tex_coord : Bool := decide (texcoord < uid_data.genMode_numtexgens)
  if !has_tex_coord then 0 else texcoord

/-- static void WriteStage(ShaderCode& out, const pixel_shader_uid_data* uid_data, int n,
APIType api_type, bool stereo) (lines 944-1316).  The driver-defect flags it asks
DriverDetails::HasBug for are bugs. -/
def WriteStage (bugs : DriverDetails) (out : ShaderCode) (uid_data : pixel_shader_uid_data)
    (n : Nat) (api_type : APIType) (stereo : Bool) : ShaderCode :=
  let stage := uid_data.stagehash.getD n default
  let out := out.Write ("\n\t// TEV stage " ++ toString n ++ "\n")
  let has_tex_coord : Bool := decide (stage.tevorders_texcoord < uid_data.genMode_numtexgens)
  let texcoord := WriteStage_texcoord uid_data stage
  let out :=
    if stage.hasindstage then
      WriteStage_indirect bugs out n { hex := stage.tevind, IsActive := false } texcoord
        has_tex_coord
    else out
  let cc : ColorCombiner := { hex := stage.cc }
  let ac : AlphaCombiner := { hex := stage.ac }
  let out := WriteStage_ras out stage cc ac
  let out := WriteStage_tex out stage texcoord has_tex_coord stereo api_type
  let out := WriteStage_konst out stage cc ac
  let out := WriteStage_colors out cc ac
  let out := WriteStage_inputs out cc ac
  let out := WriteStage_colorCombine out cc
  WriteStage_alphaCombine out ac

/-! ## Shader text: the common header -/

/-- Modelled from the spec: the text the routines of other translation units contribute to a
pixel shader (LightingShaderGen, ShaderGenCommon and VertexShaderGen are not among the
sources).  The two string constants s_lighting_struct and s_shader_uniforms; the qualifier
GetInterpolationQualifier(msaa, ssaa, in_glsl_interface_block, in) returns; and the text that
GenerateVSOutputMembers(out, api_type, texgens, host_config, qualifier) and
GenerateLightingShaderCode(out, uid_data, in_color_name, dest) append to out. -/
structure Externals where
  s_lighting_struct : String
  s_shader_uniforms : String
  GetInterpolationQualifier : Bool → Bool → Bool → Bool → String
  GenerateVSOutputMembers : APIType → Nat → ShaderHostConfig → String → String
  GenerateLightingShaderCode : LightingUidData → String → String → String

/-- Lines 364-381 of WritePixelShaderCommonHeader: the integer dot products and the rounding
casts. -/
def WritePixelShaderCommonHeader_functions (out : ShaderCode) : ShaderCode :=
  -- dot product for integer vectors
  let out := out.Write (
    "int idot(int3 x, int3 y)\n" ++ "\x7b\n" ++
    "\tint3 tmp = x * y;\n" ++
    "\treturn tmp.x + tmp.y + tmp.z;\n" ++ "\x7d\n")
  let out := out.Write (
    "int idot(int4 x, int4 y)\n" ++ "\x7b\n" ++
    "\tint4 tmp = x * y;\n" ++
    "\treturn tmp.x + tmp.y + tmp.z + tmp.w;\n" ++ "\x7d\n" ++ "\n")
  -- rounding + casting to integer at once in a single function
  out.Write (
    "int  iround(float  x) \x7b return int (round(x)); \x7d\n" ++
    "int2 iround(float2 x) \x7b return int2(round(x)); \x7d\n" ++
    "int3 iround(float3 x) \x7b return int3(round(x)); \x7d\n" ++
    "int4 iround(float4 x) \x7b return int4(round(x)); \x7d\n" ++ "\n")

/-- Lines 401-439 of WritePixelShaderCommonHeader: the members of the uniform block PSBlock
and the accessors of its packed members. -/
def WritePixelShaderCommonHeader_uniforms (out : ShaderCode) : ShaderCode :=
  let out := out.Write (
    "\tint4 " ++ I_COLORS ++ "[4];\n" ++
    "\tint4 " ++ I_KCOLORS ++ "[4];\n" ++
    "\tint4 " ++ I_ALPHA ++ ";\n" ++
    "\tfloat4 " ++ I_TEXDIMS ++ "[8];\n" ++
    "\tint4 " ++ I_ZBIAS ++ "[2];\n" ++
    "\tint4 " ++ I_INDTEXSCALE ++ "[2];\n" ++
    "\tint4 " ++ I_INDTEXMTX ++ "[6];\n" ++
    "\tint4 " ++ I_FOGCOLOR ++ ";\n" ++
    "\tint4 " ++ I_FOGI ++ ";\n" ++
    "\tfloat4 " ++ I_FOGF ++ ";\n" ++
    "\tfloat4 " ++ I_FOGRANGE ++ "[3];\n" ++
    "\tfloat4 " ++ I_ZSLOPE ++ ";\n" ++
    "\tfloat2 " ++ I_EFBSCALE ++ ";\n" ++
    "\tuint  bpmem_genmode;\n" ++
    "\tuint  bpmem_alphaTest;\n" ++
    "\tuint  bpmem_fogParam3;\n" ++
    "\tuint  bpmem_fogRangeBase;\n" ++
    "\tuint  bpmem_dstalpha;\n" ++
    "\tuint  bpmem_ztex_op;\n" ++
    "\tbool  bpmem_late_ztest;\n" ++
    "\tbool  bpmem_rgba6_format;\n" ++
    "\tbool  bpmem_dither;\n" ++
    "\tbool  bpmem_bounding_box;\n" ++
    "\tuint4 bpmem_pack1[16];\n" ++
    "\tuint4 bpmem_pack2[8];\n" ++
    "\tint4  konstLookup[32];\n" ++
    "\tbool  blend_enable;\n" ++
    "\tuint  blend_src_factor;\n" ++
    "\tuint  blend_src_factor_alpha;\n" ++
    "\tuint  blend_dst_factor;\n" ++
    "\tuint  blend_dst_factor_alpha;\n" ++
    "\tbool  blend_subtract;\n" ++
    "\tbool  blend_subtract_alpha;\n" ++ "\x7d;\n" ++ "\n")
  out.Write (
    "#define bpmem_combiners(i) (bpmem_pack1[(i)].xy)\n" ++
    "#define bpmem_tevind(i) (bpmem_pack1[(i)].z)\n" ++
    "#define bpmem_iref(i) (bpmem_pack1[(i)].w)\n" ++
    "#define bpmem_tevorder(i) (bpmem_pack2[(i)].x)\n" ++
    "#define bpmem_tevksel(i) (bpmem_pack2[(i)].y)\n" ++ "\n")

/-- Lines 454-514 of WritePixelShaderCommonHeader: the bounding-box buffer and the routine
UpdateBoundingBox. -/
def WritePixelShaderCommonHeader_bbox (out : ShaderCode) : ShaderCode :=
  out.Write (
    "\n" ++
    "#ifdef API_D3D\n" ++
    "globallycoherent RWBuffer<int> bbox_data : register(u2);\n" ++
    "#define atomicMin InterlockedMin\n" ++
    "#define atomicMax InterlockedMax\n" ++
    "#define bbox_left bbox_data[0]\n" ++
    "#define bbox_right bbox_data[1]\n" ++
    "#define bbox_top bbox_data[2]\n" ++
    "#define bbox_bottom bbox_data[3]\n" ++
    "#else\n" ++
    "SSBO_BINDING(0) buffer BBox \x7b\n" ++
    "  int bbox_left, bbox_right, bbox_top, bbox_bottom;\n" ++ "\x7d;\n" ++
    "#endif\n" ++ "\n" ++
    "void UpdateBoundingBoxBuffer(int2 min_pos, int2 max_pos) \x7b\n" ++
    "  if (bbox_left > min_pos.x)\n" ++
    "    atomicMin(bbox_left, min_pos.x);\n" ++
    "  if (bbox_right < max_pos.x)\n" ++
    "    atomicMax(bbox_right, max_pos.x);\n" ++
    "  if (bbox_top > min_pos.y)\n" ++
    "    atomicMin(bbox_top, min_pos.y);\n" ++
    "  if (bbox_bottom < max_pos.y)\n" ++
    "    atomicMax(bbox_bottom, max_pos.y);\n" ++ "\x7d\n" ++ "\n" ++
    "void UpdateBoundingBox(float2 rawpos) \x7b\n" ++
    "  // The pixel center in the GameCube GPU is 7/12, not 0.5 (see VertexShaderGen.cpp)\n" ++
    "  // Adjust for this by unapplying the offset we added in the vertex shader.\n" ++
    "  const float PIXEL_CENTER_OFFSET = 7.0 / 12.0 - 0.5;\n" ++
    "  float2 offset = float2(PIXEL_CENTER_OFFSET, -PIXEL_CENTER_OFFSET);\n" ++ "\n" ++
    "#ifdef API_OPENGL\n" ++
    "  // OpenGL lower-left origin means that Y goes in the opposite direction.\n" ++
    "  offset.y = -offset.y;\n" ++
    "#endif\n" ++ "\n" ++
    "  // The rightmost shaded pixel is not included in the right bounding box register,\n" ++
    "  // such that width = right - left + 1. This has been verified on hardware.\n" ++
    "  int2 pos = iround(rawpos * cefbscale + offset);\n" ++ "\n" ++
    "#ifdef SUPPORTS_SUBGROUP_REDUCTION\n" ++
    "  if (CAN_USE_SUBGROUP_REDUCTION) \x7b\n" ++
    "    int2 min_pos = IS_HELPER_INVOCATION ? int2(2147483647, 2147483647) : pos;\n" ++
    "    int2 max_pos = IS_HELPER_INVOCATION ? int2(-2147483648, -2147483648) : pos;\n" ++
    "    SUBGROUP_MIN(min_pos);\n" ++
    "    SUBGROUP_MAX(max_pos);\n" ++
    "    if (IS_FIRST_ACTIVE_INVOCATION)\n" ++
    "      UpdateBoundingBoxBuffer(min_pos, max_pos);\n" ++
    "  \x7d else \x7b\n" ++
    "    UpdateBoundingBoxBuffer(pos, pos);\n" ++
    "  \x7d\n" ++
    "#else\n" ++
    "  UpdateBoundingBoxBuffer(pos, pos);\n" ++
    "#endif\n" ++ "\x7d\n" ++ "\n")

/-- void WritePixelShaderCommonHeader(ShaderCode& out, APIType api_type, u32 num_texgens,
const ShaderHostConfig& host_config, bool bounding_box) (lines 361-515). -/
def WritePixelShaderCommonHeader (ext : Externals) (out : ShaderCode) (api_type : APIType)
    (_num_texgens : Nat) (host_config : ShaderHostConfig) (bounding_box : Bool) : ShaderCode :=
  let out := WritePixelShaderCommonHeader_functions out
  let out :=
    if api_type == APIType.OpenGL || api_type == APIType.Vulkan then
      out.Write "SAMPLER_BINDING(0) uniform sampler2DArray samp[8];\n"
    else  -- D3D
      -- Declare samplers
      out.Write ("SamplerState samp[8] : register(s0);\n" ++ "\n" ++
        "Texture2DArray Tex[8] : register(t0);\n")
  let out := out.Write "\n"
  let out :=
    if api_type == APIType.OpenGL || api_type == APIType.Vulkan then
      out.Write "UBO_BINDING(std140, 1) uniform PSBlock \x7b\n"
    else
      out.Write "cbuffer PSBlock : register(b0) \x7b\n"
  let out := WritePixelShaderCommonHeader_uniforms out
  let out :=
    if host_config.per_pixel_lighting then
      let out := out.Write ext.s_lighting_struct
      let out :=
        if api_type == APIType.OpenGL || api_type == APIType.Vulkan then
          out.Write "UBO_BINDING(std140, 2) uniform VSBlock \x7b\n"
        else
          out.Write "cbuffer VSBlock : register(b1) \x7b\n"
      let out := out.Write ext.s_shader_uniforms
      out.Write "\x7d;\n"
    else out
  if bounding_box then WritePixelShaderCommonHeader_bbox out else out

/-! ## Shader text: colour output and blend -/

/-- static void WriteColor(ShaderCode& out, APIType api_type,
const pixel_shader_uid_data* uid_data, bool use_dual_source) (lines 1532-1567). -/
def WriteColor (out : ShaderCode) (api_type : APIType) (uid_data : pixel_shader_uid_data)
    (use_dual_source : Bool) : ShaderCode :=
  -- D3D requires that the shader outputs be uint when writing to a uint render target for
  -- logic op.
  if api_type == APIType.D3D && uid_data.uint_output then
    if uid_data.rgba6_format then
      out.Write "\tocol0 = uint4(prev & 0xFC);\n"
    else
      out.Write "\tocol0 = uint4(prev);\n"
  else
    let out :=
      if uid_data.rgba6_format then
        out.Write "\tocol0.rgb = float3(prev.rgb >> 2) / 63.0;\n"
      else
        out.Write "\tocol0.rgb = float3(prev.rgb) / 255.0;\n"
    -- Colors will be blended against the 8-bit alpha from ocol1 and
    -- the 6-bit alpha from ocol0 will be written to the framebuffer
    if uid_data.useDstAlpha then
      let out := out.SetConstantsUsed C_ALPHA C_ALPHA
      let out := out.Write ("\tocol0.a = float(" ++ I_ALPHA ++ ".a >> 2) / 63.0;\n")
      -- Use dual-source color blending to perform dst alpha in a single pass
      if use_dual_source then
        out.Write "\tocol1 = float4(0.0, 0.0, 0.0, float(prev.a) / 255.0);\n"
      else out
    else
      let out := out.Write "\tocol0.a = float(prev.a >> 2) / 63.0;\n"
      if use_dual_source then
        out.Write "\tocol1 = float4(0.0, 0.0, 0.0, float(prev.a) / 255.0);\n"
      else out

/-- The table blend_src_factor of WriteBlend (lines 1573-1582). -/
def blend_src_factor : List String :=
  [ "float3(0,0,0);",                      -- ZERO
    "float3(1,1,1);",                      -- ONE
    "initial_ocol0.rgb;",                  -- DSTCLR
    "float3(1,1,1) - initial_ocol0.rgb;",  -- INVDSTCLR
    "ocol1.aaa;",                          -- SRCALPHA
    "float3(1,1,1) - ocol1.aaa;",          -- INVSRCALPHA
    "initial_ocol0.aaa;",                  -- DSTALPHA
    "float3(1,1,1) - initial_ocol0.aaa;" ] -- INVDSTALPHA

/-- The table blend_src_factor_alpha of WriteBlend (lines 1583-1592). -/
def blend_src_factor_alpha : List String :=
  [ "0.0;",                    -- ZERO
    "1.0;",                    -- ONE
    "initial_ocol0.a;",        -- DSTCLR
    "1.0 - initial_ocol0.a;",  -- INVDSTCLR
    "ocol1.a;",                -- SRCALPHA
    "1.0 - ocol1.a;",          -- INVSRCALPHA
    "initial_ocol0.a;",        -- DSTALPHA
    "1.0 - initial_ocol0.a;" ] -- INVDSTALPHA

/-- The table blend_dst_factor of WriteBlend (lines 1593-1602). -/
def blend_dst_factor : List String :=
  [ "float3(0,0,0);",                      -- ZERO
    "float3(1,1,1);",                      -- ONE
    "ocol0.rgb;",                          -- SRCCLR
    "float3(1,1,1) - ocol0.rgb;",          -- INVSRCCLR
    "ocol1.aaa;",                          -- SRCALHA
    "float3(1,1,1) - ocol1.aaa;",          -- INVSRCALPHA
    "initial_ocol0.aaa;",                  -- DSTALPHA
    "float3(1,1,1) - initial_ocol0.aaa;" ] -- INVDSTALPHA

/-- The table blend_dst_factor_alpha of WriteBlend (lines 1603-1612). -/
def blend_dst_factor_alpha : List String :=
  [ "0.0;",                    -- ZERO
    "1.0;",                    -- ONE
    "ocol0.a;",                -- SRCCLR
    "1.0 - ocol0.a;",          -- INVSRCCLR
    "ocol1.a;",                -- SRCALPHA
    "1.0 - ocol1.a;",          -- INVSRCALPHA
    "initial_ocol0.a;",        -- DSTALPHA
    "1.0 - initial_ocol0.a;" ] -- INVDSTALPHA

/-- Lines 1571-1640 of WriteBlend: the declaration and value of blend_result. -/
def WriteBlend_result (out : ShaderCode) (uid_data : pixel_shader_uid_data) : ShaderCode :=
  if uid_data.blend_enable then
    let out := out.Write "\tfloat4 blend_src;\n"
    let out := out.Write ("\tblend_src.rgb = " ++
      blend_src_factor.getD uid_data.blend_src_factor "" ++ "\n")
    let out := out.Write ("\tblend_src.a = " ++
      blend_src_factor_alpha.getD uid_data.blend_src_factor_alpha "" ++ "\n")
    let out := out.Write "\tfloat4 blend_dst;\n"
    let out := out.Write ("\tblend_dst.rgb = " ++
      blend_dst_factor.getD uid_data.blend_dst_factor "" ++ "\n")
    let out := out.Write ("\tblend_dst.a = " ++
      blend_dst_factor_alpha.getD uid_data.blend_dst_factor_alpha "" ++ "\n")
    let out := out.Write "\tfloat4 blend_result;\n"
    let out :=
      if uid_data.blend_subtract then
        out.Write ("\tblend_result.rgb = initial_ocol0.rgb * blend_dst.rgb - ocol0.rgb * " ++
          "blend_src.rgb;\n")
      else
        out.Write
          "\tblend_result.rgb = initial_ocol0.rgb * blend_dst.rgb + ocol0.rgb * blend_src.rgb;\n"
    if uid_data.blend_subtract_alpha then
      out.Write "\tblend_result.a = initial_ocol0.a * blend_dst.a - ocol0.a * blend_src.a;\n"
    else
      out.Write "\tblend_result.a = initial_ocol0.a * blend_dst.a + ocol0.a * blend_src.a;\n"
  else
    out.Write "\tfloat4 blend_result = ocol0;\n"

/-- static void WriteBlend(ShaderCode& out, const pixel_shader_uid_data* uid_data) (lines
1569-1643). -/
def WriteBlend (out : ShaderCode) (uid_data : pixel_shader_uid_data) : ShaderCode :=
  let out := WriteBlend_result out uid_data
  out.Write "\treal_ocol0 = blend_result;\n"

/-! ## Shader text: the whole pixel shader -/

/-- The local use_dual_source of GeneratePixelShaderCode (lines 596-600): only use
dual-source blending when required on drivers that don't support it very well. -/
def use_dual_source (bugs : DriverDetails) (host_config : ShaderHostConfig)
    (uid_data : pixel_shader_uid_data) : Bool :=
  host_config.backend_dual_source_blend &&
    (!bugs.BUG_BROKEN_DUAL_SOURCE_BLENDING || uid_data.useDstAlpha)

/-- The local use_shader_blend of GeneratePixelShaderCode (lines 601-602). -/
def use_shader_blend (bugs : DriverDetails) (host_config : ShaderHostConfig)
    (uid_data : pixel_shader_uid_data) : Bool :=
  !use_dual_source bugs host_config uid_data &&
    (uid_data.useDstAlpha && host_config.backend_shader_framebuffer_fetch)

/-- Lines 541-543 of GeneratePixelShaderCode: the two comment lines that open the shader. -/
def GeneratePixelShaderCode_banner (out : ShaderCode) (uid_data : pixel_shader_uid_data) :
    ShaderCode :=
  let numStages := uid_data.genMode_numtevstages + 1
  let out := out.Write "// Pixel Shader for TEV stages\n"
  out.Write ("// " ++ toString numStages ++ " TEV stages, " ++
    toString uid_data.genMode_numtexgens ++ " texgens, " ++
    toString uid_data.genMode_numindstages ++ " IND stages\n")

/-- Lines 549-594 of GeneratePixelShaderCode: the request for an early depth test;
bSupportsEarlyZ is g_ActiveConfig.backend_info.bSupportsEarlyZ. -/
def GeneratePixelShaderCode_earlyZ (bSupportsEarlyZ : Bool) (out : ShaderCode)
    (api_type : APIType) (uid_data : pixel_shader_uid_data) : ShaderCode :=
  if uid_data.forced_early_z && bSupportsEarlyZ then
    if api_type == APIType.OpenGL || api_type == APIType.Vulkan then
      -- This is a #define which signals whatever early-z method the driver supports.
      out.Write "FORCE_EARLY_Z; \n"
    else
      out.Write "[earlydepthstencil]\n"
  else out

/-- Lines 606-637 of GeneratePixelShaderCode: the colour outputs of an OpenGL or Vulkan
shader. -/
def GeneratePixelShaderCode_outputsGL (bugs : DriverDetails) (out : ShaderCode)
    (use_dual_source use_shader_blend : Bool) : ShaderCode :=
  if use_dual_source then
    if bugs.BUG_BROKEN_FRAGMENT_SHADER_INDEX_DECORATION then
      out.Write ("FRAGMENT_OUTPUT_LOCATION(0) out vec4 ocol0;\n" ++
        "FRAGMENT_OUTPUT_LOCATION(1) out vec4 ocol1;\n")
    else
      out.Write ("FRAGMENT_OUTPUT_LOCATION_INDEXED(0, 0) out vec4 ocol0;\n" ++
        "FRAGMENT_OUTPUT_LOCATION_INDEXED(0, 1) out vec4 ocol1;\n")
  else if use_shader_blend then
    -- QComm's Adreno driver doesn't seem to like using the framebuffer_fetch value as an
    -- intermediate value with multiple reads & modifications, so pull out the "real" output
    -- value and use a temporary for calculations, then set the output value once at the end
    -- of the shader
    if bugs.BUG_BROKEN_FRAGMENT_SHADER_INDEX_DECORATION then
      out.Write "FRAGMENT_OUTPUT_LOCATION(0) FRAGMENT_INOUT vec4 real_ocol0;\n"
    else
      out.Write "FRAGMENT_OUTPUT_LOCATION_INDEXED(0, 0) FRAGMENT_INOUT vec4 real_ocol0;\n"
  else
    out.Write "FRAGMENT_OUTPUT_LOCATION(0) out vec4 ocol0;\n"

/-- Lines 642-678 of GeneratePixelShaderCode: the inputs of an OpenGL or Vulkan shader, as an
interface block or as attributes numbered by counter; the pair s is the buffer together with
the counter. -/
def GeneratePixelShaderCode_inputsGL (ext : Externals) (per_pixel_lighting : Bool)
    (out : ShaderCode) (api_type : APIType) (host_config : ShaderHostConfig)
    (uid_data : pixel_shader_uid_data) : ShaderCode :=
  let msaa := host_config.msaa
  let ssaa := host_config.ssaa
  let stereo := host_config.stereo
  if host_config.backend_geometry_shaders then
    let out := out.Write "VARYING_LOCATION(0) in VertexData \x7b\n"
    let out := out.Write (ext.GenerateVSOutputMembers api_type uid_data.genMode_numtexgens
      host_config (ext.GetInterpolationQualifier msaa ssaa true true))
    let out := if stereo then out.Write "\tflat int layer;\n" else out
    out.Write "\x7d;\n"
  else
    -- Let's set up attributes
    let counter : Nat := 0
    let out := out.Write ("VARYING_LOCATION(" ++ toString counter ++ ") " ++
      ext.GetInterpolationQualifier msaa ssaa false false ++ " in float4 colors_0;\n")
    let counter := counter + 1
    let out := out.Write ("VARYING_LOCATION(" ++ toString counter ++ ") " ++
      ext.GetInterpolationQualifier msaa ssaa false false ++ " in float4 colors_1;\n")
    let counter := counter + 1
    let s : ShaderCode × Nat := (List.range uid_data.genMode_numtexgens).foldl
      (fun (s : ShaderCode × Nat) i =>
        (s.1.Write ("VARYING_LOCATION(" ++ toString s.2 ++ ") " ++
          ext.GetInterpolationQualifier msaa ssaa false false ++ " in float3 tex" ++
          toString i ++ ";\n"), s.2 + 1))
      (out, counter)
    let s : ShaderCode × Nat :=
      if !host_config.fast_depth_calc then
        (s.1.Write ("VARYING_LOCATION(" ++ toString s.2 ++ ") " ++
          ext.GetInterpolationQualifier msaa ssaa false false ++ " in float4 clipPos;\n"),
          s.2 + 1)
      else s
    let out := s.1
    let counter := s.2
    if per_pixel_lighting then
      let out := out.Write ("VARYING_LOCATION(" ++ toString counter ++ ") " ++
        ext.GetInterpolationQualifier msaa ssaa false false ++ " in float3 Normal;\n")
      let counter := counter + 1
      out.Write ("VARYING_LOCATION(" ++ toString counter ++ ") " ++
        ext.GetInterpolationQualifier msaa ssaa false false ++ " in float3 WorldPos;\n")
    else out

/-- Lines 604-689 of GeneratePixelShaderCode: outputs, inputs and the opening of main of an
OpenGL or Vulkan shader. -/
def GeneratePixelShaderCode_mainGL (ext : Externals) (bugs : DriverDetails)
    (per_pixel_lighting : Bool) (out : ShaderCode) (api_type : APIType)
    (host_config : ShaderHostConfig) (uid_data : pixel_shader_uid_data)
    (use_dual_source use_shader_blend : Bool) : ShaderCode :=
  let out := GeneratePixelShaderCode_outputsGL bugs out use_dual_source use_shader_blend
  let out := if uid_data.per_pixel_depth then out.Write "#define depth gl_FragDepth\n" else out
  let out := GeneratePixelShaderCode_inputsGL ext per_pixel_lighting out api_type host_config
    uid_data
  let out := out.Write "void main()\n\x7b\n"
  let out := out.Write "\tfloat4 rawpos = gl_FragCoord;\n"
  if use_shader_blend then
    -- Store off a copy of the initial fb value for blending
    out.Write ("\tfloat4 initial_ocol0 = FB_FETCH_VALUE;\n" ++
      "\tfloat4 ocol0;\n" ++
      "\tfloat4 ocol1;\n")
  else out

/-- Lines 692-734 of GeneratePixelShaderCode: the signature of main of a D3D shader. -/
def GeneratePixelShaderCode_mainD3D (ext : Externals) (per_pixel_lighting : Bool)
    (out : ShaderCode) (host_config : ShaderHostConfig) (uid_data : pixel_shader_uid_data) :
    ShaderCode :=
  let msaa := host_config.msaa
  let ssaa := host_config.ssaa
  let stereo := host_config.stereo
  let out := out.Write "void main(\n"
  let out :=
    if uid_data.uint_output then
      out.Write "  out uint4 ocol0 : SV_Target,\n"
    else
      out.Write ("  out float4 ocol0 : SV_Target0,\n" ++
        "  out float4 ocol1 : SV_Target1,\n")
  let out := out.Write
    ((if uid_data.per_pixel_depth then "  out float depth : SV_Depth,\n" else "") ++
      "  in float4 rawpos : SV_Position,\n")
  let out := out.Write ("  in " ++ ext.GetInterpolationQualifier msaa ssaa false false ++
    " float4 colors_0 : COLOR0,\n")
  let out := out.Write ("  in " ++ ext.GetInterpolationQualifier msaa ssaa false false ++
    " float4 colors_1 : COLOR1\n")
  -- compute window position if needed because binding semantic WPOS is not widely supported
  let out := (List.range uid_data.genMode_numtexgens).foldl
    (fun (out : ShaderCode) i =>
      out.Write (",\n  in " ++ ext.GetInterpolationQualifier msaa ssaa false false ++
        " float3 tex" ++ toString i ++ " : TEXCOORD" ++ toString i))
    out
  let out :=
    if !host_config.fast_depth_calc then
      out.Write (",\n  in " ++ ext.GetInterpolationQualifier msaa ssaa false false ++
        " float4 clipPos : TEXCOORD" ++ toString uid_data.genMode_numtexgens)
    else out
  let out :=
    if per_pixel_lighting then
      let out := out.Write (",\n  in " ++ ext.GetInterpolationQualifier msaa ssaa false false ++
        " float3 Normal : TEXCOORD" ++ toString (uid_data.genMode_numtexgens + 1))
      out.Write (",\n  in " ++ ext.GetInterpolationQualifier msaa ssaa false false ++
        " float3 WorldPos : TEXCOORD" ++ toString (uid_data.genMode_numtexgens + 2))
    else out
  let out :=
    if host_config.backend_geometry_shaders then
      out.Write (",\n  in float clipDist0 : SV_ClipDistance0\n" ++
        ",\n  in float clipDist1 : SV_ClipDistance1\n")
    else out
  let out := if stereo then out.Write ",\n  in uint layer : SV_RenderTargetArrayIndex\n" else out
  out.Write "        ) \x7b\n"

/-- Lines 737-752 of GeneratePixelShaderCode: the local variables of main. -/
def GeneratePixelShaderCode_locals (out : ShaderCode) : ShaderCode :=
  let out := out.Write ("\tint4 c0 = " ++ I_COLORS ++ "[1], c1 = " ++ I_COLORS ++ "[2], c2 = " ++
    I_COLORS ++ "[3], prev = " ++ I_COLORS ++ "[0];\n" ++
    "\tint4 rastemp = int4(0, 0, 0, 0), textemp = int4(0, 0, 0, 0), konsttemp = int4(0, 0, " ++
    "0, 0);\n" ++
    "\tint3 comp16 = int3(1, 256, 0), comp24 = int3(1, 256, 256*256);\n" ++
    "\tint alphabump=0;\n" ++
    "\tint3 tevcoord=int3(0, 0, 0);\n" ++
    "\tint2 wrappedcoord=int2(0,0), tempcoord=int2(0,0);\n" ++
    "\tint4 " ++
    "tevin_a=int4(0,0,0,0),tevin_b=int4(0,0,0,0),tevin_c=int4(0,0,0,0),tevin_d=int4(0,0,0," ++
    "0);\n\n")  -- tev combiner inputs
  -- On GLSL, input variables must not be assigned to.
  -- This is why we declare these variables locally instead.
  out.Write ("\tfloat4 col0 = colors_0;\n" ++
    "\tfloat4 col1 = colors_1;\n")

/-- Lines 754-773 of GeneratePixelShaderCode: per-pixel lighting. -/
def GeneratePixelShaderCode_lighting (ext : Externals) (per_pixel_lighting : Bool)
    (out : ShaderCode) (uid_data : pixel_shader_uid_data) : ShaderCode :=
  if per_pixel_lighting then
    let out := out.Write ("\tfloat3 _norm0 = normalize(Normal.xyz);\n\n" ++
      "\tfloat3 pos = WorldPos;\n")
    let out := out.Write ("\tint4 lacc;\n" ++
      "\tfloat3 ldir, h, cosAttn, distAttn;\n" ++
      "\tfloat dist, dist2, attn;\n")
    let out := out.Write (ext.GenerateLightingShaderCode uid_data.lighting "colors_" "col")
    let out :=
      if uid_data.numColorChans == 0 then out.Write "col0 = float4(0.0, 0.0, 0.0, 0.0);\n"
      else out
    if uid_data.numColorChans ≤ 1 then out.Write "col1 = float4(0.0, 0.0, 0.0, 0.0);\n"
    else out
  else out

/-- Lines 775-790 of GeneratePixelShaderCode: one fixed-point texture coordinate per
generator, or the single coordinate fixpoint_uv0 when no generator is enabled. -/
def GeneratePixelShaderCode_texgens (out : ShaderCode) (uid_data : pixel_shader_uid_data) :
    ShaderCode :=
  -- HACK to handle cases where the tex gen is not enabled
  if uid_data.genMode_numtexgens == 0 then
    out.Write "\tint2 fixpoint_uv0 = int2(0, 0);\n\n"
  else
    let out := out.SetConstantsUsed C_TEXDIMS (C_TEXDIMS + uid_data.genMode_numtexgens - 1)
    (List.range uid_data.genMode_numtexgens).foldl
      (fun (out : ShaderCode) i =>
        let out := out.Write ("\tint2 fixpoint_uv" ++ toString i ++ " = int2(")
        let out := out.Write ("(tex" ++ toString i ++ ".z == 0.0 ? tex" ++ toString i ++
          ".xy : tex" ++ toString i ++ ".xy / tex" ++ toString i ++ ".z)")
        out.Write (" * " ++ I_TEXDIMS ++ "[" ++ toString i ++ "].zw);\n"))
        -- TODO: S24 overflows here?
      out

/-- Modelled from the spec: pixel_shader_uid_data::GetTevindirefCoord (PixelShaderGen.h is not
among the sources), the texture coordinate SetTevindrefValues stored for an indirect
stage. -/
def pixel_shader_uid_data.GetTevindirefCoord (uid_data : pixel_shader_uid_data) (index : Nat) :
    Nat :=
  (uid_data.tevindref.getD index (0, 0)).1

/-- Modelled from the spec: pixel_shader_uid_data::GetTevindirefMap, the texture map
SetTevindrefValues stored for an indirect stage. -/
def pixel_shader_uid_data.GetTevindirefMap (uid_data : pixel_shader_uid_data) (index : Nat) :
    Nat :=
  (uid_data.tevindref.getD index (0, 0)).2

/-- Body of the loop of lines 792-813 of GeneratePixelShaderCode for indirect stage i: the
sample iindtex of a referenced indirect stage. -/
def GeneratePixelShaderCode_indirectSample (out : ShaderCode) (api_type : APIType)
    (stereo : Bool) (uid_data : pixel_shader_uid_data) (i : Nat) : ShaderCode :=
  if uid_data.nIndirectStagesUsed &&& (1 <<< i) ≠ 0 then
    let texcoord := uid_data.GetTevindirefCoord i
    let texmap := uid_data.GetTevindirefMap i
    let out :=
      if texcoord < uid_data.genMode_numtexgens then
        let out := out.SetConstantsUsed (C_INDTEXSCALE + i / 2) (C_INDTEXSCALE + i / 2)
        out.Write ("\ttempcoord = fixpoint_uv" ++ toString texcoord ++ " >> " ++
          I_INDTEXSCALE ++ "[" ++ toString (i / 2) ++ "]." ++
          (if i &&& 1 ≠ 0 then "zw" else "xy") ++ ";\n")
      else
        out.Write "\ttempcoord = int2(0, 0);\n"
    let out := out.Write ("\tint3 iindtex" ++ toString i ++ " = ")
    SampleTexture out "float2(tempcoord)" "abg" texmap stereo api_type
  else out

/-- Lines 792-813 of GeneratePixelShaderCode: the loop over the indirect stages. -/
def GeneratePixelShaderCode_indirectSamples (out : ShaderCode) (api_type : APIType)
    (stereo : Bool) (uid_data : pixel_shader_uid_data) : ShaderCode :=
  (List.range uid_data.genMode_numindstages).foldl
    (fun (out : ShaderCode) i => GeneratePixelShaderCode_indirectSample out api_type stereo
      uid_data i)
    out

/-- Lines 815-819 of GeneratePixelShaderCode: the loop over the numtevstages + 1 stages. -/
def GeneratePixelShaderCode_stages (bugs : DriverDetails) (out : ShaderCode)
    (api_type : APIType) (stereo : Bool) (uid_data : pixel_shader_uid_data) : ShaderCode :=
  let numStages := uid_data.genMode_numtevstages + 1
  (List.range numStages).foldl
    (fun (out : ShaderCode) i =>
      -- Build the equation for this stage
      WriteStage bugs out uid_data i api_type stereo)
    out

/-- Lines 821-837 of GeneratePixelShaderCode: the results of the last stage are put onto the
screen, regardless of the used destination register. -/
def GeneratePixelShaderCode_lastStage (out : ShaderCode) (uid_data : pixel_shader_uid_data) :
    ShaderCode :=
  let last_cc : ColorCombiner :=
    { hex := (uid_data.stagehash.getD uid_data.genMode_numtevstages default).cc }
  let last_ac : AlphaCombiner :=
    { hex := (uid_data.stagehash.getD uid_data.genMode_numtevstages default).ac }
  let out :=
    if last_cc.dest ≠ 0 then
      out.Write ("\tprev.rgb = " ++ tev_c_output_table.getD last_cc.dest "" ++ ";\n")
    else out
  let out :=
    if last_ac.dest ≠ 0 then
      out.Write ("\tprev.a = " ++ tev_a_output_table.getD last_ac.dest "" ++ ";\n")
    else out
  out.Write "\tprev = prev & 255;\n"

/-- Lines 839-847 of GeneratePixelShaderCode: the alpha test, unless the static result makes
it unnecessary. -/
def GeneratePixelShaderCode_alphaTest (g : Globals) (bugs : DriverDetails) (out : ShaderCode)
    (api_type : APIType) (uid_data : pixel_shader_uid_data)
    (use_dual_source use_shader_blend : Bool) : ShaderCode :=
  -- NOTE: Fragment may not be discarded if alpha test always fails and early depth test is
  -- enabled (in this case we need to write a depth value if depth test passes regardless of
  -- the alpha testing result)
  if uid_data.Pretest == TEST_RESULT.UNDETERMINED ||
      (uid_data.Pretest == TEST_RESULT.FAIL && uid_data.late_ztest) then
    WriteAlphaTest g bugs out uid_data api_type uid_data.per_pixel_depth
      (use_dual_source || use_shader_blend)
  else out

/-- Lines 929-939 of GeneratePixelShaderCode: the colour output, the shader blend, the
bounding-box update and the end of main. -/
def GeneratePixelShaderCode_epilogue (out : ShaderCode) (api_type : APIType)
    (uid_data : pixel_shader_uid_data) (use_dual_source use_shader_blend : Bool) : ShaderCode :=
  -- Write the color and alpha values to the framebuffer
  -- If using shader blend, we still use the separate alpha
  let out := WriteColor out api_type uid_data (use_dual_source || use_shader_blend)
  let out := if use_shader_blend then WriteBlend out uid_data else out
  let out := if uid_data.bounding_box then out.Write "\tUpdateBoundingBox(rawpos.xy);\n" else out
  out.Write "\x7d\n"

/-- Lines 604-735 of GeneratePixelShaderCode: the outputs, the inputs and the opening of
main. -/
def GeneratePixelShaderCode_main (ext : Externals) (bugs : DriverDetails)
    (per_pixel_lighting : Bool) (out : ShaderCode) (api_type : APIType)
    (host_config : ShaderHostConfig) (uid_data : pixel_shader_uid_data)
    (use_dual_source use_shader_blend : Bool) : ShaderCode :=
  if api_type == APIType.OpenGL || api_type == APIType.Vulkan then
    GeneratePixelShaderCode_mainGL ext bugs per_pixel_lighting out api_type host_config uid_data
      use_dual_source use_shader_blend
  else  -- D3D
    GeneratePixelShaderCode_mainD3D ext per_pixel_lighting out host_config uid_data

/-- Lines 533-837 of GeneratePixelShaderCode: everything emitted before the alpha test, from
the opening comment to the copy of the last stage into prev. -/
def GeneratePixelShaderCode_head (ext : Externals) (g : Globals) (bugs : DriverDetails)
    (api_type : APIType) (host_config : ShaderHostConfig) (uid_data : pixel_shader_uid_data) :
    ShaderCode :=
  let out : ShaderCode := ShaderCode.empty
  let per_pixel_lighting := g.g_ActiveConfig.bEnablePixelLighting
  let stereo := host_config.stereo
  let out := GeneratePixelShaderCode_banner out uid_data
  -- Stuff that is shared between ubershaders and pixelgen.
  let out := WritePixelShaderCommonHeader ext out api_type uid_data.genMode_numtexgens
    host_config uid_data.bounding_box
  let out := GeneratePixelShaderCode_earlyZ g.g_ActiveConfig.backend_info.bSupportsEarlyZ out
    api_type uid_data
  let out := GeneratePixelShaderCode_main ext bugs per_pixel_lighting out api_type host_config
    uid_data (use_dual_source bugs host_config uid_data)
    (use_shader_blend bugs host_config uid_data)
  let out := GeneratePixelShaderCode_locals out
  let out := GeneratePixelShaderCode_lighting ext per_pixel_lighting out uid_data
  let out := GeneratePixelShaderCode_texgens out uid_data
  let out := GeneratePixelShaderCode_indirectSamples out api_type stereo uid_data
  let out := GeneratePixelShaderCode_stages bugs out api_type stereo uid_data
  GeneratePixelShaderCode_lastStage out uid_data

/-- ShaderCode GeneratePixelShaderCode(APIType api_type, const ShaderHostConfig& host_config,
const pixel_shader_uid_data* uid_data) (lines 530-942).  Besides its three arguments the body
reads the process-wide active configuration g_ActiveConfig, reached through g, and asks
DriverDetails::HasBug for the driver-defect flags bugs; ext is the text contributed by other
translation units. -/
def GeneratePixelShaderCode (ext : Externals) (g : Globals) (bugs : DriverDetails)
    (api_type : APIType) (host_config : ShaderHostConfig) (uid_data : pixel_shader_uid_data) :
    ShaderCode :=
  let out := GeneratePixelShaderCode_head ext g bugs api_type host_config uid_data
  let out := GeneratePixelShaderCode_alphaTest g bugs out api_type uid_data
    (use_dual_source bugs host_config uid_data) (use_shader_blend bugs host_config uid_data)
  let out := GeneratePixelShaderCode_depthToFog out api_type host_config uid_data
  GeneratePixelShaderCode_epilogue out api_type uid_data
    (use_dual_source bugs host_config uid_data) (use_shader_blend bugs host_config uid_data)

/-! ## Colour output and blend: expected text and syntax -/

/-- The unsigned-integer passthrough of prev, masked with 0xFC for the 6-bit format. -/
def colorUintText (rgba6_format : Bool) : String :=
  if rgba6_format then "\tocol0 = uint4(prev & 0xFC);\n" else "\tocol0 = uint4(prev);\n"

/-- The normalised colour: (prev.rgb >> 2) / 63.0 for the 6-bit format, prev.rgb / 255.0
otherwise. -/
def colorRgbText (rgba6_format : Bool) : String :=
  if rgba6_format then "\tocol0.rgb = float3(prev.rgb >> 2) / 63.0;\n"
  else "\tocol0.rgb = float3(prev.rgb) / 255.0;\n"

/-- The 6-bit alpha of the primary output: of the uniform alpha when the destination alpha is
enabled, of prev.a otherwise. -/
def colorAlphaText (useDstAlpha : Bool) : String :=
  if useDstAlpha then "\tocol0.a = float(" ++ I_ALPHA ++ ".a >> 2) / 63.0;\n"
  else "\tocol0.a = float(prev.a >> 2) / 63.0;\n"

/-- The 8-bit alpha mirrored into the secondary output. -/
def colorSecondText : String := "\tocol1 = float4(0.0, 0.0, 0.0, float(prev.a) / 255.0);\n"

/-- The text WriteColor is expected to append. -/
def colorText (api_type : APIType) (uid_data : pixel_shader_uid_data) (secondary : Bool) :
    String :=
  if api_type = APIType.D3D ∧ uid_data.uint_output = true then
    colorUintText uid_data.rgba6_format
  else
    colorRgbText uid_data.rgba6_format ++ colorAlphaText uid_data.useDstAlpha ++
      (if secondary then colorSecondText else "")

/-- The variable ocol0. -/
def ocol0Var : ShaderExpr := ShaderExpr.var (Var.other "ocol0".toList)

/-- The variable ocol1. -/
def ocol1Var : ShaderExpr := ShaderExpr.var (Var.other "ocol1".toList)

/-- Syntax of fn(arg) / m.0 for a conversion fn to a floating type. -/
def floatDivAst (fn : String) (arg : ShaderExpr) (m : Nat) : ShaderExpr :=
  ShaderExpr.bin BinOp.div
    (ShaderExpr.call (Fn.other fn.toList) (ShaderExpr.argCons arg ShaderExpr.argNil))
    (ShaderExpr.flt (10 * m) 1)

/-- Syntax of e >> 2. -/
def shr2Ast (e : ShaderExpr) : ShaderExpr := ShaderExpr.bin BinOp.shr e (ShaderExpr.num 2)

/-- Syntax of uint4(e). -/
def uint4Ast (e : ShaderExpr) : ShaderExpr :=
  ShaderExpr.call (Fn.other "uint4".toList) (ShaderExpr.argCons e ShaderExpr.argNil)

/-- Syntax of float4(0.0, 0.0, 0.0, e). -/
def float4AlphaAst (e : ShaderExpr) : ShaderExpr :=
  ShaderExpr.call (Fn.other "float4".toList)
    (ShaderExpr.argCons (ShaderExpr.flt 0 1) (ShaderExpr.argCons (ShaderExpr.flt 0 1)
      (ShaderExpr.argCons (ShaderExpr.flt 0 1) (ShaderExpr.argCons e ShaderExpr.argNil))))

/-- The environment in which prev and the uniform alpha hold the given vectors. -/
def colorInputs (prev alphaRef : int4) : Var → Option Val
  | Var.prev => some prev.val
  | Var.other name => if name = I_ALPHA.toList then some alphaRef.val else none
  | _ => none

/-- Number of positions of a text at which the needle starts. -/
def occurrences (needle : List Char) : List Char → Nat
  | [] => 0
  | c :: cs => (if needle.isPrefixOf (c :: cs) then 1 else 0) + occurrences needle cs

/-- Number of occurrences of needle in text. -/
def mentions (needle text : String) : Nat := occurrences needle.toList text.toList

/-- The bounding-box update of line 937, when the UID asks for it. -/
def boundingBoxText (bounding_box : Bool) : String :=
  if bounding_box then "\tUpdateBoundingBox(rawpos.xy);\n" else ""

/-! ## The reduction of the texture coordinate to 24 bits: expected text, syntax and meaning -/

/-- A 32-bit machine integer: the representative of x modulo 2^32 in the signed range. -/
def wrap32 (x : Int) : Int := (x + 2 ^ 31) % 2 ^ 32 - 2 ^ 31

/-- The statement that reduces tevcoord.xy to 24 bits. -/
def s24Text : String := "\ttevcoord.xy = (tevcoord.xy << 8) >> 8;\n"

/-- The statement that sets tevcoord.xy of stage n from the wrapped coordinate and the
indirect offset, adding to or replacing the previous value. -/
def tevcoordUpdateText (n : Nat) (addprev : Bool) : String :=
  if addprev then "\ttevcoord.xy += wrappedcoord + indtevtrans" ++ toString n ++ ";\n"
  else "\ttevcoord.xy = wrappedcoord + indtevtrans" ++ toString n ++ ";\n"

/-- The variable tevcoord. -/
def tevcoordVar : Var := Var.other "tevcoord".toList

/-- Syntax of (tevcoord.xy << 8) >> 8. -/
def s24Ast : ShaderExpr :=
  ShaderExpr.bin BinOp.shr
    (ShaderExpr.bin BinOp.shl (ShaderExpr.swz (ShaderExpr.var tevcoordVar) [0, 1])
      (ShaderExpr.num 8))
    (ShaderExpr.num 8)

/-- The value of (x << 8) >> 8 on 32-bit integers: the left shift wraps, the right shift is
arithmetic. -/
def s24 (x : Int) : Int := wrap32 (x * 2 ^ 8) / 2 ^ 8

/-- The environment in which tevcoord holds (x, y, z). -/
def tevcoordInputs (x y z : Int) : Var → Option Val :=
  fun v => if v = tevcoordVar then some [x, y, z] else none

/-! ## Indirect matrix selection: expected text -/

/-- The register of an indirect stage whose matrix id is mid and whose other fields are
zero. -/
def tevindOfMid (mid : Nat) : TevStageIndirect := { hex := mid <<< 9, IsActive := true }

/-- The row index expected for a matrix id: ids 1, 2, 3 (and 5, 6, 7, and 9, 10, 11) select
rows 0, 2, 4. -/
def matrixRow (mid : Nat) : Nat := 2 * ((mid - 1) % 4)

/-- The offset of stage n through the full offset matrix in rows m and m + 1 of the matrix
array, then its shift by the scale in row m; negation_defect selects the workaround for
BUG_BROKEN_BITWISE_OP_NEGATION. -/
def indmtxOffsetText (negation_defect : Bool) (n m : Nat) : String :=
  "\tint2 indtevtrans" ++ toString n ++ " = int2(idot(" ++ I_INDTEXMTX ++ "[" ++ toString m ++
    "].xyz, iindtevcrd" ++ toString n ++ "), idot(" ++ I_INDTEXMTX ++ "[" ++ toString (m + 1) ++
    "].xyz, iindtevcrd" ++ toString n ++ ")) >> 3;\n" ++
  (if negation_defect then
    "\tint indtexmtx_w_inverse_" ++ toString n ++ " = -" ++ I_INDTEXMTX ++ "[" ++ toString m ++
      "].w;\n" ++ indtevtrans_shift_right n m ++
      "\telse indtevtrans" ++ toString n ++ " <<= indtexmtx_w_inverse_" ++ toString n ++ ";\n"
  else
    indtevtrans_shift_right n m ++
      "\telse indtevtrans" ++ toString n ++ " <<= (-" ++ I_INDTEXMTX ++ "[" ++ toString m ++
      "].w);\n")

/-- The offset of stage n in the scale-only form: the texture coordinate times component xx
(S) or yy (T) of the indirect coordinate, then its shift by the scale in row m. -/
def indmtxScaleText (negation_defect : Bool) (n m texcoord : Nat) (component : String) :
    String :=
  "\tint2 indtevtrans" ++ toString n ++ " = int2(fixpoint_uv" ++ toString texcoord ++
    " * iindtevcrd" ++ toString n ++ "." ++ component ++ ") >> 8;\n" ++
  (if negation_defect then
    "\tint  indtexmtx_w_inverse_" ++ toString n ++ " = -" ++ I_INDTEXMTX ++ "[" ++ toString m ++
      "].w;\n" ++ indtevtrans_shift_right n m ++
      "\telse indtevtrans" ++ toString n ++ " <<= (indtexmtx_w_inverse_" ++ toString n ++ ");\n"
  else
    indtevtrans_shift_right n m ++
      "\telse indtevtrans" ++ toString n ++ " <<= (-" ++ I_INDTEXMTX ++ "[" ++ toString m ++
      "].w);\n")

/-! ## Assignment statements as state transformers, and the copy of the last stage -/

/-- The value old with the components named by a swizzle replaced, in order, by the
components of v. -/
def Val.assignSwizzle (old : Val) : List Nat → Val → Option Val
  | [], [] => some old
  | i :: is, x :: xs =>
    if i < old.length then Val.assignSwizzle (old.set i x) is xs else none
  | _, _ => none

/-- The environment after the value v is assigned to the target lhs: a variable as a whole,
or the components of a variable named by a swizzle. -/
def assignTo (env : Var → Option Val) (lhs : ShaderExpr) (v : Val) : Option (Var → Option Val) :=
  match lhs with
  | ShaderExpr.var x =>
    match env x with
    | some old =>
      if old.length = v.length then some (fun y => if y = x then some v else env y) else none
    | none => none
  | ShaderExpr.swz (ShaderExpr.var x) sel =>
    match env x with
    | some old =>
      match Val.assignSwizzle old sel v with
      | some new => some (fun y => if y = x then some new else env y)
      | none => none
    | none => none
  | _ => none

/-- One assignment statement as a state transformer. -/
def execAssign (w : Int → Int) (env : Var → Option Val) (line : String) :
    Option (Var → Option Val) :=
  match parseAssign line with
  | some (lhs, rhs) =>
    match evalExpr w env rhs with
    | some v => assignTo env lhs v
    | none => none
  | none => none

/-- A sequence of assignment statements as a state transformer. -/
def execAll (w : Int → Int) (env : Var → Option Val) : List String → Option (Var → Option Val)
  | [] => some env
  | line :: rest =>
    match execAssign w env line with
    | some env2 => execAll w env2 rest
    | none => none

/-- The lines of a text, each with its line end; cur is the part of the current line already
read. -/
def linesFrom (cur : List Char) : List Char → List String
  | [] => if cur.isEmpty then [] else [String.mk cur]
  | c :: cs => if c = '\n' then String.mk (cur ++ [c]) :: linesFrom [] cs
    else linesFrom (cur ++ [c]) cs

/-- A text of assignment statements, one per line, as a state transformer. -/
def exec (w : Int → Int) (env : Var → Option Val) (text : String) : Option (Var → Option Val) :=
  execAll w env (linesFrom [] text.toList)

/-- The environment in which the four colour registers hold the given vectors. -/
def tevRegisters (prev c0 c1 c2 : int4) : Var → Option Val
  | Var.prev => some prev.val
  | Var.c0 => some c0.val
  | Var.c1 => some c1.val
  | Var.c2 => some c2.val
  | _ => none

/-- The vector held by the register a destination field names. -/
def tevRegister (prev c0 c1 c2 : int4) (dest : Nat) : int4 :=
  match tevDest dest with
  | Var.c0 => c0
  | Var.c1 => c1
  | Var.c2 => c2
  | _ => prev

/-- The statement that copies the colour of destination register dest into prev. -/
def mirrorRgbText (dest : Nat) : String :=
  "\tprev.rgb = " ++ tev_c_output_table.getD dest "" ++ ";\n"

/-- The statement that copies the alpha of destination register dest into prev. -/
def mirrorAlphaText (dest : Nat) : String :=
  "\tprev.a = " ++ tev_a_output_table.getD dest "" ++ ";\n"

/-- The statement that masks prev to 8 bits. -/
def mask8Text : String := "\tprev = prev & 255;\n"

/-- The text expected after the stage loop for a last stage with colour destination dc and
alpha destination da. -/
def mirrorText (dc da : Nat) : String :=
  (if dc ≠ 0 then mirrorRgbText dc else "") ++ (if da ≠ 0 then mirrorAlphaText da else "") ++
    mask8Text

/-- The lines of mirrorText. -/
def mirrorLines (dc da : Nat) : List String :=
  (if dc ≠ 0 then [mirrorRgbText dc] else []) ++ (if da ≠ 0 then [mirrorAlphaText da] else []) ++
    [mask8Text]

/-! ## The text a block appends -/

/-- The text a block of the generator appends: what it leaves in an empty buffer. -/
def emitted (f : ShaderCode → ShaderCode) : String := (f ShaderCode.empty).text

/-! ## Snapshots that differ in the texture coordinate of one stage -/

/-- The texture-order register o with the texture coordinate generator of slot i replaced by
t; the other members and the other slot are kept. -/
def TwoTevStageOrders.withTexCoord (o : TwoTevStageOrders) (i t : Nat) : TwoTevStageOrders :=
  if i ≠ 0 then { o with texcoord1 := t } else { o with texcoord0 := t }

/-- The state g with the texture coordinate generator index of stage n replaced by t, and
nothing else changed. -/
def Globals.withStageTexCoord (g : Globals) (n t : Nat) : Globals :=
  { g with bpmem := { g.bpmem with
      tevorders := Function.update g.bpmem.tevorders (n / 2)
        ((g.bpmem.tevorders (n / 2)).withTexCoord (n &&& 1) t) } }

/-- One stage of a register file with one texture coordinate generator, whose texture
coordinate index is 5. -/
def snapshotTexCoord : Globals :=
  Globals.around
    { BPMemory.blank false false false TEST_RESULT.PASS with
      genMode := { numtexgens := 1, numtevstages := 0, numindstages := 0, zfreeze := false },
      tevorders := fun _ => ⟨0, 5, true, 0, 0, 0, false, 0⟩ }

/-! ## Occurrences of a name in a text -/

/-- Whether the character x is somewhere immediately followed by the character y. -/
def hasBigram (x y : Char) : List Char → Bool
  | a :: b :: rest => (a == x && b == y) || hasBigram x y (b :: rest)
  | _ => false

/-- A text in which x is nowhere immediately followed by y and which does not end with x: no
text put together from such texts has x immediately followed by y. -/
def clean (x y : Char) (s : String) : Bool :=
  !hasBigram x y s.toList && s.toList.getLast? != some x

/-- A text that is not empty and ends with a line end. -/
def endsLine (s : String) : Bool := s.toList.getLast? == some '\n'

/-- The two pairs of adjacent characters by which the names counted below are told from the
rest of a shader: u v, of fixpoint_uv, and l _, of real_ocol0 and initial_ocol0. -/
def isMark (x y : Char) : Prop := (x = 'u' ∧ y = 'v') ∨ (x = 'l' ∧ y = '_')

/-- The text of stage n with an indirect operation and without texture coordinate, up to the
wrapped coordinate: the heading, the bump alpha and the offset indtevtrans. -/
def stageBeforeWrapText (bugs : DriverDetails) (n : Nat) (tevind : TevStageIndirect) : String :=
  "\n\t// TEV stage " ++ toString n ++ "\n" ++ "\t// indirect op\n" ++
    emitted (fun o => WriteStage_alphabump o tevind) ++
    (if tevind.mid ≠ 0 then
      emitted (fun o => WriteStage_indcoord o n tevind) ++
        emitted (fun o => WriteStage_indmtx bugs o n tevind 0 false)
    else "\tint2 indtevtrans" ++ toString n ++ " = int2(0, 0);\n")

/-- The text of stage n with an indirect operation and without texture coordinate, after the
wrapped coordinate: the new tevcoord, the samples, the operands and the two combiners. -/
def stageAfterWrapText (n : Nat) (stage : StageHash) (stereo : Bool) (api_type : APIType) :
    String :=
  tevcoordUpdateText n (TevStageIndirect.fb_addprev { hex := stage.tevind, IsActive := false }) ++
    s24Text ++
    emitted (fun o => WriteStage_ras o stage { hex := stage.cc } { hex := stage.ac }) ++
    emitted (fun o => WriteStage_tex o stage 0 false stereo api_type) ++
    emitted (fun o => WriteStage_konst o stage { hex := stage.cc } { hex := stage.ac }) ++
    emitted (fun o => WriteStage_inputs o { hex := stage.cc } { hex := stage.ac }) ++
    emitted (fun o => WriteStage_colorCombine o { hex := stage.cc }) ++
    emitted (fun o => WriteStage_alphaCombine o { hex := stage.ac })

/-- A UID whose alpha test always passes, without fog and with the 8-bit format, whose colour
is written as unsigned integers. -/
def uidPassUint : pixel_shader_uid_data :=
  { PixelShaderUid.zero with Pretest := TEST_RESULT.PASS, uint_output := true }

/-- A sample of the texts other translation units contribute: a one-member light structure,
one uniform, the qualifier centroid, the two colour members of the vertex output and a
lighting statement that copies the input colour. -/
def externalsSample : Externals :=
  { s_lighting_struct := "struct Light \x7b int4 color; \x7d;\n",
    s_shader_uniforms := "\tuint components;\n",
    GetInterpolationQualifier := fun _ _ _ _ => "centroid",
    GenerateVSOutputMembers := fun _ _ _ qualifier =>
      "\t" ++ qualifier ++ " float4 colors_0;\n\t" ++ qualifier ++ " float4 colors_1;\n",
    GenerateLightingShaderCode := fun _ in_color_name dest =>
      "\t" ++ dest ++ "0 = " ++ in_color_name ++ "0;\n" }

/-- A host configuration with every member false. -/
def hostPlain : ShaderHostConfig :=
  { msaa := false, ssaa := false, stereo := false, per_pixel_lighting := false,
    fast_depth_calc := false, bounding_box := false, backend_dual_source_blend := false,
    backend_geometry_shaders := false, backend_bbox := false,
    backend_reversed_depth_range := false, backend_shader_framebuffer_fetch := false,
    backend_logic_op := false }

/-- The text of a shader between the opening of main and the shader blend: the locals, the
lighting, the texture coordinates, the stages, the alpha test, the depth and fog blocks and
the colour output. -/
def shaderBodyText (ext : Externals) (g : Globals) (bugs : DriverDetails) (api_type : APIType)
    (host_config : ShaderHostConfig) (u : pixel_shader_uid_data) : String :=
  emitted (fun o => GeneratePixelShaderCode_locals o) ++
    emitted (fun o => GeneratePixelShaderCode_lighting ext
      g.g_ActiveConfig.bEnablePixelLighting o u) ++
    emitted (fun o => GeneratePixelShaderCode_texgens o u) ++
    emitted (fun o => GeneratePixelShaderCode_indirectSamples o api_type host_config.stereo
      u) ++
    emitted (fun o => GeneratePixelShaderCode_stages bugs o api_type host_config.stereo u) ++
    mirrorText
      (ColorCombiner.mk (u.stagehash.getD u.genMode_numtevstages default).cc).dest
      (AlphaCombiner.mk (u.stagehash.getD u.genMode_numtevstages default).ac).dest ++
    (GeneratePixelShaderCode_alphaTest g bugs ShaderCode.empty api_type u
      (use_dual_source bugs host_config u) (use_shader_blend bugs host_config u)).text ++
    (GeneratePixelShaderCode_depthToFog ShaderCode.empty api_type host_config u).text ++
    colorText api_type u
      (use_dual_source bugs host_config u || use_shader_blend bugs host_config u)

/-- The position at which lines 1123-1136 (S) and 1138-1151 (T) of WriteStage index
tev_ind_wrap_start for the wrap selector sel: none for ITW_OFF and ITW_0, which the first two
branches handle without the table, and sel itself in the last branch. -/
def wrapLookup (sel : Nat) : Option Nat :=
  if sel == ITW_OFF then none
  else if sel == ITW_0 then none
  else some sel

/-- The statement that lines 1123-1136 write for the S wrap selector sel. -/
def wrapLineS (texcoord sel : Nat) : String :=
  match wrapLookup sel with
  | some i =>
    "\twrappedcoord.x = fixpoint_uv" ++ toString texcoord ++ ".x & (" ++
      tev_ind_wrap_start.getD i "" ++ " - 1);\n"
  | none =>
    if sel == ITW_OFF then "\twrappedcoord.x = fixpoint_uv" ++ toString texcoord ++ ".x;\n"
    else "\twrappedcoord.x = 0;\n"

/-- The statement that lines 1138-1151 write for the T wrap selector sel. -/
def wrapLineT (texcoord sel : Nat) : String :=
  match wrapLookup sel with
  | some i =>
    "\twrappedcoord.y = fixpoint_uv" ++ toString texcoord ++ ".y & (" ++
      tev_ind_wrap_start.getD i "" ++ " - 1);\n"
  | none =>
    if sel == ITW_OFF then "\twrappedcoord.y = fixpoint_uv" ++ toString texcoord ++ ".y;\n"
    else "\twrappedcoord.y = 0;\n"

/-- The value of a constant expression of the shader text, in 32-bit arithmetic. -/
def constantValue (text : String) : Option Val :=
  match parseExprText text with
  | some e => evalExpr wrap32 (fun _ => none) e
  | none => none

/-- The index 2*op+(shift==3) that the comment of line 1362 states for tev_lerp_bias. -/
def commentedLerpBiasIndex (op shift : Nat) : Nat := 2 * op + (if shift == 3 then 1 else 0)

/-! ## Uniform constants marked as used -/

/-- Whether SetConstantsUsed has marked the uniform constant i: it lies in one of the ranges
first_index .. last_index recorded so far. -/
def ShaderCode.constantUsed (out : ShaderCode) (i : Nat) : Bool :=
  out.constants_used.any fun r => decide (r.1 ≤ i) && decide (i ≤ r.2)

/-- The text by which an entry of the k-select tables reads slot j of the constant colours. -/
def kselSlotName (j : Nat) : String := I_KCOLORS ++ "[" ++ toString j ++ "]"

/-- The decimal digit j as a character. -/
def digitChar (j : Nat) : Char := Char.ofNat (48 + j)

/-- A stage record with the constant colour / alpha indices kc and ka, every other member
zero. -/
def stageKSel (kc ka : Nat) : StageHash :=
  { StageHash.zero with tevksel_kc := kc, tevksel_ka := ka }

/-- A colour combiner whose operand a is KONST, every other field zero. -/
def colorCombinerKonst : ColorCombiner := ⟨TEVCOLORARG_KONST * 2 ^ 12⟩

/-! ## The two spellings of the negated alpha-test condition -/

/-- The combination X of the two comparisons that WriteAlphaTest writes between the opening
and the closing of the negation (lines 1429-1437). -/
def alphaTestCombinationText (comp0 comp1 logic : Nat) : String :=
  alphaFuncText comp0 (alpha_ref.getD 0 "") ++ tev_alpha_funclogic_table.getD logic "" ++
    alphaFuncText comp1 (alpha_ref.getD 1 "")

/-- The value of the condition of the if statement that opens text, none if the text does
not open with an if statement or its condition has no value. -/
def ifConditionValue (env : Var → Option Val) (text : String) : Option Val :=
  match parseIfCondition text with
  | some e => evalExpr id env e
  | none => none

/-- The driver-defect flags bugs with BUG_BROKEN_NEGATED_BOOLEAN replaced by b. -/
def DriverDetails.withNegatedBoolean (bugs : DriverDetails) (b : Bool) : DriverDetails :=
  { bugs with BUG_BROKEN_NEGATED_BOOLEAN := b }

/-! ## DataReader (VideoCommon/DataReader.h)

The reader holds two pointers into a byte buffer it does not own.  The embedding keeps the
bytes in a list, the pointers as positions in it, and an integer of type T as its size in
bytes and the natural number below 256^size that its object representation spells (for a
signed type, its two's complement).  A position may be any natural number; an access outside
the bytes, undefined in the source, has no result. -/

/-- The n bytes of v, low byte first. -/
def leBytes : Nat → Nat → List Nat
  | 0, _ => []
  | n + 1, v => v % 256 :: leBytes n (v / 256)

/-- The number spelt by a list of bytes, low byte first. -/
def leValue : List Nat → Nat
  | [] => 0
  | b :: bs => b + 256 * leValue bs

/-- The value with the n bytes of v in reverse order. -/
def byteSwap (n v : Nat) : Nat := leValue (leBytes n v).reverse

/-- Modelled from the spec: what DataReader.h takes from outside: the byte order in which the
host lays out an integer (std::memcpy copies the object representation) and the function
Common::FromBigEndian of Common/Swap.h, by the size of its argument. -/
structure Host where
  littleEndian : Bool
  FromBigEndian : Nat → Nat → Nat

/-- Modelled from the spec: a little-endian host on which FromBigEndian reverses the bytes. -/
def hostLittleEndian : Host := { littleEndian := true, FromBigEndian := byteSwap }

/-- The object representation of the n-byte integer v, lowest address first. -/
def Host.store (h : Host) (n v : Nat) : List Nat :=
  if h.littleEndian then leBytes n v else (leBytes n v).reverse

/-- The integer whose object representation is bs, lowest address first. -/
def Host.load (h : Host) (bs : List Nat) : Nat :=
  if h.littleEndian then leValue bs else leValue bs.reverse

/-- The n bytes at position addr, if they lie in the buffer: std::memcpy from the buffer. -/
def readBytes (mem : List Nat) (addr n : Nat) : Option (List Nat) :=
  if addr + n ≤ mem.length then some ((mem.drop addr).take n) else none

/-- The buffer with the bytes bs stored at position addr, if they fit: std::memcpy to the
buffer. -/
def writeBytes (mem : List Nat) (addr : Nat) (bs : List Nat) : Option (List Nat) :=
  if addr + bs.length ≤ mem.length then
    some (mem.take addr ++ bs ++ mem.drop (addr + bs.length))
  else none

/-- The class DataReader: the members buffer and end. -/
structure DataReader where
  buffer : Nat
  end_ : Nat
  deriving DecidableEq, Repr

/-- The constructor DataReader(u8* src, u8* end_). -/
def DataReader.mk2 (src end_ : Nat) : DataReader := { buffer := src, end_ := end_ }

/-- The member u8* GetPointer(). -/
def DataReader.GetPointer (r : DataReader) : Nat := r.buffer

/-- The member u8* operator=(u8* src): the reader assigned to, and the value returned. -/
def DataReader.assign (r : DataReader) (src : Nat) : DataReader × Nat :=
  ({ r with buffer := src }, src)

/-- The member size_t size() const: end - buffer, as a 64-bit unsigned value. -/
def DataReader.size (r : DataReader) : Nat :=
  (((r.end_ : Int) - (r.buffer : Int)) % 2 ^ 64).toNat

/-- The member T Peek<T, swapped>(int offset) const, for a type T of sizeofT bytes. -/
def DataReader.Peek (host : Host) (mem : List Nat) (r : DataReader) (sizeofT : Nat)
    (swapped : Bool) (offset : Int) : Option Nat :=
  let addr : Int := (r.buffer : Int) + offset
  if 0 ≤ addr then
    match readBytes mem addr.toNat sizeofT with
    | some bs =>
      let data := host.load bs
      let data := if swapped then host.FromBigEndian sizeofT data else data
      some data
    | none => none
  else none

/-- The member T Read<T, swapped>(): the value read and the reader after the call. -/
def DataReader.Read (host : Host) (mem : List Nat) (r : DataReader) (sizeofT : Nat)
    (swapped : Bool) : Option (Nat × DataReader) :=
  match r.Peek host mem sizeofT swapped 0 with
  | some result => some (result, { r with buffer := r.buffer + sizeofT })
  | none => none

/-- The member void Write<T, swapped>(T data): the buffer and the reader after the call. -/
def DataReader.Write (host : Host) (mem : List Nat) (r : DataReader) (sizeofT : Nat)
    (swapped : Bool) (data : Nat) : Option (List Nat × DataReader) :=
  let data := if swapped then host.FromBigEndian sizeofT data else data
  match writeBytes mem r.buffer (host.store sizeofT data) with
  | some mem2 => some (mem2, { r with buffer := r.buffer + sizeofT })
  | none => none

/-- The member void Skip<T>(size_t data), for a type T of sizeofT bytes. -/
def DataReader.Skip (r : DataReader) (sizeofT : Nat) (data : Nat) : DataReader :=
  { r with buffer := r.buffer + sizeofT * data }

/-! ## Marks of the depth output and of the indirect samples -/

/-- The two pairs of adjacent characters by which a write to depth and the name of an
indirect sample are told from the rest of a stage: h followed by a blank, of "depth = ", and
i i, of iindtex. -/
def isStageMark (x y : Char) : Prop := (x = 'h' ∧ y = ' ') ∨ (x = 'i' ∧ y = 'i')

/-- A text that is not empty and ends with the character c. -/
def endsIn (c : Char) (s : String) : Bool := s.toList.getLast? == some c

/-! ## Writes to the depth output -/

/-- The statement that writes the depth output from zCoord (lines 890-894 and 912-915). -/
def depthWriteText (reversed_depth_range : Bool) : String :=
  if !reversed_depth_range then "\tdepth = 1.0 - float(zCoord) / 16777216.0;\n"
  else "\tdepth = float(zCoord) / 16777216.0;\n"

/-- The statements of main before the alpha test: the locals, the lighting, the texture
coordinates, the indirect samples, the stages and the copy of the last stage into prev. -/
def shaderStagesText (ext : Externals) (g : Globals) (bugs : DriverDetails) (api_type : APIType)
    (host_config : ShaderHostConfig) (u : pixel_shader_uid_data) : String :=
  emitted (fun o => GeneratePixelShaderCode_locals o) ++
    (emitted (fun o => GeneratePixelShaderCode_lighting ext
      g.g_ActiveConfig.bEnablePixelLighting o u) ++
    (emitted (fun o => GeneratePixelShaderCode_texgens o u) ++
    (emitted (fun o => GeneratePixelShaderCode_indirectSamples o api_type host_config.stereo
      u) ++
    (emitted (fun o => GeneratePixelShaderCode_stages bugs o api_type host_config.stereo u) ++
    mirrorText
      (ColorCombiner.mk (u.stagehash.getD u.genMode_numtevstages default).cc).dest
      (AlphaCombiner.mk (u.stagehash.getD u.genMode_numtevstages default).ac).dest))))

/-! ## The text of a stage, piece by piece -/

/-- The comment line that opens stage n (line 947). -/
def stageHeadingText (n : Nat) : String := "\n\t// TEV stage " ++ toString n ++ "\n"

/-- The text of a stage after its indirect operation (lines 1161-1315): the rasterised
colour, the texture sample, the constant colour, the combiner inputs and the two
combiners. -/
def stageCombineText (stage : StageHash) (texcoord : Nat) (has_tex_coord stereo : Bool)
    (api_type : APIType) : String :=
  emitted (fun o => WriteStage_ras o stage { hex := stage.cc } { hex := stage.ac }) ++
    (emitted (fun o => WriteStage_tex o stage texcoord has_tex_coord stereo api_type) ++
    (emitted (fun o => WriteStage_konst o stage { hex := stage.cc } { hex := stage.ac }) ++
    (emitted (fun o => WriteStage_inputs o { hex := stage.cc } { hex := stage.ac }) ++
    (emitted (fun o => WriteStage_colorCombine o { hex := stage.cc }) ++
    emitted (fun o => WriteStage_alphaCombine o { hex := stage.ac })))))

/-- The offset of stage n that lines 990-1111 compute from the indirect sample: the indirect
coordinate and its product with the matrix, or zero for the matrix id 0. -/
def stageOffsetText (bugs : DriverDetails) (n : Nat) (tevind : TevStageIndirect)
    (texcoord : Nat) (has_tex_coord : Bool) : String :=
  if tevind.mid ≠ 0 then
    emitted (fun o => WriteStage_indcoord o n tevind) ++
      emitted (fun o => WriteStage_indmtx bugs o n tevind texcoord has_tex_coord)
  else "\tint2 indtevtrans" ++ toString n ++ " = int2(0, 0);\n"

/-- The reading of the indirect sample that opens the indirect coordinate of a stage (line
1000): the sample of the indirect stage bt, masked to the format. -/
def sampleReadText (tevind : TevStageIndirect) : String :=
  "iindtex" ++ toString tevind.bt ++ " & " ++ tev_ind_fmt_mask.getD tevind.fmt "" ++ ";\n"

/-- A name told from the rest of a stage by the pairs i i and e x: it has both, has no line
end, and has no blank before its last character. -/
def isSampleName (needle : String) : Bool :=
  needle.toList.all (fun c => c != '\n') && hasBigram 'i' 'i' needle.toList &&
    hasBigram 'e' 'x' needle.toList && needle.toList.dropLast.all (fun c => c != ' ')

/-! ## Declaration of an indirect sample -/

/-- The opening of the declaration of the indirect sample i (line 809). -/
def sampleDeclarationText (i : Nat) : String := "\tint3 iindtex" ++ toString i ++ " = "

/-- The indirect-stage register WriteStage reads for stage n: the one stored in the slot of
the stage (line 958). -/
def stageRegister (u : pixel_shader_uid_data) (n : Nat) : TevStageIndirect :=
  { hex := (u.stagehash.getD n default).tevind, IsActive := false }

/-- One stage with an active indirect operation through the offset matrix 1 on the indirect
stage 0, one indirect stage, no texture coordinate generator. -/
def snapshotIndirect : Globals :=
  Globals.around
    { BPMemory.blank false false false TEST_RESULT.PASS with
      genMode := { numtexgens := 0, numtevstages := 0, numindstages := 1, zfreeze := false },
      tevind := fun _ => tevindOfMid 1 }

/-! ## Names of the fixed-point texture coordinates -/

/-- The name of the fixed-point texture coordinate k followed by the text d. -/
def coordName (k : Nat) (d : String) : String := "fixpoint_uv" ++ toString k ++ d

/-- The opening of the declaration of the fixed-point texture coordinate k (lines 778 and
785). -/
def coordDeclarationText (k : Nat) : String := "\tint2 fixpoint_uv" ++ toString k ++ " = "

/-- A name told from the rest of the shader by the pair u v: it has the pair, has no line
end, and has none of blank, opening bracket, dot and semicolon before its last character. -/
def isCoordName (needle : String) : Bool :=
  needle.toList.all (fun c => c != '\n') && hasBigram 'u' 'v' needle.toList &&
    needle.toList.dropLast.all (fun c => c != ' ' && c != '(' && c != '.' && c != ';')

/-- Two texture coordinate generators, and one stage that samples a texture at the
coordinate 1. -/
def uidTwoCoordinates : pixel_shader_uid_data :=
  { PixelShaderUid.zero with
    genMode_numtexgens := 2,
    stagehash := [{ StageHash.zero with tevorders_texcoord := 1, tevorders_enable := true }] }

end PixelShaderGen

/-! # Theorems -/

namespace PixelShaderGen

/-! ## Auxiliary facts: which members each block of the encoder leaves alone -/

/-- A left fold whose step keeps a projection keeps it. -/
theorem foldl_keep {α β γ : Type} (proj : β → γ) (f : β → α → β)
    (h : ∀ b a, proj (f b a) = proj b) (l : List α) (b : β) :
    proj (l.foldl f b) = proj b := by
  induction l generalizing b with
  | nil => rfl
  | cons a l ih => simp only [List.foldl_cons]; rw [ih, h]

/-- A left fold whose step acts on a projection through f2 is the fold of f2 on the
projection. -/
theorem foldl_proj {α β γ : Type} (proj : β → γ) (f : β → α → β) (f2 : γ → α → γ)
    (h : ∀ b a, proj (f b a) = f2 (proj b) a) (l : List α) (b : β) :
    proj (l.foldl f b) = l.foldl f2 (proj b) := by
  induction l generalizing b with
  | nil => rfl
  | cons a l ih => simp only [List.foldl_cons]; rw [ih, h]

/-- The block GetPixelShaderUid_flags leaves stagehash unchanged. -/
theorem GetPixelShaderUid_flags_stagehash (g : Globals) (u : pixel_shader_uid_data) :
    (GetPixelShaderUid_flags g u).stagehash = u.stagehash := by
  rfl

/-- The block GetPixelShaderUid_flags leaves alpha_test_comp0 unchanged. -/
theorem GetPixelShaderUid_flags_alpha_test_comp0 (g : Globals) (u : pixel_shader_uid_data) :
    (GetPixelShaderUid_flags g u).alpha_test_comp0 = u.alpha_test_comp0 := by
  rfl

/-- The block GetPixelShaderUid_flags leaves alpha_test_comp1 unchanged. -/
theorem GetPixelShaderUid_flags_alpha_test_comp1 (g : Globals) (u : pixel_shader_uid_data) :
    (GetPixelShaderUid_flags g u).alpha_test_comp1 = u.alpha_test_comp1 := by
  rfl

/-- The block GetPixelShaderUid_flags leaves alpha_test_logic unchanged. -/
theorem GetPixelShaderUid_flags_alpha_test_logic (g : Globals) (u : pixel_shader_uid_data) :
    (GetPixelShaderUid_flags g u).alpha_test_logic = u.alpha_test_logic := by
  rfl

/-- The block GetPixelShaderUid_flags leaves alpha_test_use_zcomploc_hack unchanged. -/
theorem GetPixelShaderUid_flags_alpha_test_use_zcomploc_hack (g : Globals)
    (u : pixel_shader_uid_data) :
    (GetPixelShaderUid_flags g u).alpha_test_use_zcomploc_hack = u.alpha_test_use_zcomploc_hack := by
  rfl

/-- The block GetPixelShaderUid_lighting leaves forced_early_z unchanged. -/
theorem GetPixelShaderUid_lighting_forced_early_z (g : Globals) (u : pixel_shader_uid_data) :
    (GetPixelShaderUid_lighting g u).forced_early_z = u.forced_early_z := by
  unfold GetPixelShaderUid_lighting; split <;> rfl

/-- The block GetPixelShaderUid_lighting leaves per_pixel_depth unchanged. -/
theorem GetPixelShaderUid_lighting_per_pixel_depth (g : Globals) (u : pixel_shader_uid_data) :
    (GetPixelShaderUid_lighting g u).per_pixel_depth = u.per_pixel_depth := by
  unfold GetPixelShaderUid_lighting; split <;> rfl

/-- The block GetPixelShaderUid_lighting leaves genMode_numtevstages unchanged. -/
theorem GetPixelShaderUid_lighting_genMode_numtevstages (g : Globals) (u : pixel_shader_uid_data) :
    (GetPixelShaderUid_lighting g u).genMode_numtevstages = u.genMode_numtevstages := by
  unfold GetPixelShaderUid_lighting; split <;> rfl

/-- The block GetPixelShaderUid_lighting leaves stagehash unchanged. -/
theorem GetPixelShaderUid_lighting_stagehash (g : Globals) (u : pixel_shader_uid_data) :
    (GetPixelShaderUid_lighting g u).stagehash = u.stagehash := by
  unfold GetPixelShaderUid_lighting; split <;> rfl

/-- The block GetPixelShaderUid_lighting leaves alpha_test_comp0 unchanged. -/
theorem GetPixelShaderUid_lighting_alpha_test_comp0 (g : Globals) (u : pixel_shader_uid_data) :
    (GetPixelShaderUid_lighting g u).alpha_test_comp0 = u.alpha_test_comp0 := by
  unfold GetPixelShaderUid_lighting; split <;> rfl

/-- The block GetPixelShaderUid_lighting leaves alpha_test_comp1 unchanged. -/
theorem GetPixelShaderUid_lighting_alpha_test_comp1 (g : Globals) (u : pixel_shader_uid_data) :
    (GetPixelShaderUid_lighting g u).alpha_test_comp1 = u.alpha_test_comp1 := by
  unfold GetPixelShaderUid_lighting; split <;> rfl

/-- The block GetPixelShaderUid_lighting leaves alpha_test_logic unchanged. -/
theorem GetPixelShaderUid_lighting_alpha_test_logic (g : Globals) (u : pixel_shader_uid_data) :
    (GetPixelShaderUid_lighting g u).alpha_test_logic = u.alpha_test_logic := by
  unfold GetPixelShaderUid_lighting; split <;> rfl

/-- The block GetPixelShaderUid_lighting leaves alpha_test_use_zcomploc_hack unchanged. -/
theorem GetPixelShaderUid_lighting_alpha_test_use_zcomploc_hack (g : Globals)
    (u : pixel_shader_uid_data) :
    (GetPixelShaderUid_lighting g u).alpha_test_use_zcomploc_hack = u.alpha_test_use_zcomploc_hack := by
  unfold GetPixelShaderUid_lighting; split <;> rfl

/-- The block GetPixelShaderUid_projection leaves forced_early_z unchanged. -/
theorem GetPixelShaderUid_projection_forced_early_z (g : Globals) (u : pixel_shader_uid_data) :
    (GetPixelShaderUid_projection g u).forced_early_z = u.forced_early_z := by
  unfold GetPixelShaderUid_projection
  split
  · apply foldl_keep (fun v : pixel_shader_uid_data => v.forced_early_z); intro b a; rfl
  · rfl

/-- The block GetPixelShaderUid_projection leaves per_pixel_depth unchanged. -/
theorem GetPixelShaderUid_projection_per_pixel_depth (g : Globals) (u : pixel_shader_uid_data) :
    (GetPixelShaderUid_projection g u).per_pixel_depth = u.per_pixel_depth := by
  unfold GetPixelShaderUid_projection
  split
  · apply foldl_keep (fun v : pixel_shader_uid_data => v.per_pixel_depth); intro b a; rfl
  · rfl

/-- The block GetPixelShaderUid_projection leaves genMode_numtevstages unchanged. -/
theorem GetPixelShaderUid_projection_genMode_numtevstages (g : Globals)
    (u : pixel_shader_uid_data) :
    (GetPixelShaderUid_projection g u).genMode_numtevstages = u.genMode_numtevstages := by
  unfold GetPixelShaderUid_projection
  split
  · apply foldl_keep (fun v : pixel_shader_uid_data => v.genMode_numtevstages); intro b a; rfl
  · rfl

/-- The block GetPixelShaderUid_projection leaves stagehash unchanged. -/
theorem GetPixelShaderUid_projection_stagehash (g : Globals) (u : pixel_shader_uid_data) :
    (GetPixelShaderUid_projection g u).stagehash = u.stagehash := by
  unfold GetPixelShaderUid_projection
  split
  · apply foldl_keep (fun v : pixel_shader_uid_data => v.stagehash); intro b a; rfl
  · rfl

/-- The block GetPixelShaderUid_projection leaves alpha_test_comp0 unchanged. -/
theorem GetPixelShaderUid_projection_alpha_test_comp0 (g : Globals) (u : pixel_shader_uid_data) :
    (GetPixelShaderUid_projection g u).alpha_test_comp0 = u.alpha_test_comp0 := by
  unfold GetPixelShaderUid_projection
  split
  · apply foldl_keep (fun v : pixel_shader_uid_data => v.alpha_test_comp0); intro b a; rfl
  · rfl

/-- The block GetPixelShaderUid_projection leaves alpha_test_comp1 unchanged. -/
theorem GetPixelShaderUid_projection_alpha_test_comp1 (g : Globals) (u : pixel_shader_uid_data) :
    (GetPixelShaderUid_projection g u).alpha_test_comp1 = u.alpha_test_comp1 := by
  unfold GetPixelShaderUid_projection
  split
  · apply foldl_keep (fun v : pixel_shader_uid_data => v.alpha_test_comp1); intro b a; rfl
  · rfl

/-- The block GetPixelShaderUid_projection leaves alpha_test_logic unchanged. -/
theorem GetPixelShaderUid_projection_alpha_test_logic (g : Globals) (u : pixel_shader_uid_data) :
    (GetPixelShaderUid_projection g u).alpha_test_logic = u.alpha_test_logic := by
  unfold GetPixelShaderUid_projection
  split
  · apply foldl_keep (fun v : pixel_shader_uid_data => v.alpha_test_logic); intro b a; rfl
  · rfl

/-- The block GetPixelShaderUid_projection leaves alpha_test_use_zcomploc_hack unchanged. -/
theorem GetPixelShaderUid_projection_alpha_test_use_zcomploc_hack (g : Globals)
    (u : pixel_shader_uid_data) :
    (GetPixelShaderUid_projection g u).alpha_test_use_zcomploc_hack = u.alpha_test_use_zcomploc_hack := by
  unfold GetPixelShaderUid_projection
  split
  · apply foldl_keep (fun v : pixel_shader_uid_data => v.alpha_test_use_zcomploc_hack); intro b a; rfl
  · rfl

/-- The block GetPixelShaderUid_indirect leaves forced_early_z unchanged. -/
theorem GetPixelShaderUid_indirect_forced_early_z (g : Globals) (u : pixel_shader_uid_data) :
    (GetPixelShaderUid_indirect g u).forced_early_z = u.forced_early_z := by
  unfold GetPixelShaderUid_indirect
  simp only []
  refine Eq.trans (foldl_keep (fun v : pixel_shader_uid_data => v.forced_early_z) _ ?_ _ _) rfl
  intro b a
  simp only [pixel_shader_uid_data.SetTevindrefValues]; split <;> rfl

/-- The block GetPixelShaderUid_indirect leaves per_pixel_depth unchanged. -/
theorem GetPixelShaderUid_indirect_per_pixel_depth (g : Globals) (u : pixel_shader_uid_data) :
    (GetPixelShaderUid_indirect g u).per_pixel_depth = u.per_pixel_depth := by
  unfold GetPixelShaderUid_indirect
  simp only []
  refine Eq.trans (foldl_keep (fun v : pixel_shader_uid_data => v.per_pixel_depth) _ ?_ _ _) rfl
  intro b a
  simp only [pixel_shader_uid_data.SetTevindrefValues]; split <;> rfl

/-- The block GetPixelShaderUid_indirect leaves genMode_numtevstages unchanged. -/
theorem GetPixelShaderUid_indirect_genMode_numtevstages (g : Globals) (u : pixel_shader_uid_data) :
    (GetPixelShaderUid_indirect g u).genMode_numtevstages = u.genMode_numtevstages := by
  unfold GetPixelShaderUid_indirect
  simp only []
  refine Eq.trans (foldl_keep (fun v : pixel_shader_uid_data => v.genMode_numtevstages) _ ?_ _ _) rfl
  intro b a
  simp only [pixel_shader_uid_data.SetTevindrefValues]; split <;> rfl

/-- The block GetPixelShaderUid_indirect leaves stagehash unchanged. -/
theorem GetPixelShaderUid_indirect_stagehash (g : Globals) (u : pixel_shader_uid_data) :
    (GetPixelShaderUid_indirect g u).stagehash = u.stagehash := by
  unfold GetPixelShaderUid_indirect
  simp only []
  refine Eq.trans (foldl_keep (fun v : pixel_shader_uid_data => v.stagehash) _ ?_ _ _) rfl
  intro b a
  simp only [pixel_shader_uid_data.SetTevindrefValues]; split <;> rfl

/-- The block GetPixelShaderUid_indirect leaves alpha_test_comp0 unchanged. -/
theorem GetPixelShaderUid_indirect_alpha_test_comp0 (g : Globals) (u : pixel_shader_uid_data) :
    (GetPixelShaderUid_indirect g u).alpha_test_comp0 = u.alpha_test_comp0 := by
  unfold GetPixelShaderUid_indirect
  simp only []
  refine Eq.trans (foldl_keep (fun v : pixel_shader_uid_data => v.alpha_test_comp0) _ ?_ _ _) rfl
  intro b a
  simp only [pixel_shader_uid_data.SetTevindrefValues]; split <;> rfl

/-- The block GetPixelShaderUid_indirect leaves alpha_test_comp1 unchanged. -/
theorem GetPixelShaderUid_indirect_alpha_test_comp1 (g : Globals) (u : pixel_shader_uid_data) :
    (GetPixelShaderUid_indirect g u).alpha_test_comp1 = u.alpha_test_comp1 := by
  unfold GetPixelShaderUid_indirect
  simp only []
  refine Eq.trans (foldl_keep (fun v : pixel_shader_uid_data => v.alpha_test_comp1) _ ?_ _ _) rfl
  intro b a
  simp only [pixel_shader_uid_data.SetTevindrefValues]; split <;> rfl

/-- The block GetPixelShaderUid_indirect leaves alpha_test_logic unchanged. -/
theorem GetPixelShaderUid_indirect_alpha_test_logic (g : Globals) (u : pixel_shader_uid_data) :
    (GetPixelShaderUid_indirect g u).alpha_test_logic = u.alpha_test_logic := by
  unfold GetPixelShaderUid_indirect
  simp only []
  refine Eq.trans (foldl_keep (fun v : pixel_shader_uid_data => v.alpha_test_logic) _ ?_ _ _) rfl
  intro b a
  simp only [pixel_shader_uid_data.SetTevindrefValues]; split <;> rfl

/-- The block GetPixelShaderUid_indirect leaves alpha_test_use_zcomploc_hack unchanged. -/
theorem GetPixelShaderUid_indirect_alpha_test_use_zcomploc_hack (g : Globals)
    (u : pixel_shader_uid_data) :
    (GetPixelShaderUid_indirect g u).alpha_test_use_zcomploc_hack = u.alpha_test_use_zcomploc_hack := by
  unfold GetPixelShaderUid_indirect
  simp only []
  refine Eq.trans (foldl_keep (fun v : pixel_shader_uid_data => v.alpha_test_use_zcomploc_hack) _ ?_ _ _) rfl
  intro b a
  simp only [pixel_shader_uid_data.SetTevindrefValues]; split <;> rfl

/-- The block GetPixelShaderUid_stages leaves forced_early_z unchanged. -/
theorem GetPixelShaderUid_stages_forced_early_z (g : Globals) (u : pixel_shader_uid_data) :
    (GetPixelShaderUid_stages g u).forced_early_z = u.forced_early_z := by
  unfold GetPixelShaderUid_stages
  apply foldl_keep (fun v : pixel_shader_uid_data => v.forced_early_z); intro b a; rfl

/-- The block GetPixelShaderUid_stages leaves per_pixel_depth unchanged. -/
theorem GetPixelShaderUid_stages_per_pixel_depth (g : Globals) (u : pixel_shader_uid_data) :
    (GetPixelShaderUid_stages g u).per_pixel_depth = u.per_pixel_depth := by
  unfold GetPixelShaderUid_stages
  apply foldl_keep (fun v : pixel_shader_uid_data => v.per_pixel_depth); intro b a; rfl

/-- The block GetPixelShaderUid_stages leaves genMode_numtevstages unchanged. -/
theorem GetPixelShaderUid_stages_genMode_numtevstages (g : Globals) (u : pixel_shader_uid_data) :
    (GetPixelShaderUid_stages g u).genMode_numtevstages = u.genMode_numtevstages := by
  unfold GetPixelShaderUid_stages
  apply foldl_keep (fun v : pixel_shader_uid_data => v.genMode_numtevstages); intro b a; rfl

/-- The block GetPixelShaderUid_stages leaves alpha_test_comp0 unchanged. -/
theorem GetPixelShaderUid_stages_alpha_test_comp0 (g : Globals) (u : pixel_shader_uid_data) :
    (GetPixelShaderUid_stages g u).alpha_test_comp0 = u.alpha_test_comp0 := by
  unfold GetPixelShaderUid_stages
  apply foldl_keep (fun v : pixel_shader_uid_data => v.alpha_test_comp0); intro b a; rfl

/-- The block GetPixelShaderUid_stages leaves alpha_test_comp1 unchanged. -/
theorem GetPixelShaderUid_stages_alpha_test_comp1 (g : Globals) (u : pixel_shader_uid_data) :
    (GetPixelShaderUid_stages g u).alpha_test_comp1 = u.alpha_test_comp1 := by
  unfold GetPixelShaderUid_stages
  apply foldl_keep (fun v : pixel_shader_uid_data => v.alpha_test_comp1); intro b a; rfl

/-- The block GetPixelShaderUid_stages leaves alpha_test_logic unchanged. -/
theorem GetPixelShaderUid_stages_alpha_test_logic (g : Globals) (u : pixel_shader_uid_data) :
    (GetPixelShaderUid_stages g u).alpha_test_logic = u.alpha_test_logic := by
  unfold GetPixelShaderUid_stages
  apply foldl_keep (fun v : pixel_shader_uid_data => v.alpha_test_logic); intro b a; rfl

/-- The block GetPixelShaderUid_stages leaves alpha_test_use_zcomploc_hack unchanged. -/
theorem GetPixelShaderUid_stages_alpha_test_use_zcomploc_hack (g : Globals)
    (u : pixel_shader_uid_data) :
    (GetPixelShaderUid_stages g u).alpha_test_use_zcomploc_hack = u.alpha_test_use_zcomploc_hack := by
  unfold GetPixelShaderUid_stages
  apply foldl_keep (fun v : pixel_shader_uid_data => v.alpha_test_use_zcomploc_hack); intro b a; rfl

/-- The block GetPixelShaderUid_numValues leaves forced_early_z unchanged. -/
theorem GetPixelShaderUid_numValues_forced_early_z (L : UidLayout) (g : Globals)
    (u : pixel_shader_uid_data) :
    (GetPixelShaderUid_numValues L g u).forced_early_z = u.forced_early_z := by
  rfl

/-- The block GetPixelShaderUid_numValues leaves per_pixel_depth unchanged. -/
theorem GetPixelShaderUid_numValues_per_pixel_depth (L : UidLayout) (g : Globals)
    (u : pixel_shader_uid_data) :
    (GetPixelShaderUid_numValues L g u).per_pixel_depth = u.per_pixel_depth := by
  rfl

/-- The block GetPixelShaderUid_numValues leaves genMode_numtevstages unchanged. -/
theorem GetPixelShaderUid_numValues_genMode_numtevstages (L : UidLayout) (g : Globals)
    (u : pixel_shader_uid_data) :
    (GetPixelShaderUid_numValues L g u).genMode_numtevstages = u.genMode_numtevstages := by
  rfl

/-- The block GetPixelShaderUid_numValues leaves stagehash unchanged. -/
theorem GetPixelShaderUid_numValues_stagehash (L : UidLayout) (g : Globals)
    (u : pixel_shader_uid_data) :
    (GetPixelShaderUid_numValues L g u).stagehash = u.stagehash := by
  rfl

/-- The block GetPixelShaderUid_numValues leaves alpha_test_comp0 unchanged. -/
theorem GetPixelShaderUid_numValues_alpha_test_comp0 (L : UidLayout) (g : Globals)
    (u : pixel_shader_uid_data) :
    (GetPixelShaderUid_numValues L g u).alpha_test_comp0 = u.alpha_test_comp0 := by
  rfl

/-- The block GetPixelShaderUid_numValues leaves alpha_test_comp1 unchanged. -/
theorem GetPixelShaderUid_numValues_alpha_test_comp1 (L : UidLayout) (g : Globals)
    (u : pixel_shader_uid_data) :
    (GetPixelShaderUid_numValues L g u).alpha_test_comp1 = u.alpha_test_comp1 := by
  rfl

/-- The block GetPixelShaderUid_numValues leaves alpha_test_logic unchanged. -/
theorem GetPixelShaderUid_numValues_alpha_test_logic (L : UidLayout) (g : Globals)
    (u : pixel_shader_uid_data) :
    (GetPixelShaderUid_numValues L g u).alpha_test_logic = u.alpha_test_logic := by
  rfl

/-- The block GetPixelShaderUid_numValues leaves alpha_test_use_zcomploc_hack unchanged. -/
theorem GetPixelShaderUid_numValues_alpha_test_use_zcomploc_hack (L : UidLayout) (g : Globals)
    (u : pixel_shader_uid_data) :
    (GetPixelShaderUid_numValues L g u).alpha_test_use_zcomploc_hack = u.alpha_test_use_zcomploc_hack := by
  rfl

/-- The block GetPixelShaderUid_alphaTest leaves forced_early_z unchanged. -/
theorem GetPixelShaderUid_alphaTest_forced_early_z (g : Globals) (u : pixel_shader_uid_data) :
    (GetPixelShaderUid_alphaTest g u).forced_early_z = u.forced_early_z := by
  unfold GetPixelShaderUid_alphaTest
  simp only []
  split <;> rfl

/-- The block GetPixelShaderUid_alphaTest leaves per_pixel_depth unchanged. -/
theorem GetPixelShaderUid_alphaTest_per_pixel_depth (g : Globals) (u : pixel_shader_uid_data) :
    (GetPixelShaderUid_alphaTest g u).per_pixel_depth = u.per_pixel_depth := by
  unfold GetPixelShaderUid_alphaTest
  simp only []
  split <;> rfl

/-- The block GetPixelShaderUid_alphaTest leaves genMode_numtevstages unchanged. -/
theorem GetPixelShaderUid_alphaTest_genMode_numtevstages (g : Globals) (u : pixel_shader_uid_data) :
    (GetPixelShaderUid_alphaTest g u).genMode_numtevstages = u.genMode_numtevstages := by
  unfold GetPixelShaderUid_alphaTest
  simp only []
  split <;> rfl

/-- The block GetPixelShaderUid_alphaTest leaves stagehash unchanged. -/
theorem GetPixelShaderUid_alphaTest_stagehash (g : Globals) (u : pixel_shader_uid_data) :
    (GetPixelShaderUid_alphaTest g u).stagehash = u.stagehash := by
  unfold GetPixelShaderUid_alphaTest
  simp only []
  split <;> rfl

/-- The block GetPixelShaderUid_depthFog leaves forced_early_z unchanged. -/
theorem GetPixelShaderUid_depthFog_forced_early_z (g : Globals) (u : pixel_shader_uid_data) :
    (GetPixelShaderUid_depthFog g u).forced_early_z = u.forced_early_z := by
  rfl

/-- The block GetPixelShaderUid_depthFog leaves per_pixel_depth unchanged. -/
theorem GetPixelShaderUid_depthFog_per_pixel_depth (g : Globals) (u : pixel_shader_uid_data) :
    (GetPixelShaderUid_depthFog g u).per_pixel_depth = u.per_pixel_depth := by
  rfl

/-- The block GetPixelShaderUid_depthFog leaves genMode_numtevstages unchanged. -/
theorem GetPixelShaderUid_depthFog_genMode_numtevstages (g : Globals) (u : pixel_shader_uid_data) :
    (GetPixelShaderUid_depthFog g u).genMode_numtevstages = u.genMode_numtevstages := by
  rfl

/-- The block GetPixelShaderUid_depthFog leaves stagehash unchanged. -/
theorem GetPixelShaderUid_depthFog_stagehash (g : Globals) (u : pixel_shader_uid_data) :
    (GetPixelShaderUid_depthFog g u).stagehash = u.stagehash := by
  rfl

/-- The block GetPixelShaderUid_depthFog leaves alpha_test_comp0 unchanged. -/
theorem GetPixelShaderUid_depthFog_alpha_test_comp0 (g : Globals) (u : pixel_shader_uid_data) :
    (GetPixelShaderUid_depthFog g u).alpha_test_comp0 = u.alpha_test_comp0 := by
  rfl

/-- The block GetPixelShaderUid_depthFog leaves alpha_test_comp1 unchanged. -/
theorem GetPixelShaderUid_depthFog_alpha_test_comp1 (g : Globals) (u : pixel_shader_uid_data) :
    (GetPixelShaderUid_depthFog g u).alpha_test_comp1 = u.alpha_test_comp1 := by
  rfl

/-- The block GetPixelShaderUid_depthFog leaves alpha_test_logic unchanged. -/
theorem GetPixelShaderUid_depthFog_alpha_test_logic (g : Globals) (u : pixel_shader_uid_data) :
    (GetPixelShaderUid_depthFog g u).alpha_test_logic = u.alpha_test_logic := by
  rfl

/-- The block GetPixelShaderUid_depthFog leaves alpha_test_use_zcomploc_hack unchanged. -/
theorem GetPixelShaderUid_depthFog_alpha_test_use_zcomploc_hack (g : Globals)
    (u : pixel_shader_uid_data) :
    (GetPixelShaderUid_depthFog g u).alpha_test_use_zcomploc_hack = u.alpha_test_use_zcomploc_hack := by
  rfl

/-- The block GetPixelShaderUid_blend leaves forced_early_z unchanged. -/
theorem GetPixelShaderUid_blend_forced_early_z (g : Globals) (u : pixel_shader_uid_data) :
    (GetPixelShaderUid_blend g u).forced_early_z = u.forced_early_z := by
  unfold GetPixelShaderUid_blend
  simp only []
  split <;> rfl

/-- The block GetPixelShaderUid_blend leaves per_pixel_depth unchanged. -/
theorem GetPixelShaderUid_blend_per_pixel_depth (g : Globals) (u : pixel_shader_uid_data) :
    (GetPixelShaderUid_blend g u).per_pixel_depth = u.per_pixel_depth := by
  unfold GetPixelShaderUid_blend
  simp only []
  split <;> rfl

/-- The block GetPixelShaderUid_blend leaves genMode_numtevstages unchanged. -/
theorem GetPixelShaderUid_blend_genMode_numtevstages (g : Globals) (u : pixel_shader_uid_data) :
    (GetPixelShaderUid_blend g u).genMode_numtevstages = u.genMode_numtevstages := by
  unfold GetPixelShaderUid_blend
  simp only []
  split <;> rfl

/-- The block GetPixelShaderUid_blend leaves stagehash unchanged. -/
theorem GetPixelShaderUid_blend_stagehash (g : Globals) (u : pixel_shader_uid_data) :
    (GetPixelShaderUid_blend g u).stagehash = u.stagehash := by
  unfold GetPixelShaderUid_blend
  simp only []
  split <;> rfl

/-- The block GetPixelShaderUid_blend leaves alpha_test_comp0 unchanged. -/
theorem GetPixelShaderUid_blend_alpha_test_comp0 (g : Globals) (u : pixel_shader_uid_data) :
    (GetPixelShaderUid_blend g u).alpha_test_comp0 = u.alpha_test_comp0 := by
  unfold GetPixelShaderUid_blend
  simp only []
  split <;> rfl

/-- The block GetPixelShaderUid_blend leaves alpha_test_comp1 unchanged. -/
theorem GetPixelShaderUid_blend_alpha_test_comp1 (g : Globals) (u : pixel_shader_uid_data) :
    (GetPixelShaderUid_blend g u).alpha_test_comp1 = u.alpha_test_comp1 := by
  unfold GetPixelShaderUid_blend
  simp only []
  split <;> rfl

/-- The block GetPixelShaderUid_blend leaves alpha_test_logic unchanged. -/
theorem GetPixelShaderUid_blend_alpha_test_logic (g : Globals) (u : pixel_shader_uid_data) :
    (GetPixelShaderUid_blend g u).alpha_test_logic = u.alpha_test_logic := by
  unfold GetPixelShaderUid_blend
  simp only []
  split <;> rfl

/-- The block GetPixelShaderUid_blend leaves alpha_test_use_zcomploc_hack unchanged. -/
theorem GetPixelShaderUid_blend_alpha_test_use_zcomploc_hack (g : Globals)
    (u : pixel_shader_uid_data) :
    (GetPixelShaderUid_blend g u).alpha_test_use_zcomploc_hack = u.alpha_test_use_zcomploc_hack := by
  unfold GetPixelShaderUid_blend
  simp only []
  split <;> rfl

/-! ## Properties of the UID canonicaliser -/

/-- C1. ClearUnusedPixelShaderUidBits is idempotent: applying it twice with the same api_type
and host_config gives the same UID as applying it once. -/
theorem ClearUnusedPixelShaderUidBits_idempotent (g : Globals) (api_type : APIType)
    (host_config : ShaderHostConfig) (u : PixelShaderUid) :
    ClearUnusedPixelShaderUidBits g api_type host_config
        (ClearUnusedPixelShaderUidBits g api_type host_config u) =
      ClearUnusedPixelShaderUidBits g api_type host_config u := by
  unfold ClearUnusedPixelShaderUidBits
  by_cases h : (api_type ≠ APIType.D3D || !host_config.backend_logic_op) = true
  · simp only [h, if_true, Bool.and_assoc, Bool.and_self]
  · simp only [h, if_false, Bool.and_assoc, Bool.and_self]
    simp

/-- C2. ClearUnusedPixelShaderUidBits only clears bits: each of the two one-bit members it
writes (uint_output, bounding_box) is set afterwards only if it was set before, every other
member is unchanged, and the result does not depend on the process-wide state (no
hardware-state snapshot is read): it is the same for any two states g and g2. -/
theorem ClearUnusedPixelShaderUidBits_only_clears (g g2 : Globals) (api_type : APIType)
    (host_config : ShaderHostConfig) (u : PixelShaderUid) :
    ((ClearUnusedPixelShaderUidBits g api_type host_config u).uint_output = true →
        u.uint_output = true) ∧
    ((ClearUnusedPixelShaderUidBits g api_type host_config u).bounding_box = true →
        u.bounding_box = true) ∧
    { ClearUnusedPixelShaderUidBits g api_type host_config u with
        uint_output := u.uint_output, bounding_box := u.bounding_box } = u ∧
    ClearUnusedPixelShaderUidBits g api_type host_config u =
      ClearUnusedPixelShaderUidBits g2 api_type host_config u := by
  unfold ClearUnusedPixelShaderUidBits
  by_cases h : (api_type ≠ APIType.D3D || !host_config.backend_logic_op) = true
  · simp only [h, if_true]
    refine ⟨by simp, by simp; tauto, ?_, ?_⟩ <;> first | rfl | trivial
  · simp only [h, if_false]
    refine ⟨by simp, by simp; tauto, ?_, ?_⟩ <;> first | rfl | trivial

/-- C3. After ClearUnusedPixelShaderUidBits, uint_output is set iff it was set before and
api_type is D3D and host_config.backend_logic_op is true; in particular it is 0 whenever
host_config.backend_logic_op is false. -/
theorem ClearUnusedPixelShaderUidBits_uint_output (g : Globals) (api_type : APIType)
    (host_config : ShaderHostConfig) (u : PixelShaderUid) :
    ((ClearUnusedPixelShaderUidBits g api_type host_config u).uint_output = true ↔
        (u.uint_output = true ∧ api_type = APIType.D3D ∧
          host_config.backend_logic_op = true)) ∧
    (host_config.backend_logic_op = false →
        (ClearUnusedPixelShaderUidBits g api_type host_config u).uint_output = false) := by
  unfold ClearUnusedPixelShaderUidBits
  cases api_type <;> cases hl : host_config.backend_logic_op <;> simp

/-- C4. After ClearUnusedPixelShaderUidBits, bounding_box is the old bounding_box AND
host_config.bounding_box AND host_config.backend_bbox; in particular it is 0 whenever the
feature toggle or the backend support is off. -/
theorem ClearUnusedPixelShaderUidBits_bounding_box (g : Globals) (api_type : APIType)
    (host_config : ShaderHostConfig) (u : PixelShaderUid) :
    (ClearUnusedPixelShaderUidBits g api_type host_config u).bounding_box =
        (u.bounding_box && host_config.bounding_box && host_config.backend_bbox) ∧
    ((host_config.bounding_box = false ∨ host_config.backend_bbox = false) →
        (ClearUnusedPixelShaderUidBits g api_type host_config u).bounding_box = false) := by
  unfold ClearUnusedPixelShaderUidBits
  by_cases h : (api_type ≠ APIType.D3D || !host_config.backend_logic_op) = true
  · simp only [h, if_true]
    refine ⟨by simp [Bool.and_assoc], ?_⟩
    rintro (hb | hb) <;> simp [hb]
  · simp only [h, if_false]
    refine ⟨by simp [Bool.and_assoc], ?_⟩
    rintro (hb | hb) <;> simp [hb]

/-! ## Properties of the UID encoder: depth and alpha-test flags -/

/-- The forced_early_z member of the UID is the value computed at lines 190-195. -/
theorem GetPixelShaderUid_forced_early_z_eq (L : UidLayout) (g : Globals) :
    (GetPixelShaderUid L g).forced_early_z =
      (g.bpmem.UseEarlyDepthTest &&
        (g.g_ActiveConfig.bFastDepthCalc ||
          g.bpmem.alpha_test.TestResult == TEST_RESULT.UNDETERMINED) &&
        !(g.bpmem.zmode.testenable && g.bpmem.genMode.zfreeze)) := by
  simp only [GetPixelShaderUid, GetPixelShaderUid_blend_forced_early_z,
    GetPixelShaderUid_depthFog_forced_early_z, GetPixelShaderUid_alphaTest_forced_early_z,
    GetPixelShaderUid_numValues_forced_early_z, GetPixelShaderUid_stages_forced_early_z,
    GetPixelShaderUid_indirect_forced_early_z, GetPixelShaderUid_projection_forced_early_z,
    GetPixelShaderUid_lighting_forced_early_z]
  rfl

/-- The per_pixel_depth member of the UID is the value computed at lines 196-199. -/
theorem GetPixelShaderUid_per_pixel_depth_eq (L : UidLayout) (g : Globals) :
    (GetPixelShaderUid L g).per_pixel_depth =
      ((g.bpmem.ztex2.op != ZTEXTURE_DISABLE && g.bpmem.UseLateDepthTest) ||
        (!g.g_ActiveConfig.bFastDepthCalc && g.bpmem.zmode.testenable &&
          !(GetPixelShaderUid L g).forced_early_z) ||
        (g.bpmem.zmode.testenable && g.bpmem.genMode.zfreeze)) := by
  rw [GetPixelShaderUid_forced_early_z_eq]
  simp only [GetPixelShaderUid, GetPixelShaderUid_blend_per_pixel_depth,
    GetPixelShaderUid_depthFog_per_pixel_depth, GetPixelShaderUid_alphaTest_per_pixel_depth,
    GetPixelShaderUid_numValues_per_pixel_depth, GetPixelShaderUid_stages_per_pixel_depth,
    GetPixelShaderUid_indirect_per_pixel_depth, GetPixelShaderUid_projection_per_pixel_depth,
    GetPixelShaderUid_lighting_per_pixel_depth]
  rfl

/-- C9. The forced_early_z flag of the UID is set iff the early depth test is in use, and
fast depth is configured or the static alpha-test result is UNDETERMINED, and it is not the
case that the depth test is enabled together with z-freeze; so it is never set for a z-frozen
snapshot with the depth test enabled. -/
theorem GetPixelShaderUid_forced_early_z_iff (L : UidLayout) (g : Globals) :
    ((GetPixelShaderUid L g).forced_early_z = true ↔
      (g.bpmem.UseEarlyDepthTest = true ∧
        (g.g_ActiveConfig.bFastDepthCalc = true ∨
          g.bpmem.alpha_test.TestResult = TEST_RESULT.UNDETERMINED) ∧
        ¬ (g.bpmem.zmode.testenable = true ∧ g.bpmem.genMode.zfreeze = true))) ∧
    ((g.bpmem.zmode.testenable = true ∧ g.bpmem.genMode.zfreeze = true) →
      (GetPixelShaderUid L g).forced_early_z = false) := by
  rw [GetPixelShaderUid_forced_early_z_eq]
  generalize g.bpmem.UseEarlyDepthTest = early
  generalize g.g_ActiveConfig.bFastDepthCalc = fast
  generalize g.bpmem.zmode.testenable = testenable
  generalize g.bpmem.genMode.zfreeze = zfreeze
  cases early <;> cases fast <;> cases testenable <;> cases zfreeze <;> simp

/-- The condition of line 300 under which the comparator fields are written, in terms of the
snapshot. -/
theorem GetPixelShaderUid_alphaTest_fields (g : Globals) (u : pixel_shader_uid_data) :
    GetPixelShaderUid_alphaTest g u =
      if (g.bpmem.alpha_test.TestResult == TEST_RESULT.UNDETERMINED ||
          (g.bpmem.alpha_test.TestResult == TEST_RESULT.FAIL && g.bpmem.UseLateDepthTest)) = true
      then
        { u with
          Pretest := g.bpmem.alpha_test.TestResult,
          late_ztest := g.bpmem.UseLateDepthTest,
          alpha_test_comp0 := g.bpmem.alpha_test.comp0,
          alpha_test_comp1 := g.bpmem.alpha_test.comp1,
          alpha_test_logic := g.bpmem.alpha_test.logic,
          alpha_test_use_zcomploc_hack :=
            g.bpmem.UseEarlyDepthTest && g.bpmem.zmode.updateenable &&
            !g.g_ActiveConfig.backend_info.bSupportsEarlyZ && !g.bpmem.genMode.zfreeze }
      else
        { u with
          Pretest := g.bpmem.alpha_test.TestResult,
          late_ztest := g.bpmem.UseLateDepthTest } := by
  rfl

/-- The four alpha-test members of the UID, in terms of the snapshot. -/
theorem GetPixelShaderUid_alpha_test_eq (L : UidLayout) (g : Globals) :
    ((GetPixelShaderUid L g).alpha_test_comp0,
      (GetPixelShaderUid L g).alpha_test_comp1,
      (GetPixelShaderUid L g).alpha_test_logic,
      (GetPixelShaderUid L g).alpha_test_use_zcomploc_hack) =
      if (g.bpmem.alpha_test.TestResult == TEST_RESULT.UNDETERMINED ||
          (g.bpmem.alpha_test.TestResult == TEST_RESULT.FAIL && g.bpmem.UseLateDepthTest)) = true
      then
        (g.bpmem.alpha_test.comp0, g.bpmem.alpha_test.comp1, g.bpmem.alpha_test.logic,
          g.bpmem.UseEarlyDepthTest && g.bpmem.zmode.updateenable &&
            !g.g_ActiveConfig.backend_info.bSupportsEarlyZ && !g.bpmem.genMode.zfreeze)
      else (0, 0, 0, false) := by
  simp only [GetPixelShaderUid,
    GetPixelShaderUid_blend_alpha_test_comp0, GetPixelShaderUid_blend_alpha_test_comp1,
    GetPixelShaderUid_blend_alpha_test_logic,
    GetPixelShaderUid_blend_alpha_test_use_zcomploc_hack,
    GetPixelShaderUid_depthFog_alpha_test_comp0, GetPixelShaderUid_depthFog_alpha_test_comp1,
    GetPixelShaderUid_depthFog_alpha_test_logic,
    GetPixelShaderUid_depthFog_alpha_test_use_zcomploc_hack]
  rw [GetPixelShaderUid_alphaTest_fields]
  split
  · rfl
  · simp only [GetPixelShaderUid_numValues_alpha_test_comp0,
      GetPixelShaderUid_numValues_alpha_test_comp1, GetPixelShaderUid_numValues_alpha_test_logic,
      GetPixelShaderUid_numValues_alpha_test_use_zcomploc_hack,
      GetPixelShaderUid_stages_alpha_test_comp0, GetPixelShaderUid_stages_alpha_test_comp1,
      GetPixelShaderUid_stages_alpha_test_logic,
      GetPixelShaderUid_stages_alpha_test_use_zcomploc_hack,
      GetPixelShaderUid_indirect_alpha_test_comp0, GetPixelShaderUid_indirect_alpha_test_comp1,
      GetPixelShaderUid_indirect_alpha_test_logic,
      GetPixelShaderUid_indirect_alpha_test_use_zcomploc_hack,
      GetPixelShaderUid_projection_alpha_test_comp0,
      GetPixelShaderUid_projection_alpha_test_comp1,
      GetPixelShaderUid_projection_alpha_test_logic,
      GetPixelShaderUid_projection_alpha_test_use_zcomploc_hack,
      GetPixelShaderUid_lighting_alpha_test_comp0, GetPixelShaderUid_lighting_alpha_test_comp1,
      GetPixelShaderUid_lighting_alpha_test_logic,
      GetPixelShaderUid_lighting_alpha_test_use_zcomploc_hack,
      GetPixelShaderUid_flags_alpha_test_comp0, GetPixelShaderUid_flags_alpha_test_comp1,
      GetPixelShaderUid_flags_alpha_test_logic,
      GetPixelShaderUid_flags_alpha_test_use_zcomploc_hack]
    rfl

/-- C7. In GetPixelShaderUid the alpha-test fields (alpha_test_comp0, alpha_test_comp1,
alpha_test_logic, alpha_test_use_zcomploc_hack) are populated iff the static alpha-test result
is UNDETERMINED, or is FAIL while the late depth test is active: in that case they hold the
comparator registers and the workaround flag computed at lines 314-316; in every other case all
four are 0, whatever the comparator registers hold. -/
theorem GetPixelShaderUid_alpha_test_populated (L : UidLayout) (g : Globals) :
    ((g.bpmem.alpha_test.TestResult = TEST_RESULT.UNDETERMINED ∨
        (g.bpmem.alpha_test.TestResult = TEST_RESULT.FAIL ∧
          g.bpmem.UseLateDepthTest = true)) →
      ((GetPixelShaderUid L g).alpha_test_comp0 = g.bpmem.alpha_test.comp0 ∧
        (GetPixelShaderUid L g).alpha_test_comp1 = g.bpmem.alpha_test.comp1 ∧
        (GetPixelShaderUid L g).alpha_test_logic = g.bpmem.alpha_test.logic ∧
        (GetPixelShaderUid L g).alpha_test_use_zcomploc_hack =
          (g.bpmem.UseEarlyDepthTest && g.bpmem.zmode.updateenable &&
            !g.g_ActiveConfig.backend_info.bSupportsEarlyZ && !g.bpmem.genMode.zfreeze))) ∧
    (¬ (g.bpmem.alpha_test.TestResult = TEST_RESULT.UNDETERMINED ∨
        (g.bpmem.alpha_test.TestResult = TEST_RESULT.FAIL ∧
          g.bpmem.UseLateDepthTest = true)) →
      ((GetPixelShaderUid L g).alpha_test_comp0 = 0 ∧
        (GetPixelShaderUid L g).alpha_test_comp1 = 0 ∧
        (GetPixelShaderUid L g).alpha_test_logic = 0 ∧
        (GetPixelShaderUid L g).alpha_test_use_zcomploc_hack = false)) := by
  have key := GetPixelShaderUid_alpha_test_eq L g
  constructor
  · intro h
    have hc : (g.bpmem.alpha_test.TestResult == TEST_RESULT.UNDETERMINED ||
        (g.bpmem.alpha_test.TestResult == TEST_RESULT.FAIL && g.bpmem.UseLateDepthTest)) =
        true := by
      rcases h with h | ⟨h1, h2⟩
      · simp [h]
      · simp [h1, h2]
    rw [if_pos hc] at key
    simp only [Prod.mk.injEq] at key
    exact key
  · intro h
    have hc : ¬ (g.bpmem.alpha_test.TestResult == TEST_RESULT.UNDETERMINED ||
        (g.bpmem.alpha_test.TestResult == TEST_RESULT.FAIL && g.bpmem.UseLateDepthTest)) =
        true := by
      intro hc
      apply h
      simpa using hc
    rw [if_neg hc] at key
    simp only [Prod.mk.injEq] at key
    exact key

/-- C8, counterexample.  The claim as stated (per_pixel_depth set exactly when z-texture with
late depth test, or fast depth disabled with the depth test enabled, or z-freeze) fails on two
snapshots.  In snapshotEarlyZ fast depth is disabled and the depth test is enabled, but early
z is forced, and per_pixel_depth is clear.  In snapshotZFreezeNoTest z-freeze is on with the
depth test disabled, and per_pixel_depth is clear. -/
theorem GetPixelShaderUid_per_pixel_depth_claim_fails :
    ¬ ((GetPixelShaderUid layoutExample snapshotEarlyZ).per_pixel_depth = true ↔
      ((snapshotEarlyZ.bpmem.ztex2.op ≠ ZTEXTURE_DISABLE ∧
          snapshotEarlyZ.bpmem.UseLateDepthTest = true) ∨
        (snapshotEarlyZ.g_ActiveConfig.bFastDepthCalc = false ∧
          snapshotEarlyZ.bpmem.zmode.testenable = true) ∨
        snapshotEarlyZ.bpmem.genMode.zfreeze = true)) ∧
    ¬ ((GetPixelShaderUid layoutExample snapshotZFreezeNoTest).per_pixel_depth = true ↔
      ((snapshotZFreezeNoTest.bpmem.ztex2.op ≠ ZTEXTURE_DISABLE ∧
          snapshotZFreezeNoTest.bpmem.UseLateDepthTest = true) ∨
        (snapshotZFreezeNoTest.g_ActiveConfig.bFastDepthCalc = false ∧
          snapshotZFreezeNoTest.bpmem.zmode.testenable = true) ∨
        snapshotZFreezeNoTest.bpmem.genMode.zfreeze = true)) := by
  constructor <;> decide

/-- C8, amended.  The per_pixel_depth flag of the UID is set exactly when at least one of
three cases holds: z-texture enabled with the late depth test active; fast depth disabled with
the depth test enabled and early z not forced; or z-freeze with the depth test enabled. -/
theorem GetPixelShaderUid_per_pixel_depth_iff (L : UidLayout) (g : Globals) :
    (GetPixelShaderUid L g).per_pixel_depth = true ↔
      ((g.bpmem.ztex2.op ≠ ZTEXTURE_DISABLE ∧ g.bpmem.UseLateDepthTest = true) ∨
        (g.g_ActiveConfig.bFastDepthCalc = false ∧ g.bpmem.zmode.testenable = true ∧
          (GetPixelShaderUid L g).forced_early_z = false) ∨
        (g.bpmem.zmode.testenable = true ∧ g.bpmem.genMode.zfreeze = true)) := by
  rw [GetPixelShaderUid_per_pixel_depth_eq]
  generalize (GetPixelShaderUid L g).forced_early_z = forced
  generalize g.bpmem.UseLateDepthTest = late
  generalize g.g_ActiveConfig.bFastDepthCalc = fast
  generalize g.bpmem.zmode.testenable = testenable
  generalize g.bpmem.genMode.zfreeze = zfreeze
  by_cases hz : g.bpmem.ztex2.op = ZTEXTURE_DISABLE
  · cases forced <;> cases late <;> cases fast <;> cases testenable <;> cases zfreeze <;>
      simp [hz]
  · cases forced <;> cases late <;> cases fast <;> cases testenable <;> cases zfreeze <;>
      simp [hz]

/-! ## Auxiliary facts: the combiner masks and the stage loop -/

/-- Masking with 0xFFFFF0 keeps bits 4..23. -/
theorem and_mask_div (x : Nat) : (x &&& 0xFFFFF0) / 16 = x / 16 % 2 ^ 20 := by
  have h1 : (x &&& 0xFFFFF0) >>> 4 = (x >>> 4) &&& (0xFFFFF0 >>> 4) := by
    apply Nat.eq_of_testBit_eq
    intro i
    simp only [Nat.testBit_shiftRight, Nat.testBit_and]
  have h2 : (0xFFFFF0 >>> 4 : Nat) = 2 ^ 20 - 1 := by decide
  rw [h2, Nat.and_pow_two_sub_one_eq_mod, Nat.shiftRight_eq_div_pow,
    Nat.shiftRight_eq_div_pow] at h1
  simpa using h1

/-- Masking with 0xFFFFF0 clears the four low bits. -/
theorem and_mask_mod (x : Nat) : (x &&& 0xFFFFF0) % 16 = 0 := by
  have h : (x &&& 0xFFFFF0) % 2 ^ 4 = (x &&& 0xFFFFF0) &&& (2 ^ 4 - 1) :=
    (Nat.and_pow_two_sub_one_eq_mod _ 4).symm
  rw [Nat.and_assoc] at h
  have h2 : (0xFFFFF0 &&& (2 ^ 4 - 1) : Nat) = 0 := by decide
  rw [h2, Nat.and_zero] at h
  simpa using h

/-- Masking with 0xFFFFF0, arithmetically. -/
theorem and_mask_eq (x : Nat) : x &&& 0xFFFFF0 = 16 * (x / 16 % 2 ^ 20) := by
  have h1 := and_mask_div x
  have h2 := and_mask_mod x
  omega

/-- Masking with 0xFFFFFF keeps the low 24 bits. -/
theorem and_mask24 (x : Nat) : x &&& 0xFFFFFF = x % 2 ^ 24 := by
  have h : (0xFFFFFF : Nat) = 2 ^ 24 - 1 := by decide
  rw [h, Nat.and_pow_two_sub_one_eq_mod]

/-- Slot n after a loop that rewrites slots 0..k-1 in place. -/
theorem foldl_set_getElem? {α : Type} (F : Nat → α → α) (d : α) (k : Nat) (sh : List α)
    (n : Nat) :
    ((List.range k).foldl (fun (l : List α) m => l.set m (F m (l.getD m d))) sh)[n]? =
      if n < k then (sh[n]?).map (F n) else sh[n]? := by
  induction k with
  | zero => simp
  | succ k ih =>
    rw [List.range_succ, List.foldl_append]
    simp only [List.foldl_cons, List.foldl_nil]
    rw [List.getElem?_set]
    by_cases hkn : k = n
    · subst hkn
      have ih2 : (List.foldl (fun (l : List α) m => l.set m (F m (l.getD m d))) sh
          (List.range k))[k]? = sh[k]? := by
        rw [ih]; simp
      rw [if_pos rfl, if_pos (Nat.lt_succ_self k), List.getD_eq_getElem?_getD, ih2]
      cases hs : sh[k]? with
      | none =>
        have : ¬ k < (List.foldl (fun (l : List α) m => l.set m (F m (l.getD m d))) sh
            (List.range k)).length := by
          intro hlt
          have := List.getElem?_eq_getElem hlt
          rw [ih2, hs] at this
          exact Option.noConfusion this
        rw [if_neg this]; rfl
      | some x =>
        have : k < (List.foldl (fun (l : List α) m => l.set m (F m (l.getD m d))) sh
            (List.range k)).length := by
          by_contra hlt
          have := List.getElem?_eq_none (Nat.le_of_not_lt hlt)
          rw [ih2, hs] at this
          exact Option.noConfusion this
        rw [if_pos this]; rfl
    · rw [if_neg hkn, ih]
      by_cases h1 : n < k
      · rw [if_pos h1, if_pos (by omega)]
      · rw [if_neg h1, if_neg (by omega)]

/-- The stage slots of the UID after the stage loop. -/
theorem GetPixelShaderUid_stages_stagehash (g : Globals) (u : pixel_shader_uid_data) :
    (GetPixelShaderUid_stages g u).stagehash =
      (List.range (u.genMode_numtevstages + 1)).foldl
        (fun (l : List StageHash) m =>
          l.set m (GetPixelShaderUid_stage g.bpmem m (l.getD m default)))
        u.stagehash := by
  unfold GetPixelShaderUid_stages
  apply foldl_proj (fun v : pixel_shader_uid_data => v.stagehash)
  intro b a
  rfl

/-- Slot n of the UID: the stage record of stage n when n is one of the numtevstages + 1
stages (and one of the sixteen slots), the zero record otherwise. -/
theorem GetPixelShaderUid_stagehash_getD (L : UidLayout) (g : Globals) (n : Nat) :
    (GetPixelShaderUid L g).stagehash.getD n default =
      if n < g.bpmem.genMode.numtevstages + 1 ∧ n < 16 then
        GetPixelShaderUid_stage g.bpmem n StageHash.zero
      else StageHash.zero := by
  simp only [GetPixelShaderUid, GetPixelShaderUid_blend_stagehash,
    GetPixelShaderUid_depthFog_stagehash, GetPixelShaderUid_alphaTest_stagehash,
    GetPixelShaderUid_numValues_stagehash]
  rw [GetPixelShaderUid_stages_stagehash, List.getD_eq_getElem?_getD, foldl_set_getElem?]
  simp only [GetPixelShaderUid_indirect_stagehash, GetPixelShaderUid_projection_stagehash,
    GetPixelShaderUid_lighting_stagehash, GetPixelShaderUid_flags_stagehash,
    GetPixelShaderUid_indirect_genMode_numtevstages,
    GetPixelShaderUid_projection_genMode_numtevstages,
    GetPixelShaderUid_lighting_genMode_numtevstages]
  have hnum : (GetPixelShaderUid_flags g PixelShaderUid.zero).genMode_numtevstages =
      g.bpmem.genMode.numtevstages := rfl
  have hz : PixelShaderUid.zero.stagehash = List.replicate 16 StageHash.zero := rfl
  rw [hnum, hz]
  by_cases h16 : n < 16
  · have hget : (List.replicate 16 StageHash.zero)[n]? = some StageHash.zero := by
      rw [List.getElem?_replicate]; simp [h16]
    rw [hget]
    by_cases hk : n < g.bpmem.genMode.numtevstages + 1
    · rw [if_pos hk, if_pos ⟨hk, h16⟩]; rfl
    · rw [if_neg hk, if_neg (fun h => hk h.1)]; rfl
  · have hget : (List.replicate 16 StageHash.zero)[n]? = none := by
      rw [List.getElem?_replicate]; simp [h16]
    have hr : ¬ (n < g.bpmem.genMode.numtevstages + 1 ∧ n < 16) := fun h => h16 h.2
    rw [hget]
    simp only [hr, if_false, Option.map_none', ite_self]
    rfl

/-! ## Properties of the UID encoder: minimality of the stage records -/

/-- Two register files give stage n the same record when they agree on everything the body
of the stage loop reads for that stage. -/
theorem GetPixelShaderUid_stage_congr (b1 b2 : BPMemory) (n : Nat) (st : StageHash)
    (hgm : b2.genMode = b1.genMode)
    (hto : b2.tevorders (n / 2) = b1.tevorders (n / 2))
    (hti : b2.tevind n = b1.tevind n)
    (hcc : (b2.combiners n).colorC = (b1.combiners n).colorC)
    (hmask : (b2.combiners n).alphaC.hex &&& 0xFFFFF0 =
      (b1.combiners n).alphaC.hex &&& 0xFFFFF0)
    (hras : usesRas (b1.combiners n).colorC (b2.combiners n).alphaC =
      usesRas (b1.combiners n).colorC (b1.combiners n).alphaC)
    (hkonst : usesKonst (b1.combiners n).colorC (b2.combiners n).alphaC =
      usesKonst (b1.combiners n).colorC (b1.combiners n).alphaC)
    (hrs : usesRas (b1.combiners n).colorC (b1.combiners n).alphaC = true →
      (b2.tevksel ((b2.combiners n).alphaC.rswap * 2)).swap1 =
        (b1.tevksel ((b1.combiners n).alphaC.rswap * 2)).swap1 ∧
      (b2.tevksel ((b2.combiners n).alphaC.rswap * 2)).swap2 =
        (b1.tevksel ((b1.combiners n).alphaC.rswap * 2)).swap2 ∧
      (b2.tevksel ((b2.combiners n).alphaC.rswap * 2 + 1)).swap1 =
        (b1.tevksel ((b1.combiners n).alphaC.rswap * 2 + 1)).swap1 ∧
      (b2.tevksel ((b2.combiners n).alphaC.rswap * 2 + 1)).swap2 =
        (b1.tevksel ((b1.combiners n).alphaC.rswap * 2 + 1)).swap2)
    (hts : (b1.tevorders (n / 2)).getEnable (n &&& 1) = true →
      (b2.tevksel ((b2.combiners n).alphaC.tswap * 2)).swap1 =
        (b1.tevksel ((b1.combiners n).alphaC.tswap * 2)).swap1 ∧
      (b2.tevksel ((b2.combiners n).alphaC.tswap * 2)).swap2 =
        (b1.tevksel ((b1.combiners n).alphaC.tswap * 2)).swap2 ∧
      (b2.tevksel ((b2.combiners n).alphaC.tswap * 2 + 1)).swap1 =
        (b1.tevksel ((b1.combiners n).alphaC.tswap * 2 + 1)).swap1 ∧
      (b2.tevksel ((b2.combiners n).alphaC.tswap * 2 + 1)).swap2 =
        (b1.tevksel ((b1.combiners n).alphaC.tswap * 2 + 1)).swap2)
    (hk : usesKonst (b1.combiners n).colorC (b1.combiners n).alphaC = true →
      (b2.tevksel (n / 2)).getKC (n &&& 1) = (b1.tevksel (n / 2)).getKC (n &&& 1) ∧
      (b2.tevksel (n / 2)).getKA (n &&& 1) = (b1.tevksel (n / 2)).getKA (n &&& 1)) :
    GetPixelShaderUid_stage b2 n st = GetPixelShaderUid_stage b1 n st := by
  have h1 : ∀ s, GetPixelShaderUid_stage_head b2 n s = GetPixelShaderUid_stage_head b1 n s := by
    intro s
    unfold GetPixelShaderUid_stage_head
    simp only [hgm, hto, hti, hcc, hmask]
  have h2 : ∀ s, GetPixelShaderUid_stage_ras b2 n s = GetPixelShaderUid_stage_ras b1 n s := by
    intro s
    unfold GetPixelShaderUid_stage_ras
    simp only [hto, hcc, hras]
    by_cases c : usesRas (b1.combiners n).colorC (b1.combiners n).alphaC = true
    · obtain ⟨r1, r2, r3, r4⟩ := hrs c
      simp only [c, r1, r2, r3, r4]
    · simp only [c, Bool.false_eq_true, if_false]
  have h3 : ∀ s, GetPixelShaderUid_stage_tex b2 n s = GetPixelShaderUid_stage_tex b1 n s := by
    intro s
    unfold GetPixelShaderUid_stage_tex
    simp only [hto]
    by_cases c : (b1.tevorders (n / 2)).getEnable (n &&& 1) = true
    · obtain ⟨t1, t2, t3, t4⟩ := hts c
      simp only [c, t1, t2, t3, t4]
    · simp only [c, Bool.false_eq_true, if_false]
  have h4 : ∀ s, GetPixelShaderUid_stage_konst b2 n s = GetPixelShaderUid_stage_konst b1 n s := by
    intro s
    unfold GetPixelShaderUid_stage_konst
    simp only [hcc, hkonst]
    by_cases c : usesKonst (b1.combiners n).colorC (b1.combiners n).alphaC = true
    · obtain ⟨k1, k2⟩ := hk c
      simp only [c, k1, k2]
    · simp only [c, Bool.false_eq_true, if_false]
  unfold GetPixelShaderUid_stage
  simp only [h1, h2, h3, h4]

/-- Two states whose blocks of the encoder agree give the same UID. -/
theorem GetPixelShaderUid_congr (L : UidLayout) (g1 g2 : Globals)
    (hf : GetPixelShaderUid_flags g2 = GetPixelShaderUid_flags g1)
    (hl : GetPixelShaderUid_lighting g2 = GetPixelShaderUid_lighting g1)
    (hp : GetPixelShaderUid_projection g2 = GetPixelShaderUid_projection g1)
    (hi : GetPixelShaderUid_indirect g2 = GetPixelShaderUid_indirect g1)
    (hs : ∀ n st, GetPixelShaderUid_stage g2.bpmem n st = GetPixelShaderUid_stage g1.bpmem n st)
    (hn : GetPixelShaderUid_numValues L g2 = GetPixelShaderUid_numValues L g1)
    (ha : GetPixelShaderUid_alphaTest g2 = GetPixelShaderUid_alphaTest g1)
    (hd : GetPixelShaderUid_depthFog g2 = GetPixelShaderUid_depthFog g1)
    (hb : GetPixelShaderUid_blend g2 = GetPixelShaderUid_blend g1) :
    GetPixelShaderUid L g2 = GetPixelShaderUid L g1 := by
  have hst : GetPixelShaderUid_stages g2 = GetPixelShaderUid_stages g1 := by
    funext u
    unfold GetPixelShaderUid_stages
    simp only [hs]
  unfold GetPixelShaderUid
  rw [hf, hl, hp, hi, hst, hn, ha, hd, hb]

/-- Replacing the k-select indices of a stage keeps every swap1 entry. -/
theorem withStageKSel_swap1 (g : Globals) (n kc ka x : Nat) :
    ((g.withStageKSel n kc ka).bpmem.tevksel x).swap1 = (g.bpmem.tevksel x).swap1 := by
  simp only [Globals.withStageKSel, Function.update_apply]
  split
  · rename_i h
    subst h
    unfold TevKSel.withK
    split <;> rfl
  · rfl

/-- Replacing the k-select indices of a stage keeps every swap2 entry. -/
theorem withStageKSel_swap2 (g : Globals) (n kc ka x : Nat) :
    ((g.withStageKSel n kc ka).bpmem.tevksel x).swap2 = (g.bpmem.tevksel x).swap2 := by
  simp only [Globals.withStageKSel, Function.update_apply]
  split
  · rename_i h
    subst h
    unfold TevKSel.withK
    split <;> rfl
  · rfl

/-- Replacing the k-select indices of stage n keeps the indices of every other stage. -/
theorem withStageKSel_getK (g : Globals) (n kc ka m : Nat) (hm : m ≠ n) :
    ((g.withStageKSel n kc ka).bpmem.tevksel (m / 2)).getKC (m &&& 1) =
        (g.bpmem.tevksel (m / 2)).getKC (m &&& 1) ∧
    ((g.withStageKSel n kc ka).bpmem.tevksel (m / 2)).getKA (m &&& 1) =
        (g.bpmem.tevksel (m / 2)).getKA (m &&& 1) := by
  simp only [Globals.withStageKSel, Function.update_apply, Nat.and_one_is_mod]
  by_cases h : m / 2 = n / 2
  · rw [if_pos h, h]
    have hmn : m % 2 ≠ n % 2 := by omega
    unfold TevKSel.withK TevKSel.getKC TevKSel.getKA
    by_cases hn : n % 2 = 0
    · have hm1 : m % 2 ≠ 0 := by omega
      simp [hn, hm1]
    · have hm0 : m % 2 = 0 := by omega
      simp [hn, hm0]
  · rw [if_neg h]
    exact ⟨rfl, rfl⟩

/-- A stage none of whose operands is KONST leaves both k-select members of its slot as they
were. -/
theorem GetPixelShaderUid_stage_no_konst (bpmem : BPMemory) (n : Nat) (st : StageHash)
    (h : usesKonst (bpmem.combiners n).colorC (bpmem.combiners n).alphaC = false) :
    (GetPixelShaderUid_stage bpmem n st).tevksel_kc = st.tevksel_kc ∧
    (GetPixelShaderUid_stage bpmem n st).tevksel_ka = st.tevksel_ka := by
  have hkonst : ∀ s, GetPixelShaderUid_stage_konst bpmem n s = s := by
    intro s
    unfold GetPixelShaderUid_stage_konst
    simp only [h, Bool.false_eq_true, if_false]
  have htex : ∀ s, (GetPixelShaderUid_stage_tex bpmem n s).tevksel_kc = s.tevksel_kc ∧
      (GetPixelShaderUid_stage_tex bpmem n s).tevksel_ka = s.tevksel_ka := by
    intro s
    unfold GetPixelShaderUid_stage_tex
    simp only []
    split <;> exact ⟨rfl, rfl⟩
  have hras : ∀ s, (GetPixelShaderUid_stage_ras bpmem n s).tevksel_kc = s.tevksel_kc ∧
      (GetPixelShaderUid_stage_ras bpmem n s).tevksel_ka = s.tevksel_ka := by
    intro s
    unfold GetPixelShaderUid_stage_ras
    simp only []
    split <;> exact ⟨rfl, rfl⟩
  have hhead : ∀ s, (GetPixelShaderUid_stage_head bpmem n s).tevksel_kc = s.tevksel_kc ∧
      (GetPixelShaderUid_stage_head bpmem n s).tevksel_ka = s.tevksel_ka := by
    intro s
    unfold GetPixelShaderUid_stage_head
    simp only []
    split <;> exact ⟨rfl, rfl⟩
  unfold GetPixelShaderUid_stage
  simp only [hkonst]
  exact ⟨((htex _).1.trans (hras _).1).trans (hhead _).1,
    ((htex _).2.trans (hras _).2).trans (hhead _).2⟩

/-- The KONST test of the encoder is false exactly when none of the eight operands is
KONST. -/
theorem usesKonst_eq_false_iff (cc : ColorCombiner) (ac : AlphaCombiner) :
    usesKonst cc ac = false ↔
      (cc.a ≠ TEVCOLORARG_KONST ∧ cc.b ≠ TEVCOLORARG_KONST ∧ cc.c ≠ TEVCOLORARG_KONST ∧
        cc.d ≠ TEVCOLORARG_KONST ∧ ac.a ≠ TEVALPHAARG_KONST ∧ ac.b ≠ TEVALPHAARG_KONST ∧
        ac.c ≠ TEVALPHAARG_KONST ∧ ac.d ≠ TEVALPHAARG_KONST) := by
  unfold usesKonst
  simp only [Bool.or_eq_false_iff, beq_eq_false_iff_ne, ne_eq, and_assoc]

/-- C5. Minimality for k-select: two snapshots that differ only in the k-select colour /
alpha index (KC / KA) of a stage n none of whose eight combiner operands is KONST give equal
UIDs, and the tevksel_kc and tevksel_ka members of that stage's slot are 0. -/
theorem GetPixelShaderUid_kselect_minimality (L : UidLayout) (g : Globals) (n kc ka : Nat)
    (hops :
      (g.bpmem.combiners n).colorC.a ≠ TEVCOLORARG_KONST ∧
      (g.bpmem.combiners n).colorC.b ≠ TEVCOLORARG_KONST ∧
      (g.bpmem.combiners n).colorC.c ≠ TEVCOLORARG_KONST ∧
      (g.bpmem.combiners n).colorC.d ≠ TEVCOLORARG_KONST ∧
      (g.bpmem.combiners n).alphaC.a ≠ TEVALPHAARG_KONST ∧
      (g.bpmem.combiners n).alphaC.b ≠ TEVALPHAARG_KONST ∧
      (g.bpmem.combiners n).alphaC.c ≠ TEVALPHAARG_KONST ∧
      (g.bpmem.combiners n).alphaC.d ≠ TEVALPHAARG_KONST) :
    GetPixelShaderUid L (g.withStageKSel n kc ka) = GetPixelShaderUid L g ∧
    ((GetPixelShaderUid L g).stagehash.getD n default).tevksel_kc = 0 ∧
    ((GetPixelShaderUid L g).stagehash.getD n default).tevksel_ka = 0 := by
  have hk : usesKonst (g.bpmem.combiners n).colorC (g.bpmem.combiners n).alphaC = false :=
    (usesKonst_eq_false_iff _ _).2 hops
  refine ⟨?_, ?_⟩
  · apply GetPixelShaderUid_congr L g (g.withStageKSel n kc ka) rfl rfl rfl rfl ?_ rfl rfl rfl rfl
    intro m st
    apply GetPixelShaderUid_stage_congr g.bpmem (g.withStageKSel n kc ka).bpmem m st
      rfl rfl rfl rfl rfl rfl rfl
    · intro _
      exact ⟨withStageKSel_swap1 .., withStageKSel_swap2 .., withStageKSel_swap1 ..,
        withStageKSel_swap2 ..⟩
    · intro _
      exact ⟨withStageKSel_swap1 .., withStageKSel_swap2 .., withStageKSel_swap1 ..,
        withStageKSel_swap2 ..⟩
    · intro hm
      by_cases hmn : m = n
      · subst hmn
        rw [hk] at hm
        exact Bool.noConfusion hm
      · exact withStageKSel_getK g n kc ka m hmn
  · rw [GetPixelShaderUid_stagehash_getD]
    split
    · exact GetPixelShaderUid_stage_no_konst g.bpmem n StageHash.zero hk
    · exact ⟨rfl, rfl⟩

/-- The combiner registers of a state whose alpha combiner of stage n was replaced. -/
theorem withAlphaCombiner_combiners (g : Globals) (n hex m : Nat) :
    (g.withAlphaCombiner n hex).bpmem.combiners m =
      if m = n then { colorC := (g.bpmem.combiners n).colorC, alphaC := ⟨hex⟩ }
      else g.bpmem.combiners m := by
  simp only [Globals.withAlphaCombiner, Function.update_apply]

/-- Replacing the alpha combiner register of stage n by one with the same bits 4 and up gives
the same UID, provided the rswap bits are kept when the stage reads the rasterised colour and
the tswap bits are kept when its texture is enabled. -/
theorem GetPixelShaderUid_withAlphaCombiner (L : UidLayout) (g : Globals) (n hex2 : Nat)
    (hhi : hex2 / 16 = (g.bpmem.combiners n).alphaC.hex / 16)
    (hr : usesRas (g.bpmem.combiners n).colorC (g.bpmem.combiners n).alphaC = true →
      hex2 % 4 = (g.bpmem.combiners n).alphaC.hex % 4)
    (ht : (g.bpmem.tevorders (n / 2)).getEnable (n &&& 1) = true →
      hex2 / 4 % 4 = (g.bpmem.combiners n).alphaC.hex / 4 % 4) :
    GetPixelShaderUid L (g.withAlphaCombiner n hex2) = GetPixelShaderUid L g := by
  apply GetPixelShaderUid_congr L g (g.withAlphaCombiner n hex2) rfl rfl rfl rfl ?_ rfl rfl rfl rfl
  intro m st
  by_cases hmn : m = n
  · subst hmn
    have hc : (g.withAlphaCombiner m hex2).bpmem.combiners m =
        { colorC := (g.bpmem.combiners m).colorC, alphaC := ⟨hex2⟩ } := by
      rw [withAlphaCombiner_combiners, if_pos rfl]
    have hras : usesRas (g.bpmem.combiners m).colorC ⟨hex2⟩ =
        usesRas (g.bpmem.combiners m).colorC (g.bpmem.combiners m).alphaC := by
      simp only [usesRas, AlphaCombiner.a, AlphaCombiner.b, AlphaCombiner.c, AlphaCombiner.d,
        Nat.reducePow]
      have e1 : hex2 / 8192 % 8 = (g.bpmem.combiners m).alphaC.hex / 8192 % 8 := by omega
      have e2 : hex2 / 1024 % 8 = (g.bpmem.combiners m).alphaC.hex / 1024 % 8 := by omega
      have e3 : hex2 / 128 % 8 = (g.bpmem.combiners m).alphaC.hex / 128 % 8 := by omega
      have e4 : hex2 / 16 % 8 = (g.bpmem.combiners m).alphaC.hex / 16 % 8 := by omega
      rw [e1, e2, e3, e4]
    have hkonst : usesKonst (g.bpmem.combiners m).colorC ⟨hex2⟩ =
        usesKonst (g.bpmem.combiners m).colorC (g.bpmem.combiners m).alphaC := by
      simp only [usesKonst, AlphaCombiner.a, AlphaCombiner.b, AlphaCombiner.c, AlphaCombiner.d,
        Nat.reducePow]
      have e1 : hex2 / 8192 % 8 = (g.bpmem.combiners m).alphaC.hex / 8192 % 8 := by omega
      have e2 : hex2 / 1024 % 8 = (g.bpmem.combiners m).alphaC.hex / 1024 % 8 := by omega
      have e3 : hex2 / 128 % 8 = (g.bpmem.combiners m).alphaC.hex / 128 % 8 := by omega
      have e4 : hex2 / 16 % 8 = (g.bpmem.combiners m).alphaC.hex / 16 % 8 := by omega
      rw [e1, e2, e3, e4]
    apply GetPixelShaderUid_stage_congr g.bpmem (g.withAlphaCombiner m hex2).bpmem m st
      rfl rfl rfl
    · rw [hc]
    · rw [hc]
      show hex2 &&& 0xFFFFF0 = (g.bpmem.combiners m).alphaC.hex &&& 0xFFFFF0
      rw [and_mask_eq, and_mask_eq, hhi]
    · rw [hc]; exact hras
    · rw [hc]; exact hkonst
    · intro h
      have e : ((g.withAlphaCombiner m hex2).bpmem.combiners m).alphaC.rswap =
          (g.bpmem.combiners m).alphaC.rswap := by
        rw [hc]
        simp only [AlphaCombiner.rswap]
        exact hr h
      rw [e]
      exact ⟨rfl, rfl, rfl, rfl⟩
    · intro h
      have e : ((g.withAlphaCombiner m hex2).bpmem.combiners m).alphaC.tswap =
          (g.bpmem.combiners m).alphaC.tswap := by
        rw [hc]
        simp only [AlphaCombiner.tswap, Nat.reducePow]
        exact ht h
      rw [e]
      exact ⟨rfl, rfl, rfl, rfl⟩
    · intro _
      exact ⟨rfl, rfl⟩
  · have hc : (g.withAlphaCombiner n hex2).bpmem.combiners m = g.bpmem.combiners m := by
      rw [withAlphaCombiner_combiners, if_neg hmn]
    apply GetPixelShaderUid_stage_congr g.bpmem (g.withAlphaCombiner n hex2).bpmem m st
      rfl rfl rfl
    · rw [hc]
    · rw [hc]
    · rw [hc]
    · rw [hc]
    · intro _
      rw [hc]
      exact ⟨rfl, rfl, rfl, rfl⟩
    · intro _
      rw [hc]
      exact ⟨rfl, rfl, rfl, rfl⟩
    · intro _
      exact ⟨rfl, rfl⟩

/-- The masked combiner registers stored by the body of the stage loop. -/
theorem GetPixelShaderUid_stage_cc_ac (bpmem : BPMemory) (n : Nat) (st : StageHash) :
    (GetPixelShaderUid_stage bpmem n st).cc = (bpmem.combiners n).colorC.hex &&& 0xFFFFFF ∧
    (GetPixelShaderUid_stage bpmem n st).ac = (bpmem.combiners n).alphaC.hex &&& 0xFFFFF0 := by
  have hkonst : ∀ s, (GetPixelShaderUid_stage_konst bpmem n s).cc = s.cc ∧
      (GetPixelShaderUid_stage_konst bpmem n s).ac = s.ac := by
    intro s
    unfold GetPixelShaderUid_stage_konst
    simp only []
    split <;> exact ⟨rfl, rfl⟩
  have htex : ∀ s, (GetPixelShaderUid_stage_tex bpmem n s).cc = s.cc ∧
      (GetPixelShaderUid_stage_tex bpmem n s).ac = s.ac := by
    intro s
    unfold GetPixelShaderUid_stage_tex
    simp only []
    split <;> exact ⟨rfl, rfl⟩
  have hras : ∀ s, (GetPixelShaderUid_stage_ras bpmem n s).cc = s.cc ∧
      (GetPixelShaderUid_stage_ras bpmem n s).ac = s.ac := by
    intro s
    unfold GetPixelShaderUid_stage_ras
    simp only []
    split <;> exact ⟨rfl, rfl⟩
  have hhead : ∀ s,
      (GetPixelShaderUid_stage_head bpmem n s).cc = (bpmem.combiners n).colorC.hex &&& 0xFFFFFF ∧
      (GetPixelShaderUid_stage_head bpmem n s).ac =
        (bpmem.combiners n).alphaC.hex &&& 0xFFFFF0 := by
    intro s
    exact ⟨rfl, rfl⟩
  unfold GetPixelShaderUid_stage
  exact ⟨(((hkonst _).1.trans (htex _).1).trans (hras _).1).trans (hhead _).1,
    (((hkonst _).2.trans (htex _).2).trans (hras _).2).trans (hhead _).2⟩

/-- C5, witness: snapshotStage, stage 0, whose eight operands are ZERO, with the k-select
indices replaced by 31 and 17. -/
theorem GetPixelShaderUid_kselect_minimality_witness :
    ((snapshotStage.bpmem.combiners 0).colorC.a ≠ TEVCOLORARG_KONST ∧
      (snapshotStage.bpmem.combiners 0).colorC.b ≠ TEVCOLORARG_KONST ∧
      (snapshotStage.bpmem.combiners 0).colorC.c ≠ TEVCOLORARG_KONST ∧
      (snapshotStage.bpmem.combiners 0).colorC.d ≠ TEVCOLORARG_KONST ∧
      (snapshotStage.bpmem.combiners 0).alphaC.a ≠ TEVALPHAARG_KONST ∧
      (snapshotStage.bpmem.combiners 0).alphaC.b ≠ TEVALPHAARG_KONST ∧
      (snapshotStage.bpmem.combiners 0).alphaC.c ≠ TEVALPHAARG_KONST ∧
      (snapshotStage.bpmem.combiners 0).alphaC.d ≠ TEVALPHAARG_KONST) ∧
    (GetPixelShaderUid layoutExample (snapshotStage.withStageKSel 0 31 17) =
        GetPixelShaderUid layoutExample snapshotStage ∧
      ((GetPixelShaderUid layoutExample snapshotStage).stagehash.getD 0 default).tevksel_kc = 0 ∧
      ((GetPixelShaderUid layoutExample snapshotStage).stagehash.getD 0 default).tevksel_ka
        = 0) :=
  ⟨by decide, GetPixelShaderUid_kselect_minimality layoutExample snapshotStage 0 31 17
    (by decide)⟩

/-- C6. Swap-select masking: for every stage n below numtevstages + 1 (and below the sixteen
slots) the stored stagehash[n].ac has its four low bits (rswap, tswap) equal to 0 and keeps
bits 4..23 of the alpha register, and stagehash[n].cc is the low 24 bits of the colour
register; and two snapshots that differ only in rswap of a stage with no RASC / RASA operand,
or only in tswap of a stage whose texture is disabled, give equal UIDs. -/
theorem GetPixelShaderUid_swap_masking (L : UidLayout) (g : Globals) (n hex2 : Nat) :
    (n < g.bpmem.genMode.numtevstages + 1 → n < 16 →
      ((GetPixelShaderUid L g).stagehash.getD n default).ac % 16 = 0 ∧
      ((GetPixelShaderUid L g).stagehash.getD n default).ac / 16 =
        (g.bpmem.combiners n).alphaC.hex / 16 % 2 ^ 20 ∧
      ((GetPixelShaderUid L g).stagehash.getD n default).cc =
        (g.bpmem.combiners n).colorC.hex % 2 ^ 24) ∧
    (hex2 / 4 = (g.bpmem.combiners n).alphaC.hex / 4 →
      usesRas (g.bpmem.combiners n).colorC (g.bpmem.combiners n).alphaC = false →
      GetPixelShaderUid L (g.withAlphaCombiner n hex2) = GetPixelShaderUid L g) ∧
    (hex2 % 4 = (g.bpmem.combiners n).alphaC.hex % 4 →
      hex2 / 16 = (g.bpmem.combiners n).alphaC.hex / 16 →
      (g.bpmem.tevorders (n / 2)).getEnable (n &&& 1) = false →
      GetPixelShaderUid L (g.withAlphaCombiner n hex2) = GetPixelShaderUid L g) := by
  refine ⟨?_, ?_, ?_⟩
  · intro hn h16
    rw [GetPixelShaderUid_stagehash_getD, if_pos ⟨hn, h16⟩]
    obtain ⟨hcc, hac⟩ := GetPixelShaderUid_stage_cc_ac g.bpmem n StageHash.zero
    rw [hcc, hac]
    exact ⟨and_mask_mod _, and_mask_div _, and_mask24 _⟩
  · intro h4 hras
    apply GetPixelShaderUid_withAlphaCombiner L g n hex2
    · omega
    · intro h
      rw [hras] at h
      exact Bool.noConfusion h
    · intro _
      omega
  · intro h4 h16 hen
    apply GetPixelShaderUid_withAlphaCombiner L g n hex2 h16
    · intro _
      exact h4
    · intro h
      rw [hen] at h
      exact Bool.noConfusion h

/-- C6, witness: in snapshotStage the slot of stage 1 stores ac = 0x08FFF0 and cc = 0x08FFFF,
and replacing rswap (alpha register 0x08FFFC) or tswap (alpha register 0x08FFF3) of stage 1
gives the same UID. -/
theorem GetPixelShaderUid_swap_masking_witness :
    ((GetPixelShaderUid layoutExample snapshotStage).stagehash.getD 1 default).ac = 0x08FFF0 ∧
    ((GetPixelShaderUid layoutExample snapshotStage).stagehash.getD 1 default).cc = 0x08FFFF ∧
    GetPixelShaderUid layoutExample (snapshotStage.withAlphaCombiner 1 0x08FFFC) =
      GetPixelShaderUid layoutExample snapshotStage ∧
    GetPixelShaderUid layoutExample (snapshotStage.withAlphaCombiner 1 0x08FFF3) =
      GetPixelShaderUid layoutExample snapshotStage :=
  ⟨by decide, by decide,
    (GetPixelShaderUid_swap_masking layoutExample snapshotStage 1 0x08FFFC).2.1
      (by decide) (by decide),
    (GetPixelShaderUid_swap_masking layoutExample snapshotStage 1 0x08FFF3).2.2
      (by decide) (by decide) (by decide)⟩

/-! ## Properties of the combiner emitter: regular combiner arithmetic -/

/-- The colour statement depends on the combiner register only through its bias, op, clamp,
shift and dest fields. -/
theorem WriteStage_colorCombine_congr (out : ShaderCode) (cc cc2 : ColorCombiner)
    (h1 : cc.bias = cc2.bias) (h2 : cc.op = cc2.op) (h3 : cc.clamp = cc2.clamp)
    (h4 : cc.shift = cc2.shift) (h5 : cc.dest = cc2.dest) :
    WriteStage_colorCombine out cc = WriteStage_colorCombine out cc2 := by
  unfold WriteStage_colorCombine
  rw [h1, h2, h3, h4, h5]

/-- The alpha statement depends on the combiner register only through its bias, op, clamp,
shift and dest fields. -/
theorem WriteStage_alphaCombine_congr (out : ShaderCode) (ac ac2 : AlphaCombiner)
    (h1 : ac.bias = ac2.bias) (h2 : ac.op = ac2.op) (h3 : ac.clamp = ac2.clamp)
    (h4 : ac.shift = ac2.shift) (h5 : ac.dest = ac2.dest) :
    WriteStage_alphaCombine out ac = WriteStage_alphaCombine out ac2 := by
  unfold WriteStage_alphaCombine
  rw [h1, h2, h3, h4, h5]

/-- The fields of the registers 0x080000 + k * 0x400000: bias none, op add, clamp on, shift
x1, destination k. -/
theorem regular_register_fields : ∀ k, k < 4 →
    ((⟨0x080000 + k * 0x400000⟩ : ColorCombiner).bias = 0 ∧
      (⟨0x080000 + k * 0x400000⟩ : ColorCombiner).op = 0 ∧
      (⟨0x080000 + k * 0x400000⟩ : ColorCombiner).clamp = 1 ∧
      (⟨0x080000 + k * 0x400000⟩ : ColorCombiner).shift = 0 ∧
      (⟨0x080000 + k * 0x400000⟩ : ColorCombiner).dest = k) ∧
    ((⟨0x080000 + k * 0x400000⟩ : AlphaCombiner).bias = 0 ∧
      (⟨0x080000 + k * 0x400000⟩ : AlphaCombiner).op = 0 ∧
      (⟨0x080000 + k * 0x400000⟩ : AlphaCombiner).clamp = 1 ∧
      (⟨0x080000 + k * 0x400000⟩ : AlphaCombiner).shift = 0 ∧
      (⟨0x080000 + k * 0x400000⟩ : AlphaCombiner).dest = k) := by
  decide

set_option maxRecDepth 1000000 in
/-- The colour statement emitted for bias none, op add, clamp on, shift x1 and destination k
parses as an assignment of clamp(d + ((lerp + 128) >> 8), int3(0,0,0), int3(255,255,255)) to
the rgb components of register k. -/
theorem parseAssign_colorCombine_regular : ∀ k, k < 4 →
    parseAssign (WriteStage_colorCombine ShaderCode.empty ⟨0x080000 + k * 0x400000⟩).text =
      some (ShaderExpr.swz (ShaderExpr.var (tevDest k)) [0, 1, 2],
        clampAst (regularAst [0, 1, 2] (some 128)) (int3Ast 0) (int3Ast 255)) := by
  decide

set_option maxRecDepth 1000000 in
/-- The alpha statement emitted for bias none, op add, clamp on, shift x1 and destination k
parses as an assignment of clamp(d + (lerp >> 8), 0, 255), without a rounding bias, to the a
component of register k. -/
theorem parseAssign_alphaCombine_regular : ∀ k, k < 4 →
    parseAssign (WriteStage_alphaCombine ShaderCode.empty ⟨0x080000 + k * 0x400000⟩).text =
      some (ShaderExpr.swz (ShaderExpr.var (tevDest k)) [3],
        clampAst (regularAst [3] none) (ShaderExpr.num 0) (ShaderExpr.num 255)) := by
  decide

/-- Value of the colour expression on the integers. -/
theorem evalExpr_color_regular (a b c d : int4) :
    evalExpr id (tevInputs4 a b c d)
        (clampAst (regularAst [0, 1, 2] (some 128)) (int3Ast 0) (int3Ast 255)) =
      some
        [min (max (d.r + (a.r * 2 ^ 8 + (b.r - a.r) * (c.r + c.r / 2 ^ 7) + 128) / 2 ^ 8) 0) 255,
         min (max (d.g + (a.g * 2 ^ 8 + (b.g - a.g) * (c.g + c.g / 2 ^ 7) + 128) / 2 ^ 8) 0) 255,
         min (max (d.b + (a.b * 2 ^ 8 + (b.b - a.b) * (c.b + c.b / 2 ^ 7) + 128) / 2 ^ 8) 0)
           255] := by
  simp [evalExpr, evalArgs, clampAst, regularAst, lerpAst, int3Ast, tevInputs4, tevInputs,
    int4.val, Val.swizzle, broadcast2, zipOpt, mapOpt, evalBin, applyFn, construct]

/-- Value of the alpha expression on the integers. -/
theorem evalExpr_alpha_regular (a b c d : int4) :
    evalExpr id (tevInputs4 a b c d)
        (clampAst (regularAst [3] none) (ShaderExpr.num 0) (ShaderExpr.num 255)) =
      some
        [min (max (d.a + (a.a * 2 ^ 8 + (b.a - a.a) * (c.a + c.a / 2 ^ 7)) / 2 ^ 8) 0) 255] := by
  simp [evalExpr, evalArgs, clampAst, regularAst, lerpAst, tevInputs4, tevInputs,
    int4.val, Val.swizzle, broadcast2, zipOpt, mapOpt, evalBin, applyFn]

/-- C10. Regular combiner arithmetic.  For bias none, shift x1, op add, clamp on, and all
integers a, b, c, d (in particular a, b, c in 0..255), the statements WriteStage emits around
WriteTevRegular assign, in integer arithmetic,
clamp(d + (((a<<8) + (b-a)*(c + (c>>7)) + rounding_bias) >> 8), 0, 255) to each channel, the
rounding bias being 128 on the colour path and absent on the alpha path; for a = 0, b = 255,
c = 128, d = 0 the value is exactly 128 on both paths. -/
theorem WriteStage_regular_combiner_arithmetic (cc : ColorCombiner) (ac : AlphaCombiner)
    (hcc : cc.bias = 0 ∧ cc.shift = 0 ∧ cc.op = 0 ∧ cc.clamp = 1)
    (hac : ac.bias = 0 ∧ ac.shift = 0 ∧ ac.op = 0 ∧ ac.clamp = 1)
    (a b c d : int4) :
    evalAssigned id (tevInputs4 a b c d) (WriteStage_colorCombine ShaderCode.empty cc).text =
      some
        [min (max (d.r + (a.r * 2 ^ 8 + (b.r - a.r) * (c.r + c.r / 2 ^ 7) + 128) / 2 ^ 8) 0) 255,
         min (max (d.g + (a.g * 2 ^ 8 + (b.g - a.g) * (c.g + c.g / 2 ^ 7) + 128) / 2 ^ 8) 0) 255,
         min (max (d.b + (a.b * 2 ^ 8 + (b.b - a.b) * (c.b + c.b / 2 ^ 7) + 128) / 2 ^ 8) 0)
           255] ∧
    evalAssigned id (tevInputs4 a b c d) (WriteStage_alphaCombine ShaderCode.empty ac).text =
      some
        [min (max (d.a + (a.a * 2 ^ 8 + (b.a - a.a) * (c.a + c.a / 2 ^ 7)) / 2 ^ 8) 0) 255] ∧
    evalAssigned id
        (tevInputs4 ⟨0, 0, 0, 0⟩ ⟨255, 255, 255, 255⟩ ⟨128, 128, 128, 128⟩ ⟨0, 0, 0, 0⟩)
        (WriteStage_colorCombine ShaderCode.empty cc).text = some [128, 128, 128] ∧
    evalAssigned id
        (tevInputs4 ⟨0, 0, 0, 0⟩ ⟨255, 255, 255, 255⟩ ⟨128, 128, 128, 128⟩ ⟨0, 0, 0, 0⟩)
        (WriteStage_alphaCombine ShaderCode.empty ac).text = some [128] := by
  obtain ⟨hcb, hcs, hco, hcl⟩ := hcc
  obtain ⟨hab, has, hao, hal⟩ := hac
  have hck : cc.dest < 4 := Nat.mod_lt _ (by decide)
  have hak : ac.dest < 4 := Nat.mod_lt _ (by decide)
  obtain ⟨⟨c1, c2, c3, c4, c5⟩, _⟩ := regular_register_fields cc.dest hck
  obtain ⟨_, ⟨a1, a2, a3, a4, a5⟩⟩ := regular_register_fields ac.dest hak
  have ec : WriteStage_colorCombine ShaderCode.empty cc =
      WriteStage_colorCombine ShaderCode.empty ⟨0x080000 + cc.dest * 0x400000⟩ :=
    WriteStage_colorCombine_congr _ _ _ (hcb.trans c1.symm) (hco.trans c2.symm)
      (hcl.trans c3.symm) (hcs.trans c4.symm) c5.symm
  have ea : WriteStage_alphaCombine ShaderCode.empty ac =
      WriteStage_alphaCombine ShaderCode.empty ⟨0x080000 + ac.dest * 0x400000⟩ :=
    WriteStage_alphaCombine_congr _ _ _ (hab.trans a1.symm) (hao.trans a2.symm)
      (hal.trans a3.symm) (has.trans a4.symm) a5.symm
  have hcol : ∀ a b c d : int4,
      evalAssigned id (tevInputs4 a b c d) (WriteStage_colorCombine ShaderCode.empty cc).text =
        evalExpr id (tevInputs4 a b c d)
          (clampAst (regularAst [0, 1, 2] (some 128)) (int3Ast 0) (int3Ast 255)) := by
    intro a b c d
    unfold evalAssigned
    rw [ec, parseAssign_colorCombine_regular _ hck]
  have halp : ∀ a b c d : int4,
      evalAssigned id (tevInputs4 a b c d) (WriteStage_alphaCombine ShaderCode.empty ac).text =
        evalExpr id (tevInputs4 a b c d)
          (clampAst (regularAst [3] none) (ShaderExpr.num 0) (ShaderExpr.num 255)) := by
    intro a b c d
    unfold evalAssigned
    rw [ea, parseAssign_alphaCombine_regular _ hak]
  refine ⟨?_, ?_, ?_, ?_⟩
  · rw [hcol, evalExpr_color_regular]
  · rw [halp, evalExpr_alpha_regular]
  · rw [hcol, evalExpr_color_regular]
    decide
  · rw [halp, evalExpr_alpha_regular]
    decide

set_option maxRecDepth 1000000 in
/-- C10, witness: the registers 0x080000 (destination prev) with inputs a = (10, 0, 255, 7),
b = (200, 255, 0, 9), c = (128, 128, 255, 0), d = (0, 0, -5, 300). -/
theorem WriteStage_regular_combiner_arithmetic_witness :
    ((⟨0x080000⟩ : ColorCombiner).bias = 0 ∧ (⟨0x080000⟩ : ColorCombiner).shift = 0 ∧
      (⟨0x080000⟩ : ColorCombiner).op = 0 ∧ (⟨0x080000⟩ : ColorCombiner).clamp = 1) ∧
    ((⟨0x080000⟩ : AlphaCombiner).bias = 0 ∧ (⟨0x080000⟩ : AlphaCombiner).shift = 0 ∧
      (⟨0x080000⟩ : AlphaCombiner).op = 0 ∧ (⟨0x080000⟩ : AlphaCombiner).clamp = 1) ∧
    evalAssigned id
        (tevInputs4 ⟨10, 0, 255, 7⟩ ⟨200, 255, 0, 9⟩ ⟨128, 128, 255, 0⟩ ⟨0, 0, -5, 300⟩)
        (WriteStage_colorCombine ShaderCode.empty ⟨0x080000⟩).text = some [106, 128, 0] ∧
    evalAssigned id
        (tevInputs4 ⟨10, 0, 255, 7⟩ ⟨200, 255, 0, 9⟩ ⟨128, 128, 255, 0⟩ ⟨0, 0, -5, 300⟩)
        (WriteStage_alphaCombine ShaderCode.empty ⟨0x080000⟩).text = some [255] :=
  ⟨by decide, by decide,
    ((WriteStage_regular_combiner_arithmetic ⟨0x080000⟩ ⟨0x080000⟩ (by decide) (by decide)
      ⟨10, 0, 255, 7⟩ ⟨200, 255, 0, 9⟩ ⟨128, 128, 255, 0⟩ ⟨0, 0, -5, 300⟩).1.trans (by decide)),
    ((WriteStage_regular_combiner_arithmetic ⟨0x080000⟩ ⟨0x080000⟩ (by decide) (by decide)
      ⟨10, 0, 255, 7⟩ ⟨200, 255, 0, 9⟩ ⟨128, 128, 255, 0⟩ ⟨0, 0, -5, 300⟩).2.1.trans
        (by decide))⟩

/-! ## Properties of the UID encoder: the alpha-test workaround flag -/

/-- C17, counterexample.  In snapshotLateZ the alpha-test fields are populated (the static
result is UNDETERMINED), the backend lacks early-depth-test support, depth write is enabled and
z-freeze is off, yet alpha_test_use_zcomploc_hack is clear: the early depth test is not in
use. -/
theorem GetPixelShaderUid_zcomploc_hack_claim_fails :
    snapshotLateZ.bpmem.alpha_test.TestResult = TEST_RESULT.UNDETERMINED ∧
    ¬ ((GetPixelShaderUid layoutExample snapshotLateZ).alpha_test_use_zcomploc_hack = true ↔
      (snapshotLateZ.g_ActiveConfig.backend_info.bSupportsEarlyZ = false ∧
        snapshotLateZ.bpmem.zmode.updateenable = true ∧
        snapshotLateZ.bpmem.genMode.zfreeze = false)) := by
  constructor <;> decide

/-- C17, amended.  Whenever the alpha-test fields are populated (static result UNDETERMINED,
or FAIL with the late depth test active), alpha_test_use_zcomploc_hack is set exactly when the
early depth test is in use, the backend lacks early-depth-test support, depth write
(zmode.updateenable) is enabled and z-freeze is off. -/
theorem GetPixelShaderUid_zcomploc_hack_iff (L : UidLayout) (g : Globals)
    (hpop : g.bpmem.alpha_test.TestResult = TEST_RESULT.UNDETERMINED ∨
      (g.bpmem.alpha_test.TestResult = TEST_RESULT.FAIL ∧ g.bpmem.UseLateDepthTest = true)) :
    (GetPixelShaderUid L g).alpha_test_use_zcomploc_hack = true ↔
      (g.bpmem.UseEarlyDepthTest = true ∧
        g.g_ActiveConfig.backend_info.bSupportsEarlyZ = false ∧
        g.bpmem.zmode.updateenable = true ∧
        g.bpmem.genMode.zfreeze = false) := by
  have key := GetPixelShaderUid_alpha_test_eq L g
  have hc : (g.bpmem.alpha_test.TestResult == TEST_RESULT.UNDETERMINED ||
      (g.bpmem.alpha_test.TestResult == TEST_RESULT.FAIL && g.bpmem.UseLateDepthTest)) =
      true := by
    rcases hpop with h | ⟨h1, h2⟩
    · simp [h]
    · simp [h1, h2]
  rw [if_pos hc] at key
  simp only [Prod.mk.injEq] at key
  rw [key.2.2.2]
  generalize g.bpmem.UseEarlyDepthTest = early
  generalize g.bpmem.zmode.updateenable = upd
  generalize g.g_ActiveConfig.backend_info.bSupportsEarlyZ = sup
  generalize g.bpmem.genMode.zfreeze = zf
  cases early <;> cases upd <;> cases sup <;> cases zf <;> simp

/-- C17, amended, at snapshotEarlyZWrite: the fields are populated, the four conditions hold
and the flag is set. -/
theorem GetPixelShaderUid_zcomploc_hack_iff_witness :
    (snapshotEarlyZWrite.bpmem.alpha_test.TestResult = TEST_RESULT.UNDETERMINED ∨
      (snapshotEarlyZWrite.bpmem.alpha_test.TestResult = TEST_RESULT.FAIL ∧
        snapshotEarlyZWrite.bpmem.UseLateDepthTest = true)) ∧
    ((GetPixelShaderUid layoutExample snapshotEarlyZWrite).alpha_test_use_zcomploc_hack = true ↔
      (snapshotEarlyZWrite.bpmem.UseEarlyDepthTest = true ∧
        snapshotEarlyZWrite.g_ActiveConfig.backend_info.bSupportsEarlyZ = false ∧
        snapshotEarlyZWrite.bpmem.zmode.updateenable = true ∧
        snapshotEarlyZWrite.bpmem.genMode.zfreeze = false)) ∧
    (GetPixelShaderUid layoutExample snapshotEarlyZWrite).alpha_test_use_zcomploc_hack = true :=
  ⟨Or.inl rfl,
    GetPixelShaderUid_zcomploc_hack_iff layoutExample snapshotEarlyZWrite (Or.inl rfl),
    by decide⟩

/-! ## Properties of the combiner emitter: rounding bias -/

/-- Appending to the buffer appends to its text. -/
theorem ShaderCode.Write_text (out : ShaderCode) (s : String) :
    (out.Write s).text = out.text ++ s := rfl

/-- The entry of tev_lerp_bias that WriteTevRegular selects. -/
theorem tev_lerp_bias_selected (op shift : Nat) (alpha : Bool) (hop : op < 2)
    (hshift : shift < 4) :
    tev_lerp_bias.getD (lerp_bias_index op shift alpha) "" =
      (if alpha = decide (shift = 3) then (if op = 0 then " + 128" else " + 127") else "") := by
  interval_cases op <;> interval_cases shift <;> cases alpha <;> rfl

/-- C11. For every op (add, sub) and every shift (x1, x2, x4, /2), the text WriteTevRegular
appends is the same for the colour path (alpha = false) and the alpha path (alpha = true) but
for the entry of tev_lerp_bias inserted before the shift by 8.  The two entries differ:
exactly one of them is non-empty, it is " + 128" for add and " + 127" for subtract, and it is
the alpha path that gets it when shift is divide-by-2 (3), the colour path otherwise. -/
theorem WriteTevRegular_rounding_bias_asymmetry (out : ShaderCode) (components : String)
    (bias op clamp shift : Nat) (hop : op < 2) (hshift : shift < 4) :
    (∀ alpha : Bool,
      (WriteTevRegular out components bias op clamp shift alpha).text =
        out.text ++
          ("(((tevin_d." ++ components ++ tev_bias_table.getD bias "" ++ ")" ++
            tev_scale_table_left.getD shift "" ++ ")" ++
            " " ++ tev_op_table.getD op "" ++ " " ++
            "(((((tevin_a." ++ components ++ "<<8) + (tevin_b." ++ components ++
            "-tevin_a." ++ components ++ ")*(tevin_c." ++ components ++ "+(tevin_c." ++
            components ++ ">>7)))" ++ tev_scale_table_left.getD shift "" ++ ")") ++
          tev_lerp_bias.getD (lerp_bias_index op shift alpha) "" ++
          (")>>8)" ++ ")" ++ tev_scale_table_right.getD shift "")) ∧
    (∀ alpha : Bool, lerp_bias_index op shift alpha < tev_lerp_bias.length) ∧
    tev_lerp_bias.getD (lerp_bias_index op shift false) "" ≠
      tev_lerp_bias.getD (lerp_bias_index op shift true) "" ∧
    (shift = 3 →
      tev_lerp_bias.getD (lerp_bias_index op shift false) "" = "" ∧
      tev_lerp_bias.getD (lerp_bias_index op shift true) "" =
        (if op = 0 then " + 128" else " + 127")) ∧
    (shift ≠ 3 →
      tev_lerp_bias.getD (lerp_bias_index op shift false) "" =
        (if op = 0 then " + 128" else " + 127") ∧
      tev_lerp_bias.getD (lerp_bias_index op shift true) "" = "") := by
  refine ⟨?_, ?_, ?_, ?_, ?_⟩
  · intro alpha
    unfold WriteTevRegular lerp_bias_index
    simp only [ShaderCode.Write_text, String.append_assoc]
  · intro alpha
    interval_cases op <;> interval_cases shift <;> cases alpha <;> decide
  · interval_cases op <;> interval_cases shift <;> decide
  · intro h
    subst h
    interval_cases op <;> exact ⟨rfl, rfl⟩
  · intro h
    interval_cases op <;> interval_cases shift <;>
      first | exact absurd rfl h | exact ⟨rfl, rfl⟩

/-- C11 at op = sub, shift = divide-by-2, on the colour components. -/
theorem WriteTevRegular_rounding_bias_asymmetry_witness :
    (1 < 2 ∧ 3 < 4) ∧
    (WriteTevRegular ShaderCode.empty "rgb" 0 1 0 3 false).text =
      "(((tevin_d.rgb)) - (((((tevin_a.rgb<<8) + (tevin_b.rgb-tevin_a.rgb)*(tevin_c.rgb+(tevin_c.rgb>>7)))))>>8)) >> 1" ∧
    (WriteTevRegular ShaderCode.empty "a" 0 1 0 3 true).text =
      "(((tevin_d.a)) - (((((tevin_a.a<<8) + (tevin_b.a-tevin_a.a)*(tevin_c.a+(tevin_c.a>>7)))) + 127)>>8)) >> 1" ∧
    tev_lerp_bias.getD (lerp_bias_index 1 3 false) "" ≠
      tev_lerp_bias.getD (lerp_bias_index 1 3 true) "" :=
  ⟨⟨by decide, by decide⟩, by decide, by decide,
    (WriteTevRegular_rounding_bias_asymmetry ShaderCode.empty "rgb" 0 1 0 3
      (by decide) (by decide)).2.2.1⟩

/-! ## Properties of the constant-selection tables -/

/-- C14, counterexample.  Entry 12 of the alpha k-select table is the literal 0: it is the
text of no (slot, channel) selection of the uniform constant colours; the same holds for
entries 13, 14 and 15. -/
theorem tev_ksel_table_a_entry_12_literal :
    tev_ksel_table_a.getD 12 "" = "0" ∧
    (∀ i, 12 ≤ i → i < 16 → tev_ksel_table_a.getD i "" = "0") ∧
    ¬ (∀ i, 12 ≤ i → i < 32 →
        ∃ j, j < 4 ∧ ∃ ch ∈ kselChannelsA, tev_ksel_table_a.getD i "" = kselSlot j ch) := by
  refine ⟨by decide, by decide, ?_⟩
  intro h
  have h12 := h 12 (by decide) (by decide)
  revert h12
  decide

set_option maxRecDepth 100000 in
/-- C14, amended.  Both k-select tables have 32 entries.  Entries 0..7 are the gray levels
255, 223, 191, 159, 128, 96, 64, 32 (three times in the colour table), entries 8..11 are
zero.  In the colour table every entry 12..31 selects slot (i - 12) mod 4 of the uniform
constant colours and the channels rgb, rrr, ggg, bbb, aaa in groups of four.  In the alpha
table entries 12..15 are the literal 0 and every entry 16..31 selects slot (i - 16) mod 4 and
the channel r, g, b, a in groups of four.  WriteStage loads konsttemp from the two entries
the stage selects. -/
theorem tev_ksel_tables_entries :
    tev_ksel_table_c.length = 32 ∧ tev_ksel_table_a.length = 32 ∧
    (∀ i, i < 8 →
      tev_ksel_table_c.getD i "" =
        kselGray.getD i "" ++ "," ++ kselGray.getD i "" ++ "," ++ kselGray.getD i "" ∧
      tev_ksel_table_a.getD i "" = kselGray.getD i "") ∧
    (∀ i, 8 ≤ i → i < 12 →
      tev_ksel_table_c.getD i "" = "0,0,0" ∧ tev_ksel_table_a.getD i "" = "0") ∧
    (∀ i, 12 ≤ i → i < 32 →
      (i - 12) / 4 < kselChannelsC.length ∧
      tev_ksel_table_c.getD i "" = kselSlot ((i - 12) % 4) (kselChannelsC.getD ((i - 12) / 4) "")) ∧
    (∀ i, 12 ≤ i → i < 16 → tev_ksel_table_a.getD i "" = "0") ∧
    (∀ i, 16 ≤ i → i < 32 →
      (i - 16) / 4 < kselChannelsA.length ∧
      tev_ksel_table_a.getD i "" = kselSlot ((i - 16) % 4) (kselChannelsA.getD ((i - 16) / 4) "")) ∧
    (∀ (out : ShaderCode) (stage : StageHash),
      (WriteStage_konsttemp out stage).text =
        out.text ++ ("\tkonsttemp = int4(" ++ tev_ksel_table_c.getD stage.tevksel_kc "" ++
          ", " ++ tev_ksel_table_a.getD stage.tevksel_ka "" ++ ");\n")) := by
  refine ⟨rfl, rfl, by decide, by decide, by decide, by decide, by decide, ?_⟩
  intro out stage
  rfl

/-- Bitwise and with 2^k - 1 gives a value in 0..2^k - 1, for every integer. -/
theorem land_mask_bounds (x : Int) (k : Nat) :
    0 ≤ Int.land x ((2 ^ k - 1 : Nat) : Int) ∧ Int.land x ((2 ^ k - 1 : Nat) : Int) < 2 ^ k := by
  have hpos : 0 < 2 ^ k := Nat.two_pow_pos k
  cases x with
  | ofNat m =>
    show 0 ≤ ((m &&& (2 ^ k - 1) : Nat) : Int) ∧ ((m &&& (2 ^ k - 1) : Nat) : Int) < 2 ^ k
    refine ⟨Int.ofNat_nonneg _, ?_⟩
    have h : m &&& (2 ^ k - 1) < 2 ^ k := Nat.and_lt_two_pow m (by omega)
    exact_mod_cast h
  | negSucc m =>
    show 0 ≤ ((Nat.ldiff (2 ^ k - 1) m : Nat) : Int) ∧
      ((Nat.ldiff (2 ^ k - 1) m : Nat) : Int) < 2 ^ k
    refine ⟨Int.ofNat_nonneg _, ?_⟩
    have h : Nat.ldiff (2 ^ k - 1) m < 2 ^ k := by
      apply Nat.lt_pow_two_of_testBit
      intro i hi
      rw [Nat.testBit_ldiff, Nat.testBit_two_pow_sub_one]
      have : ¬ i < k := by omega
      simp [this]
    exact_mod_cast h

/-- Bitwise and with 255 gives a value in 0..255. -/
theorem land_255_bounds (x : Int) : 0 ≤ Int.land x 255 ∧ Int.land x 255 ≤ 255 := by
  have h := land_mask_bounds x 8
  have e : ((2 ^ 8 - 1 : Nat) : Int) = 255 := by decide
  rw [e] at h
  exact ⟨h.1, by have := h.2; omega⟩

/-- Bitwise and with 255 leaves a value in 0..255 as it is. -/
theorem land_255_of_byte (x : Int) (h0 : 0 ≤ x) (h1 : x ≤ 255) : Int.land x 255 = x := by
  obtain ⟨n, rfl⟩ := Int.eq_ofNat_of_zero_le h0
  have hn : n < 256 := by omega
  show ((n &&& 255 : Nat) : Int) = (n : Int)
  have : n &&& 255 = n := by
    have e : (255 : Nat) = 2 ^ 8 - 1 := by decide
    rw [e, Nat.and_pow_two_sub_one_eq_mod]
    exact Nat.mod_eq_of_lt hn
  rw [this]

/-- Value of a binary operation, from the values of its operands. -/
theorem evalExpr_bin (w : Int → Int) (env : Var → Option Val) (o : BinOp)
    (l r : ShaderExpr) :
    evalExpr w env (ShaderExpr.bin o l r) =
      match evalExpr w env l, evalExpr w env r with
      | some x, some y => broadcast2 (evalBin w o) x y
      | _, _ => none := by
  simp only [evalExpr]

/-- Value of the mask int4(255, 255, 255, 255). -/
theorem evalExpr_mask255 (w : Int → Int) (env : Var → Option Val) :
    evalExpr w env mask255Ast = some [255, 255, 255, 255] := by
  simp [mask255Ast, evalExpr, evalArgs, applyFn, construct]

/-- A value masked with int4(255, 255, 255, 255) has four components, each in 0..255. -/
theorem evalExpr_masked_bounds (w : Int → Int) (env : Var → Option Val) (e : ShaderExpr)
    (v : Val) (h : evalExpr w env (ShaderExpr.bin BinOp.band e mask255Ast) = some v) :
    v.length = 4 ∧ ∀ z ∈ v, 0 ≤ z ∧ z ≤ 255 := by
  rw [evalExpr_bin, evalExpr_mask255] at h
  cases hx : evalExpr w env e with
  | none => simp [hx] at h
  | some x =>
    simp only [hx] at h
    have b := land_255_bounds
    match x, h with
    | [], h => simp [broadcast2, zipOpt] at h
    | [a], h =>
      simp [broadcast2, mapOpt, evalBin] at h
      subst h
      simp [b]
    | [a1, a2], h => simp [broadcast2, zipOpt] at h
    | [a1, a2, a3], h => simp [broadcast2, zipOpt] at h
    | [a1, a2, a3, a4], h =>
      simp [broadcast2, zipOpt, evalBin] at h
      subst h
      simp [b]
    | a1 :: a2 :: a3 :: a4 :: a5 :: t, h => simp [broadcast2, zipOpt] at h

/-- A four-component value whose components are bytes is left as it is by the mask. -/
theorem evalExpr_masked_of_bytes (w : Int → Int) (env : Var → Option Val) (e : ShaderExpr)
    (x : int4) (he : evalExpr w env e = some x.val)
    (hx : ∀ z ∈ x.val, 0 ≤ z ∧ z ≤ 255) :
    evalExpr w env (ShaderExpr.bin BinOp.band e mask255Ast) = some x.val := by
  rw [evalExpr_bin, evalExpr_mask255, he]
  simp only [int4.val, List.mem_cons, List.mem_singleton, forall_eq_or_imp, forall_eq,
    List.not_mem_nil, false_implies, implies_true, and_true] at hx
  obtain ⟨h1, h2, h3, h4⟩ := hx
  simp [int4.val, broadcast2, zipOpt, evalBin, land_255_of_byte, h1, h2, h3, h4]

set_option maxRecDepth 1000000 in
/-- Every entry of the two operand tables parses as an expression. -/
theorem parseExprText_operand_tables : ∀ ca, ca < 16 → ∀ aa, aa < 8 →
    (parseExprText (tev_c_input_table.getD ca "")).isSome = true ∧
    (parseExprText (tev_a_input_table.getD aa "")).isSome = true := by
  decide!

set_option maxRecDepth 1000000 in
/-- The statement that assembles tevin_a parses to the expected syntax, for every colour
selector below 16 and alpha selector below 8. -/
theorem parseAssign_operand_a : ∀ ca, ca < 16 → ∀ aa, aa < 8 →
    parseAssign ("\ttevin_a = int4(" ++ tev_c_input_table.getD ca "" ++ ", " ++
        tev_a_input_table.getD aa "" ++ ")&int4(255, 255, 255, 255);\n") =
      operandAst Var.tevin_a true (tev_c_input_table.getD ca "")
        (tev_a_input_table.getD aa "") := by
  decide!

set_option maxRecDepth 1000000 in
/-- The statement that assembles tevin_b parses to the expected syntax. -/
theorem parseAssign_operand_b : ∀ ca, ca < 16 → ∀ aa, aa < 8 →
    parseAssign ("\ttevin_b = int4(" ++ tev_c_input_table.getD ca "" ++ ", " ++
        tev_a_input_table.getD aa "" ++ ")&int4(255, 255, 255, 255);\n") =
      operandAst Var.tevin_b true (tev_c_input_table.getD ca "")
        (tev_a_input_table.getD aa "") := by
  decide!

set_option maxRecDepth 1000000 in
/-- The statement that assembles tevin_c parses to the expected syntax. -/
theorem parseAssign_operand_c : ∀ ca, ca < 16 → ∀ aa, aa < 8 →
    parseAssign ("\ttevin_c = int4(" ++ tev_c_input_table.getD ca "" ++ ", " ++
        tev_a_input_table.getD aa "" ++ ")&int4(255, 255, 255, 255);\n") =
      operandAst Var.tevin_c true (tev_c_input_table.getD ca "")
        (tev_a_input_table.getD aa "") := by
  decide!

set_option maxRecDepth 1000000 in
/-- The statement that assembles tevin_d parses to the expected syntax, without a mask. -/
theorem parseAssign_operand_d : ∀ ca, ca < 16 → ∀ aa, aa < 8 →
    parseAssign ("\ttevin_d = int4(" ++ tev_c_input_table.getD ca "" ++ ", " ++
        tev_a_input_table.getD aa "" ++ ");\n") =
      operandAst Var.tevin_d false (tev_c_input_table.getD ca "")
        (tev_a_input_table.getD aa "") := by
  decide!

/-- From the expected syntax of an operand statement to its parts. -/
theorem operandAst_parts (target : Var) (masked : Bool) (colour alpha : String)
    (hc : (parseExprText colour).isSome = true) (ha : (parseExprText alpha).isSome = true) :
    ∃ C A, parseExprText colour = some C ∧ parseExprText alpha = some A ∧
      operandAst target masked colour alpha =
        some (ShaderExpr.var target,
          if masked then ShaderExpr.bin BinOp.band (int4OfAst C A) mask255Ast
          else int4OfAst C A) := by
  obtain ⟨C, hC⟩ := Option.isSome_iff_exists.mp hc
  obtain ⟨A, hA⟩ := Option.isSome_iff_exists.mp ha
  exact ⟨C, A, hC, hA, by simp [operandAst, hC, hA]⟩

set_option maxRecDepth 1000000 in
/-- C13. Operand assembly.  The colour-input table has 16 entries and the alpha-input table
8, and every 4-bit colour selector and 3-bit alpha selector of a stage is in bounds.
WriteStage appends four statements: tevin_a, tevin_b and tevin_c are assigned
int4(colour entry cc.x, alpha entry ac.x) & int4(255, 255, 255, 255), tevin_d is assigned
int4(colour entry cc.d, alpha entry ac.d) without a mask.  Each statement parses to that
syntax, and a value masked in this way has four components, each in 0..255; with prev =
(300, 255, 256, 77) and selectors 0 the value of tevin_a is (44, 255, 0, 77) and that of
tevin_d is (300, 255, 256, 77). -/
theorem WriteStage_inputs_operand_assembly (out : ShaderCode) (cc : ColorCombiner)
    (ac : AlphaCombiner) :
    tev_c_input_table.length = 16 ∧ tev_a_input_table.length = 8 ∧
    (cc.a < tev_c_input_table.length ∧ cc.b < tev_c_input_table.length ∧
      cc.c < tev_c_input_table.length ∧ cc.d < tev_c_input_table.length) ∧
    (ac.a < tev_a_input_table.length ∧ ac.b < tev_a_input_table.length ∧
      ac.c < tev_a_input_table.length ∧ ac.d < tev_a_input_table.length) ∧
    (WriteStage_inputs out cc ac).text =
      out.text ++
        ("\ttevin_a = int4(" ++ tev_c_input_table.getD cc.a "" ++ ", " ++
          tev_a_input_table.getD ac.a "" ++ ")&int4(255, 255, 255, 255);\n") ++
        ("\ttevin_b = int4(" ++ tev_c_input_table.getD cc.b "" ++ ", " ++
          tev_a_input_table.getD ac.b "" ++ ")&int4(255, 255, 255, 255);\n") ++
        ("\ttevin_c = int4(" ++ tev_c_input_table.getD cc.c "" ++ ", " ++
          tev_a_input_table.getD ac.c "" ++ ")&int4(255, 255, 255, 255);\n") ++
        ("\ttevin_d = int4(" ++ tev_c_input_table.getD cc.d "" ++ ", " ++
          tev_a_input_table.getD ac.d "" ++ ");\n") ∧
    (∃ C A, parseExprText (tev_c_input_table.getD cc.a "") = some C ∧
      parseExprText (tev_a_input_table.getD ac.a "") = some A ∧
      parseAssign ("\ttevin_a = int4(" ++ tev_c_input_table.getD cc.a "" ++ ", " ++
          tev_a_input_table.getD ac.a "" ++ ")&int4(255, 255, 255, 255);\n") =
        some (ShaderExpr.var Var.tevin_a,
          ShaderExpr.bin BinOp.band (int4OfAst C A) mask255Ast)) ∧
    (∃ C A, parseExprText (tev_c_input_table.getD cc.b "") = some C ∧
      parseExprText (tev_a_input_table.getD ac.b "") = some A ∧
      parseAssign ("\ttevin_b = int4(" ++ tev_c_input_table.getD cc.b "" ++ ", " ++
          tev_a_input_table.getD ac.b "" ++ ")&int4(255, 255, 255, 255);\n") =
        some (ShaderExpr.var Var.tevin_b,
          ShaderExpr.bin BinOp.band (int4OfAst C A) mask255Ast)) ∧
    (∃ C A, parseExprText (tev_c_input_table.getD cc.c "") = some C ∧
      parseExprText (tev_a_input_table.getD ac.c "") = some A ∧
      parseAssign ("\ttevin_c = int4(" ++ tev_c_input_table.getD cc.c "" ++ ", " ++
          tev_a_input_table.getD ac.c "" ++ ")&int4(255, 255, 255, 255);\n") =
        some (ShaderExpr.var Var.tevin_c,
          ShaderExpr.bin BinOp.band (int4OfAst C A) mask255Ast)) ∧
    (∃ C A, parseExprText (tev_c_input_table.getD cc.d "") = some C ∧
      parseExprText (tev_a_input_table.getD ac.d "") = some A ∧
      parseAssign ("\ttevin_d = int4(" ++ tev_c_input_table.getD cc.d "" ++ ", " ++
          tev_a_input_table.getD ac.d "" ++ ");\n") =
        some (ShaderExpr.var Var.tevin_d, int4OfAst C A)) ∧
    (∀ (w : Int → Int) (env : Var → Option Val) (e : ShaderExpr) (v : Val),
      evalExpr w env (ShaderExpr.bin BinOp.band e mask255Ast) = some v →
        v.length = 4 ∧ ∀ z ∈ v, 0 ≤ z ∧ z ≤ 255) ∧
    evalAssigned id (fun v => if v = Var.prev then some [300, 255, 256, 77] else none)
        ("\ttevin_a = int4(" ++ tev_c_input_table.getD 0 "" ++ ", " ++
          tev_a_input_table.getD 0 "" ++ ")&int4(255, 255, 255, 255);\n") =
      some [44, 255, 0, 77] ∧
    evalAssigned id (fun v => if v = Var.prev then some [300, 255, 256, 77] else none)
        ("\ttevin_d = int4(" ++ tev_c_input_table.getD 0 "" ++ ", " ++
          tev_a_input_table.getD 0 "" ++ ");\n") =
      some [300, 255, 256, 77] := by
  have hca : cc.a < 16 := Nat.mod_lt _ (by decide)
  have hcb : cc.b < 16 := Nat.mod_lt _ (by decide)
  have hcc : cc.c < 16 := Nat.mod_lt _ (by decide)
  have hcd : cc.d < 16 := Nat.mod_lt _ (by decide)
  have haa : ac.a < 8 := Nat.mod_lt _ (by decide)
  have hab : ac.b < 8 := Nat.mod_lt _ (by decide)
  have hac : ac.c < 8 := Nat.mod_lt _ (by decide)
  have had : ac.d < 8 := Nat.mod_lt _ (by decide)
  refine ⟨rfl, rfl, ⟨hca, hcb, hcc, hcd⟩, ⟨haa, hab, hac, had⟩, ?_, ?_, ?_, ?_, ?_, ?_, ?_, ?_⟩
  · simp only [WriteStage_inputs, ShaderCode.Write_text, String.append_assoc]
  · obtain ⟨C, A, h1, h2, h3⟩ := operandAst_parts Var.tevin_a true _ _
      (parseExprText_operand_tables _ hca _ haa).1 (parseExprText_operand_tables _ hca _ haa).2
    exact ⟨C, A, h1, h2, (parseAssign_operand_a _ hca _ haa).trans h3⟩
  · obtain ⟨C, A, h1, h2, h3⟩ := operandAst_parts Var.tevin_b true _ _
      (parseExprText_operand_tables _ hcb _ hab).1 (parseExprText_operand_tables _ hcb _ hab).2
    exact ⟨C, A, h1, h2, (parseAssign_operand_b _ hcb _ hab).trans h3⟩
  · obtain ⟨C, A, h1, h2, h3⟩ := operandAst_parts Var.tevin_c true _ _
      (parseExprText_operand_tables _ hcc _ hac).1 (parseExprText_operand_tables _ hcc _ hac).2
    exact ⟨C, A, h1, h2, (parseAssign_operand_c _ hcc _ hac).trans h3⟩
  · obtain ⟨C, A, h1, h2, h3⟩ := operandAst_parts Var.tevin_d false _ _
      (parseExprText_operand_tables _ hcd _ had).1 (parseExprText_operand_tables _ hcd _ had).2
    exact ⟨C, A, h1, h2, (parseAssign_operand_d _ hcd _ had).trans h3⟩
  · exact evalExpr_masked_bounds
  · decide
  · decide

/-! ## Properties of the combiner emitter: compare mode -/

/-- The fields of the compare-mode registers. -/
theorem compareRegister_fields : ∀ dest shift : Fin 4, ∀ op clamp : Fin 2,
    ((⟨compareRegister dest shift op clamp⟩ : ColorCombiner).bias = 3 ∧
      (⟨compareRegister dest shift op clamp⟩ : ColorCombiner).op = op ∧
      (⟨compareRegister dest shift op clamp⟩ : ColorCombiner).clamp = clamp ∧
      (⟨compareRegister dest shift op clamp⟩ : ColorCombiner).shift = shift ∧
      (⟨compareRegister dest shift op clamp⟩ : ColorCombiner).dest = dest) ∧
    ((⟨compareRegister dest shift op clamp⟩ : AlphaCombiner).bias = 3 ∧
      (⟨compareRegister dest shift op clamp⟩ : AlphaCombiner).op = op ∧
      (⟨compareRegister dest shift op clamp⟩ : AlphaCombiner).clamp = clamp ∧
      (⟨compareRegister dest shift op clamp⟩ : AlphaCombiner).shift = shift ∧
      (⟨compareRegister dest shift op clamp⟩ : AlphaCombiner).dest = dest) := by
  decide!

set_option maxRecDepth 1000000 in
/-- Every entry of the two compare tables parses to its expected syntax. -/
theorem parseExprText_function_tables : ∀ mode, mode < 8 →
    parseExprText (color_function_table.getD mode "") = some (colorCompareAst mode) ∧
    parseExprText (alpha_function_table.getD mode "") = some (alphaCompareAst mode) := by
  decide!

set_option maxRecDepth 1000000 in
/-- The colour statement of a compare-mode stage parses as an assignment of
clamp(tevin_d.rgb + f, lo, hi) to the rgb components of the destination register. -/
theorem parseAssign_colorCombine_compare : ∀ dest shift : Fin 4, ∀ op clamp : Fin 2,
    parseAssign
        (WriteStage_colorCombine ShaderCode.empty ⟨compareRegister dest shift op clamp⟩).text =
      some (ShaderExpr.swz (ShaderExpr.var (tevDest dest)) [0, 1, 2],
        clampAst
          (ShaderExpr.bin BinOp.add (ShaderExpr.swz (ShaderExpr.var Var.tevin_d) [0, 1, 2])
            (colorCompareAst ((shift.val <<< 1) ||| op.val)))
          (int3OfAst (clampLoAst clamp)) (int3OfAst (clampHiAst clamp))) := by
  decide!

set_option maxRecDepth 1000000 in
/-- The alpha statement of a compare-mode stage parses as an assignment of
clamp(tevin_d.a + f, lo, hi) to the a component of the destination register. -/
theorem parseAssign_alphaCombine_compare : ∀ dest shift : Fin 4, ∀ op clamp : Fin 2,
    parseAssign
        (WriteStage_alphaCombine ShaderCode.empty ⟨compareRegister dest shift op clamp⟩).text =
      some (ShaderExpr.swz (ShaderExpr.var (tevDest dest)) [3],
        clampAst
          (ShaderExpr.bin BinOp.add (ShaderExpr.swz (ShaderExpr.var Var.tevin_d) [3])
            (alphaCompareAst ((shift.val <<< 1) ||| op.val)))
          (clampLoAst clamp) (clampHiAst clamp)) := by
  decide!

/-- Value of the test of a compare entry below 6 (and of the alpha entries 6 and 7). -/
theorem evalExpr_compareTest (a b c d : int4) (mode : Nat) (hm : mode < 8) :
    evalExpr id (compareInputs a b c d) (compareTestAst mode) =
      some [boolInt (match mode / 2 with
        | 0 => compareHolds mode a.r b.r
        | 1 => compareHolds mode (a.r + 256 * a.g) (b.r + 256 * b.g)
        | 2 => compareHolds mode (a.r + 256 * a.g + 65536 * a.b)
            (b.r + 256 * b.g + 65536 * b.b)
        | _ => compareHolds mode a.a b.a)] := by
  have e16 : ∀ v : int4, v.r + v.g * 256 = v.r + 256 * v.g := by
    intro v; ring
  have e24 : ∀ v : int4, v.r + (v.g * 256 + v.b * 65536) = v.r + 256 * v.g + 65536 * v.b := by
    intro v; ring
  interval_cases mode <;>
    simp [compareTestAst, compareOp, idotAst, evalExpr, evalArgs, compareInputs, int4.val,
      Val.swizzle, broadcast2, zipOpt, mapOpt, evalBin, applyFn, comp16, comp24,
      compareHolds, List.sum_cons] <;>
    first | rw [e16 a, e16 b] | rw [e24 a, e24 b]

/-- Value of a conditional whose test evaluates to a truth value. -/
theorem evalExpr_cond_of (w : Int → Int) (env : Var → Option Val) (c x y : ShaderExpr)
    (t : Bool) (h : evalExpr w env c = some [boolInt t]) :
    evalExpr w env (ShaderExpr.cond c x y) =
      if t then evalExpr w env x else evalExpr w env y := by
  simp only [evalExpr, h]
  cases t <;> simp [boolInt]

/-- The sign-based greater-than gate of colour entry 6. -/
theorem sign_gate_gt (x y z : Int) :
    max (Int.sign (x - y)) 0 * z = gated (decide (y < x)) z := by
  rcases lt_trichotomy y x with h | h | h
  · have : Int.sign (x - y) = 1 := Int.sign_eq_one_of_pos (by omega)
    simp [this, gated, h]
  · subst h
    simp [gated]
  · have : Int.sign (x - y) = -1 := Int.sign_eq_neg_one_of_neg (by omega)
    have hn : ¬ y < x := by omega
    simp [this, gated, hn]

/-- The sign-based equality gate of colour entry 7. -/
theorem sign_gate_eq (x y z : Int) :
    (1 - Int.sign |x - y|) * z = gated (decide (x = y)) z := by
  by_cases h : x = y
  · subst h
    simp [gated]
  · have hp : 0 < |x - y| := abs_pos.mpr (by omega)
    have : Int.sign |x - y| = 1 := Int.sign_eq_one_of_pos hp
    simp [this, gated, h]

/-- Value of entry mode of the colour function_table. -/
theorem evalExpr_colorCompare (a b c d : int4) (mode : Nat) (hm : mode < 8) :
    evalExpr id (compareInputs a b c d) (colorCompareAst mode) =
      some (compareColor mode a b c) := by
  by_cases h6 : mode = 6
  · subst h6
    simp [colorCompareAst, diffRgbAst, int3OfAst, evalExpr, evalArgs, compareInputs, int4.val,
      Val.swizzle, broadcast2, zipOpt, mapOpt, evalBin, applyFn, construct, compareColor,
      compareHolds, sign_gate_gt]
  by_cases h7 : mode = 7
  · subst h7
    simp [colorCompareAst, diffRgbAst, int3OfAst, evalExpr, evalArgs, compareInputs, int4.val,
      Val.swizzle, broadcast2, zipOpt, mapOpt, evalBin, applyFn, construct, compareColor,
      compareHolds, sign_gate_eq]
  have hast : colorCompareAst mode =
      ShaderExpr.cond (compareTestAst mode)
        (ShaderExpr.swz (ShaderExpr.var Var.tevin_c) [0, 1, 2])
        (int3OfAst (ShaderExpr.num 0)) := by
    simp [colorCompareAst, h6, h7]
  rw [hast, evalExpr_cond_of _ _ _ _ _ _ (evalExpr_compareTest a b c d mode hm)]
  have hm6 : mode < 6 := by omega
  interval_cases mode <;>
    simp only [compareColor, Nat.reduceDiv] <;>
    split <;>
    simp_all [int3OfAst, evalExpr, evalArgs, compareInputs, int4.val, Val.swizzle, applyFn,
      construct, gated]

/-- Value of entry mode of the alpha function_table. -/
theorem evalExpr_alphaCompare (a b c d : int4) (mode : Nat) (hm : mode < 8) :
    evalExpr id (compareInputs a b c d) (alphaCompareAst mode) =
      some [compareAlpha mode a b c] := by
  rw [alphaCompareAst, evalExpr_cond_of _ _ _ _ _ _ (evalExpr_compareTest a b c d mode hm)]
  interval_cases mode <;>
    simp only [compareAlpha, Nat.reduceDiv] <;>
    split <;>
    simp_all [evalExpr, compareInputs, int4.val, Val.swizzle, gated]

/-- Every entry of the colour function_table yields three components. -/
theorem compareColor_components (mode : Nat) (a b c : int4) :
    ∃ f0 f1 f2, compareColor mode a b c = [f0, f1, f2] := by
  unfold compareColor
  split <;> exact ⟨_, _, _, rfl⟩

/-- Value of clamp(tevin_d.rgb + f, lo, hi) with the bounds of the colour statement. -/
theorem evalExpr_clamp_color (a b c d : int4) (F : ShaderExpr) (f0 f1 f2 : Int)
    (hF : evalExpr id (compareInputs a b c d) F = some [f0, f1, f2]) (clamp : Nat) :
    evalExpr id (compareInputs a b c d)
        (clampAst
          (ShaderExpr.bin BinOp.add (ShaderExpr.swz (ShaderExpr.var Var.tevin_d) [0, 1, 2]) F)
          (int3OfAst (clampLoAst clamp)) (int3OfAst (clampHiAst clamp))) =
      some (List.zipWith
        (fun x f => min (max (x + f) (clampRange clamp).1) (clampRange clamp).2)
        [d.r, d.g, d.b] [f0, f1, f2]) := by
  by_cases h : clamp = 0 <;>
    simp [h, clampAst, int3OfAst, clampLoAst, clampHiAst, clampRange, evalExpr, evalArgs, hF,
      compareInputs, int4.val, Val.swizzle, broadcast2, zipOpt, mapOpt, evalBin, evalUn,
      applyFn, construct]

/-- Value of clamp(tevin_d.a + f, lo, hi) with the bounds of the alpha statement. -/
theorem evalExpr_clamp_alpha (a b c d : int4) (F : ShaderExpr) (f : Int)
    (hF : evalExpr id (compareInputs a b c d) F = some [f]) (clamp : Nat) :
    evalExpr id (compareInputs a b c d)
        (clampAst
          (ShaderExpr.bin BinOp.add (ShaderExpr.swz (ShaderExpr.var Var.tevin_d) [3]) F)
          (clampLoAst clamp) (clampHiAst clamp)) =
      some [min (max (d.a + f) (clampRange clamp).1) (clampRange clamp).2] := by
  by_cases h : clamp = 0 <;>
    simp [h, clampAst, clampLoAst, clampHiAst, clampRange, evalExpr, evalArgs, hF,
      compareInputs, int4.val, Val.swizzle, broadcast2, zipOpt, mapOpt, evalBin, evalUn,
      applyFn]

/-- The compare index (shift << 1) | op of a combiner register is below 8. -/
theorem compare_index_lt (shift op : Nat) (hs : shift < 4) (ho : op < 2) :
    (shift <<< 1) ||| op < 8 := by
  interval_cases shift <;> interval_cases op <;> decide

set_option maxRecDepth 1000000 in
/-- C12. Compare mode.  For every stage whose colour (resp. alpha) bias field is COMPARE,
the index (shift << 1) | op is below 8, the length of the compare-function table; the
statement WriteStage emits assigns clamp(tevin_d + f, lo, hi) to the destination register,
f being the table entry of that index; on the integers f is tevin_c when the entry's
greater-than (even entry) or equal (odd entry) test on tevin_a, tevin_b holds and 0
otherwise, and (lo, hi) is (0, 255) when the clamp flag is set and (-1024, 1023)
otherwise.  With a = (0, 0, 1, 7), b = (255, 255, 0, 7), c = (10, 20, 30, 40),
d = (250, 0, -5, 2000) the 24-bit greater-than entry with clamp gives (255, 20, 25) and the
alpha equality entry without clamp gives 1023. -/
theorem WriteStage_compare_mode (cc : ColorCombiner) (ac : AlphaCombiner) (a b c d : int4) :
    (cc.bias = TEVBIAS_COMPARE →
      (cc.shift <<< 1) ||| cc.op < color_function_table.length ∧
      parseExprText (color_function_table.getD ((cc.shift <<< 1) ||| cc.op) "") =
        some (colorCompareAst ((cc.shift <<< 1) ||| cc.op)) ∧
      parseAssign (WriteStage_colorCombine ShaderCode.empty cc).text =
        some (ShaderExpr.swz (ShaderExpr.var (tevDest cc.dest)) [0, 1, 2],
          clampAst
            (ShaderExpr.bin BinOp.add (ShaderExpr.swz (ShaderExpr.var Var.tevin_d) [0, 1, 2])
              (colorCompareAst ((cc.shift <<< 1) ||| cc.op)))
            (int3OfAst (clampLoAst cc.clamp)) (int3OfAst (clampHiAst cc.clamp))) ∧
      evalExpr id (compareInputs a b c d) (colorCompareAst ((cc.shift <<< 1) ||| cc.op)) =
        some (compareColor ((cc.shift <<< 1) ||| cc.op) a b c) ∧
      evalAssigned id (compareInputs a b c d)
          (WriteStage_colorCombine ShaderCode.empty cc).text =
        some (List.zipWith
          (fun x f => min (max (x + f) (clampRange cc.clamp).1) (clampRange cc.clamp).2)
          [d.r, d.g, d.b] (compareColor ((cc.shift <<< 1) ||| cc.op) a b c))) ∧
    (ac.bias = TEVBIAS_COMPARE →
      (ac.shift <<< 1) ||| ac.op < alpha_function_table.length ∧
      parseExprText (alpha_function_table.getD ((ac.shift <<< 1) ||| ac.op) "") =
        some (alphaCompareAst ((ac.shift <<< 1) ||| ac.op)) ∧
      parseAssign (WriteStage_alphaCombine ShaderCode.empty ac).text =
        some (ShaderExpr.swz (ShaderExpr.var (tevDest ac.dest)) [3],
          clampAst
            (ShaderExpr.bin BinOp.add (ShaderExpr.swz (ShaderExpr.var Var.tevin_d) [3])
              (alphaCompareAst ((ac.shift <<< 1) ||| ac.op)))
            (clampLoAst ac.clamp) (clampHiAst ac.clamp)) ∧
      evalExpr id (compareInputs a b c d) (alphaCompareAst ((ac.shift <<< 1) ||| ac.op)) =
        some [compareAlpha ((ac.shift <<< 1) ||| ac.op) a b c] ∧
      evalAssigned id (compareInputs a b c d)
          (WriteStage_alphaCombine ShaderCode.empty ac).text =
        some [min (max (d.a + compareAlpha ((ac.shift <<< 1) ||| ac.op) a b c)
          (clampRange ac.clamp).1) (clampRange ac.clamp).2]) ∧
    clampRange 1 = (0, 255) ∧ clampRange 0 = (-1024, 1023) ∧
    evalAssigned id
        (compareInputs ⟨0, 0, 1, 7⟩ ⟨255, 255, 0, 7⟩ ⟨10, 20, 30, 40⟩ ⟨250, 0, -5, 2000⟩)
        (WriteStage_colorCombine ShaderCode.empty ⟨compareRegister 0 2 0 1⟩).text =
      some [255, 20, 25] ∧
    evalAssigned id
        (compareInputs ⟨0, 0, 1, 7⟩ ⟨255, 255, 0, 7⟩ ⟨10, 20, 30, 40⟩ ⟨250, 0, -5, 2000⟩)
        (WriteStage_alphaCombine ShaderCode.empty ⟨compareRegister 0 3 1 0⟩).text =
      some [1023] := by
  refine ⟨?_, ?_, rfl, rfl, by decide, by decide⟩
  · intro hb
    have hd : cc.dest < 4 := Nat.mod_lt _ (by decide)
    have hs : cc.shift < 4 := Nat.mod_lt _ (by decide)
    have ho : cc.op < 2 := Nat.mod_lt _ (by decide)
    have hc : cc.clamp < 2 := Nat.mod_lt _ (by decide)
    have hm := compare_index_lt cc.shift cc.op hs ho
    obtain ⟨⟨c1, c2, c3, c4, c5⟩, _⟩ :=
      compareRegister_fields ⟨cc.dest, hd⟩ ⟨cc.shift, hs⟩ ⟨cc.op, ho⟩ ⟨cc.clamp, hc⟩
    have ec : WriteStage_colorCombine ShaderCode.empty cc =
        WriteStage_colorCombine ShaderCode.empty
          ⟨compareRegister cc.dest cc.shift cc.op cc.clamp⟩ :=
      WriteStage_colorCombine_congr _ _ _ (hb.trans c1.symm) c2.symm c3.symm c4.symm c5.symm
    have hp := parseAssign_colorCombine_compare ⟨cc.dest, hd⟩ ⟨cc.shift, hs⟩ ⟨cc.op, ho⟩
      ⟨cc.clamp, hc⟩
    have hv := evalExpr_colorCompare a b c d _ hm
    refine ⟨hm, (parseExprText_function_tables _ hm).1, ?_, hv, ?_⟩
    · rw [ec]
      exact hp
    · unfold evalAssigned
      rw [ec, hp]
      obtain ⟨f0, f1, f2, hf⟩ := compareColor_components ((cc.shift <<< 1) ||| cc.op) a b c
      rw [hf] at hv ⊢
      exact evalExpr_clamp_color a b c d _ f0 f1 f2 hv cc.clamp
  · intro hb
    have hd : ac.dest < 4 := Nat.mod_lt _ (by decide)
    have hs : ac.shift < 4 := Nat.mod_lt _ (by decide)
    have ho : ac.op < 2 := Nat.mod_lt _ (by decide)
    have hc : ac.clamp < 2 := Nat.mod_lt _ (by decide)
    have hm := compare_index_lt ac.shift ac.op hs ho
    obtain ⟨_, ⟨c1, c2, c3, c4, c5⟩⟩ :=
      compareRegister_fields ⟨ac.dest, hd⟩ ⟨ac.shift, hs⟩ ⟨ac.op, ho⟩ ⟨ac.clamp, hc⟩
    have ec : WriteStage_alphaCombine ShaderCode.empty ac =
        WriteStage_alphaCombine ShaderCode.empty
          ⟨compareRegister ac.dest ac.shift ac.op ac.clamp⟩ :=
      WriteStage_alphaCombine_congr _ _ _ (hb.trans c1.symm) c2.symm c3.symm c4.symm c5.symm
    have hp := parseAssign_alphaCombine_compare ⟨ac.dest, hd⟩ ⟨ac.shift, hs⟩ ⟨ac.op, ho⟩
      ⟨ac.clamp, hc⟩
    have hv := evalExpr_alphaCompare a b c d _ hm
    refine ⟨hm, (parseExprText_function_tables _ hm).2, ?_, hv, ?_⟩
    · rw [ec]
      exact hp
    · unfold evalAssigned
      rw [ec, hp]
      exact evalExpr_clamp_alpha a b c d _ _ hv ac.clamp

/-! ## Properties of the fog emitter -/

/-- Marking constants as used leaves the text as it is. -/
theorem ShaderCode.SetConstantsUsed_text (out : ShaderCode) (i j : Nat) :
    (out.SetConstantsUsed i j).text = out.text := rfl

/-- Appending to the text leaves the constants marked as they are. -/
theorem ShaderCode.Write_constants_used (out : ShaderCode) (s : String) :
    (out.Write s).constants_used = out.constants_used := rfl

/-- Marking constants as used appends the range to the record. -/
theorem ShaderCode.SetConstantsUsed_constants_used (out : ShaderCode) (i j : Nat) :
    (out.SetConstantsUsed i j).constants_used = out.constants_used ++ [(i, j)] := rfl

/-- WriteFog for a selector other than 0: the text appended. -/
theorem WriteFog_text (out : ShaderCode) (u : pixel_shader_uid_data) (h : u.fog_fsel ≠ 0) :
    (WriteFog out u).text =
      out.text ++ fogDistanceText u ++ fogRampText ++
        (if u.fog_fsel > 3 then tev_fog_funcs_table.getD u.fog_fsel "" else "") ++
        fogBlendText := by
  have h0 : (u.fog_fsel == 0) = false := by simpa using h
  simp only [WriteFog, h0, Bool.false_eq_true, if_false, fogRampText, fogBlendText,
    fogDistanceText]
  cases u.fog_proj == 0 <;> cases u.fog_RangeBaseEnabled <;>
    by_cases h3 : u.fog_fsel > 3 <;>
    simp only [h3, if_true, if_false, Bool.false_eq_true, ShaderCode.Write_text,
      ShaderCode.SetConstantsUsed_text, String.append_assoc, String.append_empty,
      String.empty_append]

/-- WriteFog for a selector other than 0: the constants marked. -/
theorem WriteFog_constants_used (out : ShaderCode) (u : pixel_shader_uid_data)
    (h : u.fog_fsel ≠ 0) :
    (WriteFog out u).constants_used = out.constants_used ++ fogConstants u := by
  have h0 : (u.fog_fsel == 0) = false := by simpa using h
  simp only [WriteFog, h0, Bool.false_eq_true, if_false, fogConstants]
  cases u.fog_proj == 0 <;> cases u.fog_RangeBaseEnabled <;>
    by_cases h3 : u.fog_fsel > 3 <;>
    simp only [h3, if_true, if_false, Bool.false_eq_true, ShaderCode.Write_constants_used,
      ShaderCode.SetConstantsUsed_constants_used, List.append_assoc, List.append_nil,
      List.cons_append, List.nil_append]

/-- Two buffers with the same text and the same record of constants are equal. -/
theorem ShaderCode.eq_of (a b : ShaderCode) (h1 : a.text = b.text)
    (h2 : a.constants_used = b.constants_used) : a = b := by
  cases a
  cases b
  simp_all

set_option maxRecDepth 100000 in
/-- C19, counterexample.  For the UIDs with fog selector 1 and 3 (every other member zero)
WriteFog, started on an empty buffer, emits text and marks constants as used; the text ends
with the statements that blend prev.rgb toward the fog colour. -/
theorem WriteFog_selectors_1_3_emit :
    (WriteFog ShaderCode.empty (uidFog 1)).text ≠ "" ∧
    (WriteFog ShaderCode.empty (uidFog 1)).constants_used ≠ [] ∧
    (WriteFog ShaderCode.empty (uidFog 3)).text ≠ "" ∧
    (WriteFog ShaderCode.empty (uidFog 3)).constants_used ≠ [] ∧
    (WriteFog ShaderCode.empty (uidFog 1)).text =
      fogDistanceText (uidFog 1) ++ fogRampText ++ fogBlendText := by
  decide

/-- C19, amended.  Fog selector 0 means fog disabled: for every UID whose fog_fsel is 0
WriteFog emits no text and marks no constants used.  For fog_fsel 1 or 3 WriteFog appends the
distance statements, the linear ramp and the blend of prev.rgb toward the fog colour, and
marks the fog constants used. -/
theorem WriteFog_selector_zero_disabled (out : ShaderCode) (u : pixel_shader_uid_data) :
    (u.fog_fsel = 0 → WriteFog out u = out) ∧
    (u.fog_fsel = 1 ∨ u.fog_fsel = 3 →
      (WriteFog out u).text =
        out.text ++ fogDistanceText u ++ fogRampText ++ fogBlendText ∧
      (WriteFog out u).constants_used = out.constants_used ++ fogConstants u ∧
      fogBlendText ≠ "" ∧ fogConstants u ≠ []) := by
  constructor
  · intro h
    simp [WriteFog, h]
  · intro h
    have hne : u.fog_fsel ≠ 0 := by omega
    have h3 : ¬ u.fog_fsel > 3 := by omega
    refine ⟨?_, WriteFog_constants_used out u hne, by decide, by simp [fogConstants]⟩
    rw [WriteFog_text out u hne, if_neg h3, String.append_empty]

/-- C20. Unrecognized fog selectors do not abort generation and apply no additional curve:
for fog_fsel 1 or 3 WriteFog gives exactly the result it gives for the linear selector 2
(same text, same constants); for fog_fsel in 4..7 the text is the text of the linear
selector with entry fog_fsel of tev_fog_funcs_table, which is not empty, inserted between
the ramp and the blend, and the constants are those of the linear selector. -/
theorem WriteFog_unrecognized_selectors (out : ShaderCode) (u : pixel_shader_uid_data) :
    (u.fog_fsel = 1 ∨ u.fog_fsel = 3 →
      WriteFog out u = WriteFog out { u with fog_fsel := 2 }) ∧
    (WriteFog out { u with fog_fsel := 2 }).text =
      out.text ++ fogDistanceText u ++ fogRampText ++ fogBlendText ∧
    (4 ≤ u.fog_fsel ∧ u.fog_fsel ≤ 7 →
      (WriteFog out u).text =
        out.text ++ fogDistanceText u ++ fogRampText ++
          tev_fog_funcs_table.getD u.fog_fsel "" ++ fogBlendText ∧
      tev_fog_funcs_table.getD u.fog_fsel "" ≠ "" ∧
      (WriteFog out u).constants_used =
        (WriteFog out { u with fog_fsel := 2 }).constants_used) ∧
    (∀ i, i < 4 → tev_fog_funcs_table.getD i "" = "") := by
  have h2 : ({ u with fog_fsel := 2 } : pixel_shader_uid_data).fog_fsel ≠ 0 := by
    show (2 : Nat) ≠ 0
    decide
  have h23 : ¬ ({ u with fog_fsel := 2 } : pixel_shader_uid_data).fog_fsel > 3 := by
    show ¬ (2 : Nat) > 3
    decide
  have t2 := WriteFog_text out { u with fog_fsel := 2 } h2
  have c2 := WriteFog_constants_used out { u with fog_fsel := 2 } h2
  have hlin : (WriteFog out { u with fog_fsel := 2 }).text =
      out.text ++ fogDistanceText u ++ fogRampText ++ fogBlendText := by
    rw [t2, if_neg h23, String.append_empty]
    rfl
  have hcon : (WriteFog out { u with fog_fsel := 2 }).constants_used =
      out.constants_used ++ fogConstants u := c2
  refine ⟨?_, hlin, ?_, by decide⟩
  · intro h
    have hne : u.fog_fsel ≠ 0 := by omega
    have h3 : ¬ u.fog_fsel > 3 := by omega
    apply ShaderCode.eq_of
    · rw [hlin, WriteFog_text out u hne, if_neg h3, String.append_empty]
    · rw [hcon, WriteFog_constants_used out u hne]
  · intro ⟨h4, h7⟩
    have hne : u.fog_fsel ≠ 0 := by omega
    have h3 : u.fog_fsel > 3 := by omega
    refine ⟨?_, ?_, ?_⟩
    · rw [WriteFog_text out u hne, if_pos h3]
    · generalize u.fog_fsel = n at h4 h7
      interval_cases n <;> decide
    · rw [hcon, WriteFog_constants_used out u hne]

/-! ## Properties of the alpha-test emitter -/

/-- The text write_alpha_func appends does not depend on the buffer. -/
theorem write_alpha_func_text (out : ShaderCode) (index : Nat) (ref : String) :
    (write_alpha_func out index ref).text = out.text ++ alphaFuncText index ref := by
  unfold alphaFuncText write_alpha_func
  cases (index == 0 || index == tev_alpha_funcs_table.length - 1) <;>
    simp only [if_true, if_false, Bool.false_eq_true, ShaderCode.Write_text, ShaderCode.empty,
      String.empty_append]

/-- The text WriteAlphaTest appends: the header of the conditional, the failure block and
the closing brace. -/
theorem WriteAlphaTest_text (g : Globals) (bugs : DriverDetails) (out : ShaderCode)
    (u : pixel_shader_uid_data) (api_type : APIType) (per_pixel_depth use_dual_source : Bool) :
    (WriteAlphaTest g bugs out u api_type per_pixel_depth use_dual_source).text =
      out.text ++
        alphaTestCondText bugs.BUG_BROKEN_NEGATED_BOOLEAN u.alpha_test_comp0
          u.alpha_test_comp1 u.alpha_test_logic ++
        alphaTestFailText g.g_ActiveConfig.backend_info.bSupportsReversedDepthRange
          u.uint_output u.alpha_test_use_zcomploc_hack api_type per_pixel_depth
          use_dual_source ++
        "\t\x7d\n" := by
  unfold WriteAlphaTest alphaTestCondText alphaTestFailText
  cases bugs.BUG_BROKEN_NEGATED_BOOLEAN <;>
    cases (use_dual_source && !(api_type == APIType.D3D && u.uint_output)) <;>
    cases per_pixel_depth <;>
    cases u.alpha_test_use_zcomploc_hack <;>
    cases (api_type == APIType.D3D) <;>
    simp only [if_true, if_false, Bool.false_eq_true, Bool.not_true, Bool.not_false,
      ShaderCode.Write_text, ShaderCode.SetConstantsUsed_text, write_alpha_func_text,
      String.append_assoc, String.append_empty, String.empty_append]

set_option maxRecDepth 1000000 in
/-- The failure block, for every combination of its inputs: it starts by zeroing ocol0; it
assigns depth exactly when per_pixel_depth, and then the far value; it holds a discard
statement exactly when the workaround flag is clear. -/
theorem alphaTestFailText_actions (reversed uint_output hack : Bool) (api_type : APIType)
    (per_pixel_depth use_dual_source : Bool) :
    "\t\tocol0 = float4(0.0, 0.0, 0.0, 0.0);\n".toList <+:
      (alphaTestFailText reversed uint_output hack api_type per_pixel_depth
        use_dual_source).toList ∧
    ("depth".toList <:+:
      (alphaTestFailText reversed uint_output hack api_type per_pixel_depth
        use_dual_source).toList ↔ per_pixel_depth = true) ∧
    (per_pixel_depth = true →
      ("\t\tdepth = " ++ (if reversed then "1.0" else "0.0") ++ ";\n").toList <:+:
        (alphaTestFailText reversed uint_output hack api_type per_pixel_depth
          use_dual_source).toList) ∧
    ("discard".toList <:+:
      (alphaTestFailText reversed uint_output hack api_type per_pixel_depth
        use_dual_source).toList ↔ hack = false) := by
  unfold alphaTestFailText
  generalize (use_dual_source && !(api_type == APIType.D3D && uint_output)) = dual
  generalize (api_type == APIType.D3D) = d3d
  cases reversed <;> cases hack <;> cases per_pixel_depth <;> cases dual <;> cases d3d <;>
    decide!

/-- C16. Alpha-test failure actions.  The text WriteAlphaTest appends is the header of the
conditional, the failure block and the closing brace.  The failure block always starts by
zeroing ocol0; it assigns depth exactly when per_pixel_depth is set, and then assigns the
far value (0.0 on a backend without reversed depth range, 1.0 otherwise); it holds a discard
statement exactly when alpha_test_use_zcomploc_hack is 0. -/
theorem WriteAlphaTest_failure_actions (g : Globals) (bugs : DriverDetails) (out : ShaderCode)
    (u : pixel_shader_uid_data) (api_type : APIType) (per_pixel_depth use_dual_source : Bool) :
    (WriteAlphaTest g bugs out u api_type per_pixel_depth use_dual_source).text =
      out.text ++
        alphaTestCondText bugs.BUG_BROKEN_NEGATED_BOOLEAN u.alpha_test_comp0
          u.alpha_test_comp1 u.alpha_test_logic ++
        alphaTestFailText g.g_ActiveConfig.backend_info.bSupportsReversedDepthRange
          u.uint_output u.alpha_test_use_zcomploc_hack api_type per_pixel_depth
          use_dual_source ++
        "\t\x7d\n" ∧
    "\t\tocol0 = float4(0.0, 0.0, 0.0, 0.0);\n".toList <+:
      (alphaTestFailText g.g_ActiveConfig.backend_info.bSupportsReversedDepthRange
        u.uint_output u.alpha_test_use_zcomploc_hack api_type per_pixel_depth
        use_dual_source).toList ∧
    ("depth".toList <:+:
      (alphaTestFailText g.g_ActiveConfig.backend_info.bSupportsReversedDepthRange
        u.uint_output u.alpha_test_use_zcomploc_hack api_type per_pixel_depth
        use_dual_source).toList ↔ per_pixel_depth = true) ∧
    (per_pixel_depth = true →
      ("\t\tdepth = " ++
          (if g.g_ActiveConfig.backend_info.bSupportsReversedDepthRange then "1.0" else "0.0") ++
          ";\n").toList <:+:
        (alphaTestFailText g.g_ActiveConfig.backend_info.bSupportsReversedDepthRange
          u.uint_output u.alpha_test_use_zcomploc_hack api_type per_pixel_depth
          use_dual_source).toList) ∧
    ("discard".toList <:+:
      (alphaTestFailText g.g_ActiveConfig.backend_info.bSupportsReversedDepthRange
        u.uint_output u.alpha_test_use_zcomploc_hack api_type per_pixel_depth
        use_dual_source).toList ↔ u.alpha_test_use_zcomploc_hack = false) :=
  ⟨WriteAlphaTest_text g bugs out u api_type per_pixel_depth use_dual_source,
    alphaTestFailText_actions _ _ _ _ _ _⟩

/-! ## Properties of the alpha-test emitter: truth table -/

set_option maxRecDepth 1000000 in
/-- The header of the conditional parses to the expected condition, for every comparator
pair, logic operation and spelling of the negation. -/
theorem parseIfCondition_alphaTestCondText : ∀ bug : Bool, ∀ comp0 comp1 : Fin 8,
    ∀ logic : Fin 4,
    parseIfCondition (alphaTestCondText bug comp0 comp1 logic) =
      some (alphaTestCondAst bug comp0 comp1 logic) := by
  decide!

/-- Reading up to the first character that fails p does not look past a list that holds such
a character. -/
theorem takeWhile_append_of_mem (p : Char → Bool) (a b : List Char)
    (h : ∃ x ∈ a, p x = false) : (a ++ b).takeWhile p = a.takeWhile p := by
  induction a with
  | nil => simp at h
  | cons c cs ih =>
    cases hc : p c with
    | false => simp [List.takeWhile, hc]
    | true =>
      have h2 : ∃ x ∈ cs, p x = false := by
        obtain ⟨x, hx, hpx⟩ := h
        rcases List.mem_cons.mp hx with rfl | hx
        · rw [hc] at hpx
          cases hpx
        · exact ⟨x, hx, hpx⟩
      simp [List.takeWhile, hc, ih h2]

/-- The header of the alpha-test conditional holds an opening brace. -/
theorem alphaTestCondText_brace (bug : Bool) (comp0 comp1 logic : Nat) :
    ∃ x ∈ (alphaTestCondText bug comp0 comp1 logic).toList,
      (fun c => c != Char.ofNat 123) x = false := by
  refine ⟨Char.ofNat 123, ?_, by decide⟩
  unfold alphaTestCondText
  simp only [String.toList, String.data_append, List.mem_append]
  right
  cases bug <;> decide

/-- The condition read from a text that starts with the header of the alpha-test conditional
is the condition read from the header. -/
theorem parseIfCondition_header (bug : Bool) (comp0 comp1 logic : Nat) (rest : String) :
    parseIfCondition (alphaTestCondText bug comp0 comp1 logic ++ rest) =
      parseIfCondition (alphaTestCondText bug comp0 comp1 logic) := by
  unfold parseIfCondition
  have h : (alphaTestCondText bug comp0 comp1 logic ++ rest).toList =
      (alphaTestCondText bug comp0 comp1 logic).toList ++ rest.toList := by
    simp only [String.toList, String.data_append]
  rw [h, takeWhile_append_of_mem _ _ _ (alphaTestCondText_brace bug comp0 comp1 logic)]

/-- Value of a unary operation, from the value of its operand. -/
theorem evalExpr_un_of (w : Int → Int) (env : Var → Option Val) (o : UnOp) (e : ShaderExpr)
    (v : Val) (h : evalExpr w env e = some v) :
    evalExpr w env (ShaderExpr.un o e) = mapOpt (evalUn w o) v := by
  simp only [evalExpr, h]

/-- Value of one comparison of the alpha test. -/
theorem evalExpr_alphaFunc (prev alphaRef : int4) (comp : Nat) (hc : comp < 8) :
    evalExpr id (alphaTestInputs prev alphaRef) (alphaFuncAst comp 0) =
      some [boolInt (alphaCompare comp prev.a alphaRef.r)] ∧
    evalExpr id (alphaTestInputs prev alphaRef) (alphaFuncAst comp 1) =
      some [boolInt (alphaCompare comp prev.a alphaRef.g)] := by
  interval_cases comp <;>
    simp [alphaFuncAst, alphaCompare, evalExpr, alphaTestInputs, I_ALPHA, int4.val,
      Val.swizzle, broadcast2, zipOpt, evalBin, boolInt]

/-- Value of the logic operation on two truth values. -/
theorem evalBin_alphaLogic (logic : Nat) (hl : logic < 4) (p q : Bool) :
    broadcast2 (evalBin id (alphaLogicOp logic)) [boolInt p] [boolInt q] =
      some [boolInt (alphaLogic logic p q)] := by
  interval_cases logic <;> cases p <;> cases q <;>
    simp [alphaLogicOp, alphaLogic, broadcast2, zipOpt, evalBin, boolInt]

/-- Value of the condition of the alpha-test conditional: the negation of the logic
operation applied to the two comparisons. -/
theorem evalExpr_alphaTestCond (prev alphaRef : int4) (bug : Bool) (comp0 comp1 logic : Nat)
    (h0 : comp0 < 8) (h1 : comp1 < 8) (hl : logic < 4) :
    evalExpr id (alphaTestInputs prev alphaRef) (alphaTestCondAst bug comp0 comp1 logic) =
      some [boolInt (!(alphaLogic logic (alphaCompare comp0 prev.a alphaRef.r)
        (alphaCompare comp1 prev.a alphaRef.g)))] := by
  have e : evalExpr id (alphaTestInputs prev alphaRef)
      (ShaderExpr.bin (alphaLogicOp logic) (alphaFuncAst comp0 0) (alphaFuncAst comp1 1)) =
      some [boolInt (alphaLogic logic (alphaCompare comp0 prev.a alphaRef.r)
        (alphaCompare comp1 prev.a alphaRef.g))] := by
    rw [evalExpr_bin, (evalExpr_alphaFunc prev alphaRef comp0 h0).1,
      (evalExpr_alphaFunc prev alphaRef comp1 h1).2]
    exact evalBin_alphaLogic logic hl _ _
  generalize alphaLogic logic (alphaCompare comp0 prev.a alphaRef.r)
    (alphaCompare comp1 prev.a alphaRef.g) = t at e
  cases bug
  · simp only [alphaTestCondAst, Bool.false_eq_true, if_false]
    rw [evalExpr_un_of _ _ _ _ _ e]
    cases t <;> simp [mapOpt, evalUn, boolInt]
  · simp only [alphaTestCondAst, if_true]
    rw [evalExpr_bin, e]
    cases t <;> simp [evalExpr, alphaTestInputs, I_ALPHA, broadcast2, zipOpt, evalBin, boolInt]

/-- C15. Alpha-test truth table.  For all 8x8x4 combinations of comp0, comp1 and logic, both
spellings of the negation, and all values of prev.a and of the two references, the condition
of the conditional WriteAlphaTest emits parses to the expected syntax, and its value is 1
(the failure branch is taken) iff NOT logic(comp0(prev.a, ref0), comp1(prev.a, ref1)), with
comparators 0 never, 1 less, 2 equal, 3 lequal, 4 greater, 5 nequal, 6 gequal, 7 always and
logic 0 AND, 1 OR, 2 XOR, 3 XNOR; so (ALWAYS, NEVER) with AND always fails and with OR always
passes. -/
theorem WriteAlphaTest_truth_table (g : Globals) (bugs : DriverDetails)
    (u : pixel_shader_uid_data) (api_type : APIType) (per_pixel_depth use_dual_source : Bool)
    (prev alphaRef : int4)
    (h0 : u.alpha_test_comp0 < 8) (h1 : u.alpha_test_comp1 < 8)
    (hl : u.alpha_test_logic < 4) :
    parseIfCondition
        (WriteAlphaTest g bugs ShaderCode.empty u api_type per_pixel_depth
          use_dual_source).text =
      some (alphaTestCondAst bugs.BUG_BROKEN_NEGATED_BOOLEAN u.alpha_test_comp0
        u.alpha_test_comp1 u.alpha_test_logic) ∧
    evalExpr id (alphaTestInputs prev alphaRef)
        (alphaTestCondAst bugs.BUG_BROKEN_NEGATED_BOOLEAN u.alpha_test_comp0
          u.alpha_test_comp1 u.alpha_test_logic) =
      some [boolInt (!(alphaLogic u.alpha_test_logic
        (alphaCompare u.alpha_test_comp0 prev.a alphaRef.r)
        (alphaCompare u.alpha_test_comp1 prev.a alphaRef.g)))] ∧
    (u.alpha_test_comp0 = 7 ∧ u.alpha_test_comp1 = 0 ∧ u.alpha_test_logic = 0 →
      evalExpr id (alphaTestInputs prev alphaRef)
          (alphaTestCondAst bugs.BUG_BROKEN_NEGATED_BOOLEAN u.alpha_test_comp0
            u.alpha_test_comp1 u.alpha_test_logic) = some [1]) ∧
    (u.alpha_test_comp0 = 7 ∧ u.alpha_test_comp1 = 0 ∧ u.alpha_test_logic = 1 →
      evalExpr id (alphaTestInputs prev alphaRef)
          (alphaTestCondAst bugs.BUG_BROKEN_NEGATED_BOOLEAN u.alpha_test_comp0
            u.alpha_test_comp1 u.alpha_test_logic) = some [0]) := by
  have hv := evalExpr_alphaTestCond prev alphaRef bugs.BUG_BROKEN_NEGATED_BOOLEAN
    u.alpha_test_comp0 u.alpha_test_comp1 u.alpha_test_logic h0 h1 hl
  refine ⟨?_, hv, ?_, ?_⟩
  · rw [WriteAlphaTest_text, String.append_assoc, String.append_assoc]
    have he : ShaderCode.empty.text = "" := rfl
    rw [he, String.empty_append, parseIfCondition_header]
    exact parseIfCondition_alphaTestCondText bugs.BUG_BROKEN_NEGATED_BOOLEAN
      ⟨u.alpha_test_comp0, h0⟩ ⟨u.alpha_test_comp1, h1⟩ ⟨u.alpha_test_logic, hl⟩
  · rintro ⟨e0, e1, e2⟩
    rw [hv, e0, e1, e2]
    rfl
  · rintro ⟨e0, e1, e2⟩
    rw [hv, e0, e1, e2]
    rfl

set_option maxRecDepth 1000000 in
/-- C15 at comparators (greater, less) with AND: for prev.a = 100 between the references 50
and 200 the test passes and the condition is 0; for prev.a = 250 it fails and the condition
is 1. -/
theorem WriteAlphaTest_truth_table_witness :
    ((uidAlphaTest 4 1 0).alpha_test_comp0 < 8 ∧ (uidAlphaTest 4 1 0).alpha_test_comp1 < 8 ∧
      (uidAlphaTest 4 1 0).alpha_test_logic < 4) ∧
    parseIfCondition
        (WriteAlphaTest snapshotEarlyZ driverSound ShaderCode.empty (uidAlphaTest 4 1 0)
          APIType.OpenGL false false).text =
      some (alphaTestCondAst false 4 1 0) ∧
    evalExpr id (alphaTestInputs ⟨0, 0, 0, 100⟩ ⟨50, 200, 0, 0⟩) (alphaTestCondAst false 4 1 0) =
      some [0] ∧
    evalExpr id (alphaTestInputs ⟨0, 0, 0, 250⟩ ⟨50, 200, 0, 0⟩) (alphaTestCondAst false 4 1 0) =
      some [1] :=
  ⟨by decide,
    (WriteAlphaTest_truth_table snapshotEarlyZ driverSound (uidAlphaTest 4 1 0) APIType.OpenGL
      false false ⟨0, 0, 0, 100⟩ ⟨50, 200, 0, 0⟩ (by decide) (by decide) (by decide)).1,
    (WriteAlphaTest_truth_table snapshotEarlyZ driverSound (uidAlphaTest 4 1 0) APIType.OpenGL
      false false ⟨0, 0, 0, 100⟩ ⟨50, 200, 0, 0⟩ (by decide) (by decide) (by decide)).2.1.trans
      (by decide),
    (WriteAlphaTest_truth_table snapshotEarlyZ driverSound (uidAlphaTest 4 1 0) APIType.OpenGL
      false false ⟨0, 0, 0, 250⟩ ⟨50, 200, 0, 0⟩ (by decide) (by decide) (by decide)).2.1.trans
      (by decide)⟩

/-! ## Properties of the depth block: the range of zCoord -/

/-- Scanning a text whose first part ends with a line break: the second part is scanned from
the range reached after the first. -/
theorem zScanFrom_append (a b : List Char) : ∀ (st : ZRange) (cur : List Char),
    zScanFrom st cur (a ++ '\n' :: b) = zScanFrom (zScanFrom st cur (a ++ ['\n'])) [] b := by
  induction a with
  | nil =>
    intro st cur
    simp [zScanFrom]
  | cons c cs ih =>
    intro st cur
    by_cases hc : c = '\n'
    · simp only [List.cons_append, zScanFrom, hc, if_true]
      exact ih _ _
    · simp only [List.cons_append, zScanFrom, hc, if_false]
      exact ih _ _

/-- Scanning the concatenation of two texts, the first empty or ending with a line break. -/
theorem zScan_append (st : ZRange) (a b : String) (h : lineAligned a = true) :
    zScan st (a ++ b) = zScan (zScan st a) b := by
  have h : a.toList = [] ∨ a.toList.getLast? = some '\n' := by
    simpa [lineAligned, List.isEmpty_iff] using h
  unfold zScan
  have e : (a ++ b).toList = a.toList ++ b.toList := by
    simp only [String.toList, String.data_append]
  rw [e]
  rcases h with h | h
  · rw [h]
    simp [zScanFrom]
  · obtain ⟨l, hl⟩ : ∃ l, a.toList = l ++ ['\n'] := by
      have hne : a.toList ≠ [] := by
        intro h0
        rw [h0] at h
        simp at h
      refine ⟨a.toList.dropLast, ?_⟩
      have := List.dropLast_append_getLast? '\n' (by simpa using h)
      exact this.symm
    rw [hl, List.append_assoc, List.singleton_append]
    exact zScanFrom_append l b.toList st []

/-- The concatenation of two line-aligned texts is line-aligned. -/
theorem lineAligned_append (a b : String) (ha : lineAligned a = true)
    (hb : lineAligned b = true) : lineAligned (a ++ b) = true := by
  have ha : a.toList = [] ∨ a.toList.getLast? = some '\n' := by
    simpa [lineAligned, List.isEmpty_iff] using ha
  have hb : b.toList = [] ∨ b.toList.getLast? = some '\n' := by
    simpa [lineAligned, List.isEmpty_iff] using hb
  have e : (a ++ b).toList = a.toList ++ b.toList := by
    simp only [String.toList, String.data_append]
  simp only [lineAligned, e, Bool.or_eq_true, List.isEmpty_iff, beq_iff_eq]
  rcases hb with hb | hb
  · rw [hb, List.append_nil]
    exact ha
  · right
    rw [List.getLast?_append, hb]
    rfl

/-- The text appended by the declaration block of zCoord does not depend on the buffer. -/
theorem GeneratePixelShaderCode_zCoord_text (out : ShaderCode) (api_type : APIType)
    (host_config : ShaderHostConfig) (u : pixel_shader_uid_data) :
    (GeneratePixelShaderCode_zCoord out api_type host_config u).text =
      out.text ++
        (GeneratePixelShaderCode_zCoord ShaderCode.empty api_type host_config u).text := by
  unfold GeneratePixelShaderCode_zCoord
  cases u.zfreeze <;> cases host_config.fast_depth_calc <;>
    cases host_config.backend_reversed_depth_range <;> cases (api_type == APIType.OpenGL) <;>
    simp only [if_true, if_false, Bool.false_eq_true, Bool.not_true, Bool.not_false,
      ShaderCode.Write_text, ShaderCode.SetConstantsUsed_text, ShaderCode.empty,
      String.append_assoc, String.empty_append]

/-- The text appended by a depth write does not depend on the buffer. -/
theorem GeneratePixelShaderCode_depthWrite_text (out : ShaderCode)
    (host_config : ShaderHostConfig) (enabled : Bool) :
    (GeneratePixelShaderCode_depthWrite out host_config enabled).text =
      out.text ++
        (GeneratePixelShaderCode_depthWrite ShaderCode.empty host_config enabled).text := by
  unfold GeneratePixelShaderCode_depthWrite
  cases enabled <;> cases host_config.backend_reversed_depth_range <;>
    simp only [if_true, if_false, Bool.false_eq_true, Bool.not_true, Bool.not_false,
      ShaderCode.Write_text, ShaderCode.empty, String.append_empty, String.empty_append]

/-- The text appended by the z-texture block does not depend on the buffer. -/
theorem GeneratePixelShaderCode_zTexture_text (out : ShaderCode)
    (u : pixel_shader_uid_data) :
    (GeneratePixelShaderCode_zTexture out u).text =
      out.text ++ (GeneratePixelShaderCode_zTexture ShaderCode.empty u).text := by
  unfold GeneratePixelShaderCode_zTexture
  dsimp only
  generalize (u.ztex_op != ZTEXTURE_DISABLE && !(!u.per_pixel_depth && u.fog_fsel == 0)) = zt
  cases zt <;>
    simp only [if_true, if_false, Bool.false_eq_true,
      ShaderCode.Write_text, ShaderCode.SetConstantsUsed_text, ShaderCode.empty,
      String.append_assoc, String.append_empty, String.empty_append]

/-- The text appended by the dithering block does not depend on the buffer. -/
theorem GeneratePixelShaderCode_dither_text (out : ShaderCode) (u : pixel_shader_uid_data) :
    (GeneratePixelShaderCode_dither out u).text =
      out.text ++ (GeneratePixelShaderCode_dither ShaderCode.empty u).text := by
  unfold GeneratePixelShaderCode_dither
  cases u.dither <;>
    simp only [if_true, if_false, Bool.false_eq_true,
      ShaderCode.Write_text, ShaderCode.empty, String.append_assoc, String.append_empty,
      String.empty_append]

/-- The text appended by WriteFog does not depend on the buffer. -/
theorem WriteFog_text_append (out : ShaderCode) (u : pixel_shader_uid_data) :
    (WriteFog out u).text = out.text ++ (WriteFog ShaderCode.empty u).text := by
  by_cases h : u.fog_fsel = 0
  · simp [WriteFog, h, ShaderCode.empty]
  · rw [WriteFog_text out u h, WriteFog_text ShaderCode.empty u h]
    simp only [ShaderCode.empty, String.append_assoc, String.empty_append]

/-- The text of the depth block, the dithering block and the fog block, in source order. -/
theorem GeneratePixelShaderCode_depthToFog_text (out : ShaderCode) (api_type : APIType)
    (host_config : ShaderHostConfig) (u : pixel_shader_uid_data) :
    (GeneratePixelShaderCode_depthToFog out api_type host_config u).text =
      out.text ++
        (GeneratePixelShaderCode_zCoord ShaderCode.empty api_type host_config u).text ++
        zClampText ++
        (GeneratePixelShaderCode_depthWrite ShaderCode.empty host_config
          (u.per_pixel_depth && u.early_ztest)).text ++
        (GeneratePixelShaderCode_zTexture ShaderCode.empty u).text ++
        (GeneratePixelShaderCode_depthWrite ShaderCode.empty host_config
          (u.per_pixel_depth && u.late_ztest)).text ++
        (GeneratePixelShaderCode_dither ShaderCode.empty u).text ++
        (WriteFog ShaderCode.empty u).text := by
  unfold GeneratePixelShaderCode_depthToFog GeneratePixelShaderCode_depth
  simp only []
  rw [WriteFog_text_append, GeneratePixelShaderCode_dither_text,
    GeneratePixelShaderCode_depthWrite_text, GeneratePixelShaderCode_zTexture_text,
    GeneratePixelShaderCode_depthWrite_text, ShaderCode.Write_text,
    GeneratePixelShaderCode_zCoord_text]
  rfl

/-- Scanning two texts one after the other. -/
theorem zScan_append_of (st st1 st2 : ZRange) (a b : String) (h : lineAligned a = true)
    (ha : zScan st a = st1) (hb : zScan st1 b = st2) : zScan st (a ++ b) = st2 := by
  rw [zScan_append st a b h, ha, hb]

set_option maxRecDepth 1000000 in
/-- The declaration block: line-aligned, and no statement of it reads zCoord. -/
theorem zScan_zCoord (api_type : APIType) (host_config : ShaderHostConfig)
    (u : pixel_shader_uid_data) :
    lineAligned (GeneratePixelShaderCode_zCoord ShaderCode.empty api_type host_config u).text =
      true ∧
    zScan ZRange.unbounded
        (GeneratePixelShaderCode_zCoord ShaderCode.empty api_type host_config u).text =
      ZRange.unbounded := by
  unfold GeneratePixelShaderCode_zCoord
  generalize (api_type == APIType.OpenGL) = gl
  cases u.zfreeze <;> cases host_config.fast_depth_calc <;>
    cases host_config.backend_reversed_depth_range <;> cases gl <;> decide!

set_option maxRecDepth 1000000 in
/-- The clamp statement bounds zCoord whatever it held. -/
theorem zScan_zClampText :
    lineAligned zClampText = true ∧ zScan ZRange.unbounded zClampText = ZRange.bounded := by
  decide!

set_option maxRecDepth 1000000 in
/-- A depth write reads zCoord and leaves it as it is. -/
theorem zScan_depthWrite (host_config : ShaderHostConfig) (enabled : Bool) :
    lineAligned (GeneratePixelShaderCode_depthWrite ShaderCode.empty host_config enabled).text =
      true ∧
    zScan ZRange.bounded
        (GeneratePixelShaderCode_depthWrite ShaderCode.empty host_config enabled).text =
      ZRange.bounded := by
  unfold GeneratePixelShaderCode_depthWrite
  cases enabled <;> cases host_config.backend_reversed_depth_range <;> decide!

set_option maxRecDepth 1000000 in
/-- The z-texture block: its last statement masks zCoord, so that zCoord is bounded after
it. -/
theorem zScan_zTexture (u : pixel_shader_uid_data) :
    lineAligned (GeneratePixelShaderCode_zTexture ShaderCode.empty u).text = true ∧
    zScan ZRange.bounded (GeneratePixelShaderCode_zTexture ShaderCode.empty u).text =
      ZRange.bounded ∧
    ((u.ztex_op != ZTEXTURE_DISABLE && !(!u.per_pixel_depth && u.fog_fsel == 0)) = true →
      zMaskText.toList <:+ (GeneratePixelShaderCode_zTexture ShaderCode.empty u).text.toList) ∧
    ((u.ztex_op != ZTEXTURE_DISABLE && !(!u.per_pixel_depth && u.fog_fsel == 0)) = false →
      (GeneratePixelShaderCode_zTexture ShaderCode.empty u).text = "") := by
  unfold GeneratePixelShaderCode_zTexture
  dsimp only
  generalize (u.ztex_op != ZTEXTURE_DISABLE && !(!u.per_pixel_depth && u.fog_fsel == 0)) = zt
  generalize (u.ztex_op == ZTEXTURE_ADD) = add
  cases zt <;> cases add <;> decide!

set_option maxRecDepth 1000000 in
/-- The dithering block does not name zCoord. -/
theorem zScan_dither (u : pixel_shader_uid_data) :
    lineAligned (GeneratePixelShaderCode_dither ShaderCode.empty u).text = true ∧
    zScan ZRange.bounded (GeneratePixelShaderCode_dither ShaderCode.empty u).text =
      ZRange.bounded := by
  unfold GeneratePixelShaderCode_dither
  cases u.dither <;> decide!

set_option maxRecDepth 1000000 in
/-- The distance statements of the fog block read zCoord and leave it as it is. -/
theorem zScan_fogDistanceText (u : pixel_shader_uid_data) :
    lineAligned (fogDistanceText u) = true ∧
    zScan ZRange.bounded (fogDistanceText u) = ZRange.bounded := by
  unfold fogDistanceText
  generalize (u.fog_proj == 0) = proj
  cases proj <;> cases u.fog_RangeBaseEnabled <;> decide!

set_option maxRecDepth 1000000 in
/-- No entry of the curve table names zCoord. -/
theorem zScan_fog_funcs (n : Nat) :
    lineAligned (tev_fog_funcs_table.getD n "") = true ∧
    zScan ZRange.bounded (tev_fog_funcs_table.getD n "") = ZRange.bounded := by
  by_cases h : n < 8
  · interval_cases n <;> decide!
  · have e : tev_fog_funcs_table.getD n "" = "" :=
      List.getD_eq_default _ _ (by simpa [tev_fog_funcs_table] using h)
    rw [e]
    decide

set_option maxRecDepth 1000000 in
/-- The ramp and the blend of the fog block do not name zCoord. -/
theorem zScan_fog_rest :
    (lineAligned fogRampText = true ∧ zScan ZRange.bounded fogRampText = ZRange.bounded) ∧
    (lineAligned fogBlendText = true ∧ zScan ZRange.bounded fogBlendText = ZRange.bounded) ∧
    (lineAligned "" = true ∧ zScan ZRange.bounded "" = ZRange.bounded) := by
  decide!

/-- The fog block reads zCoord and leaves it as it is. -/
theorem zScan_WriteFog (u : pixel_shader_uid_data) :
    lineAligned (WriteFog ShaderCode.empty u).text = true ∧
    zScan ZRange.bounded (WriteFog ShaderCode.empty u).text = ZRange.bounded := by
  by_cases h : u.fog_fsel = 0
  · have e : WriteFog ShaderCode.empty u = ShaderCode.empty := by simp [WriteFog, h]
    rw [e]
    exact zScan_fog_rest.2.2
  · rw [WriteFog_text ShaderCode.empty u h]
    have he : ShaderCode.empty.text = "" := rfl
    rw [he, String.empty_append]
    obtain ⟨d1, d2⟩ := zScan_fogDistanceText u
    obtain ⟨⟨r1, r2⟩, ⟨b1, b2⟩, ⟨n1, n2⟩⟩ := zScan_fog_rest
    have hc : lineAligned
        (if u.fog_fsel > 3 then tev_fog_funcs_table.getD u.fog_fsel "" else "") = true ∧
        zScan ZRange.bounded
          (if u.fog_fsel > 3 then tev_fog_funcs_table.getD u.fog_fsel "" else "") =
          ZRange.bounded := by
      split
      · exact zScan_fog_funcs _
      · exact ⟨n1, n2⟩
    have a1 := lineAligned_append _ _ d1 r1
    have a2 := lineAligned_append _ _ a1 hc.1
    have a3 := lineAligned_append _ _ a2 b1
    refine ⟨a3, ?_⟩
    exact zScan_append_of _ _ _ _ _ a2
      (zScan_append_of _ _ _ _ _ a1 (zScan_append_of _ _ _ _ _ d1 d2 r2) hc.2) b2

/-- Bitwise and with 0xFFFFFF gives a value in 0..0xFFFFFF. -/
theorem land_mask24_bounds (x : Int) :
    0 ≤ Int.land x 0xFFFFFF ∧ Int.land x 0xFFFFFF ≤ 0xFFFFFF := by
  have h := land_mask_bounds x 24
  have e : ((2 ^ 24 - 1 : Nat) : Int) = 0xFFFFFF := by decide
  rw [e] at h
  exact ⟨h.1, by have := h.2; omega⟩

set_option maxRecDepth 1000000 in
/-- The clamp statement and the mask statement parse to the two forms that bound zCoord. -/
theorem parseAssign_zClamp_zMask :
    parseAssign zClampText = some (ShaderExpr.var zCoordVar, clampZAst) ∧
    parseAssign zMaskText = some (ShaderExpr.var zCoordVar, maskZAst) := by
  decide!

/-- Value of the clamp of zCoord. -/
theorem evalExpr_clampZ (z : Int) :
    evalExpr id (zInputs z) clampZAst = some [min (max z 0) 0xFFFFFF] := by
  simp [clampZAst, clampAst, evalExpr, evalArgs, applyFn, broadcast2, zipOpt, zInputs]

/-- Value of the mask of zCoord. -/
theorem evalExpr_maskZ (z : Int) :
    evalExpr id (zInputs z) maskZAst = some [Int.land z 0xFFFFFF] := by
  simp [maskZAst, evalExpr, broadcast2, zipOpt, evalBin, zInputs]

set_option maxRecDepth 1000000 in
/-- C18. Depth range.  The text GeneratePixelShaderCode appends from the declaration of
zCoord to the fog block is the declaration (z-freeze, non-fast-depth or fast-depth variant),
the statement zCoord = clamp(zCoord, 0, 0xFFFFFF), the early depth write, the z-texture
override (which ends with the statement zCoord = zCoord & 0xFFFFFF whenever it is emitted),
the late depth write, the dithering block and the fog block.  For every UID and host
config, scanning these statements in order from an unknown zCoord, every statement that
reads zCoord (depth writes, fog, the additive z-texture) comes when zCoord is known to lie
in 0..0xFFFFFF, and it still does at the end.  The clamp statement assigns
min(max(z, 0), 0xFFFFFF) and the mask statement assigns z & 0xFFFFFF, both in 0..0xFFFFFF
for every integer z; a depth write that came before the clamp would be reported. -/
theorem GeneratePixelShaderCode_zCoord_range (out : ShaderCode) (api_type : APIType)
    (host_config : ShaderHostConfig) (u : pixel_shader_uid_data) :
    (GeneratePixelShaderCode_depthToFog out api_type host_config u).text =
      out.text ++
        (GeneratePixelShaderCode_zCoord ShaderCode.empty api_type host_config u).text ++
        zClampText ++
        (GeneratePixelShaderCode_depthWrite ShaderCode.empty host_config
          (u.per_pixel_depth && u.early_ztest)).text ++
        (GeneratePixelShaderCode_zTexture ShaderCode.empty u).text ++
        (GeneratePixelShaderCode_depthWrite ShaderCode.empty host_config
          (u.per_pixel_depth && u.late_ztest)).text ++
        (GeneratePixelShaderCode_dither ShaderCode.empty u).text ++
        (WriteFog ShaderCode.empty u).text ∧
    zScan ZRange.unbounded
        (GeneratePixelShaderCode_depthToFog ShaderCode.empty api_type host_config u).text =
      ZRange.bounded ∧
    ((u.ztex_op != ZTEXTURE_DISABLE && !(!u.per_pixel_depth && u.fog_fsel == 0)) = true →
      zMaskText.toList <:+ (GeneratePixelShaderCode_zTexture ShaderCode.empty u).text.toList) ∧
    ((u.ztex_op != ZTEXTURE_DISABLE && !(!u.per_pixel_depth && u.fog_fsel == 0)) = false →
      (GeneratePixelShaderCode_zTexture ShaderCode.empty u).text = "") ∧
    (∀ z : Int,
      evalAssigned id (zInputs z) zClampText = some [min (max z 0) 0xFFFFFF] ∧
      0 ≤ min (max z 0) 0xFFFFFF ∧ min (max z 0) 0xFFFFFF ≤ 0xFFFFFF) ∧
    (∀ z : Int,
      evalAssigned id (zInputs z) zMaskText = some [Int.land z 0xFFFFFF] ∧
      0 ≤ Int.land z 0xFFFFFF ∧ Int.land z 0xFFFFFF ≤ 0xFFFFFF) ∧
    zScan ZRange.unbounded "\tdepth = float(zCoord) / 16777216.0;\n" = ZRange.violated ∧
    zScan ZRange.bounded
        ("\tzCoord = idot(" ++ I_ZBIAS ++ "[0].xyzw, textemp.xyzw) + " ++ I_ZBIAS ++
          "[1].w + zCoord;\n") = ZRange.unbounded := by
  obtain ⟨i1, i2⟩ := zScan_zCoord api_type host_config u
  obtain ⟨c1, c2⟩ := zScan_zClampText
  obtain ⟨e1, e2⟩ := zScan_depthWrite host_config (u.per_pixel_depth && u.early_ztest)
  obtain ⟨t1, t2, t3, t4⟩ := zScan_zTexture u
  obtain ⟨l1, l2⟩ := zScan_depthWrite host_config (u.per_pixel_depth && u.late_ztest)
  obtain ⟨d1, d2⟩ := zScan_dither u
  obtain ⟨f1, f2⟩ := zScan_WriteFog u
  refine ⟨GeneratePixelShaderCode_depthToFog_text out api_type host_config u, ?_, t3, t4,
    ?_, ?_, by decide!, by decide!⟩
  · rw [GeneratePixelShaderCode_depthToFog_text]
    have he : ShaderCode.empty.text = "" := rfl
    rw [he, String.empty_append]
    have a1 := lineAligned_append _ _ i1 c1
    have a2 := lineAligned_append _ _ a1 e1
    have a3 := lineAligned_append _ _ a2 t1
    have a4 := lineAligned_append _ _ a3 l1
    have a5 := lineAligned_append _ _ a4 d1
    exact zScan_append_of _ _ _ _ _ a5
      (zScan_append_of _ _ _ _ _ a4
        (zScan_append_of _ _ _ _ _ a3
          (zScan_append_of _ _ _ _ _ a2
            (zScan_append_of _ _ _ _ _ a1
              (zScan_append_of _ _ _ _ _ i1 i2 c2) e2) t2) l2) d2) f2
  · intro z
    refine ⟨?_, by omega, by omega⟩
    unfold evalAssigned
    rw [parseAssign_zClamp_zMask.1]
    exact evalExpr_clampZ z
  · intro z
    refine ⟨?_, land_mask24_bounds z⟩
    unfold evalAssigned
    rw [parseAssign_zClamp_zMask.2]
    exact evalExpr_maskZ z

/-! ## Text of the colour output, the blend and the end of main -/

/-- The text WriteColor appends. -/
theorem WriteColor_text (out : ShaderCode) (api_type : APIType) (u : pixel_shader_uid_data)
    (dual : Bool) :
    (WriteColor out api_type u dual).text = out.text ++ colorText api_type u dual := by
  unfold WriteColor colorText colorUintText colorRgbText colorAlphaText colorSecondText
  generalize u.uint_output = ui
  generalize u.rgba6_format = r6
  generalize u.useDstAlpha = da
  cases api_type <;> cases ui <;> cases r6 <;> cases da <;> cases dual <;>
    simp only [if_true, if_false, Bool.false_eq_true, Bool.and_true, Bool.and_false,
      Bool.true_and, Bool.false_and, and_true, and_false, true_and, false_and,
      beq_self_eq_true, reduceCtorEq, beq_iff_eq,
      ShaderCode.Write_text, ShaderCode.SetConstantsUsed_text, String.append_assoc,
      String.append_empty]

/-- The uniform constants WriteColor marks as used: the alpha uniform, when the destination
alpha is written on the normalised path. -/
theorem WriteColor_constants_used (out : ShaderCode) (api_type : APIType)
    (u : pixel_shader_uid_data) (dual : Bool) :
    (WriteColor out api_type u dual).constants_used = out.constants_used ++
      (if ¬ (api_type = APIType.D3D ∧ u.uint_output = true) ∧ u.useDstAlpha = true then
        [(C_ALPHA, C_ALPHA)] else []) := by
  unfold WriteColor
  generalize u.uint_output = ui
  generalize u.rgba6_format = r6
  generalize u.useDstAlpha = da
  cases api_type <;> cases ui <;> cases r6 <;> cases da <;> cases dual <;>
    simp [ShaderCode.Write_constants_used, ShaderCode.SetConstantsUsed_constants_used]

/-- The text WriteBlend appends ends with the assignment of the true output. -/
theorem WriteBlend_text (out : ShaderCode) (u : pixel_shader_uid_data) :
    (WriteBlend out u).text =
      out.text ++ (WriteBlend_result ShaderCode.empty u).text ++
        "\treal_ocol0 = blend_result;\n" := by
  unfold WriteBlend WriteBlend_result
  generalize u.blend_enable = en
  generalize u.blend_subtract = s1
  generalize u.blend_subtract_alpha = s2
  cases en <;> cases s1 <;> cases s2 <;>
    simp only [if_true, if_false, Bool.false_eq_true, ShaderCode.Write_text, ShaderCode.empty,
      String.append_assoc, String.append_empty, String.empty_append]

/-- The text of lines 929-939: the colour output, the blend when the shader-blend path is
used, the bounding-box update and the closing brace. -/
theorem GeneratePixelShaderCode_epilogue_text (out : ShaderCode) (api_type : APIType)
    (u : pixel_shader_uid_data) (dual blend : Bool) :
    (GeneratePixelShaderCode_epilogue out api_type u dual blend).text =
      out.text ++ colorText api_type u (dual || blend) ++
        (if blend then (WriteBlend ShaderCode.empty u).text else "") ++
        boundingBoxText u.bounding_box ++ "\x7d\n" := by
  unfold GeneratePixelShaderCode_epilogue boundingBoxText
  generalize u.bounding_box = bb
  cases blend <;> cases bb <;>
    simp only [if_true, if_false, Bool.false_eq_true, ShaderCode.Write_text, WriteColor_text,
      WriteBlend_text, ShaderCode.empty, String.append_assoc, String.append_empty,
      String.empty_append]

/-- The text of the alpha-test block appended to any buffer. -/
theorem GeneratePixelShaderCode_alphaTest_text (g : Globals) (bugs : DriverDetails)
    (out : ShaderCode) (api_type : APIType) (u : pixel_shader_uid_data) (dual blend : Bool) :
    (GeneratePixelShaderCode_alphaTest g bugs out api_type u dual blend).text =
      out.text ++
        (GeneratePixelShaderCode_alphaTest g bugs ShaderCode.empty api_type u dual blend).text := by
  unfold GeneratePixelShaderCode_alphaTest
  split
  · rw [WriteAlphaTest_text, WriteAlphaTest_text]
    simp only [ShaderCode.empty, String.append_assoc, String.empty_append]
  · simp only [ShaderCode.empty, String.append_empty]

/-- The text of lines 849-927 appended to any buffer. -/
theorem GeneratePixelShaderCode_depthToFog_text_append (out : ShaderCode) (api_type : APIType)
    (host_config : ShaderHostConfig) (u : pixel_shader_uid_data) :
    (GeneratePixelShaderCode_depthToFog out api_type host_config u).text =
      out.text ++ (GeneratePixelShaderCode_depthToFog ShaderCode.empty api_type host_config u).text := by
  rw [GeneratePixelShaderCode_depthToFog_text, GeneratePixelShaderCode_depthToFog_text]
  simp only [ShaderCode.empty, String.append_assoc, String.empty_append]

/-- The generated text, block by block: everything before the alpha test, the alpha test, the
depth, dither and fog blocks, the colour output, the blend, the bounding-box update and the
closing brace. -/
theorem GeneratePixelShaderCode_text (ext : Externals) (g : Globals) (bugs : DriverDetails)
    (api_type : APIType) (host_config : ShaderHostConfig) (u : pixel_shader_uid_data) :
    (GeneratePixelShaderCode ext g bugs api_type host_config u).text =
      (GeneratePixelShaderCode_head ext g bugs api_type host_config u).text ++
        (GeneratePixelShaderCode_alphaTest g bugs ShaderCode.empty api_type u
          (use_dual_source bugs host_config u) (use_shader_blend bugs host_config u)).text ++
        (GeneratePixelShaderCode_depthToFog ShaderCode.empty api_type host_config u).text ++
        colorText api_type u
          (use_dual_source bugs host_config u || use_shader_blend bugs host_config u) ++
        (if use_shader_blend bugs host_config u then (WriteBlend ShaderCode.empty u).text
          else "") ++
        boundingBoxText u.bounding_box ++ "\x7d\n" := by
  unfold GeneratePixelShaderCode
  simp only []
  rw [GeneratePixelShaderCode_epilogue_text, GeneratePixelShaderCode_depthToFog_text_append,
    GeneratePixelShaderCode_alphaTest_text]

/-! ## Properties of the colour output -/

/-- Syntax of the seven statements WriteColor chooses from. -/
theorem parseAssign_colorText :
    parseAssign (colorUintText false) =
      some (ocol0Var, uint4Ast (ShaderExpr.var Var.prev)) ∧
    parseAssign (colorUintText true) =
      some (ocol0Var,
        uint4Ast (ShaderExpr.bin BinOp.band (ShaderExpr.var Var.prev) (ShaderExpr.num 0xFC))) ∧
    parseAssign (colorRgbText false) =
      some (ShaderExpr.swz ocol0Var [0, 1, 2],
        floatDivAst "float3" (ShaderExpr.swz (ShaderExpr.var Var.prev) [0, 1, 2]) 255) ∧
    parseAssign (colorRgbText true) =
      some (ShaderExpr.swz ocol0Var [0, 1, 2],
        floatDivAst "float3" (shr2Ast (ShaderExpr.swz (ShaderExpr.var Var.prev) [0, 1, 2])) 63) ∧
    parseAssign (colorAlphaText false) =
      some (ShaderExpr.swz ocol0Var [3],
        floatDivAst "float" (shr2Ast (ShaderExpr.swz (ShaderExpr.var Var.prev) [3])) 63) ∧
    parseAssign (colorAlphaText true) =
      some (ShaderExpr.swz ocol0Var [3],
        floatDivAst "float"
          (shr2Ast (ShaderExpr.swz (ShaderExpr.var (Var.other I_ALPHA.toList)) [3])) 63) ∧
    parseAssign colorSecondText =
      some (ocol1Var,
        float4AlphaAst
          (floatDivAst "float" (ShaderExpr.swz (ShaderExpr.var Var.prev) [3]) 255)) := by
  decide!

/-- The integer operands of the colour output: the 6-bit truncation x >> 2 is x / 4 rounded
down, and the mask 0xFC clears the two low bits. -/
theorem evalExpr_colorText (prev alphaRef : int4) :
    evalExpr id (colorInputs prev alphaRef)
        (shr2Ast (ShaderExpr.swz (ShaderExpr.var Var.prev) [0, 1, 2])) =
      some [prev.r / 4, prev.g / 4, prev.b / 4] ∧
    evalExpr id (colorInputs prev alphaRef)
        (shr2Ast (ShaderExpr.swz (ShaderExpr.var Var.prev) [3])) = some [prev.a / 4] ∧
    evalExpr id (colorInputs prev alphaRef)
        (shr2Ast (ShaderExpr.swz (ShaderExpr.var (Var.other I_ALPHA.toList)) [3])) =
      some [alphaRef.a / 4] ∧
    evalExpr id (colorInputs prev alphaRef)
        (ShaderExpr.bin BinOp.band (ShaderExpr.var Var.prev) (ShaderExpr.num 0xFC)) =
      some [Int.land prev.r 0xFC, Int.land prev.g 0xFC, Int.land prev.b 0xFC,
        Int.land prev.a 0xFC] := by
  refine ⟨?_, ?_, ?_, ?_⟩ <;>
    simp [shr2Ast, evalExpr, colorInputs, int4.val, Val.swizzle, broadcast2, mapOpt, zipOpt,
      evalBin]

/-- C21. Final colour packing.  WriteColor appends only the unsigned-integer passthrough of
prev (masked with 0xFC for the 6-bit format) when api_type is D3D and uint_output is set, and
only then; otherwise it appends ocol0.rgb = prev.rgb / 255.0 (8-bit format) or
(prev.rgb >> 2) / 63.0 (6-bit format), then ocol0.a as the 6-bit truncation of the uniform
alpha when useDstAlpha is set (marking that uniform as used) and of prev.a otherwise, and the
line ocol1 = (0, 0, 0, prev.a / 255.0) iff its last argument is set, which
GeneratePixelShaderCode sets to use_dual_source || use_shader_blend. -/
theorem WriteColor_final_colour_packing (out : ShaderCode) (api_type : APIType)
    (u : pixel_shader_uid_data) (secondary : Bool) (bugs : DriverDetails)
    (host_config : ShaderHostConfig) (prev alphaRef : int4) :
    -- the text appended, and the constants marked
    (WriteColor out api_type u secondary).text = out.text ++ colorText api_type u secondary ∧
    (WriteColor out api_type u secondary).constants_used = out.constants_used ++
      (if ¬ (api_type = APIType.D3D ∧ u.uint_output = true) ∧ u.useDstAlpha = true then
        [(C_ALPHA, C_ALPHA)] else []) ∧
    -- the integer passthrough, exactly when D3D and uint_output
    ((api_type = APIType.D3D ∧ u.uint_output = true) ↔
      colorText api_type u secondary = colorUintText u.rgba6_format) ∧
    -- otherwise colour, alpha and the secondary output
    (¬ (api_type = APIType.D3D ∧ u.uint_output = true) →
      colorText api_type u secondary =
        colorRgbText u.rgba6_format ++ colorAlphaText u.useDstAlpha ++
          (if secondary then colorSecondText else "")) ∧
    -- the value GeneratePixelShaderCode passes for the last argument
    (GeneratePixelShaderCode_epilogue out api_type u (use_dual_source bugs host_config u)
        (use_shader_blend bugs host_config u)).text =
      out.text ++ colorText api_type u
          (use_dual_source bugs host_config u || use_shader_blend bugs host_config u) ++
        (if use_shader_blend bugs host_config u then (WriteBlend ShaderCode.empty u).text
          else "") ++
        boundingBoxText u.bounding_box ++ "\x7d\n" ∧
    -- what the statements say
    parseAssign (colorUintText false) = some (ocol0Var, uint4Ast (ShaderExpr.var Var.prev)) ∧
    parseAssign (colorUintText true) =
      some (ocol0Var,
        uint4Ast (ShaderExpr.bin BinOp.band (ShaderExpr.var Var.prev) (ShaderExpr.num 0xFC))) ∧
    parseAssign (colorRgbText false) =
      some (ShaderExpr.swz ocol0Var [0, 1, 2],
        floatDivAst "float3" (ShaderExpr.swz (ShaderExpr.var Var.prev) [0, 1, 2]) 255) ∧
    parseAssign (colorRgbText true) =
      some (ShaderExpr.swz ocol0Var [0, 1, 2],
        floatDivAst "float3" (shr2Ast (ShaderExpr.swz (ShaderExpr.var Var.prev) [0, 1, 2])) 63) ∧
    parseAssign (colorAlphaText false) =
      some (ShaderExpr.swz ocol0Var [3],
        floatDivAst "float" (shr2Ast (ShaderExpr.swz (ShaderExpr.var Var.prev) [3])) 63) ∧
    parseAssign (colorAlphaText true) =
      some (ShaderExpr.swz ocol0Var [3],
        floatDivAst "float"
          (shr2Ast (ShaderExpr.swz (ShaderExpr.var (Var.other I_ALPHA.toList)) [3])) 63) ∧
    parseAssign colorSecondText =
      some (ocol1Var,
        float4AlphaAst
          (floatDivAst "float" (ShaderExpr.swz (ShaderExpr.var Var.prev) [3]) 255)) ∧
    -- the 6-bit truncations
    evalExpr id (colorInputs prev alphaRef)
        (shr2Ast (ShaderExpr.swz (ShaderExpr.var Var.prev) [0, 1, 2])) =
      some [prev.r / 4, prev.g / 4, prev.b / 4] ∧
    evalExpr id (colorInputs prev alphaRef)
        (shr2Ast (ShaderExpr.swz (ShaderExpr.var Var.prev) [3])) = some [prev.a / 4] ∧
    evalExpr id (colorInputs prev alphaRef)
        (shr2Ast (ShaderExpr.swz (ShaderExpr.var (Var.other I_ALPHA.toList)) [3])) =
      some [alphaRef.a / 4] := by
  have hp := parseAssign_colorText
  have he := evalExpr_colorText prev alphaRef
  refine ⟨WriteColor_text .., WriteColor_constants_used .., ?_, ?_,
    GeneratePixelShaderCode_epilogue_text .., hp.1, hp.2.1, hp.2.2.1, hp.2.2.2.1, hp.2.2.2.2.1,
    hp.2.2.2.2.2.1, hp.2.2.2.2.2.2, he.1, he.2.1, he.2.2.1⟩
  · constructor
    · intro h
      unfold colorText
      rw [if_pos h]
    · intro h
      by_contra hn
      unfold colorText at h
      rw [if_neg hn] at h
      revert h
      unfold colorUintText colorRgbText colorAlphaText colorSecondText
      generalize u.rgba6_format = r6
      generalize u.useDstAlpha = da
      cases r6 <;> cases da <;> cases secondary <;> decide
  · intro hn
    unfold colorText
    rw [if_neg hn]

/-! ## Properties of the choice of the blend path -/

/-- The text of WriteBlend_result declares blend_result. -/
theorem WriteBlend_result_declares (u : pixel_shader_uid_data) :
    "\tfloat4 blend_result".toList <:+: (WriteBlend_result ShaderCode.empty u).text.toList := by
  unfold WriteBlend_result
  generalize u.blend_enable = en
  generalize u.blend_subtract = s1
  generalize u.blend_subtract_alpha = s2
  cases en
  · simp only [if_false, Bool.false_eq_true, ShaderCode.Write_text, ShaderCode.empty,
      String.empty_append]
    decide
  · have h : ∀ a b c : String,
        "\tfloat4 blend_result".toList <:+:
          (a ++ "\tfloat4 blend_result;\n" ++ b ++ c).toList := by
      intro a b c
      refine ⟨a.toList, ";\n".toList ++ (b.toList ++ c.toList), ?_⟩
      simp only [String.toList, String.data_append, List.append_assoc]
      rfl
    cases s1 <;> cases s2 <;>
      simp only [if_true, if_false, Bool.false_eq_true, ShaderCode.Write_text, ShaderCode.empty,
        String.empty_append] <;>
      exact h _ _ _

set_option maxRecDepth 100000 in
/-- The colour output, the bounding-box update and the closing brace do not mention
blend_result. -/
theorem colorText_no_blend_result (api_type : APIType) (u : pixel_shader_uid_data) (d : Bool) :
    mentions "blend_result"
      (colorText api_type u d ++ boundingBoxText u.bounding_box ++ "\x7d\n") = 0 := by
  unfold colorText colorUintText colorRgbText colorAlphaText colorSecondText boundingBoxText
  generalize u.rgba6_format = r6
  generalize u.useDstAlpha = da
  generalize u.bounding_box = bb
  by_cases hc : api_type = APIType.D3D ∧ u.uint_output = true
  · rw [if_pos hc]
    cases r6 <;> cases bb <;> decide!
  · rw [if_neg hc]
    cases r6 <;> cases da <;> cases d <;> cases bb <;> decide!

/-- C22. Shader-blend selection.  The local use_shader_blend holds iff use_dual_source does
not, useDstAlpha is set and the host supports framebuffer fetch; the two locals are never both
true; and the generated text is the text up to the colour output followed by the text of
WriteBlend exactly when use_shader_blend holds (never when use_dual_source holds), then the
bounding-box update and the closing brace.  The text of WriteBlend is never empty: it declares
blend_result and ends with the assignment of real_ocol0, neither of which the colour output,
the bounding-box update or the closing brace contain. -/
theorem GeneratePixelShaderCode_shader_blend_selection (ext : Externals) (g : Globals)
    (bugs : DriverDetails) (api_type : APIType) (host_config : ShaderHostConfig)
    (u : pixel_shader_uid_data) :
    (use_shader_blend bugs host_config u = true ↔
      (use_dual_source bugs host_config u = false ∧ u.useDstAlpha = true ∧
        host_config.backend_shader_framebuffer_fetch = true)) ∧
    ¬ (use_dual_source bugs host_config u = true ∧ use_shader_blend bugs host_config u = true) ∧
    (GeneratePixelShaderCode ext g bugs api_type host_config u).text =
      (GeneratePixelShaderCode_head ext g bugs api_type host_config u).text ++
        (GeneratePixelShaderCode_alphaTest g bugs ShaderCode.empty api_type u
          (use_dual_source bugs host_config u) (use_shader_blend bugs host_config u)).text ++
        (GeneratePixelShaderCode_depthToFog ShaderCode.empty api_type host_config u).text ++
        colorText api_type u
          (use_dual_source bugs host_config u || use_shader_blend bugs host_config u) ++
        (if use_shader_blend bugs host_config u then (WriteBlend ShaderCode.empty u).text
          else "") ++
        boundingBoxText u.bounding_box ++ "\x7d\n" ∧
    (use_dual_source bugs host_config u = true →
      (if use_shader_blend bugs host_config u then (WriteBlend ShaderCode.empty u).text
        else "") = "") ∧
    (WriteBlend ShaderCode.empty u).text =
      (WriteBlend_result ShaderCode.empty u).text ++ "\treal_ocol0 = blend_result;\n" ∧
    "\tfloat4 blend_result".toList <:+: (WriteBlend_result ShaderCode.empty u).text.toList ∧
    mentions "blend_result"
      (colorText api_type u
          (use_dual_source bugs host_config u || use_shader_blend bugs host_config u) ++
        boundingBoxText u.bounding_box ++ "\x7d\n") = 0 := by
  have hiff : use_shader_blend bugs host_config u = true ↔
      (use_dual_source bugs host_config u = false ∧ u.useDstAlpha = true ∧
        host_config.backend_shader_framebuffer_fetch = true) := by
    unfold use_shader_blend
    cases use_dual_source bugs host_config u <;> simp
  refine ⟨hiff, ?_, GeneratePixelShaderCode_text .., ?_, ?_, WriteBlend_result_declares u, ?_⟩
  · rintro ⟨h1, h2⟩
    rw [hiff.1 h2 |>.1] at h1
    exact Bool.noConfusion h1
  · intro h1
    have : use_shader_blend bugs host_config u = false := by
      cases hb : use_shader_blend bugs host_config u
      · rfl
      · rw [(hiff.1 hb).1] at h1
        exact Bool.noConfusion h1
    rw [this]
    rfl
  · rw [WriteBlend_text]
    simp only [ShaderCode.empty, String.empty_append]
  · exact colorText_no_blend_result ..

/-! ## Properties of the UID encoder: the number of significant bytes -/

/-- The block GetPixelShaderUid_alphaTest leaves num_values unchanged. -/
theorem GetPixelShaderUid_alphaTest_num_values (g : Globals) (u : pixel_shader_uid_data) :
    (GetPixelShaderUid_alphaTest g u).num_values = u.num_values := by
  rw [GetPixelShaderUid_alphaTest_fields]; split <;> rfl

/-- The block GetPixelShaderUid_blend leaves num_values unchanged. -/
theorem GetPixelShaderUid_blend_num_values (g : Globals) (u : pixel_shader_uid_data) :
    (GetPixelShaderUid_blend g u).num_values = u.num_values := by
  unfold GetPixelShaderUid_blend; simp only []; split <;> rfl

/-- The member num_values of the UID in terms of the snapshot. -/
theorem GetPixelShaderUid_num_values_eq (L : UidLayout) (g : Globals) :
    (GetPixelShaderUid L g).num_values =
      if g.g_ActiveConfig.bEnablePixelLighting then L.sizeof_uid_data
      else L.offset_stagehash + (g.bpmem.genMode.numtevstages + 1) * L.sizeof_stage := by
  have h1 : (GetPixelShaderUid L g).num_values =
      (GetPixelShaderUid_numValues L g (GetPixelShaderUid_stages g (GetPixelShaderUid_indirect g
        (GetPixelShaderUid_projection g (GetPixelShaderUid_lighting g
          (GetPixelShaderUid_flags g PixelShaderUid.zero)))))).num_values := by
    simp only [GetPixelShaderUid, GetPixelShaderUid_blend_num_values]
    rw [show ∀ v, (GetPixelShaderUid_depthFog g v).num_values = v.num_values from fun _ => rfl,
      GetPixelShaderUid_alphaTest_num_values]
  rw [h1]
  unfold GetPixelShaderUid_numValues
  simp only [GetPixelShaderUid_stages_genMode_numtevstages,
    GetPixelShaderUid_indirect_genMode_numtevstages,
    GetPixelShaderUid_projection_genMode_numtevstages,
    GetPixelShaderUid_lighting_genMode_numtevstages]
  rfl

/-- C29. Significant-bytes count.  When pixel lighting is disabled, GetPixelShaderUid sets
num_values to the byte offset of stagehash[numtevstages + 1], which is the first slot the
stage loop leaves unpopulated: every populated slot n (n at most numtevstages) ends at or
before that offset, and for a positive slot size the offset is strictly increasing in the
stage count.  When pixel lighting is enabled, num_values is the full size of the UID data. -/
theorem GetPixelShaderUid_significant_bytes (L : UidLayout) (g g2 : Globals) (n : Nat) :
    -- pixel lighting disabled: the offset of slot numtevstages + 1
    (g.g_ActiveConfig.bEnablePixelLighting = false →
      (GetPixelShaderUid L g).num_values =
        L.offset_stagehash + (g.bpmem.genMode.numtevstages + 1) * L.sizeof_stage) ∧
    -- pixel lighting enabled: the full size
    (g.g_ActiveConfig.bEnablePixelLighting = true →
      (GetPixelShaderUid L g).num_values = L.sizeof_uid_data) ∧
    -- slot numtevstages + 1 is not populated, every slot up to numtevstages is
    (GetPixelShaderUid L g).stagehash.getD (g.bpmem.genMode.numtevstages + 1) default =
      StageHash.zero ∧
    (n ≤ g.bpmem.genMode.numtevstages → n < 16 →
      (GetPixelShaderUid L g).stagehash.getD n default =
        GetPixelShaderUid_stage g.bpmem n StageHash.zero) ∧
    -- every populated slot lies below num_values
    (g.g_ActiveConfig.bEnablePixelLighting = false → n ≤ g.bpmem.genMode.numtevstages →
      L.offset_stagehash + n * L.sizeof_stage + L.sizeof_stage ≤
        (GetPixelShaderUid L g).num_values) ∧
    -- strictly increasing in the stage count
    (g.g_ActiveConfig.bEnablePixelLighting = false →
      g2.g_ActiveConfig.bEnablePixelLighting = false → 0 < L.sizeof_stage →
      g.bpmem.genMode.numtevstages < g2.bpmem.genMode.numtevstages →
      (GetPixelShaderUid L g).num_values < (GetPixelShaderUid L g2).num_values) := by
  refine ⟨?_, ?_, ?_, ?_, ?_, ?_⟩
  · intro h
    rw [GetPixelShaderUid_num_values_eq, h]; rfl
  · intro h
    rw [GetPixelShaderUid_num_values_eq, h]; rfl
  · rw [GetPixelShaderUid_stagehash_getD, if_neg]
    intro h
    exact Nat.lt_irrefl _ h.1
  · intro h1 h2
    rw [GetPixelShaderUid_stagehash_getD, if_pos ⟨by omega, h2⟩]
  · intro h hn
    rw [GetPixelShaderUid_num_values_eq, h]
    simp only [Bool.false_eq_true, if_false]
    have : (n + 1) * L.sizeof_stage ≤ (g.bpmem.genMode.numtevstages + 1) * L.sizeof_stage :=
      Nat.mul_le_mul_right _ (by omega)
    rw [Nat.add_mul, Nat.one_mul] at this
    omega
  · intro h h2 hs hlt
    rw [GetPixelShaderUid_num_values_eq, GetPixelShaderUid_num_values_eq, h, h2]
    simp only [Bool.false_eq_true, if_false]
    have : (g.bpmem.genMode.numtevstages + 1) * L.sizeof_stage <
        (g2.bpmem.genMode.numtevstages + 1) * L.sizeof_stage :=
      Nat.mul_lt_mul_of_pos_right (by omega) hs
    omega

/-! ## Properties of the reduction of the texture coordinate to 24 bits -/

/-- The text WriteStage_tevcoord appends. -/
theorem WriteStage_tevcoord_text (out : ShaderCode) (n : Nat) (tevind : TevStageIndirect) :
    (WriteStage_tevcoord out n tevind).text =
      out.text ++ tevcoordUpdateText n tevind.fb_addprev ++ s24Text := by
  unfold WriteStage_tevcoord tevcoordUpdateText s24Text
  cases tevind.fb_addprev <;>
    simp only [if_true, if_false, Bool.false_eq_true, ShaderCode.Write_text]

/-- Syntax of the statement that reduces tevcoord.xy to 24 bits. -/
theorem parseAssign_s24Text :
    parseAssign s24Text = some (ShaderExpr.swz (ShaderExpr.var tevcoordVar) [0, 1], s24Ast) := by
  decide!

/-- Value of (tevcoord.xy << 8) >> 8 on 32-bit integers. -/
theorem evalExpr_s24Ast (x y z : Int) :
    evalExpr wrap32 (tevcoordInputs x y z) s24Ast = some [s24 x, s24 y] := by
  simp [s24Ast, evalExpr, tevcoordInputs, Val.swizzle, broadcast2, mapOpt, zipOpt, evalBin, s24]

/-- The value of (x << 8) >> 8 lies in the signed 24-bit range and is congruent to x modulo
2^24. -/
theorem s24_range (x : Int) :
    -(2 ^ 23) ≤ s24 x ∧ s24 x ≤ 2 ^ 23 - 1 ∧ (s24 x - x) % 2 ^ 24 = 0 := by
  unfold s24 wrap32
  norm_num
  omega

/-- C26. Signed 24-bit truncation.  The statement tevcoord.xy = (tevcoord.xy << 8) >> 8 is
the last statement of every indirect operation, after the update of tevcoord.xy in its
add-previous and in its replace form alike; on 32-bit integers (wrapping left shift,
arithmetic right shift) it gives each of the two components x the value s24 x, which lies in
[-2^23, 2^23 - 1] and is congruent to x modulo 2^24 (so a value already in that range is
kept). -/
theorem WriteStage_signed_24_bit_truncation (bugs : DriverDetails) (out : ShaderCode) (n : Nat)
    (tevind : TevStageIndirect) (texcoord : Nat) (has_tex_coord : Bool) (x y z : Int) :
    -- emitted at the end of every indirect operation
    (tevcoordUpdateText n tevind.fb_addprev ++ s24Text).toList <:+
      (WriteStage_indirect bugs out n tevind texcoord has_tex_coord).text.toList ∧
    tevcoordUpdateText n true =
      "\ttevcoord.xy += wrappedcoord + indtevtrans" ++ toString n ++ ";\n" ∧
    tevcoordUpdateText n false =
      "\ttevcoord.xy = wrappedcoord + indtevtrans" ++ toString n ++ ";\n" ∧
    -- what the statement says
    parseAssign s24Text = some (ShaderExpr.swz (ShaderExpr.var tevcoordVar) [0, 1], s24Ast) ∧
    evalExpr wrap32 (tevcoordInputs x y z) s24Ast = some [s24 x, s24 y] ∧
    -- the value
    s24 x = wrap32 (x * 2 ^ 8) / 2 ^ 8 ∧
    -(2 ^ 23) ≤ s24 x ∧ s24 x ≤ 2 ^ 23 - 1 ∧ (s24 x - x) % 2 ^ 24 = 0 ∧
    (-(2 ^ 23) ≤ x ∧ x ≤ 2 ^ 23 - 1 → s24 x = x) := by
  refine ⟨?_, rfl, rfl, parseAssign_s24Text, evalExpr_s24Ast x y z, rfl, (s24_range x).1,
    (s24_range x).2.1, (s24_range x).2.2, ?_⟩
  · unfold WriteStage_indirect
    simp only []
    rw [WriteStage_tevcoord_text, String.append_assoc]
    simp only [String.toList, String.data_append]
    exact List.suffix_append _ _
  · intro h
    unfold s24 wrap32
    norm_num
    omega

/-! ## Properties of the indirect matrix selection -/

/-- The matrix id is a four-bit field. -/
theorem TevStageIndirect.mid_lt (t : TevStageIndirect) : t.mid < 16 := by
  unfold TevStageIndirect.mid
  exact Nat.mod_lt _ (by decide)

/-- The matrix id of the register built by tevindOfMid. -/
theorem tevindOfMid_mid (m : Fin 16) : (tevindOfMid m.val).mid = m.val := by
  revert m; decide

set_option maxRecDepth 100000 in
/-- For the matrix ids 4 and 8 of a stage with a valid texture coordinate the assertion of
the scale branch fails; the row index wraps around to 4294967294, the statements emitted
index the six-row matrix array with it, and the constant marked as used is index 19, below
the matrix array (C_INDTEXMTX is 21). -/
theorem WriteStage_indmtx_ids_4_8 :
    (tevindOfMid 4).mid = 4 ∧ (tevindOfMid 8).mid = 8 ∧
    ASSERT_indmtx (tevindOfMid 4) true = false ∧
    ASSERT_indmtx (tevindOfMid 8) true = false ∧
    WriteStage_mtxidx (tevindOfMid 4) true = some 4294967294 ∧
    WriteStage_mtxidx (tevindOfMid 8) true = some 4294967294 ∧
    WriteStage_indmtx driverSound ShaderCode.empty 0 (tevindOfMid 4) 0 true =
      { text := "\tint2 indtevtrans0 = int2(fixpoint_uv0 * iindtevcrd0.xx) >> 8;\n" ++
          "\tif (cindmtx[4294967294].w >= 0) indtevtrans0 >>= cindmtx[4294967294].w;\n" ++
          "\telse indtevtrans0 <<= (-cindmtx[4294967294].w);\n",
        constants_used := [(19, 19)] } ∧
    WriteStage_indmtx driverSound ShaderCode.empty 0 (tevindOfMid 8) 0 true =
      { text := "\tint2 indtevtrans0 = int2(fixpoint_uv0 * iindtevcrd0.yy) >> 8;\n" ++
          "\tif (cindmtx[4294967294].w >= 0) indtevtrans0 >>= cindmtx[4294967294].w;\n" ++
          "\telse indtevtrans0 <<= (-cindmtx[4294967294].w);\n",
        constants_used := [(19, 19)] } ∧
    C_INDTEXMTX = 21 := by
  decide!

/-- The row index of the three branches for the matrix ids they are meant for. -/
theorem u32_matrix_row :
    (∀ k : Fin 16, k.val ∈ [1, 2, 3] → u32 (2 * ((k.val : Int) - 1)) = matrixRow k.val) ∧
    (∀ k : Fin 16, k.val ∈ [5, 6, 7] → u32 (2 * ((k.val : Int) - 5)) = matrixRow k.val) ∧
    (∀ k : Fin 16, k.val ∈ [9, 10, 11] → u32 (2 * ((k.val : Int) - 9)) = matrixRow k.val) ∧
    (∀ m : Fin 6, u32 ((C_INDTEXMTX : Int) + (m.val : Int)) = C_INDTEXMTX + m.val ∧
      u32 ((m.val : Int) + 1) = m.val + 1) := by
  decide

/-- The text and the marked constant of the offset branch. -/
theorem WriteStage_indmtx_offset_eq (bugs : DriverDetails) (out : ShaderCode) (n : Nat)
    (tevind : TevStageIndirect) (m : Nat)
    (hm : u32 (2 * ((tevind.mid : Int) - 1)) = m) (hc : u32 ((C_INDTEXMTX : Int) + (m : Int)) =
      C_INDTEXMTX + m) (h1 : u32 ((m : Int) + 1) = m + 1) :
    WriteStage_indmtx_offset bugs out n tevind =
      { text := out.text ++ indmtxOffsetText bugs.BUG_BROKEN_BITWISE_OP_NEGATION n m,
        constants_used := out.constants_used ++ [(C_INDTEXMTX + m, C_INDTEXMTX + m)] } := by
  unfold WriteStage_indmtx_offset indmtxOffsetText
  simp only []
  rw [hm, hc, h1]
  cases bugs.BUG_BROKEN_BITWISE_OP_NEGATION <;>
    simp only [if_true, if_false, Bool.false_eq_true, ShaderCode.Write, ShaderCode.SetConstantsUsed,
      String.append_assoc]

/-- The text and the marked constant of a scale branch. -/
theorem WriteStage_indmtx_scale_eq (bugs : DriverDetails) (out : ShaderCode) (n : Nat)
    (tevind : TevStageIndirect) (texcoord base : Nat) (component : String) (m : Nat)
    (hm : u32 (2 * ((tevind.mid : Int) - base)) = m) (hc : u32 ((C_INDTEXMTX : Int) + (m : Int)) =
      C_INDTEXMTX + m) :
    WriteStage_indmtx_scale bugs out n tevind texcoord base component =
      { text := out.text ++
          indmtxScaleText bugs.BUG_BROKEN_BITWISE_OP_NEGATION n m texcoord component,
        constants_used := out.constants_used ++ [(C_INDTEXMTX + m, C_INDTEXMTX + m)] } := by
  unfold WriteStage_indmtx_scale indmtxScaleText
  simp only []
  rw [hm, hc]
  cases bugs.BUG_BROKEN_BITWISE_OP_NEGATION <;>
    simp only [if_true, if_false, Bool.false_eq_true, ShaderCode.Write, ShaderCode.SetConstantsUsed,
      String.append_assoc]

/-- C30. Indirect matrix selection is in range for the matrix ids 1, 2, 3 and, with a valid
texture coordinate, 5, 6, 7 and 9, 10, 11: neither assertion of WriteStage fails, the row
index mtxidx is 2 * ((mid - 1) % 4), one of 0, 2, 4, so the rows mtxidx and mtxidx + 1 the
text refers to lie in the six-row matrix array and the constant marked as used,
C_INDTEXMTX + mtxidx, lies in its range of constants; ids 1..3 give the full offset matrix
and ids 5..7 and 9..11 the S and the T scale-only form. -/
theorem WriteStage_indirect_matrix_in_range (bugs : DriverDetails) (out : ShaderCode) (n : Nat)
    (tevind : TevStageIndirect) (texcoord : Nat) (has_tex_coord : Bool)
    (hmid : tevind.mid ∈ [1, 2, 3] ∨
      (tevind.mid ∈ [5, 6, 7, 9, 10, 11] ∧ has_tex_coord = true)) :
    ASSERT_indmtx tevind has_tex_coord = true ∧
    WriteStage_mtxidx tevind has_tex_coord = some (matrixRow tevind.mid) ∧
    (matrixRow tevind.mid = 0 ∨ matrixRow tevind.mid = 2 ∨ matrixRow tevind.mid = 4) ∧
    matrixRow tevind.mid + 1 < 6 ∧
    WriteStage_indmtx bugs out n tevind texcoord has_tex_coord =
      { text := out.text ++
          (if tevind.mid ≤ 3 then
            indmtxOffsetText bugs.BUG_BROKEN_BITWISE_OP_NEGATION n (matrixRow tevind.mid)
          else
            indmtxScaleText bugs.BUG_BROKEN_BITWISE_OP_NEGATION n (matrixRow tevind.mid)
              texcoord (if tevind.mid ≤ 7 then "xx" else "yy")),
        constants_used := out.constants_used ++
          [(C_INDTEXMTX + matrixRow tevind.mid, C_INDTEXMTX + matrixRow tevind.mid)] } ∧
    C_INDTEXMTX ≤ C_INDTEXMTX + matrixRow tevind.mid ∧
    C_INDTEXMTX + matrixRow tevind.mid < C_INDTEXMTX + 6 ∧
    C_INDTEXMTX + 6 = C_FOGCOLOR := by
  obtain ⟨k, hk⟩ : ∃ k : Fin 16, k.val = tevind.mid := ⟨⟨tevind.mid, tevind.mid_lt⟩, rfl⟩
  have hnum : tevind.mid = 1 ∨ tevind.mid = 2 ∨ tevind.mid = 3 ∨ tevind.mid = 5 ∨
      tevind.mid = 6 ∨ tevind.mid = 7 ∨ tevind.mid = 9 ∨ tevind.mid = 10 ∨ tevind.mid = 11 := by
    rcases hmid with h | ⟨h, _⟩ <;>
      simp only [List.mem_cons, List.mem_singleton, List.mem_nil_iff, or_false] at h <;> omega
  have hrow : matrixRow tevind.mid = 0 ∨ matrixRow tevind.mid = 2 ∨ matrixRow tevind.mid = 4 := by
    unfold matrixRow; omega
  have hrow6 : matrixRow tevind.mid < 6 := by omega
  have hcm := (u32_matrix_row.2.2.2 ⟨matrixRow tevind.mid, hrow6⟩)
  simp only [] at hcm
  refine ⟨?_, ?_, hrow, by omega, ?_, Nat.le_add_right _ _, by omega, rfl⟩
  · unfold ASSERT_indmtx
    rcases hmid with h | ⟨h, ht⟩
    · simp only [List.mem_cons, List.mem_singleton, List.mem_nil_iff, or_false] at h
      rcases h with h | h | h <;> rw [h] <;> rfl
    · subst ht
      simp only [List.mem_cons, List.mem_singleton, List.mem_nil_iff, or_false] at h
      rcases h with h | h | h | h | h | h <;> rw [h] <;> rfl
  · unfold WriteStage_mtxidx
    rcases hmid with h | ⟨h, ht⟩
    · have h3 : tevind.mid ≤ 3 := by
        simp only [List.mem_cons, List.mem_singleton, List.mem_nil_iff, or_false] at h; omega
      have h0 : tevind.mid ≠ 0 := by
        simp only [List.mem_cons, List.mem_singleton, List.mem_nil_iff, or_false] at h; omega
      rw [if_pos h0, if_pos h3, ← hk, u32_matrix_row.1 k (hk ▸ h)]
    · subst ht
      simp only [List.mem_cons, List.mem_singleton, List.mem_nil_iff, or_false] at h
      have h0 : tevind.mid ≠ 0 := by omega
      have h3 : ¬ tevind.mid ≤ 3 := by omega
      rw [if_pos h0, if_neg h3]
      by_cases h7 : tevind.mid ≤ 7
      · have : (decide (tevind.mid ≤ 7) && true) = true := by simp [h7]
        rw [if_pos this, ← hk, u32_matrix_row.2.1 k (by
          rw [hk]; simp only [List.mem_cons, List.mem_singleton, List.mem_nil_iff, or_false]
          omega)]
      · have h7' : ¬ ((decide (tevind.mid ≤ 7) && true) = true) := by simp [h7]
        have h11 : (decide (tevind.mid ≤ 11) && true) = true := by
          simp only [Bool.and_true, decide_eq_true_eq]; omega
        rw [if_neg h7', if_pos h11, ← hk, u32_matrix_row.2.2.1 k (by
          rw [hk]; simp only [List.mem_cons, List.mem_singleton, List.mem_nil_iff, or_false]
          omega)]
  · unfold WriteStage_indmtx
    rcases hmid with h | ⟨h, ht⟩
    · have h3 : tevind.mid ≤ 3 := by
        simp only [List.mem_cons, List.mem_singleton, List.mem_nil_iff, or_false] at h; omega
      rw [if_pos h3, if_pos h3]
      exact WriteStage_indmtx_offset_eq bugs out n tevind _
        (by rw [← hk]; exact u32_matrix_row.1 k (hk ▸ h)) hcm.1 hcm.2
    · subst ht
      simp only [List.mem_cons, List.mem_singleton, List.mem_nil_iff, or_false] at h
      have h3 : ¬ tevind.mid ≤ 3 := by omega
      rw [if_neg h3, if_neg h3]
      by_cases h7 : tevind.mid ≤ 7
      · have : (decide (tevind.mid ≤ 7) && true) = true := by simp [h7]
        rw [if_pos this, if_pos h7]
        exact WriteStage_indmtx_scale_eq bugs out n tevind texcoord 5 "xx" _
          (by
            rw [← hk]
            exact u32_matrix_row.2.1 k (by
              rw [hk]; simp only [List.mem_cons, List.mem_singleton, List.mem_nil_iff, or_false]
              omega)) hcm.1
      · have h7' : ¬ ((decide (tevind.mid ≤ 7) && true) = true) := by simp [h7]
        have h11 : (decide (tevind.mid ≤ 11) && true) = true := by
          simp only [Bool.and_true, decide_eq_true_eq]; omega
        rw [if_neg h7', if_pos h11, if_neg h7]
        exact WriteStage_indmtx_scale_eq bugs out n tevind texcoord 9 "yy" _
          (by
            rw [← hk]
            exact u32_matrix_row.2.2.1 k (by
              rw [hk]; simp only [List.mem_cons, List.mem_singleton, List.mem_nil_iff, or_false]
              omega)) hcm.1

/-- Witness for C30: matrix id 6 with a valid texture coordinate. -/
theorem WriteStage_indirect_matrix_in_range_witness :
    ((tevindOfMid 6).mid ∈ [1, 2, 3] ∨
      ((tevindOfMid 6).mid ∈ [5, 6, 7, 9, 10, 11] ∧ true = true)) ∧
    WriteStage_mtxidx (tevindOfMid 6) true = some 2 ∧
    (WriteStage_indmtx driverSound ShaderCode.empty 1 (tevindOfMid 6) 0 true).constants_used =
      [(C_INDTEXMTX + 2, C_INDTEXMTX + 2)] := by
  have hmid : (tevindOfMid 6).mid ∈ [1, 2, 3] ∨
      ((tevindOfMid 6).mid ∈ [5, 6, 7, 9, 10, 11] ∧ true = true) := by decide
  have h := WriteStage_indirect_matrix_in_range driverSound ShaderCode.empty 1 (tevindOfMid 6) 0
    true hmid
  refine ⟨hmid, ?_, ?_⟩
  · rw [h.2.1]; decide
  · rw [h.2.2.2.2.1]; decide

/-! ## Properties of the copy of the last stage into prev -/

/-- The text of lines 821-837. -/
theorem GeneratePixelShaderCode_lastStage_text (out : ShaderCode) (u : pixel_shader_uid_data) :
    (GeneratePixelShaderCode_lastStage out u).text =
      out.text ++
        mirrorText
          (ColorCombiner.mk (u.stagehash.getD u.genMode_numtevstages default).cc).dest
          (AlphaCombiner.mk (u.stagehash.getD u.genMode_numtevstages default).ac).dest := by
  unfold GeneratePixelShaderCode_lastStage mirrorText mirrorRgbText mirrorAlphaText mask8Text
  simp only []
  split <;> split <;>
    simp only [ShaderCode.Write_text, String.append_assoc, String.append_empty,
      String.empty_append]

/-- The colour destination is a two-bit field. -/
theorem ColorCombiner_dest_lt (cc : ColorCombiner) : cc.dest < 4 := Nat.mod_lt _ (by decide)

/-- The alpha destination is a two-bit field. -/
theorem AlphaCombiner_dest_lt (ac : AlphaCombiner) : ac.dest < 4 := Nat.mod_lt _ (by decide)

/-- The lines of the text after the stage loop. -/
theorem linesFrom_mirrorText : ∀ dc da : Fin 4,
    linesFrom [] (mirrorText dc.val da.val).toList = mirrorLines dc.val da.val := by
  decide!

/-- Syntax of the three kinds of statement after the stage loop. -/
theorem parseAssign_mirror :
    (∀ d : Fin 4, parseAssign (mirrorRgbText d.val) =
      some (ShaderExpr.swz (ShaderExpr.var Var.prev) [0, 1, 2],
        ShaderExpr.swz (ShaderExpr.var (tevDest d.val)) [0, 1, 2])) ∧
    (∀ d : Fin 4, parseAssign (mirrorAlphaText d.val) =
      some (ShaderExpr.swz (ShaderExpr.var Var.prev) [3],
        ShaderExpr.swz (ShaderExpr.var (tevDest d.val)) [3])) ∧
    parseAssign mask8Text = some (ShaderExpr.var Var.prev, ShaderExpr.bin BinOp.band (ShaderExpr.var Var.prev) (ShaderExpr.num 255)) := by
  decide!

/-- The statements after the stage loop as a state transformer: prev receives the colour of
the colour destination and the alpha of the alpha destination, each masked to 8 bits; the
other registers are kept. -/
theorem exec_mirrorText (prev c0 c1 c2 : int4) (dc da : Nat) (hc : dc < 4) (ha : da < 4) :
    (exec id (tevRegisters prev c0 c1 c2) (mirrorText dc da)).map
        (fun env => (env Var.prev, env Var.c0, env Var.c1, env Var.c2)) =
      some (some [Int.land (tevRegister prev c0 c1 c2 dc).r 255,
          Int.land (tevRegister prev c0 c1 c2 dc).g 255,
          Int.land (tevRegister prev c0 c1 c2 dc).b 255,
          Int.land (tevRegister prev c0 c1 c2 da).a 255],
        some c0.val, some c1.val, some c2.val) := by
  have hl := linesFrom_mirrorText ⟨dc, hc⟩ ⟨da, ha⟩
  simp only [] at hl
  unfold exec
  rw [hl]
  have r1 : parseAssign (mirrorRgbText 1) = _ := parseAssign_mirror.1 1
  have r2 : parseAssign (mirrorRgbText 2) = _ := parseAssign_mirror.1 2
  have r3 : parseAssign (mirrorRgbText 3) = _ := parseAssign_mirror.1 3
  have a1 : parseAssign (mirrorAlphaText 1) = _ := parseAssign_mirror.2.1 1
  have a2 : parseAssign (mirrorAlphaText 2) = _ := parseAssign_mirror.2.1 2
  have a3 : parseAssign (mirrorAlphaText 3) = _ := parseAssign_mirror.2.1 3
  have m := parseAssign_mirror.2.2
  have hdc : dc = 0 ∨ dc = 1 ∨ dc = 2 ∨ dc = 3 := by omega
  have hda : da = 0 ∨ da = 1 ∨ da = 2 ∨ da = 3 := by omega
  rcases hdc with rfl | rfl | rfl | rfl <;> rcases hda with rfl | rfl | rfl | rfl <;>
    simp [mirrorLines, execAll, execAssign, r1, r2, r3, a1, a2, a3, m, evalExpr, assignTo,
      tevRegisters, tevRegister, tevDest, int4.val, Val.swizzle, Val.assignSwizzle, broadcast2,
      mapOpt, zipOpt, evalBin]

/-! ## Text of the blocks of the generator -/

/-- The text of a conditional buffer. -/
theorem ShaderCode.text_ite (c : Prop) [Decidable c] (a b : ShaderCode) :
    (if c then a else b).text = if c then a.text else b.text := by
  split <;> rfl

/-- The text of the empty buffer. -/
theorem ShaderCode.empty_text : ShaderCode.empty.text = "" := rfl

/-- A common prefix of the two branches of a conditional text. -/
theorem ite_append_both (c : Prop) [Decidable c] (p a b : String) :
    (if c then p ++ a else p ++ b) = p ++ (if c then a else b) := by
  split <;> rfl

/-- A conditional text whose else branch is the prefix of its then branch. -/
theorem ite_append_then (c : Prop) [Decidable c] (p a : String) :
    (if c then p ++ a else p) = p ++ (if c then a else "") := by
  split <;> simp only [String.append_empty]

/-- A conditional text whose then branch is the prefix of its else branch. -/
theorem ite_append_else (c : Prop) [Decidable c] (p b : String) :
    (if c then p else p ++ b) = p ++ (if c then "" else b) := by
  split <;> simp only [String.append_empty]

/-- A loop appends the texts its steps append. -/
theorem foldl_text {α : Type} (f : ShaderCode → α → ShaderCode)
    (h : ∀ out a, (f out a).text = out.text ++ emitted (fun o => f o a)) (l : List α)
    (out : ShaderCode) :
    (l.foldl f out).text = out.text ++ emitted (fun o => l.foldl f o) := by
  induction l generalizing out with
  | nil => simp only [List.foldl_nil, emitted, ShaderCode.empty_text, String.append_empty]
  | cons a l ih =>
    simp only [List.foldl_cons, emitted]
    rw [ih (f out a), ih (f ShaderCode.empty a), h out a, h ShaderCode.empty a]
    simp only [ShaderCode.empty_text, String.empty_append, String.append_assoc]

/-- The text WriteTevRegular appends. -/
theorem WriteTevRegular_text (out : ShaderCode) (components : String) (bias op clamp shift : Nat)
    (alpha : Bool) :
    (WriteTevRegular out components bias op clamp shift alpha).text =
      out.text ++ emitted (fun o => WriteTevRegular o components bias op clamp shift alpha) := by
  unfold emitted WriteTevRegular
  simp only [ShaderCode.Write_text, ShaderCode.empty_text, String.empty_append,
    String.append_assoc]

/-- The text WriteStage_colorCombine appends. -/
theorem WriteStage_colorCombine_text (out : ShaderCode) (cc : ColorCombiner) :
    (WriteStage_colorCombine out cc).text =
      out.text ++ emitted (fun o => WriteStage_colorCombine o cc) := by
  unfold emitted WriteStage_colorCombine
  simp only [ShaderCode.Write_text, ShaderCode.text_ite, WriteTevRegular_text,
    ShaderCode.empty_text, String.empty_append, String.append_assoc, ite_append_both,
    ite_append_then, ite_append_else]

/-- The text WriteStage_alphaCombine appends. -/
theorem WriteStage_alphaCombine_text (out : ShaderCode) (ac : AlphaCombiner) :
    (WriteStage_alphaCombine out ac).text =
      out.text ++ emitted (fun o => WriteStage_alphaCombine o ac) := by
  unfold emitted WriteStage_alphaCombine
  simp only [ShaderCode.Write_text, ShaderCode.text_ite, WriteTevRegular_text,
    ShaderCode.empty_text, String.empty_append, String.append_assoc, ite_append_both,
    ite_append_then, ite_append_else]

/-- The text WriteStage_konsttemp appends. -/
theorem WriteStage_konsttemp_text (out : ShaderCode) (stage : StageHash) :
    (WriteStage_konsttemp out stage).text =
      out.text ++ emitted (fun o => WriteStage_konsttemp o stage) := by
  unfold emitted WriteStage_konsttemp
  simp only [ShaderCode.Write_text, ShaderCode.SetConstantsUsed_text, ShaderCode.text_ite,
    ShaderCode.empty_text, String.empty_append, String.append_empty, String.append_assoc,
    ite_append_both, ite_append_then, ite_append_else]

/-- The text WriteStage_inputs appends. -/
theorem WriteStage_inputs_text (out : ShaderCode) (cc : ColorCombiner) (ac : AlphaCombiner) :
    (WriteStage_inputs out cc ac).text =
      out.text ++ emitted (fun o => WriteStage_inputs o cc ac) := by
  unfold emitted WriteStage_inputs
  simp only [ShaderCode.Write_text, ShaderCode.SetConstantsUsed_text, ShaderCode.text_ite,
    ShaderCode.empty_text, String.empty_append, String.append_empty, String.append_assoc,
    ite_append_both, ite_append_then, ite_append_else]

/-- The text WriteStage_alphabump appends. -/
theorem WriteStage_alphabump_text (out : ShaderCode) (tevind : TevStageIndirect) :
    (WriteStage_alphabump out tevind).text =
      out.text ++ emitted (fun o => WriteStage_alphabump o tevind) := by
  unfold emitted WriteStage_alphabump
  simp only [ShaderCode.Write_text, ShaderCode.SetConstantsUsed_text, ShaderCode.text_ite,
    ShaderCode.empty_text, String.empty_append, String.append_empty, String.append_assoc,
    ite_append_both, ite_append_then, ite_append_else]

/-- The text WriteStage_indcoord appends. -/
theorem WriteStage_indcoord_text (out : ShaderCode) (n : Nat) (tevind : TevStageIndirect) :
    (WriteStage_indcoord out n tevind).text =
      out.text ++ emitted (fun o => WriteStage_indcoord o n tevind) := by
  unfold emitted WriteStage_indcoord
  simp only [ShaderCode.Write_text, ShaderCode.SetConstantsUsed_text, ShaderCode.text_ite,
    ShaderCode.empty_text, String.empty_append, String.append_empty, String.append_assoc,
    ite_append_both, ite_append_then, ite_append_else]

/-- The text WriteStage_indmtx_offset appends. -/
theorem WriteStage_indmtx_offset_text (out : ShaderCode) (bugs : DriverDetails) (n : Nat)
    (tevind : TevStageIndirect) :
    (WriteStage_indmtx_offset bugs out n tevind).text =
      out.text ++ emitted (fun o => WriteStage_indmtx_offset bugs o n tevind) := by
  unfold emitted WriteStage_indmtx_offset
  simp only [ShaderCode.Write_text, ShaderCode.SetConstantsUsed_text, ShaderCode.text_ite,
    ShaderCode.empty_text, String.empty_append, String.append_empty, String.append_assoc,
    ite_append_both, ite_append_then, ite_append_else]

/-- The text WriteStage_indmtx_scale appends. -/
theorem WriteStage_indmtx_scale_text (out : ShaderCode) (bugs : DriverDetails) (n : Nat)
    (tevind : TevStageIndirect)
    (texcoord base : Nat) (component : String) :
    (WriteStage_indmtx_scale bugs out n tevind texcoord base component).text =
      out.text ++ emitted (fun o =>
        WriteStage_indmtx_scale bugs o n tevind texcoord base component) := by
  unfold emitted WriteStage_indmtx_scale
  simp only [ShaderCode.Write_text, ShaderCode.SetConstantsUsed_text, ShaderCode.text_ite,
    ShaderCode.empty_text, String.empty_append, String.append_empty, String.append_assoc,
    ite_append_both, ite_append_then, ite_append_else]

/-- The text WriteStage_indmtx appends. -/
theorem WriteStage_indmtx_text (out : ShaderCode) (bugs : DriverDetails) (n : Nat)
    (tevind : TevStageIndirect)
    (texcoord : Nat) (has_tex_coord : Bool) :
    (WriteStage_indmtx bugs out n tevind texcoord has_tex_coord).text =
      out.text ++ emitted (fun o => WriteStage_indmtx bugs o n tevind texcoord has_tex_coord) := by
  unfold emitted WriteStage_indmtx
  simp only [ShaderCode.Write_text, ShaderCode.SetConstantsUsed_text, ShaderCode.text_ite,
    ShaderCode.empty_text, String.empty_append, String.append_empty, String.append_assoc,
    ite_append_both, ite_append_then, ite_append_else,
    WriteStage_indmtx_offset_text, WriteStage_indmtx_scale_text]

/-- The text WriteStage_wrap appends. -/
theorem WriteStage_wrap_text (out : ShaderCode) (tevind : TevStageIndirect) (texcoord : Nat) :
    (WriteStage_wrap out tevind texcoord).text =
      out.text ++ emitted (fun o => WriteStage_wrap o tevind texcoord) := by
  unfold emitted WriteStage_wrap
  simp only [ShaderCode.Write_text, ShaderCode.SetConstantsUsed_text, ShaderCode.text_ite,
    ShaderCode.empty_text, String.empty_append, String.append_empty, String.append_assoc,
    ite_append_both, ite_append_then, ite_append_else]

/-- The text WriteStage_indirect appends. -/
theorem WriteStage_indirect_text (out : ShaderCode) (bugs : DriverDetails) (n : Nat)
    (tevind : TevStageIndirect)
    (texcoord : Nat) (has_tex_coord : Bool) :
    (WriteStage_indirect bugs out n tevind texcoord has_tex_coord).text =
      out.text ++ emitted (fun o =>
        WriteStage_indirect bugs o n tevind texcoord has_tex_coord) := by
  unfold emitted WriteStage_indirect
  simp only [ShaderCode.Write_text, ShaderCode.SetConstantsUsed_text, ShaderCode.text_ite,
    ShaderCode.empty_text, String.empty_append, String.append_empty, String.append_assoc,
    ite_append_both, ite_append_then, ite_append_else,
    WriteStage_alphabump_text, WriteStage_indcoord_text, WriteStage_indmtx_text,
    WriteStage_wrap_text, WriteStage_tevcoord_text]

/-- The text SampleTexture appends. -/
theorem SampleTexture_text (out : ShaderCode) (texcoords texswap : String) (texmap : Nat)
    (stereo : Bool)
    (api_type : APIType) :
    (SampleTexture out texcoords texswap texmap stereo api_type).text =
      out.text ++ emitted (fun o => SampleTexture o texcoords texswap texmap stereo api_type) := by
  unfold emitted SampleTexture
  simp only [ShaderCode.Write_text, ShaderCode.SetConstantsUsed_text, ShaderCode.text_ite,
    ShaderCode.empty_text, String.empty_append, String.append_empty, String.append_assoc,
    ite_append_both, ite_append_then, ite_append_else]

/-- The text WriteStage_ras appends. -/
theorem WriteStage_ras_text (out : ShaderCode) (stage : StageHash) (cc : ColorCombiner)
    (ac : AlphaCombiner) :
    (WriteStage_ras out stage cc ac).text =
      out.text ++ emitted (fun o => WriteStage_ras o stage cc ac) := by
  unfold emitted WriteStage_ras
  simp only [ShaderCode.Write_text, ShaderCode.SetConstantsUsed_text, ShaderCode.text_ite,
    ShaderCode.empty_text, String.empty_append, String.append_empty, String.append_assoc,
    ite_append_both, ite_append_then, ite_append_else]

/-- The text WriteStage_tex appends. -/
theorem WriteStage_tex_text (out : ShaderCode) (stage : StageHash) (texcoord : Nat)
    (has_tex_coord stereo : Bool) (api_type : APIType) :
    (WriteStage_tex out stage texcoord has_tex_coord stereo api_type).text =
      out.text ++ emitted (fun o =>
        WriteStage_tex o stage texcoord has_tex_coord stereo api_type) := by
  unfold emitted WriteStage_tex
  simp only [ShaderCode.Write_text, ShaderCode.SetConstantsUsed_text, ShaderCode.text_ite,
    ShaderCode.empty_text, String.empty_append, String.append_empty, String.append_assoc,
    ite_append_both, ite_append_then, ite_append_else,
    SampleTexture_text]

/-- The text WriteStage_konst appends. -/
theorem WriteStage_konst_text (out : ShaderCode) (stage : StageHash) (cc : ColorCombiner)
    (ac : AlphaCombiner) :
    (WriteStage_konst out stage cc ac).text =
      out.text ++ emitted (fun o => WriteStage_konst o stage cc ac) := by
  unfold emitted WriteStage_konst
  simp only [ShaderCode.Write_text, ShaderCode.SetConstantsUsed_text, ShaderCode.text_ite,
    ShaderCode.empty_text, String.empty_append, String.append_empty, String.append_assoc,
    ite_append_both, ite_append_then, ite_append_else,
    WriteStage_konsttemp_text]

/-- The block WriteStage_colors appends no text. -/
theorem WriteStage_colors_text (out : ShaderCode) (cc : ColorCombiner) (ac : AlphaCombiner) :
    (WriteStage_colors out cc ac).text = out.text := by
  unfold WriteStage_colors
  simp only [ShaderCode.SetConstantsUsed_text, ShaderCode.text_ite, ite_self]

/-- The text WriteStage appends. -/
theorem WriteStage_text (out : ShaderCode) (bugs : DriverDetails) (uid_data : pixel_shader_uid_data)
    (n : Nat) (api_type : APIType) (stereo : Bool) :
    (WriteStage bugs out uid_data n api_type stereo).text =
      out.text ++ emitted (fun o => WriteStage bugs o uid_data n api_type stereo) := by
  unfold emitted WriteStage
  simp only [ShaderCode.Write_text, ShaderCode.SetConstantsUsed_text, ShaderCode.text_ite,
    ShaderCode.empty_text, String.empty_append, String.append_empty, String.append_assoc,
    ite_append_both, ite_append_then, ite_append_else,
    WriteStage_indirect_text, WriteStage_ras_text, WriteStage_tex_text,
    WriteStage_konst_text, WriteStage_colors_text, WriteStage_inputs_text,
    WriteStage_colorCombine_text, WriteStage_alphaCombine_text]

/-- The text of the sample of one indirect stage. -/
theorem GeneratePixelShaderCode_indirectSample_text (out : ShaderCode) (api_type : APIType)
    (stereo : Bool)
    (uid_data : pixel_shader_uid_data) (i : Nat) :
    (GeneratePixelShaderCode_indirectSample out api_type stereo uid_data i).text =
      out.text ++ emitted (fun o =>
        GeneratePixelShaderCode_indirectSample o api_type stereo uid_data i) := by
  unfold emitted GeneratePixelShaderCode_indirectSample
  simp only [ShaderCode.Write_text, ShaderCode.SetConstantsUsed_text, ShaderCode.text_ite,
    ShaderCode.empty_text, String.empty_append, String.append_empty, String.append_assoc,
    ite_append_both, ite_append_then, ite_append_else,
    SampleTexture_text]

/-- C25. Last-stage mirroring.  After the stage loop the generated text copies the colour
destination register of the last stage (stage numtevstages) into prev.rgb when that register
is not prev, independently copies its alpha destination register into prev.a when that
register is not prev, and then masks prev with 255.  Run on any contents of the four colour
registers, these statements leave in prev the colour of the colour destination and the alpha
of the alpha destination of the last stage, each component reduced to 0..255, and keep c0, c1
and c2. -/
theorem GeneratePixelShaderCode_last_stage_mirroring (out : ShaderCode)
    (u : pixel_shader_uid_data) (prev c0 c1 c2 : int4) :
    (GeneratePixelShaderCode_lastStage out u).text =
      out.text ++
        mirrorText
          (ColorCombiner.mk (u.stagehash.getD u.genMode_numtevstages default).cc).dest
          (AlphaCombiner.mk (u.stagehash.getD u.genMode_numtevstages default).ac).dest ∧
    (∀ dc da : Nat, mirrorText dc da =
      (if dc ≠ 0 then "\tprev.rgb = " ++ tev_c_output_table.getD dc "" ++ ";\n" else "") ++
        (if da ≠ 0 then "\tprev.a = " ++ tev_a_output_table.getD da "" ++ ";\n" else "") ++
        "\tprev = prev & 255;\n") ∧
    (exec id (tevRegisters prev c0 c1 c2)
        (mirrorText
          (ColorCombiner.mk (u.stagehash.getD u.genMode_numtevstages default).cc).dest
          (AlphaCombiner.mk (u.stagehash.getD u.genMode_numtevstages default).ac).dest)).map
        (fun env => (env Var.prev, env Var.c0, env Var.c1, env Var.c2)) =
      some (some [
          Int.land (tevRegister prev c0 c1 c2
            (ColorCombiner.mk (u.stagehash.getD u.genMode_numtevstages default).cc).dest).r 255,
          Int.land (tevRegister prev c0 c1 c2
            (ColorCombiner.mk (u.stagehash.getD u.genMode_numtevstages default).cc).dest).g 255,
          Int.land (tevRegister prev c0 c1 c2
            (ColorCombiner.mk (u.stagehash.getD u.genMode_numtevstages default).cc).dest).b 255,
          Int.land (tevRegister prev c0 c1 c2
            (AlphaCombiner.mk (u.stagehash.getD u.genMode_numtevstages default).ac).dest).a 255],
        some c0.val, some c1.val, some c2.val) ∧
    (∀ x : Int, 0 ≤ Int.land x 255 ∧ Int.land x 255 ≤ 255) ∧
    -- the registers named are those the combine statements of that stage assign
    (∀ (o : ShaderCode) (cc : ColorCombiner) (ac : AlphaCombiner),
      (o.text ++ "\t// color combine\n" ++ "\t" ++ tev_c_output_table.getD cc.dest "" ++
          " = clamp(").toList <+: (WriteStage_colorCombine o cc).text.toList ∧
      (o.text ++ "\t// alpha combine\n" ++ "\t" ++ tev_a_output_table.getD ac.dest "" ++
          " = clamp(").toList <+: (WriteStage_alphaCombine o ac).text.toList) := by
  refine ⟨GeneratePixelShaderCode_lastStage_text out u, fun _ _ => rfl,
    exec_mirrorText prev c0 c1 c2 _ _ (ColorCombiner_dest_lt _) (AlphaCombiner_dest_lt _),
    land_255_bounds, ?_⟩
  intro o cc ac
  constructor
  · rw [WriteStage_colorCombine_text]
    unfold emitted WriteStage_colorCombine
    simp only [ShaderCode.Write_text, ShaderCode.text_ite, WriteTevRegular_text,
      ShaderCode.empty_text, String.empty_append, String.append_assoc, ite_append_both,
      ite_append_then, ite_append_else]
    simp only [String.toList, String.data_append, List.append_assoc]
    exact (List.prefix_append_right_inj _).2 ((List.prefix_append_right_inj _).2
      ((List.prefix_append_right_inj _).2 ((List.prefix_append_right_inj _).2
        (List.prefix_append _ _))))
  · rw [WriteStage_alphaCombine_text]
    unfold emitted WriteStage_alphaCombine
    simp only [ShaderCode.Write_text, ShaderCode.text_ite, WriteTevRegular_text,
      ShaderCode.empty_text, String.empty_append, String.append_assoc, ite_append_both,
      ite_append_then, ite_append_else]
    simp only [String.toList, String.data_append, List.append_assoc]
    exact (List.prefix_append_right_inj _).2 ((List.prefix_append_right_inj _).2
      ((List.prefix_append_right_inj _).2 ((List.prefix_append_right_inj _).2
        (List.prefix_append _ _))))

/-! ## Properties of the texture coordinate fallback -/

/-- Replacing the texture coordinate of a stage keeps texture map, enable and colour channel
of every stage. -/
theorem withStageTexCoord_others (g : Globals) (n t m : Nat) :
    ((g.withStageTexCoord n t).bpmem.tevorders (m / 2)).getTexMap (m &&& 1) =
        (g.bpmem.tevorders (m / 2)).getTexMap (m &&& 1) ∧
    ((g.withStageTexCoord n t).bpmem.tevorders (m / 2)).getEnable (m &&& 1) =
        (g.bpmem.tevorders (m / 2)).getEnable (m &&& 1) ∧
    ((g.withStageTexCoord n t).bpmem.tevorders (m / 2)).getColorChan (m &&& 1) =
        (g.bpmem.tevorders (m / 2)).getColorChan (m &&& 1) := by
  simp only [Globals.withStageTexCoord, Function.update_apply]
  by_cases h : m / 2 = n / 2
  · rw [if_pos h, h]
    unfold TwoTevStageOrders.withTexCoord TwoTevStageOrders.getTexMap
      TwoTevStageOrders.getEnable TwoTevStageOrders.getColorChan
    by_cases hn : n &&& 1 = 0 <;> by_cases hm : m &&& 1 = 0 <;>
      simp only [hn, hm, ne_eq, not_true_eq_false, not_false_eq_true, if_true, if_false,
        and_self]
  · rw [if_neg h]
    exact ⟨rfl, rfl, rfl⟩

/-- Replacing the texture coordinate of stage n: the texture coordinate of stage n is the
new one, that of every other stage is kept. -/
theorem withStageTexCoord_getTexCoord (g : Globals) (n t m : Nat) :
    ((g.withStageTexCoord n t).bpmem.tevorders (m / 2)).getTexCoord (m &&& 1) =
      if m = n then t else (g.bpmem.tevorders (m / 2)).getTexCoord (m &&& 1) := by
  simp only [Globals.withStageTexCoord, Function.update_apply, Nat.and_one_is_mod]
  by_cases h : m / 2 = n / 2
  · rw [if_pos h, h]
    unfold TwoTevStageOrders.withTexCoord TwoTevStageOrders.getTexCoord
    by_cases hmn : m = n
    · subst hmn
      rw [if_pos rfl]
      by_cases h0 : m % 2 = 0
      · simp [h0]
      · simp [h0]
    · rw [if_neg hmn]
      have hne : m % 2 ≠ n % 2 := by omega
      by_cases h0 : n % 2 = 0
      · have h1 : m % 2 ≠ 0 := by omega
        simp [h0, h1]
      · have h1 : m % 2 = 0 := by omega
        simp [h0, h1]
  · rw [if_neg h]
    have hmn : m ≠ n := fun e => h (by rw [e])
    rw [if_neg hmn]

/-- The texture coordinate a stage record stores: the index of the generator when it is
enabled, the number of generators otherwise. -/
theorem GetPixelShaderUid_stage_texcoord (bpmem : BPMemory) (n : Nat) (st : StageHash) :
    (GetPixelShaderUid_stage bpmem n st).tevorders_texcoord =
      if (bpmem.tevorders (n / 2)).getTexCoord (n &&& 1) < bpmem.genMode.numtexgens then
        (bpmem.tevorders (n / 2)).getTexCoord (n &&& 1)
      else bpmem.genMode.numtexgens := by
  have hkonst : ∀ s, (GetPixelShaderUid_stage_konst bpmem n s).tevorders_texcoord =
      s.tevorders_texcoord := by
    intro s; unfold GetPixelShaderUid_stage_konst; simp only []; split <;> rfl
  have htex : ∀ s, (GetPixelShaderUid_stage_tex bpmem n s).tevorders_texcoord =
      s.tevorders_texcoord := by
    intro s; unfold GetPixelShaderUid_stage_tex; simp only []; split <;> rfl
  have hras : ∀ s, (GetPixelShaderUid_stage_ras bpmem n s).tevorders_texcoord =
      s.tevorders_texcoord := by
    intro s; unfold GetPixelShaderUid_stage_ras; simp only []; split <;> rfl
  unfold GetPixelShaderUid_stage
  simp only [hkonst, htex, hras]
  unfold GetPixelShaderUid_stage_head
  simp only []
  by_cases h : (bpmem.tevorders (n / 2)).getTexCoord (n &&& 1) < bpmem.genMode.numtexgens
  · simp only [h, decide_True, Bool.not_true, Bool.false_eq_true, if_false, if_true]
    split <;> rfl
  · simp only [h, decide_False, Bool.not_false, if_true, if_false]
    split <;> rfl

/-- The number of texture coordinate generators in the UID. -/
theorem GetPixelShaderUid_genMode_numtexgens (L : UidLayout) (g : Globals) :
    (GetPixelShaderUid L g).genMode_numtexgens = g.bpmem.genMode.numtexgens := by
  have hb : ∀ u, (GetPixelShaderUid_blend g u).genMode_numtexgens = u.genMode_numtexgens := by
    intro u; unfold GetPixelShaderUid_blend; simp only []; split <;> rfl
  have ha : ∀ u, (GetPixelShaderUid_alphaTest g u).genMode_numtexgens = u.genMode_numtexgens := by
    intro u; unfold GetPixelShaderUid_alphaTest; simp only []; split <;> rfl
  have hs : ∀ u, (GetPixelShaderUid_stages g u).genMode_numtexgens = u.genMode_numtexgens := by
    intro u; unfold GetPixelShaderUid_stages
    apply foldl_keep (fun v : pixel_shader_uid_data => v.genMode_numtexgens); intro b a; rfl
  have hi : ∀ u, (GetPixelShaderUid_indirect g u).genMode_numtexgens = u.genMode_numtexgens := by
    intro u; unfold GetPixelShaderUid_indirect
    simp only []
    refine Eq.trans (foldl_keep (fun v : pixel_shader_uid_data => v.genMode_numtexgens) _ ?_ _ _)
      rfl
    intro b a
    simp only [pixel_shader_uid_data.SetTevindrefValues]; split <;> rfl
  have hp : ∀ u, (GetPixelShaderUid_projection g u).genMode_numtexgens =
      u.genMode_numtexgens := by
    intro u; unfold GetPixelShaderUid_projection
    split
    · apply foldl_keep (fun v : pixel_shader_uid_data => v.genMode_numtexgens); intro b a; rfl
    · rfl
  have hl : ∀ u, (GetPixelShaderUid_lighting g u).genMode_numtexgens = u.genMode_numtexgens := by
    intro u; unfold GetPixelShaderUid_lighting; split <;> rfl
  unfold GetPixelShaderUid
  simp only [hb]
  rw [show ∀ v, (GetPixelShaderUid_depthFog g v).genMode_numtexgens = v.genMode_numtexgens
    from fun _ => rfl, ha,
    show ∀ v, (GetPixelShaderUid_numValues L g v).genMode_numtexgens = v.genMode_numtexgens
    from fun _ => rfl, hs, hi, hp, hl]
  rfl

/-- Two out-of-range texture coordinate indices of a stage give the same UID. -/
theorem GetPixelShaderUid_withStageTexCoord (L : UidLayout) (g : Globals) (n t : Nat)
    (hout : ¬ (g.bpmem.tevorders (n / 2)).getTexCoord (n &&& 1) < g.bpmem.genMode.numtexgens)
    (ht : ¬ t < g.bpmem.genMode.numtexgens) :
    GetPixelShaderUid L (g.withStageTexCoord n t) = GetPixelShaderUid L g := by
  apply GetPixelShaderUid_congr L g (g.withStageTexCoord n t) rfl rfl rfl rfl ?_ rfl rfl rfl rfl
  intro m st
  have ho := withStageTexCoord_others g n t m
  have hc := withStageTexCoord_getTexCoord g n t m
  have hgm : (g.withStageTexCoord n t).bpmem.genMode = g.bpmem.genMode := rfl
  have hti : (g.withStageTexCoord n t).bpmem.tevind = g.bpmem.tevind := rfl
  have hcm : (g.withStageTexCoord n t).bpmem.combiners = g.bpmem.combiners := rfl
  have hks : (g.withStageTexCoord n t).bpmem.tevksel = g.bpmem.tevksel := rfl
  have hhead : ∀ s, GetPixelShaderUid_stage_head (g.withStageTexCoord n t).bpmem m s =
      GetPixelShaderUid_stage_head g.bpmem m s := by
    intro s
    unfold GetPixelShaderUid_stage_head
    simp only [hgm, hti, hcm, hc]
    by_cases hmn : m = n
    · subst hmn
      simp only [if_true, ht, hout, decide_False, Bool.not_false]
    · simp only [hmn, if_false]
  have hras : ∀ s, GetPixelShaderUid_stage_ras (g.withStageTexCoord n t).bpmem m s =
      GetPixelShaderUid_stage_ras g.bpmem m s := by
    intro s
    unfold GetPixelShaderUid_stage_ras
    simp only [hcm, hks, ho.2.2]
  have htex : ∀ s, GetPixelShaderUid_stage_tex (g.withStageTexCoord n t).bpmem m s =
      GetPixelShaderUid_stage_tex g.bpmem m s := by
    intro s
    unfold GetPixelShaderUid_stage_tex
    simp only [hcm, hks, ho.1, ho.2.1]
  have hkonst : ∀ s, GetPixelShaderUid_stage_konst (g.withStageTexCoord n t).bpmem m s =
      GetPixelShaderUid_stage_konst g.bpmem m s := by
    intro s
    rfl
  unfold GetPixelShaderUid_stage
  simp only [hhead, hras, htex, hkonst]

/-! ## Auxiliary facts on occurrences -/

/-- The pair x y in a concatenation is in the left part, in the right part, or made of the
last character of the left and the first of the right. -/
theorem hasBigram_append (x y : Char) (a b : List Char) :
    hasBigram x y (a ++ b) =
      (hasBigram x y a || hasBigram x y b || (a.getLast? == some x && b.head? == some y)) := by
  induction a with
  | nil => cases b <;> simp [hasBigram]
  | cons c a ih =>
    cases a with
    | nil =>
      cases b with
      | nil => simp [hasBigram]
      | cons d b => simp [hasBigram, Bool.or_comm]
    | cons d a =>
      have e : hasBigram x y (c :: d :: a ++ b) =
          ((c == x && d == y) || hasBigram x y (d :: a ++ b)) := rfl
      rw [e, ih]
      simp only [hasBigram, List.getLast?_cons_cons, Bool.or_assoc]

/-- Concatenation keeps cleanness. -/
theorem clean_append (x y : Char) (a b : String) (ha : clean x y a = true)
    (hb : clean x y b = true) : clean x y (a ++ b) = true := by
  unfold clean at *
  simp only [String.toList, String.data_append, Bool.and_eq_true, Bool.not_eq_true',
    bne_iff_ne, ne_eq] at *
  obtain ⟨ha1, ha2⟩ := ha
  obtain ⟨hb1, hb2⟩ := hb
  constructor
  · rw [hasBigram_append, ha1, hb1]
    simp only [Bool.or_self, Bool.false_or, Bool.and_eq_false_imp, beq_iff_eq]
    intro h
    exact absurd h ha2
  · cases hbd : b.data with
    | nil => simpa using ha2
    | cons c cs =>
      rw [← hbd, List.getLast?_append_of_ne_nil _ (by rw [hbd]; exact List.cons_ne_nil _ _)]
      exact hb2

/-- The empty text is clean. -/
theorem clean_empty (x y : Char) : clean x y "" = true := by
  simp [clean, hasBigram]

/-- A conditional text with clean branches is clean. -/
theorem clean_ite (x y : Char) (c : Prop) [Decidable c] (a b : String)
    (ha : clean x y a = true) (hb : clean x y b = true) :
    clean x y (if c then a else b) = true := by
  split <;> assumption

/-- A list without x has no pair x y. -/
theorem hasBigram_of_not_mem (x y : Char) (l : List Char) (h : ∀ c ∈ l, c ≠ x) :
    hasBigram x y l = false := by
  induction l with
  | nil => rfl
  | cons a l ih =>
    cases l with
    | nil => rfl
    | cons b l =>
      simp only [hasBigram, Bool.or_eq_false_iff, Bool.and_eq_false_imp, beq_iff_eq]
      refine ⟨fun e => absurd e (h a (List.mem_cons_self _ _)), ?_⟩
      exact ih (fun c hc => h c (List.mem_cons_of_mem _ hc))

/-- A text without the character x is clean. -/
theorem clean_of_not_mem (x y : Char) (s : String) (h : ∀ c ∈ s.toList, c ≠ x) :
    clean x y s = true := by
  unfold clean
  simp only [Bool.and_eq_true, Bool.not_eq_true', bne_iff_ne, ne_eq]
  refine ⟨hasBigram_of_not_mem x y _ h, ?_⟩
  intro hl
  exact h x (List.mem_of_getLast?_eq_some hl) rfl

/-- Every character of a decimal numeral is a digit. -/
theorem toDigitsCore_digits (fuel n : Nat) (ds : List Char)
    (h : ∀ c ∈ ds, c.isDigit = true) :
    ∀ c ∈ Nat.toDigitsCore 10 fuel n ds, c.isDigit = true := by
  induction fuel generalizing n ds with
  | zero => simpa [Nat.toDigitsCore] using h
  | succ fuel ih =>
    have hd : (Nat.digitChar (n % 10)).isDigit = true := by
      have : n % 10 < 10 := Nat.mod_lt _ (by decide)
      revert this
      generalize n % 10 = k
      intro hk
      have hk' : ∀ j : Fin 10, (Nat.digitChar j.val).isDigit = true := by decide
      exact hk' ⟨k, hk⟩
    have hds : ∀ c ∈ Nat.digitChar (n % 10) :: ds, c.isDigit = true := by
      intro c hc
      rcases List.mem_cons.1 hc with e | e
      · rw [e]; exact hd
      · exact h c e
    unfold Nat.toDigitsCore
    simp only []
    split
    · exact hds
    · exact ih _ _ hds

/-- Every character of a number written by toString is a digit. -/
theorem toString_nat_digits (n : Nat) : ∀ c ∈ (toString n).toList, c.isDigit = true := by
  show ∀ c ∈ (Nat.repr n).toList, c.isDigit = true
  unfold Nat.repr Nat.toDigits
  simp only [List.asString, String.toList]
  exact toDigitsCore_digits _ _ [] (fun c hc => absurd hc (List.not_mem_nil c))

/-- A number written by toString is clean for every letter x. -/
theorem clean_toString (x y : Char) (hx : x.isDigit = false) (n : Nat) :
    clean x y (toString n) = true := by
  apply clean_of_not_mem
  intro c hc e
  have := toString_nat_digits n c hc
  rw [e, hx] at this
  exact Bool.noConfusion this

/-- An entry of a table of clean texts is clean. -/
theorem clean_getD (x y : Char) (l : List String) (i : Nat) (d : String)
    (hl : ∀ e ∈ l, clean x y e = true) (hd : clean x y d = true) :
    clean x y (l.getD i d) = true := by
  rw [List.getD_eq_getElem?_getD]
  cases h : l[i]? with
  | none => exact hd
  | some e => exact hl e (List.getElem?_mem h)

/-- The pair x y of a prefix is in the whole list. -/
theorem hasBigram_of_isPrefixOf (x y : Char) (needle text : List Char)
    (hn : hasBigram x y needle = true) (hp : needle.isPrefixOf text = true) :
    hasBigram x y text = true := by
  rw [ List.isPrefixOf_iff_prefix] at hp
  obtain ⟨t, rfl⟩ := hp
  rw [hasBigram_append, hn]
  rfl

/-- The pair x y of the tail of a list is in the list. -/
theorem hasBigram_cons (x y c : Char) (l : List Char) (h : hasBigram x y l = true) :
    hasBigram x y (c :: l) = true := by
  cases l with
  | nil => exact h
  | cons d l => simp only [hasBigram, Bool.or_eq_true]; exact Or.inr h

/-- A needle with the pair x y does not occur in a list without that pair. -/
theorem occurrences_eq_zero (x y : Char) (needle text : List Char)
    (hn : hasBigram x y needle = true) (ht : hasBigram x y text = false) :
    occurrences needle text = 0 := by
  induction text with
  | nil => rfl
  | cons c cs ih =>
    unfold occurrences
    have h1 : needle.isPrefixOf (c :: cs) = false := by
      cases h : needle.isPrefixOf (c :: cs)
      · rfl
      · rw [hasBigram_of_isPrefixOf x y needle _ hn h] at ht
        exact Bool.noConfusion ht
    have h2 : hasBigram x y cs = false := by
      cases h : hasBigram x y cs
      · rfl
      · rw [hasBigram_cons x y c cs h] at ht
        exact Bool.noConfusion ht
    rw [h1, ih h2]
    rfl

/-- A name with the pair x y does not occur in a clean text. -/
theorem mentions_eq_zero (x y : Char) (needle text : String)
    (hn : hasBigram x y needle.toList = true) (ht : clean x y text = true) :
    mentions needle text = 0 := by
  unfold clean at ht
  simp only [Bool.and_eq_true, Bool.not_eq_true'] at ht
  exact occurrences_eq_zero x y _ _ hn ht.1

/-- A needle without line end that starts in a line ends in it. -/
theorem isPrefixOf_append_of_newline (needle l b : List Char)
    (hn : ∀ c ∈ needle, c ≠ '\n') (hl : l.getLast? = some '\n') :
    needle.isPrefixOf (l ++ b) = needle.isPrefixOf l := by
  induction needle generalizing l with
  | nil => simp [List.isPrefixOf]
  | cons n ns ih =>
    cases l with
    | nil => simp at hl
    | cons c l =>
      cases l with
      | nil =>
        simp only [List.getLast?_singleton, Option.some.injEq] at hl
        subst hl
        have : (n == '\n') = false := by
          simp only [beq_eq_false_iff_ne, ne_eq]
          exact hn n (List.mem_cons_self _ _)
        cases ns <;> simp [List.isPrefixOf, this]
      | cons d l =>
        simp only [List.cons_append, List.isPrefixOf]
        rw [List.getLast?_cons_cons] at hl
        show (n == c && ns.isPrefixOf ((d :: l) ++ b)) = _
        rw [ih (d :: l) (fun c hc => hn c (List.mem_cons_of_mem _ hc)) hl]

/-- Occurrences of a needle without line end are counted line by line. -/
theorem occurrences_append (needle a b : List Char) (hn : ∀ c ∈ needle, c ≠ '\n')
    (ha : a = [] ∨ a.getLast? = some '\n') :
    occurrences needle (a ++ b) = occurrences needle a + occurrences needle b := by
  induction a with
  | nil => simp [occurrences]
  | cons c a ih =>
    have hl : (c :: a).getLast? = some '\n' := by
      rcases ha with h | h
      · exact absurd h (List.cons_ne_nil _ _)
      · exact h
    have ha' : a = [] ∨ a.getLast? = some '\n' := by
      cases a with
      | nil => exact Or.inl rfl
      | cons d a => right; rw [List.getLast?_cons_cons] at hl; exact hl
    have e1 : occurrences needle (c :: a ++ b) =
        (if needle.isPrefixOf (c :: a ++ b) then 1 else 0) + occurrences needle (a ++ b) := rfl
    have e2 : occurrences needle (c :: a) =
        (if needle.isPrefixOf (c :: a) then 1 else 0) + occurrences needle a := rfl
    rw [e1, e2, ih ha', isPrefixOf_append_of_newline needle (c :: a) b hn hl]
    omega

/-- Occurrences of a name without line end in a text that starts with whole lines. -/
theorem mentions_append (needle a b : String) (hn : ∀ c ∈ needle.toList, c ≠ '\n')
    (ha : lineAligned a = true) :
    mentions needle (a ++ b) = mentions needle a + mentions needle b := by
  unfold mentions
  simp only [String.toList, String.data_append]
  apply occurrences_append _ _ _ hn
  unfold lineAligned at ha
  simp only [String.toList, Bool.or_eq_true, List.isEmpty_iff, beq_iff_eq] at ha
  exact ha

/-- A text that ends with a line end consists of whole lines. -/
theorem lineAligned_of_endsLine (s : String) (h : endsLine s = true) : lineAligned s = true := by
  unfold endsLine at h
  unfold lineAligned
  rw [h, Bool.or_true]

/-- A text followed by a text that ends with a line end ends with a line end. -/
theorem endsLine_append (a b : String) (h : endsLine b = true) : endsLine (a ++ b) = true := by
  unfold endsLine at *
  simp only [String.toList, String.data_append, beq_iff_eq] at *
  cases hb : b.data with
  | nil => rw [hb] at h; simp at h
  | cons c cs =>
    rw [← hb, List.getLast?_append_of_ne_nil _ (by rw [hb]; exact List.cons_ne_nil _ _)]
    exact h

/-- A text that ends with a line end, followed by whole lines, ends with a line end. -/
theorem endsLine_append_left (a b : String) (ha : endsLine a = true)
    (hb : lineAligned b = true) : endsLine (a ++ b) = true := by
  unfold lineAligned at hb
  simp only [Bool.or_eq_true, List.isEmpty_iff] at hb
  rcases hb with hb | hb
  · have : b = "" := by
      cases b with | mk d => simp only [String.toList] at hb; subst hb; rfl
    rw [this, String.append_empty]; exact ha
  · exact endsLine_append a b hb

/-- A conditional text whose branches consist of whole lines consists of whole lines. -/
theorem lineAligned_ite (c : Prop) [Decidable c] (a b : String) (ha : lineAligned a = true)
    (hb : lineAligned b = true) : lineAligned (if c then a else b) = true := by
  split <;> assumption

/-- A conditional text whose branches end with a line end ends with a line end. -/
theorem endsLine_ite (c : Prop) [Decidable c] (a b : String) (ha : endsLine a = true)
    (hb : endsLine b = true) : endsLine (if c then a else b) = true := by
  split <;> assumption

/-! ## The blocks of a stage that mention neither fixpoint_uv nor an output variable -/

/-- The pair u v is a mark. -/
theorem isMark_coord : isMark 'u' 'v' := Or.inl ⟨rfl, rfl⟩

/-- A swizzle character is one of r, g, b, a and the terminator. -/
theorem swapChar_mem (i : Nat) : swapChar i ∈ ['r', 'g', 'b', 'a', Char.ofNat 0] := by
  unfold swapChar
  rw [List.getD_eq_getElem?_getD]
  cases h : "rgba".toList[i]? with
  | none => simp
  | some e =>
    have := List.getElem?_mem h
    simp only [Option.getD_some]
    revert this
    simp only [String.toList, List.mem_cons, List.mem_singleton, List.not_mem_nil, or_false]
    intro h
    rcases h with h | h | h | h <;> simp [h]

/-- A swizzle string has no mark. -/
theorem clean_swap (x y : Char) (h : isMark x y) (a b c d : Nat) :
    clean x y (String.mk [swapChar a, swapChar b, swapChar c, swapChar d]) = true := by
  apply clean_of_not_mem
  intro e he
  have hx : x ∉ ['r', 'g', 'b', 'a', Char.ofNat 0] := by
    rcases h with ⟨rfl, rfl⟩ | ⟨rfl, rfl⟩ <;> decide
  simp only [String.toList, List.mem_cons, List.mem_singleton, List.not_mem_nil, or_false] at he
  rcases he with rfl | rfl | rfl | rfl <;> exact fun e => hx (e ▸ swapChar_mem _)

/-- The text of WriteTevRegular has no mark. -/
theorem WriteTevRegular_clean (x y : Char) (h : isMark x y) (components : String)
    (bias op clamp shift : Nat) (alpha : Bool) (hc : clean x y components = true) :
    clean x y (emitted (fun o => WriteTevRegular o components bias op clamp shift alpha)) =
      true := by
  unfold emitted WriteTevRegular
  simp only [ShaderCode.Write_text, ShaderCode.SetConstantsUsed_text, ShaderCode.text_ite,
    ShaderCode.empty_text, String.empty_append, String.append_empty, String.append_assoc,
    ite_append_both, ite_append_then, ite_append_else]
  repeat' first
    | with_reducible apply clean_append
    | with_reducible apply clean_ite
    | with_reducible apply clean_toString
    | with_reducible apply clean_getD
    | with_reducible exact hc
  all_goals (rcases h with ⟨rfl, rfl⟩ | ⟨rfl, rfl⟩ <;> decide)

/-- The text of WriteStage_colorCombine has no mark. -/
theorem WriteStage_colorCombine_clean (x y : Char) (h : isMark x y) (cc : ColorCombiner) :
    clean x y (emitted (fun o => WriteStage_colorCombine o cc)) = true := by
  unfold emitted WriteStage_colorCombine
  simp only [ShaderCode.Write_text, ShaderCode.SetConstantsUsed_text, ShaderCode.text_ite,
    ShaderCode.empty_text, String.empty_append, String.append_empty, String.append_assoc,
    ite_append_both, ite_append_then, ite_append_else, WriteTevRegular_text]
  repeat' first
    | with_reducible apply clean_append
    | with_reducible apply clean_ite
    | with_reducible apply clean_toString
    | with_reducible apply clean_getD
    | with_reducible apply WriteTevRegular_clean _ _ h
  all_goals (rcases h with ⟨rfl, rfl⟩ | ⟨rfl, rfl⟩ <;> decide)

/-- The text of WriteStage_alphaCombine has no mark. -/
theorem WriteStage_alphaCombine_clean (x y : Char) (h : isMark x y) (ac : AlphaCombiner) :
    clean x y (emitted (fun o => WriteStage_alphaCombine o ac)) = true := by
  unfold emitted WriteStage_alphaCombine
  simp only [ShaderCode.Write_text, ShaderCode.SetConstantsUsed_text, ShaderCode.text_ite,
    ShaderCode.empty_text, String.empty_append, String.append_empty, String.append_assoc,
    ite_append_both, ite_append_then, ite_append_else, WriteTevRegular_text]
  repeat' first
    | with_reducible apply clean_append
    | with_reducible apply clean_ite
    | with_reducible apply clean_toString
    | with_reducible apply clean_getD
    | with_reducible apply WriteTevRegular_clean _ _ h
  all_goals (rcases h with ⟨rfl, rfl⟩ | ⟨rfl, rfl⟩ <;> decide)

/-- The text of WriteStage_konsttemp has no mark. -/
theorem WriteStage_konsttemp_clean (x y : Char) (h : isMark x y)
    (stage : StageHash) :
    clean x y
      (emitted (fun o => WriteStage_konsttemp o stage)) =
      true := by
  unfold emitted WriteStage_konsttemp
  simp only [ShaderCode.Write_text, ShaderCode.SetConstantsUsed_text, ShaderCode.text_ite,
    ShaderCode.empty_text, String.empty_append, String.append_empty, String.append_assoc,
    ite_append_both, ite_append_then, ite_append_else]
  repeat' first
    | with_reducible apply clean_append
    | with_reducible apply clean_ite
    | with_reducible apply clean_toString
    | with_reducible apply clean_getD
  all_goals (rcases h with ⟨rfl, rfl⟩ | ⟨rfl, rfl⟩ <;> decide)

/-- The text of WriteStage_inputs has no mark. -/
theorem WriteStage_inputs_clean (x y : Char) (h : isMark x y)
    (cc : ColorCombiner) (ac : AlphaCombiner) :
    clean x y
      (emitted (fun o => WriteStage_inputs o cc ac)) =
      true := by
  unfold emitted WriteStage_inputs
  simp only [ShaderCode.Write_text, ShaderCode.SetConstantsUsed_text, ShaderCode.text_ite,
    ShaderCode.empty_text, String.empty_append, String.append_empty, String.append_assoc,
    ite_append_both, ite_append_then, ite_append_else]
  repeat' first
    | with_reducible apply clean_append
    | with_reducible apply clean_ite
    | with_reducible apply clean_toString
    | with_reducible apply clean_getD
  all_goals (rcases h with ⟨rfl, rfl⟩ | ⟨rfl, rfl⟩ <;> decide)

/-- The text of WriteStage_alphabump has no mark. -/
theorem WriteStage_alphabump_clean (x y : Char) (h : isMark x y)
    (tevind : TevStageIndirect) :
    clean x y
      (emitted (fun o => WriteStage_alphabump o tevind)) =
      true := by
  unfold emitted WriteStage_alphabump
  simp only [ShaderCode.Write_text, ShaderCode.SetConstantsUsed_text, ShaderCode.text_ite,
    ShaderCode.empty_text, String.empty_append, String.append_empty, String.append_assoc,
    ite_append_both, ite_append_then, ite_append_else]
  repeat' first
    | with_reducible apply clean_append
    | with_reducible apply clean_ite
    | with_reducible apply clean_toString
    | with_reducible apply clean_getD
  all_goals (rcases h with ⟨rfl, rfl⟩ | ⟨rfl, rfl⟩ <;> decide)

/-- The text of WriteStage_indcoord has no mark. -/
theorem WriteStage_indcoord_clean (x y : Char) (h : isMark x y)
    (n : Nat) (tevind : TevStageIndirect) :
    clean x y
      (emitted (fun o => WriteStage_indcoord o n tevind)) =
      true := by
  unfold emitted WriteStage_indcoord
  simp only [ShaderCode.Write_text, ShaderCode.SetConstantsUsed_text, ShaderCode.text_ite,
    ShaderCode.empty_text, String.empty_append, String.append_empty, String.append_assoc,
    ite_append_both, ite_append_then, ite_append_else]
  repeat' first
    | with_reducible apply clean_append
    | with_reducible apply clean_ite
    | with_reducible apply clean_toString
    | with_reducible apply clean_getD
  all_goals (rcases h with ⟨rfl, rfl⟩ | ⟨rfl, rfl⟩ <;> decide)

/-- The shift statement of an indirect matrix has no mark. -/
theorem indtevtrans_shift_right_clean (x y : Char) (h : isMark x y)
    (n mtxidx : Nat) :
    clean x y
      (indtevtrans_shift_right n mtxidx) =
      true := by
  unfold indtevtrans_shift_right
  simp only [ShaderCode.Write_text, ShaderCode.SetConstantsUsed_text, ShaderCode.text_ite,
    ShaderCode.empty_text, String.empty_append, String.append_empty, String.append_assoc,
    ite_append_both, ite_append_then, ite_append_else]
  repeat' first
    | with_reducible apply clean_append
    | with_reducible apply clean_ite
    | with_reducible apply clean_toString
    | with_reducible apply clean_getD
  all_goals (rcases h with ⟨rfl, rfl⟩ | ⟨rfl, rfl⟩ <;> decide)

/-- The text of WriteStage_indmtx_offset has no mark. -/
theorem WriteStage_indmtx_offset_clean (x y : Char) (h : isMark x y)
    (bugs : DriverDetails) (n : Nat) (tevind : TevStageIndirect) :
    clean x y
      (emitted (fun o => WriteStage_indmtx_offset bugs o n tevind)) =
      true := by
  unfold emitted WriteStage_indmtx_offset
  simp only [ShaderCode.Write_text, ShaderCode.SetConstantsUsed_text, ShaderCode.text_ite,
    ShaderCode.empty_text, String.empty_append, String.append_empty, String.append_assoc,
    ite_append_both, ite_append_then, ite_append_else]
  repeat' first
    | with_reducible apply clean_append
    | with_reducible apply clean_ite
    | with_reducible apply clean_toString
    | with_reducible apply clean_getD
    | with_reducible apply indtevtrans_shift_right_clean _ _ h
  all_goals (rcases h with ⟨rfl, rfl⟩ | ⟨rfl, rfl⟩ <;> decide)

/-- The text of WriteStage_indmtx for a stage without texture coordinate has no u v. -/
theorem WriteStage_indmtx_clean_coord
    (bugs : DriverDetails) (n : Nat) (tevind : TevStageIndirect) (texcoord : Nat) :
    clean 'u' 'v'
      (emitted (fun o => WriteStage_indmtx bugs o n tevind texcoord false)) =
      true := by
  unfold emitted WriteStage_indmtx
  simp only [ShaderCode.Write_text, ShaderCode.SetConstantsUsed_text, ShaderCode.text_ite,
    ShaderCode.empty_text, String.empty_append, String.append_empty, String.append_assoc,
    ite_append_both, ite_append_then, ite_append_else, WriteStage_indmtx_offset_text,
    WriteStage_indmtx_scale_text, Bool.and_false, Bool.false_eq_true, if_false]
  repeat' first
    | with_reducible apply clean_append
    | with_reducible apply clean_ite
    | with_reducible apply clean_toString
    | with_reducible apply clean_getD
    | with_reducible apply WriteStage_indmtx_offset_clean _ _ isMark_coord
  all_goals decide

/-- The text of WriteStage_tevcoord has no mark. -/
theorem WriteStage_tevcoord_clean (x y : Char) (h : isMark x y)
    (n : Nat) (tevind : TevStageIndirect) :
    clean x y
      (emitted (fun o => WriteStage_tevcoord o n tevind)) =
      true := by
  unfold emitted WriteStage_tevcoord
  simp only [ShaderCode.Write_text, ShaderCode.SetConstantsUsed_text, ShaderCode.text_ite,
    ShaderCode.empty_text, String.empty_append, String.append_empty, String.append_assoc,
    ite_append_both, ite_append_then, ite_append_else]
  repeat' first
    | with_reducible apply clean_append
    | with_reducible apply clean_ite
    | with_reducible apply clean_toString
    | with_reducible apply clean_getD
  all_goals (rcases h with ⟨rfl, rfl⟩ | ⟨rfl, rfl⟩ <;> decide)

/-- The update of tevcoord has no mark. -/
theorem tevcoordUpdateText_clean (x y : Char) (h : isMark x y)
    (n : Nat) (addprev : Bool) :
    clean x y
      (tevcoordUpdateText n addprev) =
      true := by
  unfold tevcoordUpdateText
  simp only [ShaderCode.Write_text, ShaderCode.SetConstantsUsed_text, ShaderCode.text_ite,
    ShaderCode.empty_text, String.empty_append, String.append_empty, String.append_assoc,
    ite_append_both, ite_append_then, ite_append_else]
  repeat' first
    | with_reducible apply clean_append
    | with_reducible apply clean_ite
    | with_reducible apply clean_toString
    | with_reducible apply clean_getD
  all_goals (rcases h with ⟨rfl, rfl⟩ | ⟨rfl, rfl⟩ <;> decide)

/-- The text of SampleTexture has no mark when its arguments have none. -/
theorem SampleTexture_clean (x y : Char) (h : isMark x y)
    (texcoords texswap : String)
    (texmap : Nat) (stereo : Bool) (api_type : APIType) (hc : clean x y texcoords = true)
    (hs : clean x y texswap = true) :
    clean x y
      (emitted (fun o => SampleTexture o texcoords texswap texmap stereo api_type)) =
      true := by
  unfold emitted SampleTexture
  simp only [ShaderCode.Write_text, ShaderCode.SetConstantsUsed_text, ShaderCode.text_ite,
    ShaderCode.empty_text, String.empty_append, String.append_empty, String.append_assoc,
    ite_append_both, ite_append_then, ite_append_else]
  repeat' first
    | with_reducible apply clean_append
    | with_reducible apply clean_ite
    | with_reducible apply clean_toString
    | with_reducible apply clean_getD
    | with_reducible exact hc
    | with_reducible exact hs
  all_goals (rcases h with ⟨rfl, rfl⟩ | ⟨rfl, rfl⟩ <;> decide)

/-- The text of WriteStage_ras has no mark. -/
theorem WriteStage_ras_clean (x y : Char) (h : isMark x y)
    (stage : StageHash) (cc : ColorCombiner)
    (ac : AlphaCombiner) :
    clean x y
      (emitted (fun o => WriteStage_ras o stage cc ac)) =
      true := by
  unfold emitted WriteStage_ras
  simp only [ShaderCode.Write_text, ShaderCode.SetConstantsUsed_text, ShaderCode.text_ite,
    ShaderCode.empty_text, String.empty_append, String.append_empty, String.append_assoc,
    ite_append_both, ite_append_then, ite_append_else]
  repeat' first
    | with_reducible apply clean_append
    | with_reducible apply clean_ite
    | with_reducible apply clean_toString
    | with_reducible apply clean_getD
    | with_reducible apply clean_swap _ _ h
  all_goals (rcases h with ⟨rfl, rfl⟩ | ⟨rfl, rfl⟩ <;> decide)

/-- The text of WriteStage_tex for a stage without texture coordinate has no mark. -/
theorem WriteStage_tex_clean (x y : Char) (h : isMark x y)
    (stage : StageHash)
    (texcoord : Nat) (stereo : Bool) (api_type : APIType) :
    clean x y
      (emitted (fun o => WriteStage_tex o stage texcoord false stereo api_type)) =
      true := by
  unfold emitted WriteStage_tex
  simp only [ShaderCode.Write_text, ShaderCode.SetConstantsUsed_text, ShaderCode.text_ite,
    ShaderCode.empty_text, String.empty_append, String.append_empty, String.append_assoc,
    ite_append_both, ite_append_then, ite_append_else, SampleTexture_text, Bool.false_eq_true,
    if_false]
  repeat' first
    | with_reducible apply clean_append
    | with_reducible apply clean_ite
    | with_reducible apply clean_toString
    | with_reducible apply clean_getD
    | with_reducible apply SampleTexture_clean _ _ h
    | with_reducible apply clean_swap _ _ h
  all_goals (rcases h with ⟨rfl, rfl⟩ | ⟨rfl, rfl⟩ <;> decide)

/-- The text of WriteStage_konst has no mark. -/
theorem WriteStage_konst_clean (x y : Char) (h : isMark x y)
    (stage : StageHash) (cc : ColorCombiner)
    (ac : AlphaCombiner) :
    clean x y
      (emitted (fun o => WriteStage_konst o stage cc ac)) =
      true := by
  unfold emitted WriteStage_konst
  simp only [ShaderCode.Write_text, ShaderCode.SetConstantsUsed_text, ShaderCode.text_ite,
    ShaderCode.empty_text, String.empty_append, String.append_empty, String.append_assoc,
    ite_append_both, ite_append_then, ite_append_else, WriteStage_konsttemp_text, ite_self]
  repeat' first
    | with_reducible apply clean_append
    | with_reducible apply clean_ite
    | with_reducible apply clean_toString
    | with_reducible apply clean_getD
    | with_reducible apply WriteStage_konsttemp_clean _ _ h
  all_goals (rcases h with ⟨rfl, rfl⟩ | ⟨rfl, rfl⟩ <;> decide)

/-- The wrap selector of S is a three-bit value. -/
theorem TevStageIndirect.sw_lt (t : TevStageIndirect) : t.sw < 8 := by
  unfold TevStageIndirect.sw
  exact Nat.mod_lt _ (by decide)

/-- The wrap selector of T is a three-bit value. -/
theorem TevStageIndirect.tw_lt (t : TevStageIndirect) : t.tw < 8 := by
  unfold TevStageIndirect.tw
  exact Nat.mod_lt _ (by decide)

set_option maxRecDepth 100000 in
/-- Every reference of the wrapped coordinate to a texture coordinate, for texture coordinate
index 0, is to fixpoint_uv0. -/
theorem WriteStage_wrap_references (tevind : TevStageIndirect) :
    mentions "fixpoint_uv" (emitted (fun o => WriteStage_wrap o tevind 0)) =
      mentions "fixpoint_uv0." (emitted (fun o => WriteStage_wrap o tevind 0)) := by
  unfold emitted WriteStage_wrap
  simp only [ShaderCode.Write_text, ShaderCode.SetConstantsUsed_text, ShaderCode.text_ite,
    ShaderCode.empty_text, String.empty_append, String.append_empty, String.append_assoc]
  have ha := tevind.sw_lt
  have hb := tevind.tw_lt
  generalize tevind.sw = a at ha ⊢
  generalize tevind.tw = b at hb ⊢
  interval_cases a <;> interval_cases b <;> decide!

/-- The text of a stage that has no indirect operation and no texture coordinate has no
u v. -/
theorem WriteStage_direct_clean_coord (bugs : DriverDetails) (u : pixel_shader_uid_data)
    (n : Nat) (api_type : APIType) (stereo : Bool)
    (h : ¬ (u.stagehash.getD n default).tevorders_texcoord < u.genMode_numtexgens)
    (hind : (u.stagehash.getD n default).hasindstage = false) :
    clean 'u' 'v' (emitted (fun o => WriteStage bugs o u n api_type stereo)) = true := by
  have hdec : decide ((u.stagehash.getD n default).tevorders_texcoord < u.genMode_numtexgens) =
      false := decide_eq_false h
  unfold emitted WriteStage
  simp only [ShaderCode.Write_text, ShaderCode.SetConstantsUsed_text, ShaderCode.text_ite,
    ShaderCode.empty_text, String.empty_append, String.append_empty, String.append_assoc,
    ite_append_both, ite_append_then, ite_append_else,
    WriteStage_indirect_text, WriteStage_ras_text, WriteStage_tex_text,
    WriteStage_konst_text, WriteStage_colors_text, WriteStage_inputs_text,
    WriteStage_colorCombine_text, WriteStage_alphaCombine_text, hdec, hind,
    Bool.false_eq_true, if_false]
  repeat' first
    | with_reducible apply clean_append
    | with_reducible apply clean_ite
    | with_reducible apply clean_toString
    | with_reducible apply clean_getD
    | with_reducible apply WriteStage_ras_clean _ _ isMark_coord
    | with_reducible apply WriteStage_tex_clean _ _ isMark_coord
    | with_reducible apply WriteStage_konst_clean _ _ isMark_coord
    | with_reducible apply WriteStage_inputs_clean _ _ isMark_coord
    | with_reducible apply WriteStage_colorCombine_clean _ _ isMark_coord
    | with_reducible apply WriteStage_alphaCombine_clean _ _ isMark_coord
  all_goals decide

/-- The index WriteStage uses for a stage whose stored index names no enabled generator. -/
theorem WriteStage_texcoord_fallback (u : pixel_shader_uid_data) (stage : StageHash)
    (h : ¬ stage.tevorders_texcoord < u.genMode_numtexgens) :
    WriteStage_texcoord u stage = 0 := by
  unfold WriteStage_texcoord
  simp only [decide_eq_false h, Bool.not_false, if_true]

/-- The text of a stage with an indirect operation and without texture coordinate: the part
before the wrapped coordinate, the wrapped coordinate for index 0, and the part after it. -/
theorem WriteStage_indirect_parts (bugs : DriverDetails) (u : pixel_shader_uid_data)
    (n : Nat) (api_type : APIType) (stereo : Bool)
    (h : ¬ (u.stagehash.getD n default).tevorders_texcoord < u.genMode_numtexgens)
    (hind : (u.stagehash.getD n default).hasindstage = true) :
    emitted (fun o => WriteStage bugs o u n api_type stereo) =
      stageBeforeWrapText bugs n { hex := (u.stagehash.getD n default).tevind, IsActive := false }
        ++ (emitted (fun o => WriteStage_wrap o
          { hex := (u.stagehash.getD n default).tevind, IsActive := false } 0) ++
        stageAfterWrapText n (u.stagehash.getD n default) stereo api_type) := by
  have hdec : decide ((u.stagehash.getD n default).tevorders_texcoord < u.genMode_numtexgens) =
      false := decide_eq_false h
  unfold emitted WriteStage WriteStage_indirect stageBeforeWrapText stageAfterWrapText
  simp only [ShaderCode.Write_text, ShaderCode.SetConstantsUsed_text, ShaderCode.text_ite,
    ShaderCode.empty_text, String.empty_append, String.append_empty, String.append_assoc,
    ite_append_both, ite_append_then, ite_append_else,
    WriteStage_alphabump_text, WriteStage_indcoord_text, WriteStage_indmtx_text,
    WriteStage_wrap_text, WriteStage_tevcoord_text, WriteStage_ras_text, WriteStage_tex_text,
    WriteStage_konst_text, WriteStage_colors_text, WriteStage_inputs_text,
    WriteStage_colorCombine_text, WriteStage_alphaCombine_text, hind, if_true, hdec,
    WriteStage_texcoord_fallback u _ h]

/-- The part of a stage before the wrapped coordinate has no u v. -/
theorem stageBeforeWrapText_clean_coord (bugs : DriverDetails) (n : Nat)
    (tevind : TevStageIndirect) : clean 'u' 'v' (stageBeforeWrapText bugs n tevind) = true := by
  unfold stageBeforeWrapText
  repeat' first
    | with_reducible apply clean_append
    | with_reducible apply clean_ite
    | with_reducible apply clean_toString
    | with_reducible apply clean_getD
    | with_reducible apply WriteStage_alphabump_clean _ _ isMark_coord
    | with_reducible apply WriteStage_indcoord_clean _ _ isMark_coord
    | with_reducible apply WriteStage_indmtx_clean_coord
  all_goals decide

/-- The part of a stage after the wrapped coordinate has no u v. -/
theorem stageAfterWrapText_clean_coord (n : Nat) (stage : StageHash) (stereo : Bool)
    (api_type : APIType) : clean 'u' 'v' (stageAfterWrapText n stage stereo api_type) = true := by
  unfold stageAfterWrapText
  repeat' first
    | with_reducible apply clean_append
    | with_reducible apply clean_ite
    | with_reducible apply clean_toString
    | with_reducible apply clean_getD
    | with_reducible apply tevcoordUpdateText_clean _ _ isMark_coord
    | with_reducible apply WriteStage_ras_clean _ _ isMark_coord
    | with_reducible apply WriteStage_tex_clean _ _ isMark_coord
    | with_reducible apply WriteStage_konst_clean _ _ isMark_coord
    | with_reducible apply WriteStage_inputs_clean _ _ isMark_coord
    | with_reducible apply WriteStage_colorCombine_clean _ _ isMark_coord
    | with_reducible apply WriteStage_alphaCombine_clean _ _ isMark_coord
  all_goals decide

/-- The text of WriteStage_indmtx_offset ends with a line end. -/
theorem WriteStage_indmtx_offset_endsLine (bugs : DriverDetails) (n : Nat)
    (tevind : TevStageIndirect) :
    endsLine (emitted (fun o => WriteStage_indmtx_offset bugs o n tevind)) = true := by
  unfold emitted WriteStage_indmtx_offset
  simp only [ShaderCode.Write_text, ShaderCode.SetConstantsUsed_text, ShaderCode.text_ite,
    ShaderCode.empty_text, String.empty_append, String.append_empty, String.append_assoc,
    ite_append_both, ite_append_then, ite_append_else]
  repeat' first
    | with_reducible apply endsLine_ite
    | with_reducible apply endsLine_append
  all_goals decide

/-- The part of a stage before the wrapped coordinate ends with a line end. -/
theorem stageBeforeWrapText_endsLine (bugs : DriverDetails) (n : Nat)
    (tevind : TevStageIndirect) : endsLine (stageBeforeWrapText bugs n tevind) = true := by
  unfold stageBeforeWrapText
  apply endsLine_append
  apply endsLine_ite
  · apply endsLine_append
    unfold emitted WriteStage_indmtx
    simp only [ShaderCode.Write_text, ShaderCode.SetConstantsUsed_text, ShaderCode.text_ite,
      ShaderCode.empty_text, String.empty_append, String.append_empty, String.append_assoc,
      WriteStage_indmtx_offset_text, Bool.and_false, Bool.false_eq_true, if_false]
    repeat' first
      | with_reducible apply endsLine_ite
      | with_reducible apply endsLine_append
      | with_reducible apply WriteStage_indmtx_offset_endsLine
    all_goals decide
  · repeat' first
      | with_reducible apply endsLine_append
    all_goals decide

/-- The wrapped coordinate ends with a line end. -/
theorem WriteStage_wrap_endsLine (tevind : TevStageIndirect) (texcoord : Nat) :
    endsLine (emitted (fun o => WriteStage_wrap o tevind texcoord)) = true := by
  unfold emitted WriteStage_wrap
  simp only [ShaderCode.Write_text, ShaderCode.SetConstantsUsed_text, ShaderCode.text_ite,
    ShaderCode.empty_text, String.empty_append, String.append_empty, String.append_assoc]
  repeat' first
    | with_reducible apply endsLine_ite
    | with_reducible apply endsLine_append
  all_goals decide

/-- Every reference of a stage to a texture coordinate is to fixpoint_uv0 when the index the
stage stores names no enabled generator: the text of the stage has as many occurrences of
fixpoint_uv0. as it has of fixpoint_uv. -/
theorem WriteStage_references (bugs : DriverDetails) (u : pixel_shader_uid_data)
    (n : Nat) (api_type : APIType) (stereo : Bool)
    (h : ¬ (u.stagehash.getD n default).tevorders_texcoord < u.genMode_numtexgens) :
    mentions "fixpoint_uv" (emitted (fun o => WriteStage bugs o u n api_type stereo)) =
      mentions "fixpoint_uv0." (emitted (fun o => WriteStage bugs o u n api_type stereo)) := by
  cases hind : (u.stagehash.getD n default).hasindstage
  · have hc := WriteStage_direct_clean_coord bugs u n api_type stereo h hind
    rw [mentions_eq_zero 'u' 'v' _ _ (by decide) hc, mentions_eq_zero 'u' 'v' _ _ (by decide) hc]
  · rw [WriteStage_indirect_parts bugs u n api_type stereo h hind]
    have hA := lineAligned_of_endsLine _ (stageBeforeWrapText_endsLine bugs n
      { hex := (u.stagehash.getD n default).tevind, IsActive := false })
    have hW := lineAligned_of_endsLine _ (WriteStage_wrap_endsLine
      { hex := (u.stagehash.getD n default).tevind, IsActive := false } 0)
    rw [mentions_append _ _ _ (by decide) hA, mentions_append _ _ _ (by decide) hW,
      mentions_append _ _ _ (by decide) hA, mentions_append _ _ _ (by decide) hW,
      mentions_eq_zero 'u' 'v' "fixpoint_uv" _ (by decide)
        (stageBeforeWrapText_clean_coord _ _ _),
      mentions_eq_zero 'u' 'v' "fixpoint_uv0." _ (by decide)
        (stageBeforeWrapText_clean_coord _ _ _),
      mentions_eq_zero 'u' 'v' "fixpoint_uv" _ (by decide)
        (stageAfterWrapText_clean_coord _ _ _ _),
      mentions_eq_zero 'u' 'v' "fixpoint_uv0." _ (by decide)
        (stageAfterWrapText_clean_coord _ _ _ _),
      WriteStage_wrap_references]

/-- C24. Texcoord fallback.  For a stage n among the stages of the snapshot whose
texture-coordinate-generator index is not below the number of active generators,
GetPixelShaderUid stores the canonical value numtexgens, so that replacing the index by any
other index not below numtexgens gives the same UID; WriteStage uses the index 0 for the
stage, reaches neither of its assertions with a false condition, and every reference to a
texture coordinate in the text of the stage is to fixpoint_uv0: the text has as many
occurrences of fixpoint_uv0. as of fixpoint_uv. -/
theorem WriteStage_texcoord_fallback_canonical (L : UidLayout) (g : Globals) (n : Nat)
    (hn : n ≤ g.bpmem.genMode.numtevstages) (hn16 : n < 16)
    (hout : ¬ (g.bpmem.tevorders (n / 2)).getTexCoord (n &&& 1) < g.bpmem.genMode.numtexgens) :
    -- the encoder stores the number of generators
    ((GetPixelShaderUid L g).stagehash.getD n default).tevorders_texcoord =
      g.bpmem.genMode.numtexgens ∧
    -- every other index that is not below it gives the same UID
    (∀ t, ¬ t < g.bpmem.genMode.numtexgens →
      GetPixelShaderUid L (g.withStageTexCoord n t) = GetPixelShaderUid L g) ∧
    -- WriteStage uses the index 0
    WriteStage_texcoord (GetPixelShaderUid L g)
      ((GetPixelShaderUid L g).stagehash.getD n default) = 0 ∧
    -- no assertion fails
    ASSERT_indmtx
      { hex := ((GetPixelShaderUid L g).stagehash.getD n default).tevind, IsActive := false }
      (decide (((GetPixelShaderUid L g).stagehash.getD n default).tevorders_texcoord <
        (GetPixelShaderUid L g).genMode_numtexgens)) = true ∧
    -- every reference to a texture coordinate is to fixpoint_uv0
    ∀ (bugs : DriverDetails) (api_type : APIType) (stereo : Bool),
      mentions "fixpoint_uv"
          (emitted (fun o => WriteStage bugs o (GetPixelShaderUid L g) n api_type stereo)) =
        mentions "fixpoint_uv0."
          (emitted (fun o => WriteStage bugs o (GetPixelShaderUid L g) n api_type stereo)) := by
  have hst : ((GetPixelShaderUid L g).stagehash.getD n default).tevorders_texcoord =
      g.bpmem.genMode.numtexgens := by
    rw [GetPixelShaderUid_stagehash_getD, if_pos ⟨by omega, hn16⟩,
      GetPixelShaderUid_stage_texcoord, if_neg hout]
  have hno : ¬ ((GetPixelShaderUid L g).stagehash.getD n default).tevorders_texcoord <
      (GetPixelShaderUid L g).genMode_numtexgens := by
    rw [hst, GetPixelShaderUid_genMode_numtexgens]
    exact Nat.lt_irrefl _
  refine ⟨hst, fun t ht => GetPixelShaderUid_withStageTexCoord L g n t hout ht,
    WriteStage_texcoord_fallback _ _ hno, ?_,
    fun bugs api_type stereo => WriteStage_references bugs _ n api_type stereo hno⟩
  unfold ASSERT_indmtx
  simp only [decide_eq_false hno, Bool.and_false, Bool.false_eq_true, if_false, ite_self]

/-- Witness for C24: stage 0 of a snapshot with one generator, whose index is 5. -/
theorem WriteStage_texcoord_fallback_canonical_witness :
    (0 ≤ snapshotTexCoord.bpmem.genMode.numtevstages ∧ 0 < 16 ∧
      ¬ (snapshotTexCoord.bpmem.tevorders (0 / 2)).getTexCoord (0 &&& 1) <
        snapshotTexCoord.bpmem.genMode.numtexgens) ∧
    ((GetPixelShaderUid layoutExample snapshotTexCoord).stagehash.getD 0 default).tevorders_texcoord
      = 1 ∧
    GetPixelShaderUid layoutExample (snapshotTexCoord.withStageTexCoord 0 7) =
      GetPixelShaderUid layoutExample snapshotTexCoord ∧
    WriteStage_texcoord (GetPixelShaderUid layoutExample snapshotTexCoord)
      ((GetPixelShaderUid layoutExample snapshotTexCoord).stagehash.getD 0 default) = 0 := by
  have h1 : 0 ≤ snapshotTexCoord.bpmem.genMode.numtevstages := by decide
  have h2 : ¬ (snapshotTexCoord.bpmem.tevorders (0 / 2)).getTexCoord (0 &&& 1) <
      snapshotTexCoord.bpmem.genMode.numtexgens := by decide
  have h := WriteStage_texcoord_fallback_canonical layoutExample snapshotTexCoord 0 h1
    (by decide) h2
  exact ⟨⟨h1, by decide, h2⟩, h.1, h.2.1 7 (by decide), h.2.2.1⟩

/-! ## Properties of the alpha-test block of GeneratePixelShaderCode -/

/-- The static alpha-test result and the late depth test in the UID. -/
theorem GetPixelShaderUid_Pretest_late_ztest (L : UidLayout) (g : Globals) :
    (GetPixelShaderUid L g).Pretest = g.bpmem.alpha_test.TestResult ∧
    (GetPixelShaderUid L g).late_ztest = g.bpmem.UseLateDepthTest := by
  have hb : ∀ u, (GetPixelShaderUid_blend g u).Pretest = u.Pretest ∧
      (GetPixelShaderUid_blend g u).late_ztest = u.late_ztest := by
    intro u; unfold GetPixelShaderUid_blend; simp only []; split <;> exact ⟨rfl, rfl⟩
  have hd : ∀ u, (GetPixelShaderUid_depthFog g u).Pretest = u.Pretest ∧
      (GetPixelShaderUid_depthFog g u).late_ztest = u.late_ztest := fun _ => ⟨rfl, rfl⟩
  have ha : ∀ u, (GetPixelShaderUid_alphaTest g u).Pretest = g.bpmem.alpha_test.TestResult ∧
      (GetPixelShaderUid_alphaTest g u).late_ztest = g.bpmem.UseLateDepthTest := by
    intro u; rw [GetPixelShaderUid_alphaTest_fields]; split <;> exact ⟨rfl, rfl⟩
  unfold GetPixelShaderUid
  simp only []
  rw [(hb _).1, (hb _).2, (hd _).1, (hd _).2, (ha _).1, (ha _).2]
  exact ⟨rfl, rfl⟩

/-- The text of WriteAlphaTest is not empty. -/
theorem WriteAlphaTest_text_ne (g : Globals) (bugs : DriverDetails) (out : ShaderCode)
    (u : pixel_shader_uid_data) (api_type : APIType) (per_pixel_depth use_dual_source : Bool) :
    (WriteAlphaTest g bugs out u api_type per_pixel_depth use_dual_source).text ≠ out.text := by
  rw [WriteAlphaTest_text]
  intro h
  have := congrArg String.length h
  simp only [String.length_append] at this
  have h3 : ("\t\x7d\n" : String).length = 3 := by decide
  omega

/-- C28, amended.  The alpha-test block is emitted by GeneratePixelShaderCode iff Pretest is
UNDETERMINED, or FAIL with late_ztest, and it is then the text of WriteAlphaTest; for the UID
GetPixelShaderUid computes this is the condition under which the encoder populates the
comparator fields, which are zero otherwise.  For a UID with Pretest = PASS, fog_fsel = 0 and
rgba6_format = 0 the alpha-test block and the fog block are empty, so the text is the head,
the depth and dither blocks and the colour output; the colour output is prev.rgb / 255.0
followed by the alpha, unless api_type is D3D and uint_output is set, when it is the unscaled
uint4(prev). -/
theorem GeneratePixelShaderCode_alpha_test_block (ext : Externals) (g : Globals)
    (bugs : DriverDetails) (api_type : APIType) (host_config : ShaderHostConfig)
    (u : pixel_shader_uid_data) (out : ShaderCode) (dual blend : Bool) (L : UidLayout)
    (g0 : Globals) :
    -- emitted iff Pretest is UNDETERMINED, or FAIL with late_ztest
    ((GeneratePixelShaderCode_alphaTest g bugs out api_type u dual blend).text ≠ out.text ↔
      (u.Pretest = TEST_RESULT.UNDETERMINED ∨
        (u.Pretest = TEST_RESULT.FAIL ∧ u.late_ztest = true))) ∧
    ((u.Pretest = TEST_RESULT.UNDETERMINED ∨
        (u.Pretest = TEST_RESULT.FAIL ∧ u.late_ztest = true)) →
      GeneratePixelShaderCode_alphaTest g bugs out api_type u dual blend =
        WriteAlphaTest g bugs out u api_type u.per_pixel_depth (dual || blend)) ∧
    -- which is the condition under which the encoder populates the comparator fields
    (((GetPixelShaderUid L g0).Pretest = TEST_RESULT.UNDETERMINED ∨
        ((GetPixelShaderUid L g0).Pretest = TEST_RESULT.FAIL ∧
          (GetPixelShaderUid L g0).late_ztest = true)) ↔
      (g0.bpmem.alpha_test.TestResult = TEST_RESULT.UNDETERMINED ∨
        (g0.bpmem.alpha_test.TestResult = TEST_RESULT.FAIL ∧
          g0.bpmem.UseLateDepthTest = true))) ∧
    (((GetPixelShaderUid L g0).Pretest = TEST_RESULT.UNDETERMINED ∨
        ((GetPixelShaderUid L g0).Pretest = TEST_RESULT.FAIL ∧
          (GetPixelShaderUid L g0).late_ztest = true)) →
      (GetPixelShaderUid L g0).alpha_test_comp0 = g0.bpmem.alpha_test.comp0 ∧
      (GetPixelShaderUid L g0).alpha_test_comp1 = g0.bpmem.alpha_test.comp1 ∧
      (GetPixelShaderUid L g0).alpha_test_logic = g0.bpmem.alpha_test.logic) ∧
    (¬ ((GetPixelShaderUid L g0).Pretest = TEST_RESULT.UNDETERMINED ∨
        ((GetPixelShaderUid L g0).Pretest = TEST_RESULT.FAIL ∧
          (GetPixelShaderUid L g0).late_ztest = true)) →
      (GetPixelShaderUid L g0).alpha_test_comp0 = 0 ∧
      (GetPixelShaderUid L g0).alpha_test_comp1 = 0 ∧
      (GetPixelShaderUid L g0).alpha_test_logic = 0) ∧
    -- a UID whose alpha test always passes, without fog and with the 8-bit format
    (u.Pretest = TEST_RESULT.PASS → u.fog_fsel = 0 → u.rgba6_format = false →
      GeneratePixelShaderCode_alphaTest g bugs out api_type u dual blend = out ∧
      WriteFog out u = out ∧
      (GeneratePixelShaderCode ext g bugs api_type host_config u).text =
        (GeneratePixelShaderCode_head ext g bugs api_type host_config u).text ++
          (GeneratePixelShaderCode_zCoord ShaderCode.empty api_type host_config u).text ++
          zClampText ++
          (GeneratePixelShaderCode_depthWrite ShaderCode.empty host_config
            (u.per_pixel_depth && u.early_ztest)).text ++
          (GeneratePixelShaderCode_zTexture ShaderCode.empty u).text ++
          (GeneratePixelShaderCode_depthWrite ShaderCode.empty host_config
            (u.per_pixel_depth && u.late_ztest)).text ++
          (GeneratePixelShaderCode_dither ShaderCode.empty u).text ++
          colorText api_type u
            (use_dual_source bugs host_config u || use_shader_blend bugs host_config u) ++
          (if use_shader_blend bugs host_config u then (WriteBlend ShaderCode.empty u).text
            else "") ++
          boundingBoxText u.bounding_box ++ "\x7d\n" ∧
      ∀ secondary, colorText api_type u secondary =
        if api_type = APIType.D3D ∧ u.uint_output = true then "\tocol0 = uint4(prev);\n"
        else "\tocol0.rgb = float3(prev.rgb) / 255.0;\n" ++ colorAlphaText u.useDstAlpha ++
          (if secondary then colorSecondText else "")) := by
  have hcond : ∀ v : pixel_shader_uid_data,
      ((v.Pretest == TEST_RESULT.UNDETERMINED ||
        (v.Pretest == TEST_RESULT.FAIL && v.late_ztest)) = true) ↔
      (v.Pretest = TEST_RESULT.UNDETERMINED ∨
        (v.Pretest = TEST_RESULT.FAIL ∧ v.late_ztest = true)) := by
    intro v
    simp only [Bool.or_eq_true, Bool.and_eq_true, beq_iff_eq]
  have hfields := GetPixelShaderUid_alpha_test_eq L g0
  have hpl := GetPixelShaderUid_Pretest_late_ztest L g0
  refine ⟨?_, ?_, ?_, ?_, ?_, ?_⟩
  · unfold GeneratePixelShaderCode_alphaTest
    rw [← hcond u]
    by_cases hc : (u.Pretest == TEST_RESULT.UNDETERMINED ||
        (u.Pretest == TEST_RESULT.FAIL && u.late_ztest)) = true
    · rw [if_pos hc]
      exact ⟨fun _ => hc, fun _ => WriteAlphaTest_text_ne _ _ _ _ _ _ _⟩
    · rw [if_neg hc]
      exact ⟨fun h => absurd rfl h, fun h => absurd h hc⟩
  · intro h
    unfold GeneratePixelShaderCode_alphaTest
    rw [if_pos ((hcond u).2 h)]
  · rw [hpl.1, hpl.2]
  · intro h
    rw [hpl.1, hpl.2] at h
    rw [if_pos ((by
      rcases h with h | ⟨h1, h2⟩
      · simp [h]
      · simp [h1, h2]))] at hfields
    simp only [Prod.mk.injEq] at hfields
    exact ⟨hfields.1, hfields.2.1, hfields.2.2.1⟩
  · intro h
    rw [hpl.1, hpl.2] at h
    rw [if_neg ((by
      intro hc
      apply h
      simpa only [Bool.or_eq_true, Bool.and_eq_true, beq_iff_eq] using hc))] at hfields
    simp only [Prod.mk.injEq] at hfields
    exact ⟨hfields.1, hfields.2.1, hfields.2.2.1⟩
  · intro hP hf hr
    have hno : ∀ o d b, GeneratePixelShaderCode_alphaTest g bugs o api_type u d b = o := by
      intro o d b
      unfold GeneratePixelShaderCode_alphaTest
      rw [if_neg]
      rw [hcond u, hP]
      intro h
      rcases h with h | ⟨h, _⟩ <;> exact TEST_RESULT.noConfusion h
    have hfog : ∀ o, WriteFog o u = o := by
      intro o
      simp [WriteFog, hf]
    refine ⟨hno _ _ _, hfog _, ?_, ?_⟩
    · rw [GeneratePixelShaderCode_text, hno, GeneratePixelShaderCode_depthToFog_text, hfog]
      simp only [ShaderCode.empty_text, String.append_empty, String.empty_append,
        String.append_assoc]
    · intro secondary
      unfold colorText colorUintText colorRgbText
      simp only [hr, Bool.false_eq_true, if_false, String.append_assoc]

set_option maxRecDepth 100000 in
/-- Counterexample to C28 as stated: for a UID with Pretest = PASS, fog_fsel = 0 and
rgba6_format = 0 that has uint_output set, the colour output of a D3D shader is the single
statement ocol0 = uint4(prev), in which no division by 255.0 occurs, and the generated text
ends with it. -/
theorem WriteColor_uint_output_unscaled :
    uidPassUint.Pretest = TEST_RESULT.PASS ∧ uidPassUint.fog_fsel = 0 ∧
    uidPassUint.rgba6_format = false ∧
    (∀ dual, (WriteColor ShaderCode.empty APIType.D3D uidPassUint dual).text =
      "\tocol0 = uint4(prev);\n") ∧
    mentions "255.0" "\tocol0 = uint4(prev);\n" = 0 ∧
    ∀ (ext : Externals) (g : Globals) (bugs : DriverDetails) (host_config : ShaderHostConfig),
      ("\tocol0 = uint4(prev);\n\x7d\n").toList <:+
        (GeneratePixelShaderCode ext g bugs APIType.D3D host_config uidPassUint).text.toList := by
  refine ⟨rfl, rfl, rfl, ?_, by decide, ?_⟩
  · intro dual
    rw [WriteColor_text]
    rfl
  · intro ext g bugs host_config
    rw [GeneratePixelShaderCode_text]
    have hb : use_shader_blend bugs host_config uidPassUint = false := by
      unfold use_shader_blend
      simp [uidPassUint, PixelShaderUid.zero]
    have hc : ∀ s, colorText APIType.D3D uidPassUint s = "\tocol0 = uint4(prev);\n" := by
      intro s; rfl
    rw [hb, hc]
    simp only [Bool.false_eq_true, if_false, String.append_empty, String.append_assoc,
      String.toList, String.data_append]
    refine List.IsSuffix.trans ?_ (List.suffix_append _ _)
    refine List.IsSuffix.trans ?_ (List.suffix_append _ _)
    refine List.IsSuffix.trans ?_ (List.suffix_append _ _)
    exact ⟨[], rfl⟩

/-! ## The inputs of GeneratePixelShaderCode -/

/-- A loop whose steps append texts without the pair x y appends a text without it. -/
theorem foldl_clean (x y : Char) {α : Type} (f : ShaderCode → α → ShaderCode)
    (h : ∀ out a, (f out a).text = out.text ++ emitted (fun o => f o a))
    (hc : ∀ a, clean x y (emitted (fun o => f o a)) = true) (l : List α) :
    clean x y (emitted (fun o => l.foldl f o)) = true := by
  induction l with
  | nil => exact clean_empty x y
  | cons a l ih =>
    have e : emitted (fun o => (a :: l).foldl f o) =
        emitted (fun o => f o a) ++ emitted (fun o => l.foldl f o) := by
      simp only [emitted, List.foldl_cons]
      rw [foldl_text f h l (f ShaderCode.empty a)]
      rfl
    rw [e]
    exact clean_append x y _ _ (hc a) ih

/-- The bounding-box update has no l _. -/
theorem boundingBoxText_clean_output (b : Bool) :
    clean 'l' '_'
      (boundingBoxText b) =
      true := by
  unfold boundingBoxText
  repeat' first
    | with_reducible apply clean_append
    | with_reducible apply clean_ite
    | with_reducible apply clean_toString
    | with_reducible apply clean_getD
  all_goals decide

/-- The two opening comment lines end with a line end. -/
theorem GeneratePixelShaderCode_banner_endsLine (u : pixel_shader_uid_data) :
    endsLine (emitted (fun o => GeneratePixelShaderCode_banner o u)) = true := by
  unfold emitted GeneratePixelShaderCode_banner
  simp only [ShaderCode.Write_text, ShaderCode.empty_text, String.empty_append,
    String.append_assoc]
  repeat' first
    | with_reducible apply endsLine_append
  all_goals decide

/-- The outputs of an OpenGL or Vulkan shader end with a line end. -/
theorem GeneratePixelShaderCode_outputsGL_endsLine (bugs : DriverDetails) (dual blend : Bool) :
    endsLine (emitted (fun o => GeneratePixelShaderCode_outputsGL bugs o dual blend)) =
      true := by
  unfold emitted GeneratePixelShaderCode_outputsGL
  simp only [ShaderCode.Write_text, ShaderCode.text_ite, ShaderCode.empty_text,
    String.empty_append, String.append_assoc]
  repeat' first
    | with_reducible apply endsLine_ite
    | with_reducible apply endsLine_append
  all_goals decide

/-- Bitwise and with 2^k - 1 is the remainder modulo 2^k, for every integer. -/
theorem land_mask_eq_emod (x : Int) (k : Nat) :
    Int.land x ((2 ^ k - 1 : Nat) : Int) = x % 2 ^ k := by
  have hpos : 0 < 2 ^ k := Nat.two_pow_pos k
  cases x with
  | ofNat m =>
    show ((m &&& (2 ^ k - 1) : Nat) : Int) = (m : Int) % 2 ^ k
    rw [Nat.and_pow_two_sub_one_eq_mod]
    norm_cast
  | negSucc m =>
    show ((Nat.ldiff (2 ^ k - 1) m : Nat) : Int) = Int.negSucc m % 2 ^ k
    have h : Nat.ldiff (2 ^ k - 1) m = 2 ^ k - (m % 2 ^ k + 1) := by
      apply Nat.eq_of_testBit_eq
      intro i
      rw [Nat.testBit_ldiff, Nat.testBit_two_pow_sub_one,
        Nat.testBit_two_pow_sub_succ (Nat.mod_lt _ hpos), Nat.testBit_mod_two_pow]
      by_cases hi : i < k <;> simp [hi]
    rw [h]
    have hm : m % 2 ^ k < 2 ^ k := Nat.mod_lt _ hpos
    have e : (Int.negSucc m) = -((m : Int) + 1) := rfl
    rw [e]
    have hdiv : (m : Int) =
        (2 ^ k : Int) * ((m / 2 ^ k : Nat) : Int) + ((m % 2 ^ k : Nat) : Int) := by
      have := Nat.div_add_mod m (2 ^ k)
      exact_mod_cast this.symm
    have hgoal : (-((m : Int) + 1)) % 2 ^ k = ((2 ^ k - (m % 2 ^ k + 1) : Nat) : Int) := by
      have hsub : ((2 ^ k - (m % 2 ^ k + 1) : Nat) : Int) =
          (2 ^ k : Int) - (((m % 2 ^ k : Nat) : Int) + 1) := by
        have : m % 2 ^ k + 1 ≤ 2 ^ k := hm
        push_cast [Nat.cast_sub this]
        ring
      rw [hsub]
      have hrew : (-((m : Int) + 1)) =
          ((2 ^ k : Int) - (((m % 2 ^ k : Nat) : Int) + 1)) +
            (2 ^ k : Int) * (-((m / 2 ^ k : Nat) : Int) - 1) := by
        rw [hdiv]
        push_cast
        ring_nf
      rw [hrew, Int.add_mul_emod_self_left]
      apply Int.emod_eq_of_lt
      · have : ((m % 2 ^ k : Nat) : Int) < 2 ^ k := by exact_mod_cast hm
        omega
      · have : (0 : Int) ≤ ((m % 2 ^ k : Nat) : Int) := Int.ofNat_nonneg _
        omega
    exact hgoal.symm

/-- The text WriteStage_wrap appends is the S line followed by the T line. -/
theorem WriteStage_wrap_lines (tevind : TevStageIndirect) (texcoord : Nat) :
    emitted (fun o => WriteStage_wrap o tevind texcoord) =
      wrapLineS texcoord tevind.sw ++ wrapLineT texcoord tevind.tw := by
  unfold emitted WriteStage_wrap wrapLineS wrapLineT wrapLookup
  simp only [ShaderCode.Write_text, ShaderCode.SetConstantsUsed_text, ShaderCode.text_ite,
    ShaderCode.empty_text, String.empty_append, String.append_empty, String.append_assoc]
  by_cases h1 : (tevind.sw == ITW_OFF) = true <;> by_cases h2 : (tevind.sw == ITW_0) = true <;>
    by_cases h3 : (tevind.tw == ITW_OFF) = true <;>
    by_cases h4 : (tevind.tw == ITW_0) = true <;>
    simp [h1, h2, h3, h4, String.append_assoc]

/-- C31. The wrap table has 7 entries.  For a wrap selector from 0 to 6, WriteStage either
handles it without the table (OFF = 0 and 0 = 6) or indexes the table at the selector, a
position below 7; the entries so used (positions 1..5) are the constants 2^15 .. 2^11, and the
mask "& (period - 1)" with such a period is the remainder modulo the period.  For the selector
7, which the three-bit field can hold, the table is indexed at position 7, beyond its last
entry. -/
theorem WriteStage_wrap_table_lookups :
    tev_ind_wrap_start.length = 7 ∧
    (∀ (tevind : TevStageIndirect) (texcoord : Nat),
      tevind.sw < 8 ∧ tevind.tw < 8 ∧
      emitted (fun o => WriteStage_wrap o tevind texcoord) =
        wrapLineS texcoord tevind.sw ++ wrapLineT texcoord tevind.tw) ∧
    wrapLookup ITW_OFF = none ∧ wrapLookup ITW_0 = none ∧
    (∀ sel, sel < 7 → ∀ i, wrapLookup sel = some i →
      i = sel ∧ 1 ≤ i ∧ i ≤ 5 ∧ i < tev_ind_wrap_start.length ∧
      constantValue (tev_ind_wrap_start.getD i "") = some [2 ^ (16 - i)] ∧
      constantValue ("(" ++ tev_ind_wrap_start.getD i "" ++ " - 1)") =
        some [2 ^ (16 - i) - 1] ∧
      ∀ x : Int, evalBin wrap32 BinOp.band x (2 ^ (16 - i) - 1) = some (x % 2 ^ (16 - i))) ∧
    (wrapLookup 7 = some 7 ∧ ¬ (7 < tev_ind_wrap_start.length) ∧
      tev_ind_wrap_start[7]? = none) := by
  refine ⟨rfl, fun tevind texcoord =>
    ⟨tevind.sw_lt, tevind.tw_lt, WriteStage_wrap_lines tevind texcoord⟩, rfl, rfl, ?_,
    rfl, by decide, rfl⟩
  intro sel hsel i hi
  have hmask : ∀ (k : Nat) (x : Int),
      evalBin wrap32 BinOp.band x (2 ^ k - 1) = some (x % 2 ^ k) := by
    intro k x
    have h := land_mask_eq_emod x k
    have e : ((2 ^ k - 1 : Nat) : Int) = 2 ^ k - 1 := by
      have : 1 ≤ 2 ^ k := Nat.two_pow_pos k
      push_cast [Nat.cast_sub this]
      rfl
    rw [e] at h
    show some (Int.land x (2 ^ k - 1)) = _
    rw [h]
  unfold wrapLookup at hi
  split at hi
  · cases hi
  · rename_i h1
    split at hi
    · cases hi
    · rename_i h2
      obtain rfl : sel = i := Option.some.inj hi
      interval_cases sel
      · exact absurd rfl h1
      · exact ⟨rfl, by decide, by decide, by decide, by decide, by decide, hmask _⟩
      · exact ⟨rfl, by decide, by decide, by decide, by decide, by decide, hmask _⟩
      · exact ⟨rfl, by decide, by decide, by decide, by decide, by decide, hmask _⟩
      · exact ⟨rfl, by decide, by decide, by decide, by decide, by decide, hmask _⟩
      · exact ⟨rfl, by decide, by decide, by decide, by decide, by decide, hmask _⟩
      · exact absurd rfl h2

/-- C32, the claim as stated fails: on the colour path with op = add and shift = x1 the index
used is 1 and the bias written is " + 128", while the index 2*op + (shift == 3) of the comment
is 0, whose entry is empty. -/
theorem WriteTevRegular_colour_bias_not_commented_index :
    lerp_bias_index 0 0 false = 1 ∧ commentedLerpBiasIndex 0 0 = 0 ∧
    tev_lerp_bias.getD (lerp_bias_index 0 0 false) "" = " + 128" ∧
    tev_lerp_bias.getD (commentedLerpBiasIndex 0 0) "" = "" ∧
    emitted (fun o => WriteTevRegular o "rgb" 0 0 0 0 false) =
      "(((tevin_d.rgb)) + (((((tevin_a.rgb<<8) + (tevin_b.rgb-tevin_a.rgb)*" ++
        "(tevin_c.rgb+(tevin_c.rgb>>7)))) + 128)>>8))" := by
  refine ⟨rfl, rfl, rfl, rfl, ?_⟩
  decide

/-- C32. The lerp rounding-bias table is {"", " + 128", "", " + 127"} and WriteTevRegular
indexes it by 2*op + ((shift == 3) == alpha): for every op, shift and path, the bias written
is the entry at 2*op + (1 if (shift is divide-by-2) equals (the path is alpha) else 0).  On
the alpha path this is the index 2*op + (shift == 3) of the comment; on the colour path it is
the other entry of the pair, 2*op + (shift != 3), and for op add and sub the two entries of
the pair differ. -/
theorem WriteTevRegular_lerp_bias_index (out : ShaderCode) (components : String)
    (bias op clamp shift : Nat) :
    tev_lerp_bias = ["", " + 128", "", " + 127"] ∧
    (∀ alpha : Bool,
      (WriteTevRegular out components bias op clamp shift alpha).text =
        out.text ++ ("(((tevin_d." ++ components ++ tev_bias_table.getD bias "" ++ ")" ++
          tev_scale_table_left.getD shift "" ++ ")") ++
        (" " ++ tev_op_table.getD op "" ++ " ") ++
        ("(((((tevin_a." ++ components ++ "<<8) + (tevin_b." ++ components ++
          "-tevin_a." ++ components ++ ")*(tevin_c." ++ components ++ "+(tevin_c." ++
          components ++ ">>7)))" ++ tev_scale_table_left.getD shift "" ++ ")" ++
          tev_lerp_bias.getD (lerp_bias_index op shift alpha) "" ++ ")>>8)") ++
        (")" ++ tev_scale_table_right.getD shift "")) ∧
    (∀ alpha : Bool, lerp_bias_index op shift alpha =
      2 * op + (if decide (shift = 3) = alpha then 1 else 0)) ∧
    lerp_bias_index op shift true = commentedLerpBiasIndex op shift ∧
    lerp_bias_index op shift false = 2 * op + (if shift = 3 then 0 else 1) ∧
    lerp_bias_index op shift false ≠ commentedLerpBiasIndex op shift ∧
    (op < 2 →
      tev_lerp_bias.getD (lerp_bias_index op shift false) "" ≠
        tev_lerp_bias.getD (commentedLerpBiasIndex op shift) "") := by
  refine ⟨rfl, ?_, ?_, ?_, ?_, ?_, ?_⟩
  · intro alpha
    unfold WriteTevRegular lerp_bias_index
    simp only [ShaderCode.Write_text, String.append_assoc]
  · intro alpha
    unfold lerp_bias_index
    by_cases h : shift = 3 <;> cases alpha <;> simp [h]
  · unfold lerp_bias_index commentedLerpBiasIndex
    by_cases h : shift = 3 <;> simp [h]
  · unfold lerp_bias_index
    by_cases h : shift = 3 <;> simp [h]
  · unfold lerp_bias_index commentedLerpBiasIndex
    by_cases h : shift = 3 <;> simp [h]
  · intro hop
    unfold lerp_bias_index commentedLerpBiasIndex
    by_cases h : shift = 3 <;> interval_cases op <;> simp [h, tev_lerp_bias]

/-- C33. ClearUnusedPixelShaderUidBits changes no member of the UID other than uint_output
and bounding_box: the result with these two members put back is the UID it was given, and in
particular the stage hashes, the counts, the alpha-test, fog, blend and depth members and
num_values are the same before and after. -/
theorem ClearUnusedPixelShaderUidBits_frame (g : Globals) (api_type : APIType)
    (host_config : ShaderHostConfig) (uid : PixelShaderUid) :
    { ClearUnusedPixelShaderUidBits g api_type host_config uid with
        uint_output := uid.uint_output, bounding_box := uid.bounding_box } = uid ∧
    (ClearUnusedPixelShaderUidBits g api_type host_config uid).stagehash = uid.stagehash ∧
    (ClearUnusedPixelShaderUidBits g api_type host_config uid).num_values = uid.num_values ∧
    (ClearUnusedPixelShaderUidBits g api_type host_config uid).genMode_numtexgens =
      uid.genMode_numtexgens ∧
    (ClearUnusedPixelShaderUidBits g api_type host_config uid).genMode_numtevstages =
      uid.genMode_numtevstages ∧
    (ClearUnusedPixelShaderUidBits g api_type host_config uid).genMode_numindstages =
      uid.genMode_numindstages ∧
    (ClearUnusedPixelShaderUidBits g api_type host_config uid).nIndirectStagesUsed =
      uid.nIndirectStagesUsed ∧
    (ClearUnusedPixelShaderUidBits g api_type host_config uid).Pretest = uid.Pretest ∧
    (ClearUnusedPixelShaderUidBits g api_type host_config uid).alpha_test_comp0 =
      uid.alpha_test_comp0 ∧
    (ClearUnusedPixelShaderUidBits g api_type host_config uid).alpha_test_comp1 =
      uid.alpha_test_comp1 ∧
    (ClearUnusedPixelShaderUidBits g api_type host_config uid).alpha_test_logic =
      uid.alpha_test_logic ∧
    (ClearUnusedPixelShaderUidBits g api_type host_config uid).fog_fsel = uid.fog_fsel ∧
    (ClearUnusedPixelShaderUidBits g api_type host_config uid).fog_proj = uid.fog_proj ∧
    (ClearUnusedPixelShaderUidBits g api_type host_config uid).blend_enable =
      uid.blend_enable ∧
    (ClearUnusedPixelShaderUidBits g api_type host_config uid).per_pixel_depth =
      uid.per_pixel_depth ∧
    (ClearUnusedPixelShaderUidBits g api_type host_config uid).forced_early_z =
      uid.forced_early_z ∧
    (ClearUnusedPixelShaderUidBits g api_type host_config uid).early_ztest = uid.early_ztest ∧
    (ClearUnusedPixelShaderUidBits g api_type host_config uid).late_ztest = uid.late_ztest := by
  unfold ClearUnusedPixelShaderUidBits
  simp only []
  split <;> exact ⟨rfl, rfl, rfl, rfl, rfl, rfl, rfl, rfl, rfl, rfl, rfl, rfl, rfl, rfl, rfl,
    rfl, rfl, rfl⟩

/-- C34. When the early and the late depth test are not both in use, the UID that
GetPixelShaderUid builds never has forced_early_z and per_pixel_depth both set. -/
theorem GetPixelShaderUid_forced_early_z_excludes_per_pixel_depth (L : UidLayout)
    (g : Globals)
    (hexcl : ¬ (g.bpmem.UseEarlyDepthTest = true ∧ g.bpmem.UseLateDepthTest = true)) :
    ¬ ((GetPixelShaderUid L g).forced_early_z = true ∧
      (GetPixelShaderUid L g).per_pixel_depth = true) := by
  rw [GetPixelShaderUid_per_pixel_depth_eq, GetPixelShaderUid_forced_early_z_eq]
  revert hexcl
  cases g.bpmem.UseEarlyDepthTest <;> cases g.bpmem.UseLateDepthTest <;>
    cases g.g_ActiveConfig.bFastDepthCalc <;> cases g.bpmem.zmode.testenable <;>
    cases g.bpmem.genMode.zfreeze <;>
    cases (g.bpmem.alpha_test.TestResult == TEST_RESULT.UNDETERMINED) <;>
    cases (g.bpmem.ztex2.op != ZTEXTURE_DISABLE) <;> simp

/-- The exclusion at a snapshot with the early depth test in use: forced_early_z is set and
per_pixel_depth is clear. -/
theorem GetPixelShaderUid_forced_early_z_excludes_per_pixel_depth_witness :
    ¬ (snapshotEarlyZ.bpmem.UseEarlyDepthTest = true ∧
      snapshotEarlyZ.bpmem.UseLateDepthTest = true) ∧
    (GetPixelShaderUid layoutExample snapshotEarlyZ).forced_early_z = true ∧
    ¬ ((GetPixelShaderUid layoutExample snapshotEarlyZ).forced_early_z = true ∧
      (GetPixelShaderUid layoutExample snapshotEarlyZ).per_pixel_depth = true) :=
  ⟨by decide, by decide,
    GetPixelShaderUid_forced_early_z_excludes_per_pixel_depth layoutExample snapshotEarlyZ
      (by decide)⟩

/-! ## Used-constant tracking of the k-select -/

/-- The text WriteStage_konst appends for a stage with a KONST operand. -/
theorem WriteStage_konst_emitted (stage : StageHash) (cc : ColorCombiner) (ac : AlphaCombiner)
    (hk : usesKonst cc ac = true) :
    emitted (fun o => WriteStage_konst o stage cc ac) =
      "\tkonsttemp = int4(" ++ tev_ksel_table_c.getD stage.tevksel_kc "" ++ ", " ++
        tev_ksel_table_a.getD stage.tevksel_ka "" ++ ");\n" := by
  unfold emitted WriteStage_konst WriteStage_konsttemp
  simp only [hk, if_true, ShaderCode.Write_text, ShaderCode.SetConstantsUsed_text,
    ShaderCode.text_ite, ShaderCode.empty_text, String.empty_append, String.append_assoc,
    ite_self]

/-- The ranges WriteStage_konst records for a stage with a KONST operand. -/
theorem WriteStage_konst_constants_used (out : ShaderCode) (stage : StageHash)
    (cc : ColorCombiner) (ac : AlphaCombiner) (hk : usesKonst cc ac = true) :
    (WriteStage_konst out stage cc ac).constants_used =
      out.constants_used ++
        ((if 7 < stage.tevksel_kc then
            [(kselConstant stage.tevksel_kc, kselConstant stage.tevksel_kc)] else []) ++
          (if 7 < stage.tevksel_ka then
            [(kselConstant stage.tevksel_ka, kselConstant stage.tevksel_ka)] else [])) := by
  unfold WriteStage_konst WriteStage_konsttemp
  simp only [hk, if_true, gt_iff_lt]
  by_cases h1 : 7 < stage.tevksel_kc <;> by_cases h2 : 7 < stage.tevksel_ka <;>
    simp [h1, h2, ShaderCode.Write_constants_used, ShaderCode.SetConstantsUsed_constants_used]

/-- A constant is marked after a range is recorded iff it was marked or lies in the range. -/
theorem constantUsed_append (l : List (Nat × Nat)) (text : String) (r : List (Nat × Nat))
    (i : Nat) :
    ShaderCode.constantUsed { text := text, constants_used := l ++ r } i =
      (ShaderCode.constantUsed { text := text, constants_used := l } i ||
        r.any fun q => decide (q.1 ≤ i) && decide (i ≤ q.2)) := by
  unfold ShaderCode.constantUsed
  simp only [List.any_append]

/-- The constant a k-select index from 12 marks is the slot its table entry reads. -/
theorem kselConstant_slot (k : Nat) (h1 : 12 ≤ k) (h2 : k < 32) :
    kselConstant k = C_KCOLORS + (k - 12) % 4 := by
  interval_cases k <;> decide

set_option maxRecDepth 100000 in
/-- An entry of the colour table that does not read slot j has no "[j". -/
theorem tev_ksel_table_c_clean (j kc : Nat) (hj : j < 4) (hkc : kc < 32)
    (h : ¬ (12 ≤ kc ∧ (kc - 12) % 4 = j)) :
    clean '[' (digitChar j) (tev_ksel_table_c.getD kc "") = true := by
  interval_cases j <;> interval_cases kc <;>
    first | exact absurd ⟨by decide, by decide⟩ h | decide!

set_option maxRecDepth 100000 in
/-- An entry of the alpha table that does not read slot j has no "[j". -/
theorem tev_ksel_table_a_clean (j ka : Nat) (hj : j < 4) (hka : ka < 32)
    (h : ¬ (16 ≤ ka ∧ (ka - 16) % 4 = j)) :
    clean '[' (digitChar j) (tev_ksel_table_a.getD ka "") = true := by
  interval_cases j <;> interval_cases ka <;>
    first | exact absurd ⟨by decide, by decide⟩ h | decide!

/-- The konsttemp statement names slot j only if one of its two table entries reads it. -/
theorem WriteStage_konst_reads (stage : StageHash) (cc : ColorCombiner) (ac : AlphaCombiner)
    (hk : usesKonst cc ac = true) (hkc : stage.tevksel_kc < 32) (hka : stage.tevksel_ka < 32)
    (j : Nat) (hj : j < 4)
    (hm : 0 < mentions (kselSlotName j) (emitted (fun o => WriteStage_konst o stage cc ac))) :
    (12 ≤ stage.tevksel_kc ∧ (stage.tevksel_kc - 12) % 4 = j) ∨
      (16 ≤ stage.tevksel_ka ∧ (stage.tevksel_ka - 16) % 4 = j) := by
  by_contra hcon
  rw [not_or] at hcon
  have hc := tev_ksel_table_c_clean j stage.tevksel_kc hj hkc hcon.1
  have ha := tev_ksel_table_a_clean j stage.tevksel_ka hj hka hcon.2
  have hz : mentions (kselSlotName j) (emitted (fun o => WriteStage_konst o stage cc ac)) = 0 := by
    apply mentions_eq_zero '[' (digitChar j)
    · interval_cases j <;> decide
    · rw [WriteStage_konst_emitted stage cc ac hk]
      simp only [String.append_assoc]
      refine clean_append _ _ _ _ ?_ (clean_append _ _ _ _ hc
        (clean_append _ _ _ _ ?_ (clean_append _ _ _ _ ha ?_)))
      · interval_cases j <;> decide
      · interval_cases j <;> decide
      · interval_cases j <;> decide
  omega

/-- C38, the claim as stated fails: a stage with a KONST operand and the colour index 9 marks
the constant 1, below C_KCOLORS = 4, and its konsttemp statement reads no uniform. -/
theorem WriteStage_konst_marks_below_kcolors :
    usesKonst colorCombinerKonst ⟨0⟩ = true ∧ (stageKSel 9 0).tevksel_kc < 32 ∧
    WriteStage_konst ShaderCode.empty (stageKSel 9 0) colorCombinerKonst ⟨0⟩ =
      { text := "\tkonsttemp = int4(0,0,0, 255);\n", constants_used := [(1, 1)] } ∧
    (WriteStage_konst ShaderCode.empty (stageKSel 9 0) colorCombinerKonst ⟨0⟩).constantUsed 1 =
      true ∧
    ¬ (C_KCOLORS ≤ 1) := by
  decide

/-- C38. For a stage with a KONST operand and five-bit indices kc and ka, WriteStage writes
the konsttemp statement from the two table entries and records, for each index above 7, the
one constant C_KCOLORS + ((index - 0xc) % 4).  Every slot j of the constant colours that the
statement reads is marked as C_KCOLORS + j.  A constant newly marked is the one of kc or of
ka; it lies in C_KCOLORS .. C_KCOLORS + 3 when the index is 8 or at least 12, and for the
indices 9, 10 and 11, whose entries are the literal zero, it is 1, 2 and 3, below
C_KCOLORS. -/
theorem WriteStage_konst_used_constants (out : ShaderCode) (stage : StageHash)
    (cc : ColorCombiner) (ac : AlphaCombiner) (hk : usesKonst cc ac = true)
    (hkc : stage.tevksel_kc < 32) (hka : stage.tevksel_ka < 32) :
    emitted (fun o => WriteStage_konst o stage cc ac) =
      "\tkonsttemp = int4(" ++ tev_ksel_table_c.getD stage.tevksel_kc "" ++ ", " ++
        tev_ksel_table_a.getD stage.tevksel_ka "" ++ ");\n" ∧
    (∀ j, j < 4 →
      0 < mentions (kselSlotName j) (emitted (fun o => WriteStage_konst o stage cc ac)) →
      (WriteStage_konst out stage cc ac).constantUsed (C_KCOLORS + j) = true) ∧
    (∀ i, (WriteStage_konst out stage cc ac).constantUsed i = true →
      out.constantUsed i = true ∨
      (7 < stage.tevksel_kc ∧ i = kselConstant stage.tevksel_kc) ∨
      (7 < stage.tevksel_ka ∧ i = kselConstant stage.tevksel_ka)) ∧
    (∀ k, 7 < k → k < 32 →
      ((k = 8 ∨ 12 ≤ k) → C_KCOLORS ≤ kselConstant k ∧ kselConstant k ≤ C_KCOLORS + 3) ∧
      (9 ≤ k → k ≤ 11 → kselConstant k = k - 8 ∧ kselConstant k < C_KCOLORS)) := by
  have hused : ∀ i, (WriteStage_konst out stage cc ac).constantUsed i =
      (out.constantUsed i ||
        ((if 7 < stage.tevksel_kc then
            [(kselConstant stage.tevksel_kc, kselConstant stage.tevksel_kc)] else []) ++
          (if 7 < stage.tevksel_ka then
            [(kselConstant stage.tevksel_ka, kselConstant stage.tevksel_ka)] else [])).any
          fun q => decide (q.1 ≤ i) && decide (i ≤ q.2)) := by
    intro i
    have h := WriteStage_konst_constants_used out stage cc ac hk
    have e : WriteStage_konst out stage cc ac =
        { text := (WriteStage_konst out stage cc ac).text,
          constants_used := out.constants_used ++
            ((if 7 < stage.tevksel_kc then
                [(kselConstant stage.tevksel_kc, kselConstant stage.tevksel_kc)] else []) ++
              (if 7 < stage.tevksel_ka then
                [(kselConstant stage.tevksel_ka, kselConstant stage.tevksel_ka)] else [])) } := by
      rw [← h]
    rw [e, constantUsed_append]
    rfl
  refine ⟨WriteStage_konst_emitted stage cc ac hk, ?_, ?_, ?_⟩
  · intro j hj hm
    rw [hused]
    rcases WriteStage_konst_reads stage cc ac hk hkc hka j hj hm with ⟨h1, h2⟩ | ⟨h1, h2⟩
    · have h7 : 7 < stage.tevksel_kc := by omega
      have e := kselConstant_slot stage.tevksel_kc h1 hkc
      rw [h2] at e
      simp [h7, e]
    · have h7 : 7 < stage.tevksel_ka := by omega
      have e := kselConstant_slot stage.tevksel_ka (by omega) hka
      have e2 : (stage.tevksel_ka - 12) % 4 = j := by omega
      rw [e2] at e
      simp [h7, e]
  · intro i hi
    rw [hused] at hi
    simp only [Bool.or_eq_true, List.any_append] at hi
    rcases hi with hi | hi | hi
    · exact Or.inl hi
    · right; left
      by_cases h7 : 7 < stage.tevksel_kc
      · simp only [h7, if_true, List.any_cons, List.any_nil, Bool.or_false, Bool.and_eq_true,
          decide_eq_true_eq] at hi
        exact ⟨h7, by omega⟩
      · simp [h7] at hi
    · right; right
      by_cases h7 : 7 < stage.tevksel_ka
      · simp only [h7, if_true, List.any_cons, List.any_nil, Bool.or_false, Bool.and_eq_true,
          decide_eq_true_eq] at hi
        exact ⟨h7, by omega⟩
      · simp [h7] at hi
  · intro k h7 h32
    interval_cases k <;> decide

/-- The tracking at a stage whose colour index 13 reads slot 1 and whose alpha index 30 reads
slot 2: the constants 5 and 6 are marked. -/
theorem WriteStage_konst_used_constants_witness :
    usesKonst colorCombinerKonst ⟨0⟩ = true ∧
    (WriteStage_konst ShaderCode.empty (stageKSel 13 30) colorCombinerKonst ⟨0⟩).constants_used =
      [(5, 5), (6, 6)] ∧
    (∀ j, j < 4 →
      0 < mentions (kselSlotName j)
        (emitted (fun o => WriteStage_konst o (stageKSel 13 30) colorCombinerKonst ⟨0⟩)) →
      (WriteStage_konst ShaderCode.empty (stageKSel 13 30) colorCombinerKonst
        ⟨0⟩).constantUsed (C_KCOLORS + j) = true) :=
  ⟨by decide, by decide,
    (WriteStage_konst_used_constants ShaderCode.empty (stageKSel 13 30) colorCombinerKonst ⟨0⟩
      (by decide) (by decide) (by decide)).2.1⟩

/-! ## The workaround for drivers with a broken negation -/

/-- The value of the condition of the alpha-test conditional, read from the text of
WriteAlphaTest. -/
theorem ifConditionValue_WriteAlphaTest (g : Globals) (bugs : DriverDetails)
    (u : pixel_shader_uid_data) (api_type : APIType) (per_pixel_depth use_dual_source : Bool)
    (prev alphaRef : int4)
    (h0 : u.alpha_test_comp0 < 8) (h1 : u.alpha_test_comp1 < 8)
    (hl : u.alpha_test_logic < 4) :
    ifConditionValue (alphaTestInputs prev alphaRef)
        (WriteAlphaTest g bugs ShaderCode.empty u api_type per_pixel_depth
          use_dual_source).text =
      some [boolInt (!(alphaLogic u.alpha_test_logic
        (alphaCompare u.alpha_test_comp0 prev.a alphaRef.r)
        (alphaCompare u.alpha_test_comp1 prev.a alphaRef.g)))] := by
  have hp : parseIfCondition
      (WriteAlphaTest g bugs ShaderCode.empty u api_type per_pixel_depth
        use_dual_source).text =
      some (alphaTestCondAst bugs.BUG_BROKEN_NEGATED_BOOLEAN u.alpha_test_comp0
        u.alpha_test_comp1 u.alpha_test_logic) := by
    rw [WriteAlphaTest_text, String.append_assoc, String.append_assoc]
    have he : ShaderCode.empty.text = "" := rfl
    rw [he, String.empty_append, parseIfCondition_header]
    exact parseIfCondition_alphaTestCondText bugs.BUG_BROKEN_NEGATED_BOOLEAN
      ⟨u.alpha_test_comp0, h0⟩ ⟨u.alpha_test_comp1, h1⟩ ⟨u.alpha_test_logic, hl⟩
  unfold ifConditionValue
  rw [hp]
  exact evalExpr_alphaTestCond prev alphaRef bugs.BUG_BROKEN_NEGATED_BOOLEAN
    u.alpha_test_comp0 u.alpha_test_comp1 u.alpha_test_logic h0 h1 hl

/-- C39. For every comp0, comp1 and logic of the alpha test, the text WriteAlphaTest writes
with BUG_BROKEN_NEGATED_BOOLEAN set opens with "if(( X ) == false)" and the text it writes
with the flag clear opens with "if(!( X ))", for the same combination X of the two
comparisons and the same failure block; and for every value of prev.a and of the two
references the two conditions have the same value, so one holds iff the other does. -/
theorem WriteAlphaTest_negated_boolean_workaround (g : Globals) (bugs : DriverDetails)
    (u : pixel_shader_uid_data) (api_type : APIType) (per_pixel_depth use_dual_source : Bool)
    (prev alphaRef : int4)
    (h0 : u.alpha_test_comp0 < 8) (h1 : u.alpha_test_comp1 < 8)
    (hl : u.alpha_test_logic < 4) :
    (WriteAlphaTest g (bugs.withNegatedBoolean true) ShaderCode.empty u api_type
        per_pixel_depth use_dual_source).text =
      "\tif(( " ++
        alphaTestCombinationText u.alpha_test_comp0 u.alpha_test_comp1 u.alpha_test_logic ++
        ") == false) \x7b\n" ++
        alphaTestFailText g.g_ActiveConfig.backend_info.bSupportsReversedDepthRange
          u.uint_output u.alpha_test_use_zcomploc_hack api_type per_pixel_depth
          use_dual_source ++ "\t\x7d\n" ∧
    (WriteAlphaTest g (bugs.withNegatedBoolean false) ShaderCode.empty u api_type
        per_pixel_depth use_dual_source).text =
      "\tif(!( " ++
        alphaTestCombinationText u.alpha_test_comp0 u.alpha_test_comp1 u.alpha_test_logic ++
        ")) \x7b\n" ++
        alphaTestFailText g.g_ActiveConfig.backend_info.bSupportsReversedDepthRange
          u.uint_output u.alpha_test_use_zcomploc_hack api_type per_pixel_depth
          use_dual_source ++ "\t\x7d\n" ∧
    ifConditionValue (alphaTestInputs prev alphaRef)
        (WriteAlphaTest g (bugs.withNegatedBoolean true) ShaderCode.empty u api_type
          per_pixel_depth use_dual_source).text =
      ifConditionValue (alphaTestInputs prev alphaRef)
        (WriteAlphaTest g (bugs.withNegatedBoolean false) ShaderCode.empty u api_type
          per_pixel_depth use_dual_source).text ∧
    (∃ holds : Bool,
      ifConditionValue (alphaTestInputs prev alphaRef)
          (WriteAlphaTest g (bugs.withNegatedBoolean true) ShaderCode.empty u api_type
            per_pixel_depth use_dual_source).text = some [boolInt holds] ∧
      ifConditionValue (alphaTestInputs prev alphaRef)
          (WriteAlphaTest g (bugs.withNegatedBoolean false) ShaderCode.empty u api_type
            per_pixel_depth use_dual_source).text = some [boolInt holds]) := by
  have ht := ifConditionValue_WriteAlphaTest g (bugs.withNegatedBoolean true) u api_type
    per_pixel_depth use_dual_source prev alphaRef h0 h1 hl
  have hf := ifConditionValue_WriteAlphaTest g (bugs.withNegatedBoolean false) u api_type
    per_pixel_depth use_dual_source prev alphaRef h0 h1 hl
  refine ⟨?_, ?_, ht.trans hf.symm, ⟨_, ht, hf⟩⟩
  · rw [WriteAlphaTest_text]
    simp only [DriverDetails.withNegatedBoolean, alphaTestCondText, alphaTestCombinationText,
      if_true, ShaderCode.empty_text, String.empty_append, String.append_assoc]
  · rw [WriteAlphaTest_text]
    simp only [DriverDetails.withNegatedBoolean, alphaTestCondText, alphaTestCombinationText,
      Bool.false_eq_true, if_false, ShaderCode.empty_text, String.empty_append,
      String.append_assoc]

set_option maxRecDepth 1000000 in
/-- The workaround at comparators (greater, less) with AND, prev.a = 250 and references 50
and 200: both spellings of the condition have the value 1. -/
theorem WriteAlphaTest_negated_boolean_workaround_witness :
    ((uidAlphaTest 4 1 0).alpha_test_comp0 < 8 ∧ (uidAlphaTest 4 1 0).alpha_test_comp1 < 8 ∧
      (uidAlphaTest 4 1 0).alpha_test_logic < 4) ∧
    (WriteAlphaTest snapshotEarlyZ (driverSound.withNegatedBoolean true) ShaderCode.empty
        (uidAlphaTest 4 1 0) APIType.OpenGL false false).text =
      "\tif(( (prev.a >  alphaRef.r) && (prev.a <  alphaRef.g)) == false) \x7b\n" ++
        "\t\tocol0 = float4(0.0, 0.0, 0.0, 0.0);\n\t\tdiscard;\n\t\x7d\n" ∧
    ifConditionValue (alphaTestInputs ⟨0, 0, 0, 250⟩ ⟨50, 200, 0, 0⟩)
        (WriteAlphaTest snapshotEarlyZ (driverSound.withNegatedBoolean true) ShaderCode.empty
          (uidAlphaTest 4 1 0) APIType.OpenGL false false).text =
      ifConditionValue (alphaTestInputs ⟨0, 0, 0, 250⟩ ⟨50, 200, 0, 0⟩)
        (WriteAlphaTest snapshotEarlyZ (driverSound.withNegatedBoolean false) ShaderCode.empty
          (uidAlphaTest 4 1 0) APIType.OpenGL false false).text :=
  ⟨by decide, by decide,
    (WriteAlphaTest_negated_boolean_workaround snapshotEarlyZ driverSound (uidAlphaTest 4 1 0)
      APIType.OpenGL false false ⟨0, 0, 0, 250⟩ ⟨50, 200, 0, 0⟩ (by decide) (by decide)
      (by decide)).2.2.1⟩

/-! ## DataReader: writing, reading back and advancing -/

/-- The bytes of an n-byte value are n in number. -/
theorem leBytes_length (n v : Nat) : (leBytes n v).length = n := by
  induction n generalizing v with
  | zero => rfl
  | succ n ih => simp [leBytes, ih]

/-- The n bytes of v spell v modulo 256^n. -/
theorem leValue_leBytes (n v : Nat) : leValue (leBytes n v) = v % 256 ^ n := by
  induction n generalizing v with
  | zero => simp [leBytes, leValue, Nat.mod_one]
  | succ n ih =>
    simp only [leBytes, leValue, ih]
    rw [pow_succ, Nat.mul_comm (256 ^ n) 256, Nat.mod_mul]

/-- Every byte of a value is below 256. -/
theorem leBytes_lt (n v : Nat) : ∀ b ∈ leBytes n v, b < 256 := by
  induction n generalizing v with
  | zero => intro b hb; simp [leBytes] at hb
  | succ n ih =>
    intro b hb
    simp only [leBytes, List.mem_cons] at hb
    rcases hb with rfl | hb
    · exact Nat.mod_lt _ (by decide)
    · exact ih _ b hb

/-- Bytes spell a value below 256 to the power of their number. -/
theorem leValue_lt (bs : List Nat) (h : ∀ b ∈ bs, b < 256) : leValue bs < 256 ^ bs.length := by
  induction bs with
  | nil => simp [leValue]
  | cons b bs ih =>
    have hb : b < 256 := h b (List.mem_cons_self _ _)
    have ht := ih (fun x hx => h x (List.mem_cons_of_mem _ hx))
    simp only [leValue, List.length_cons, pow_succ]
    omega

/-- The bytes of the value that bytes spell are these bytes. -/
theorem leBytes_leValue (bs : List Nat) (h : ∀ b ∈ bs, b < 256) :
    leBytes bs.length (leValue bs) = bs := by
  induction bs with
  | nil => rfl
  | cons b bs ih =>
    have hb : b < 256 := h b (List.mem_cons_self _ _)
    have ht := ih (fun x hx => h x (List.mem_cons_of_mem _ hx))
    simp only [leValue, List.length_cons, leBytes]
    have e1 : (b + 256 * leValue bs) % 256 = b := by omega
    have e2 : (b + 256 * leValue bs) / 256 = leValue bs := by omega
    rw [e1, e2, ht]

/-- Reversing the bytes of an n-byte value gives an n-byte value, and doing it twice gives the
value back. -/
theorem byteSwap_involution (n x : Nat) (hx : x < 256 ^ n) :
    byteSwap n x < 256 ^ n ∧ byteSwap n (byteSwap n x) = x := by
  have hlen : (leBytes n x).reverse.length = n := by
    rw [List.length_reverse, leBytes_length]
  have hlt : ∀ b ∈ (leBytes n x).reverse, b < 256 := by
    intro b hb
    exact leBytes_lt n x b (List.mem_reverse.mp hb)
  constructor
  · have := leValue_lt _ hlt
    rw [hlen] at this
    exact this
  · unfold byteSwap
    have e := leBytes_leValue _ hlt
    rw [hlen] at e
    rw [e, List.reverse_reverse, leValue_leBytes, Nat.mod_eq_of_lt hx]

/-- The object representation of an n-byte value has n bytes. -/
theorem Host.store_length (h : Host) (n v : Nat) : (h.store n v).length = n := by
  unfold Host.store
  split
  · exact leBytes_length n v
  · rw [List.length_reverse, leBytes_length]

/-- Loading the object representation of an n-byte value gives the value back. -/
theorem Host.load_store (h : Host) (n v : Nat) (hv : v < 256 ^ n) :
    h.load (h.store n v) = v := by
  unfold Host.load Host.store
  split
  · rw [leValue_leBytes, Nat.mod_eq_of_lt hv]
  · rw [List.reverse_reverse, leValue_leBytes, Nat.mod_eq_of_lt hv]

/-- The bytes stored at a position are the bytes read there afterwards. -/
theorem readBytes_writeBytes (mem : List Nat) (addr : Nat) (bs : List Nat)
    (h : addr + bs.length ≤ mem.length) :
    ∃ mem2, writeBytes mem addr bs = some mem2 ∧ mem2.length = mem.length ∧
      readBytes mem2 addr bs.length = some bs := by
  refine ⟨mem.take addr ++ bs ++ mem.drop (addr + bs.length), ?_, ?_, ?_⟩
  · unfold writeBytes
    rw [if_pos h]
  · simp only [List.length_append, List.length_take, List.length_drop]
    omega
  · unfold readBytes
    have hl : (mem.take addr ++ bs ++ mem.drop (addr + bs.length)).length = mem.length := by
      simp only [List.length_append, List.length_take, List.length_drop]
      omega
    rw [hl, if_pos h]
    have ht : (mem.take addr).length = addr := by
      rw [List.length_take]
      omega
    rw [List.append_assoc, List.drop_append_eq_append_drop, ht, Nat.sub_self, List.drop_zero,
      List.drop_of_length_le (by omega), List.nil_append, List.take_left]

/-- C40. DataReader round trip.  For a type T of sizeofT bytes, a value v of T, either swap
flag, a host byte order and a FromBigEndian that maps values of T to values of T and undoes
itself, and at least sizeofT bytes at the cursor: Write<T, s>(v) stores and advances the
cursor by sizeofT, and Peek<T, s> at the position written, which is offset 0 of the reader
before the call and offset -sizeofT of the reader after it, returns v.  Read<T, s>() returns
what Peek<T, s>(0) returns and advances the cursor by exactly sizeofT, so that size()
decreases by sizeofT when the cursor stays within end; and Skip<T>(k) advances the cursor by
k * sizeofT and changes nothing else. -/
theorem DataReader_round_trip (host : Host) (mem : List Nat) (r : DataReader)
    (sizeofT : Nat) (s : Bool) (v : Nat) (hv : v < 256 ^ sizeofT)
    (hroom : r.buffer + sizeofT ≤ mem.length)
    (hend : r.buffer + sizeofT ≤ r.end_) (hend64 : r.end_ < 2 ^ 64)
    (hswap : ∀ x, x < 256 ^ sizeofT →
      host.FromBigEndian sizeofT x < 256 ^ sizeofT ∧
      host.FromBigEndian sizeofT (host.FromBigEndian sizeofT x) = x) :
    (∃ mem2 r2, r.Write host mem sizeofT s v = some (mem2, r2) ∧
      r2.buffer = r.buffer + sizeofT ∧ r2.end_ = r.end_ ∧ mem2.length = mem.length ∧
      r.Peek host mem2 sizeofT s 0 = some v ∧
      r2.Peek host mem2 sizeofT s (-(sizeofT : Int)) = some v) ∧
    (∃ x r2, r.Peek host mem sizeofT s 0 = some x ∧
      r.Read host mem sizeofT s = some (x, r2) ∧
      r2.buffer = r.buffer + sizeofT ∧ r2.end_ = r.end_ ∧ r2.size + sizeofT = r.size) ∧
    (∀ k, (r.Skip sizeofT k).buffer = r.buffer + k * sizeofT ∧
      (r.Skip sizeofT k).end_ = r.end_) := by
  refine ⟨?_, ?_, ?_⟩
  · -- the value stored
    have hd : (if s = true then host.FromBigEndian sizeofT v else v) < 256 ^ sizeofT := by
      cases s
      · exact hv
      · exact (hswap v hv).1
    have hlen := host.store_length sizeofT (if s = true then host.FromBigEndian sizeofT v else v)
    obtain ⟨mem2, hw, hl2, hr⟩ := readBytes_writeBytes mem r.buffer
      (host.store sizeofT (if s = true then host.FromBigEndian sizeofT v else v))
      (by rw [hlen]; exact hroom)
    rw [hlen] at hr
    have hback : (if s = true then
        host.FromBigEndian sizeofT
          (host.load (host.store sizeofT (if s = true then host.FromBigEndian sizeofT v else v)))
        else host.load
          (host.store sizeofT (if s = true then host.FromBigEndian sizeofT v else v))) = v := by
      rw [host.load_store _ _ hd]
      cases s
      · rfl
      · exact (hswap v hv).2
    refine ⟨mem2, { r with buffer := r.buffer + sizeofT }, ?_, rfl, rfl, hl2, ?_, ?_⟩
    · unfold DataReader.Write
      simp only [hw]
    · unfold DataReader.Peek
      simp only [add_zero, Int.toNat_ofNat, Int.ofNat_nonneg, Int.natCast_nonneg, if_true, hr,
        hback]
    · unfold DataReader.Peek
      have e : ((r.buffer + sizeofT : Nat) : Int) + -(sizeofT : Int) = (r.buffer : Int) := by
        push_cast
        omega
      simp only [e, Int.toNat_ofNat, Int.natCast_nonneg, if_true, hr, hback]
  · -- reading
    have hrd : readBytes mem r.buffer sizeofT = some ((mem.drop r.buffer).take sizeofT) := by
      unfold readBytes
      rw [if_pos hroom]
    have hp : r.Peek host mem sizeofT s 0 =
        some (if s = true then
          host.FromBigEndian sizeofT (host.load ((mem.drop r.buffer).take sizeofT))
          else host.load ((mem.drop r.buffer).take sizeofT)) := by
      unfold DataReader.Peek
      simp only [add_zero, Int.toNat_ofNat, Int.natCast_nonneg, if_true, hrd]
    refine ⟨_, { r with buffer := r.buffer + sizeofT }, hp, ?_, rfl, rfl, ?_⟩
    · unfold DataReader.Read
      rw [hp]
    · unfold DataReader.size
      simp only
      have h1 : (0 : Int) ≤ (r.end_ : Int) - ((r.buffer + sizeofT : Nat) : Int) := by
        push_cast
        omega
      have h2 : (r.end_ : Int) - ((r.buffer + sizeofT : Nat) : Int) < 2 ^ 64 := by
        push_cast
        have : (r.end_ : Int) < 2 ^ 64 := by exact_mod_cast hend64
        omega
      have h3 : (0 : Int) ≤ (r.end_ : Int) - (r.buffer : Int) := by omega
      have h4 : (r.end_ : Int) - (r.buffer : Int) < 2 ^ 64 := by
        have : (r.end_ : Int) < 2 ^ 64 := by exact_mod_cast hend64
        omega
      rw [Int.emod_eq_of_lt h1 h2, Int.emod_eq_of_lt h3 h4]
      push_cast at h1 ⊢
      omega
  · intro k
    unfold DataReader.Skip
    exact ⟨by simp only [Nat.mul_comm], rfl⟩

/-- The round trip of the 32-bit value 0x11223344 with byte swapping, at position 2 of a
buffer of eight bytes on a little-endian host: the bytes stored are 0x11, 0x22, 0x33, 0x44. -/
theorem DataReader_round_trip_witness :
    (0x11223344 < 256 ^ 4 ∧ (DataReader.mk2 2 8).buffer + 4 ≤ [0, 0, 0, 0, 0, 0, 0, 0].length ∧
      (DataReader.mk2 2 8).buffer + 4 ≤ (DataReader.mk2 2 8).end_ ∧
      (DataReader.mk2 2 8).end_ < 2 ^ 64) ∧
    (DataReader.mk2 2 8).Write hostLittleEndian [0, 0, 0, 0, 0, 0, 0, 0] 4 true 0x11223344 =
      some ([0, 0, 0x11, 0x22, 0x33, 0x44, 0, 0], DataReader.mk2 6 8) ∧
    (∃ mem2 r2,
      (DataReader.mk2 2 8).Write hostLittleEndian [0, 0, 0, 0, 0, 0, 0, 0] 4 true 0x11223344 =
        some (mem2, r2) ∧
      r2.buffer = (DataReader.mk2 2 8).buffer + 4 ∧ r2.end_ = (DataReader.mk2 2 8).end_ ∧
      mem2.length = [0, 0, 0, 0, 0, 0, 0, 0].length ∧
      (DataReader.mk2 2 8).Peek hostLittleEndian mem2 4 true 0 = some 0x11223344 ∧
      r2.Peek hostLittleEndian mem2 4 true (-((4 : Nat) : Int)) = some 0x11223344) :=
  ⟨⟨by decide, by decide, by decide, by decide⟩, by decide,
    (DataReader_round_trip hostLittleEndian [0, 0, 0, 0, 0, 0, 0, 0] (DataReader.mk2 2 8) 4 true
      0x11223344 (by decide) (by decide) (by decide) (by decide)
      (fun x hx => byteSwap_involution 4 x hx)).1⟩

/-! ## Counting a name piece by piece -/

/-- The pair h blank is a stage mark. -/
theorem isStageMark_depth : isStageMark 'h' ' ' := Or.inl ⟨rfl, rfl⟩

/-- The pair i i is a stage mark. -/
theorem isStageMark_sample : isStageMark 'i' 'i' := Or.inr ⟨rfl, rfl⟩

/-- A swizzle string has no stage mark. -/
theorem clean_swap_stage (x y : Char) (h : isStageMark x y) (a b c d : Nat) :
    clean x y (String.mk [swapChar a, swapChar b, swapChar c, swapChar d]) = true := by
  apply clean_of_not_mem
  intro e he
  have hx : x ∉ ['r', 'g', 'b', 'a', Char.ofNat 0] := by
    rcases h with ⟨rfl, rfl⟩ | ⟨rfl, rfl⟩ <;> decide
  simp only [String.toList, List.mem_cons, List.mem_singleton, List.not_mem_nil, or_false] at he
  rcases he with rfl | rfl | rfl | rfl <;> exact fun e => hx (e ▸ swapChar_mem _)

/-- A needle that starts in a text whose last character is not among the characters of the
needle before its last one ends in that text. -/
theorem isPrefixOf_append_of_last (needle l b : List Char) (c : Char)
    (hn : ∀ x ∈ needle.dropLast, x ≠ c) (hl : l.getLast? = some c) :
    needle.isPrefixOf (l ++ b) = needle.isPrefixOf l := by
  induction needle generalizing l with
  | nil => simp [List.isPrefixOf]
  | cons n ns ih =>
    cases l with
    | nil => simp at hl
    | cons d l =>
      cases l with
      | nil =>
        simp only [List.getLast?_singleton, Option.some.injEq] at hl
        subst hl
        cases ns with
        | nil => simp [List.isPrefixOf]
        | cons m ms =>
          have : (n == d) = false := by
            simp only [beq_eq_false_iff_ne, ne_eq]
            exact hn n (by simp [List.dropLast])
          simp [List.isPrefixOf, this]
      | cons e l =>
        simp only [List.cons_append, List.isPrefixOf]
        rw [List.getLast?_cons_cons] at hl
        show (n == d && ns.isPrefixOf ((e :: l) ++ b)) = _
        have hns : ∀ x ∈ ns.dropLast, x ≠ c := by
          intro x hx
          cases ns with
          | nil => simp [List.dropLast] at hx
          | cons m ms => exact hn x (by simp only [List.dropLast]; exact List.mem_cons_of_mem _ hx)
        rw [ih (e :: l) hns hl]

/-- Occurrences of a needle are counted piece by piece when the first piece ends with a
character that the needle has at most as its last one. -/
theorem occurrences_append_of_last (needle a b : List Char) (c : Char)
    (hn : ∀ x ∈ needle.dropLast, x ≠ c) (ha : a = [] ∨ a.getLast? = some c) :
    occurrences needle (a ++ b) = occurrences needle a + occurrences needle b := by
  induction a with
  | nil => simp [occurrences]
  | cons d a ih =>
    have hl : (d :: a).getLast? = some c := by
      rcases ha with h | h
      · exact absurd h (List.cons_ne_nil _ _)
      · exact h
    have ha' : a = [] ∨ a.getLast? = some c := by
      cases a with
      | nil => exact Or.inl rfl
      | cons e a => right; rw [List.getLast?_cons_cons] at hl; exact hl
    have e1 : occurrences needle (d :: a ++ b) =
        (if needle.isPrefixOf (d :: a ++ b) then 1 else 0) + occurrences needle (a ++ b) := rfl
    have e2 : occurrences needle (d :: a) =
        (if needle.isPrefixOf (d :: a) then 1 else 0) + occurrences needle a := rfl
    rw [e1, e2, ih ha', isPrefixOf_append_of_last needle (d :: a) b c hn hl]
    omega

/-- Occurrences of a name in a text whose first piece ends with a character that the name has
at most as its last one. -/
theorem mentions_append_of_last (c : Char) (needle a b : String)
    (hn : ∀ x ∈ needle.toList.dropLast, x ≠ c) (ha : endsIn c a = true) :
    mentions needle (a ++ b) = mentions needle a + mentions needle b := by
  unfold mentions
  simp only [String.toList, String.data_append]
  apply occurrences_append_of_last _ _ _ c hn
  unfold endsIn at ha
  simp only [String.toList, beq_iff_eq] at ha
  exact Or.inr ha

/-- A text followed by a text that ends with c ends with c. -/
theorem endsIn_append (c : Char) (a b : String) (h : endsIn c b = true) :
    endsIn c (a ++ b) = true := by
  unfold endsIn at *
  simp only [String.toList, String.data_append, beq_iff_eq] at *
  cases hb : b.data with
  | nil => rw [hb] at h; simp at h
  | cons d ds =>
    rw [← hb, List.getLast?_append_of_ne_nil _ (by rw [hb]; exact List.cons_ne_nil _ _)]
    exact h

/-- No name occurs in the empty text. -/
theorem mentions_empty (needle : String) : mentions needle "" = 0 := rfl

/-- A name with the pairs x1 y1 and x2 y2 occurs neither in whole lines without the first
pair nor in a text without the second, nor in the one followed by the other. -/
theorem mentions_eq_zero_append (x1 y1 x2 y2 : Char) (needle a b : String)
    (hn : ∀ c ∈ needle.toList, c ≠ '\n')
    (h1 : hasBigram x1 y1 needle.toList = true) (h2 : hasBigram x2 y2 needle.toList = true)
    (hl : lineAligned a = true) (ha : clean x1 y1 a = true) (hb : clean x2 y2 b = true) :
    mentions needle (a ++ b) = 0 := by
  rw [mentions_append _ _ _ hn hl, mentions_eq_zero x1 y1 _ _ h1 ha,
    mentions_eq_zero x2 y2 _ _ h2 hb]

/-! ## The blocks of a stage without a stage mark -/

/-- The text of WriteTevRegular has no stage mark when its components have none. -/
theorem WriteTevRegular_clean_stage (x y : Char) (h : isStageMark x y)
    (components : String)
    (bias op clamp shift : Nat) (alpha : Bool) (hc : clean x y components = true) :
    clean x y
      (emitted (fun o => WriteTevRegular o components bias op clamp shift alpha)) =
      true := by
  unfold emitted WriteTevRegular
  simp only [ShaderCode.Write_text, ShaderCode.SetConstantsUsed_text, ShaderCode.text_ite,
    ShaderCode.empty_text, String.empty_append, String.append_empty, String.append_assoc,
    ite_append_both, ite_append_then, ite_append_else]
  repeat' first
    | with_reducible apply clean_append
    | with_reducible apply clean_ite
    | with_reducible apply clean_toString
    | with_reducible apply clean_getD
    | with_reducible exact hc
  all_goals (rcases h with ⟨rfl, rfl⟩ | ⟨rfl, rfl⟩ <;> decide)

/-- The text of WriteStage_colorCombine has no stage mark. -/
theorem WriteStage_colorCombine_clean_stage (x y : Char) (h : isStageMark x y)
    (cc : ColorCombiner) :
    clean x y
      (emitted (fun o => WriteStage_colorCombine o cc)) =
      true := by
  unfold emitted WriteStage_colorCombine
  simp only [ShaderCode.Write_text, ShaderCode.SetConstantsUsed_text, ShaderCode.text_ite,
    ShaderCode.empty_text, String.empty_append, String.append_empty, String.append_assoc,
    ite_append_both, ite_append_then, ite_append_else, WriteTevRegular_text]
  repeat' first
    | with_reducible apply clean_append
    | with_reducible apply clean_ite
    | with_reducible apply clean_toString
    | with_reducible apply clean_getD
    | with_reducible apply WriteTevRegular_clean_stage _ _ h
  all_goals (rcases h with ⟨rfl, rfl⟩ | ⟨rfl, rfl⟩ <;> decide)

/-- The text of WriteStage_alphaCombine has no stage mark. -/
theorem WriteStage_alphaCombine_clean_stage (x y : Char) (h : isStageMark x y)
    (ac : AlphaCombiner) :
    clean x y
      (emitted (fun o => WriteStage_alphaCombine o ac)) =
      true := by
  unfold emitted WriteStage_alphaCombine
  simp only [ShaderCode.Write_text, ShaderCode.SetConstantsUsed_text, ShaderCode.text_ite,
    ShaderCode.empty_text, String.empty_append, String.append_empty, String.append_assoc,
    ite_append_both, ite_append_then, ite_append_else, WriteTevRegular_text]
  repeat' first
    | with_reducible apply clean_append
    | with_reducible apply clean_ite
    | with_reducible apply clean_toString
    | with_reducible apply clean_getD
    | with_reducible apply WriteTevRegular_clean_stage _ _ h
  all_goals (rcases h with ⟨rfl, rfl⟩ | ⟨rfl, rfl⟩ <;> decide)

/-- The text of WriteStage_konsttemp has no stage mark. -/
theorem WriteStage_konsttemp_clean_stage (x y : Char) (h : isStageMark x y)
    (stage : StageHash) :
    clean x y
      (emitted (fun o => WriteStage_konsttemp o stage)) =
      true := by
  unfold emitted WriteStage_konsttemp
  simp only [ShaderCode.Write_text, ShaderCode.SetConstantsUsed_text, ShaderCode.text_ite,
    ShaderCode.empty_text, String.empty_append, String.append_empty, String.append_assoc,
    ite_append_both, ite_append_then, ite_append_else]
  repeat' first
    | with_reducible apply clean_append
    | with_reducible apply clean_ite
    | with_reducible apply clean_toString
    | with_reducible apply clean_getD
  all_goals (rcases h with ⟨rfl, rfl⟩ | ⟨rfl, rfl⟩ <;> decide)

/-- The text of WriteStage_inputs has no stage mark. -/
theorem WriteStage_inputs_clean_stage (x y : Char) (h : isStageMark x y)
    (cc : ColorCombiner) (ac : AlphaCombiner) :
    clean x y
      (emitted (fun o => WriteStage_inputs o cc ac)) =
      true := by
  unfold emitted WriteStage_inputs
  simp only [ShaderCode.Write_text, ShaderCode.SetConstantsUsed_text, ShaderCode.text_ite,
    ShaderCode.empty_text, String.empty_append, String.append_empty, String.append_assoc,
    ite_append_both, ite_append_then, ite_append_else]
  repeat' first
    | with_reducible apply clean_append
    | with_reducible apply clean_ite
    | with_reducible apply clean_toString
    | with_reducible apply clean_getD
  all_goals (rcases h with ⟨rfl, rfl⟩ | ⟨rfl, rfl⟩ <;> decide)

/-- The shift statement of an indirect matrix has no stage mark. -/
theorem indtevtrans_shift_right_clean_stage (x y : Char) (h : isStageMark x y)
    (n mtxidx : Nat) :
    clean x y
      (indtevtrans_shift_right n mtxidx) =
      true := by
  unfold indtevtrans_shift_right
  simp only [ShaderCode.Write_text, ShaderCode.SetConstantsUsed_text, ShaderCode.text_ite,
    ShaderCode.empty_text, String.empty_append, String.append_empty, String.append_assoc,
    ite_append_both, ite_append_then, ite_append_else]
  repeat' first
    | with_reducible apply clean_append
    | with_reducible apply clean_ite
    | with_reducible apply clean_toString
    | with_reducible apply clean_getD
  all_goals (rcases h with ⟨rfl, rfl⟩ | ⟨rfl, rfl⟩ <;> decide)

/-- The text of WriteStage_wrap has no stage mark. -/
theorem WriteStage_wrap_clean_stage (x y : Char) (h : isStageMark x y)
    (tevind : TevStageIndirect) (texcoord : Nat) :
    clean x y
      (emitted (fun o => WriteStage_wrap o tevind texcoord)) =
      true := by
  unfold emitted WriteStage_wrap
  simp only [ShaderCode.Write_text, ShaderCode.SetConstantsUsed_text, ShaderCode.text_ite,
    ShaderCode.empty_text, String.empty_append, String.append_empty, String.append_assoc,
    ite_append_both, ite_append_then, ite_append_else]
  repeat' first
    | with_reducible apply clean_append
    | with_reducible apply clean_ite
    | with_reducible apply clean_toString
    | with_reducible apply clean_getD
  all_goals (rcases h with ⟨rfl, rfl⟩ | ⟨rfl, rfl⟩ <;> decide)

/-- The update of tevcoord has no stage mark. -/
theorem tevcoordUpdateText_clean_stage (x y : Char) (h : isStageMark x y)
    (n : Nat) (addprev : Bool) :
    clean x y
      (tevcoordUpdateText n addprev) =
      true := by
  unfold tevcoordUpdateText
  simp only [ShaderCode.Write_text, ShaderCode.SetConstantsUsed_text, ShaderCode.text_ite,
    ShaderCode.empty_text, String.empty_append, String.append_empty, String.append_assoc,
    ite_append_both, ite_append_then, ite_append_else]
  repeat' first
    | with_reducible apply clean_append
    | with_reducible apply clean_ite
    | with_reducible apply clean_toString
    | with_reducible apply clean_getD
  all_goals (rcases h with ⟨rfl, rfl⟩ | ⟨rfl, rfl⟩ <;> decide)

/-- The text of SampleTexture has no stage mark when its arguments have none. -/
theorem SampleTexture_clean_stage (x y : Char) (h : isStageMark x y)
    (texcoords texswap : String)
    (texmap : Nat) (stereo : Bool) (api_type : APIType) (hc : clean x y texcoords = true)
    (hs : clean x y texswap = true) :
    clean x y
      (emitted (fun o => SampleTexture o texcoords texswap texmap stereo api_type)) =
      true := by
  unfold emitted SampleTexture
  simp only [ShaderCode.Write_text, ShaderCode.SetConstantsUsed_text, ShaderCode.text_ite,
    ShaderCode.empty_text, String.empty_append, String.append_empty, String.append_assoc,
    ite_append_both, ite_append_then, ite_append_else]
  repeat' first
    | with_reducible apply clean_append
    | with_reducible apply clean_ite
    | with_reducible apply clean_toString
    | with_reducible apply clean_getD
    | with_reducible exact hc
    | with_reducible exact hs
  all_goals (rcases h with ⟨rfl, rfl⟩ | ⟨rfl, rfl⟩ <;> decide)

/-- The text of WriteStage_ras has no stage mark. -/
theorem WriteStage_ras_clean_stage (x y : Char) (h : isStageMark x y)
    (stage : StageHash) (cc : ColorCombiner)
    (ac : AlphaCombiner) :
    clean x y
      (emitted (fun o => WriteStage_ras o stage cc ac)) =
      true := by
  unfold emitted WriteStage_ras
  simp only [ShaderCode.Write_text, ShaderCode.SetConstantsUsed_text, ShaderCode.text_ite,
    ShaderCode.empty_text, String.empty_append, String.append_empty, String.append_assoc,
    ite_append_both, ite_append_then, ite_append_else]
  repeat' first
    | with_reducible apply clean_append
    | with_reducible apply clean_ite
    | with_reducible apply clean_toString
    | with_reducible apply clean_getD
    | with_reducible apply clean_swap_stage _ _ h
  all_goals (rcases h with ⟨rfl, rfl⟩ | ⟨rfl, rfl⟩ <;> decide)

/-- The text of WriteStage_tex has no stage mark. -/
theorem WriteStage_tex_clean_stage (x y : Char) (h : isStageMark x y)
    (stage : StageHash)
    (texcoord : Nat) (has_tex_coord stereo : Bool) (api_type : APIType) :
    clean x y
      (emitted (fun o => WriteStage_tex o stage texcoord has_tex_coord stereo api_type)) =
      true := by
  unfold emitted WriteStage_tex
  simp only [ShaderCode.Write_text, ShaderCode.SetConstantsUsed_text, ShaderCode.text_ite,
    ShaderCode.empty_text, String.empty_append, String.append_empty, String.append_assoc,
    ite_append_both, ite_append_then, ite_append_else, SampleTexture_text]
  repeat' first
    | with_reducible apply clean_append
    | with_reducible apply clean_ite
    | with_reducible apply clean_toString
    | with_reducible apply clean_getD
    | with_reducible apply SampleTexture_clean_stage _ _ h
    | with_reducible apply clean_swap_stage _ _ h
  all_goals (rcases h with ⟨rfl, rfl⟩ | ⟨rfl, rfl⟩ <;> decide)

/-- The text of WriteStage_konst has no stage mark. -/
theorem WriteStage_konst_clean_stage (x y : Char) (h : isStageMark x y)
    (stage : StageHash) (cc : ColorCombiner)
    (ac : AlphaCombiner) :
    clean x y
      (emitted (fun o => WriteStage_konst o stage cc ac)) =
      true := by
  unfold emitted WriteStage_konst
  simp only [ShaderCode.Write_text, ShaderCode.SetConstantsUsed_text, ShaderCode.text_ite,
    ShaderCode.empty_text, String.empty_append, String.append_empty, String.append_assoc,
    ite_append_both, ite_append_then, ite_append_else, WriteStage_konsttemp_text, ite_self]
  repeat' first
    | with_reducible apply clean_append
    | with_reducible apply clean_ite
    | with_reducible apply clean_toString
    | with_reducible apply clean_getD
    | with_reducible apply WriteStage_konsttemp_clean_stage _ _ h
  all_goals (rcases h with ⟨rfl, rfl⟩ | ⟨rfl, rfl⟩ <;> decide)

/-- The text of WriteStage_alphabump has no h followed by a blank. -/
theorem WriteStage_alphabump_clean_depth (tevind : TevStageIndirect) :
    clean 'h' ' '
      (emitted (fun o => WriteStage_alphabump o tevind)) =
      true := by
  unfold emitted WriteStage_alphabump
  simp only [ShaderCode.Write_text, ShaderCode.SetConstantsUsed_text, ShaderCode.text_ite,
    ShaderCode.empty_text, String.empty_append, String.append_empty, String.append_assoc,
    ite_append_both, ite_append_then, ite_append_else]
  repeat' first
    | with_reducible apply clean_append
    | with_reducible apply clean_ite
    | with_reducible apply clean_toString
    | with_reducible apply clean_getD
  all_goals decide

/-- The text of WriteStage_indcoord has no h followed by a blank. -/
theorem WriteStage_indcoord_clean_depth (n : Nat) (tevind : TevStageIndirect) :
    clean 'h' ' '
      (emitted (fun o => WriteStage_indcoord o n tevind)) =
      true := by
  unfold emitted WriteStage_indcoord
  simp only [ShaderCode.Write_text, ShaderCode.SetConstantsUsed_text, ShaderCode.text_ite,
    ShaderCode.empty_text, String.empty_append, String.append_empty, String.append_assoc,
    ite_append_both, ite_append_then, ite_append_else]
  repeat' first
    | with_reducible apply clean_append
    | with_reducible apply clean_ite
    | with_reducible apply clean_toString
    | with_reducible apply clean_getD
  all_goals decide

/-- The text of WriteStage_indmtx_offset has no h followed by a blank. -/
theorem WriteStage_indmtx_offset_clean_depth
    (bugs : DriverDetails) (n : Nat) (tevind : TevStageIndirect) :
    clean 'h' ' '
      (emitted (fun o => WriteStage_indmtx_offset bugs o n tevind)) =
      true := by
  unfold emitted WriteStage_indmtx_offset
  simp only [ShaderCode.Write_text, ShaderCode.SetConstantsUsed_text, ShaderCode.text_ite,
    ShaderCode.empty_text, String.empty_append, String.append_empty, String.append_assoc,
    ite_append_both, ite_append_then, ite_append_else]
  repeat' first
    | with_reducible apply clean_append
    | with_reducible apply clean_ite
    | with_reducible apply clean_toString
    | with_reducible apply clean_getD
    | with_reducible apply indtevtrans_shift_right_clean_stage _ _ isStageMark_depth
  all_goals decide

/-- The text of WriteStage_indmtx_scale has no h followed by a blank. -/
theorem WriteStage_indmtx_scale_clean_depth
    (bugs : DriverDetails) (n : Nat) (tevind : TevStageIndirect) (texcoord base : Nat)
    (component : String) (hc : clean 'h' ' ' component = true) :
    clean 'h' ' '
      (emitted (fun o => WriteStage_indmtx_scale bugs o n tevind texcoord base component)) =
      true := by
  unfold emitted WriteStage_indmtx_scale
  simp only [ShaderCode.Write_text, ShaderCode.SetConstantsUsed_text, ShaderCode.text_ite,
    ShaderCode.empty_text, String.empty_append, String.append_empty, String.append_assoc,
    ite_append_both, ite_append_then, ite_append_else]
  repeat' first
    | with_reducible apply clean_append
    | with_reducible apply clean_ite
    | with_reducible apply clean_toString
    | with_reducible apply clean_getD
    | with_reducible apply indtevtrans_shift_right_clean_stage _ _ isStageMark_depth
    | with_reducible exact hc
  all_goals decide

/-- The text of WriteStage_indmtx has no h followed by a blank. -/
theorem WriteStage_indmtx_clean_depth
    (bugs : DriverDetails) (n : Nat) (tevind : TevStageIndirect) (texcoord : Nat)
    (has_tex_coord : Bool) :
    clean 'h' ' '
      (emitted (fun o => WriteStage_indmtx bugs o n tevind texcoord has_tex_coord)) =
      true := by
  unfold emitted WriteStage_indmtx
  simp only [ShaderCode.Write_text, ShaderCode.SetConstantsUsed_text, ShaderCode.text_ite,
    ShaderCode.empty_text, String.empty_append, String.append_empty, String.append_assoc,
    ite_append_both, ite_append_then, ite_append_else, WriteStage_indmtx_offset_text,
    WriteStage_indmtx_scale_text]
  repeat' first
    | with_reducible apply clean_append
    | with_reducible apply clean_ite
    | with_reducible apply clean_toString
    | with_reducible apply clean_getD
    | with_reducible apply WriteStage_indmtx_offset_clean_depth
    | with_reducible apply WriteStage_indmtx_scale_clean_depth
  all_goals decide

/-- The text of WriteStage_indirect has no h followed by a blank. -/
theorem WriteStage_indirect_clean_depth
    (bugs : DriverDetails) (n : Nat) (tevind : TevStageIndirect) (texcoord : Nat)
    (has_tex_coord : Bool) :
    clean 'h' ' '
      (emitted (fun o => WriteStage_indirect bugs o n tevind texcoord has_tex_coord)) =
      true := by
  unfold emitted WriteStage_indirect
  simp only [ShaderCode.Write_text, ShaderCode.SetConstantsUsed_text, ShaderCode.text_ite,
    ShaderCode.empty_text, String.empty_append, String.append_empty, String.append_assoc,
    ite_append_both, ite_append_then, ite_append_else, WriteStage_alphabump_text,
    WriteStage_indcoord_text, WriteStage_indmtx_text, WriteStage_wrap_text,
    WriteStage_tevcoord_text]
  repeat' first
    | with_reducible apply clean_append
    | with_reducible apply clean_ite
    | with_reducible apply clean_toString
    | with_reducible apply clean_getD
    | with_reducible apply WriteStage_alphabump_clean_depth
    | with_reducible apply WriteStage_indcoord_clean_depth
    | with_reducible apply WriteStage_indmtx_clean_depth
    | with_reducible apply WriteStage_wrap_clean_stage _ _ isStageMark_depth
    | with_reducible apply tevcoordUpdateText_clean_stage _ _ isStageMark_depth
  all_goals decide

/-- The text of WriteStage has no h followed by a blank. -/
theorem WriteStage_clean_depth (bugs : DriverDetails) (uid_data : pixel_shader_uid_data)
    (n : Nat) (api_type : APIType) (stereo : Bool) :
    clean 'h' ' '
      (emitted (fun o => WriteStage bugs o uid_data n api_type stereo)) =
      true := by
  unfold emitted WriteStage
  simp only [ShaderCode.Write_text, ShaderCode.SetConstantsUsed_text, ShaderCode.text_ite,
    ShaderCode.empty_text, String.empty_append, String.append_empty, String.append_assoc,
    ite_append_both, ite_append_then, ite_append_else, WriteStage_indirect_text,
    WriteStage_ras_text, WriteStage_tex_text, WriteStage_konst_text, WriteStage_colors_text,
    WriteStage_inputs_text, WriteStage_colorCombine_text, WriteStage_alphaCombine_text]
  repeat' first
    | with_reducible apply clean_append
    | with_reducible apply clean_ite
    | with_reducible apply clean_toString
    | with_reducible apply clean_getD
    | with_reducible apply WriteStage_indirect_clean_depth
    | with_reducible apply WriteStage_ras_clean_stage _ _ isStageMark_depth
    | with_reducible apply WriteStage_tex_clean_stage _ _ isStageMark_depth
    | with_reducible apply WriteStage_konst_clean_stage _ _ isStageMark_depth
    | with_reducible apply WriteStage_inputs_clean_stage _ _ isStageMark_depth
    | with_reducible apply WriteStage_colorCombine_clean_stage _ _ isStageMark_depth
    | with_reducible apply WriteStage_alphaCombine_clean_stage _ _ isStageMark_depth
  all_goals decide

/-- The local variables of main have no h followed by a blank. -/
theorem GeneratePixelShaderCode_locals_clean_depth :
    clean 'h' ' '
      (emitted (fun o => GeneratePixelShaderCode_locals o)) =
      true := by
  unfold emitted GeneratePixelShaderCode_locals
  simp only [ShaderCode.Write_text, ShaderCode.SetConstantsUsed_text, ShaderCode.text_ite,
    ShaderCode.empty_text, String.empty_append, String.append_empty, String.append_assoc,
    ite_append_both, ite_append_then, ite_append_else]
  repeat' first
    | with_reducible apply clean_append
    | with_reducible apply clean_ite
    | with_reducible apply clean_toString
    | with_reducible apply clean_getD
  all_goals decide

/-- The lighting block has no h followed by a blank when the lighting code has none. -/
theorem GeneratePixelShaderCode_lighting_clean_depth (ext : Externals)
    (hext : ∀ l, clean 'h' ' ' (ext.GenerateLightingShaderCode l "colors_" "col") = true)
    (per_pixel_lighting : Bool) (u : pixel_shader_uid_data) :
    clean 'h' ' '
      (emitted (fun o => GeneratePixelShaderCode_lighting ext per_pixel_lighting o u)) =
      true := by
  unfold emitted GeneratePixelShaderCode_lighting
  simp only [ShaderCode.Write_text, ShaderCode.SetConstantsUsed_text, ShaderCode.text_ite,
    ShaderCode.empty_text, String.empty_append, String.append_empty, String.append_assoc,
    ite_append_both, ite_append_then, ite_append_else]
  repeat' first
    | with_reducible apply clean_append
    | with_reducible apply clean_ite
    | with_reducible apply clean_toString
    | with_reducible apply clean_getD
    | with_reducible exact hext _
  all_goals decide

/-- The sample of an indirect stage has no h followed by a blank. -/
theorem GeneratePixelShaderCode_indirectSample_clean_depth (api_type : APIType) (stereo : Bool)
    (u : pixel_shader_uid_data) (i : Nat) :
    clean 'h' ' '
      (emitted (fun o => GeneratePixelShaderCode_indirectSample o api_type stereo u i)) =
      true := by
  unfold emitted GeneratePixelShaderCode_indirectSample
  simp only [ShaderCode.Write_text, ShaderCode.SetConstantsUsed_text, ShaderCode.text_ite,
    ShaderCode.empty_text, String.empty_append, String.append_empty, String.append_assoc,
    ite_append_both, ite_append_then, ite_append_else, SampleTexture_text]
  repeat' first
    | with_reducible apply clean_append
    | with_reducible apply clean_ite
    | with_reducible apply clean_toString
    | with_reducible apply clean_getD
    | with_reducible apply SampleTexture_clean_stage _ _ isStageMark_depth
  all_goals decide

/-- The copy of the last stage into prev has no h followed by a blank. -/
theorem mirrorText_clean_depth (dc da : Nat) :
    clean 'h' ' '
      (mirrorText dc da) =
      true := by
  unfold mirrorText mirrorRgbText mirrorAlphaText mask8Text
  simp only [ShaderCode.Write_text, ShaderCode.SetConstantsUsed_text, ShaderCode.text_ite,
    ShaderCode.empty_text, String.empty_append, String.append_empty, String.append_assoc,
    ite_append_both, ite_append_then, ite_append_else]
  repeat' first
    | with_reducible apply clean_append
    | with_reducible apply clean_ite
    | with_reducible apply clean_toString
    | with_reducible apply clean_getD
  all_goals decide

/-- The declaration of zCoord has no h followed by a blank. -/
theorem GeneratePixelShaderCode_zCoord_clean_depth (api_type : APIType)
    (host_config : ShaderHostConfig) (u : pixel_shader_uid_data) :
    clean 'h' ' '
      ((GeneratePixelShaderCode_zCoord ShaderCode.empty api_type host_config u).text) =
      true := by
  unfold GeneratePixelShaderCode_zCoord
  simp only [ShaderCode.Write_text, ShaderCode.SetConstantsUsed_text, ShaderCode.text_ite,
    ShaderCode.empty_text, String.empty_append, String.append_empty, String.append_assoc,
    ite_append_both, ite_append_then, ite_append_else]
  repeat' first
    | with_reducible apply clean_append
    | with_reducible apply clean_ite
    | with_reducible apply clean_toString
    | with_reducible apply clean_getD
  all_goals decide

/-- The z-texture override has no h followed by a blank. -/
theorem GeneratePixelShaderCode_zTexture_clean_depth (u : pixel_shader_uid_data) :
    clean 'h' ' '
      ((GeneratePixelShaderCode_zTexture ShaderCode.empty u).text) =
      true := by
  unfold GeneratePixelShaderCode_zTexture
  simp only [ShaderCode.Write_text, ShaderCode.SetConstantsUsed_text, ShaderCode.text_ite,
    ShaderCode.empty_text, String.empty_append, String.append_empty, String.append_assoc,
    ite_append_both, ite_append_then, ite_append_else]
  repeat' first
    | with_reducible apply clean_append
    | with_reducible apply clean_ite
    | with_reducible apply clean_toString
    | with_reducible apply clean_getD
  all_goals decide

/-- The dithering block has no h followed by a blank. -/
theorem GeneratePixelShaderCode_dither_clean_depth (u : pixel_shader_uid_data) :
    clean 'h' ' '
      ((GeneratePixelShaderCode_dither ShaderCode.empty u).text) =
      true := by
  unfold GeneratePixelShaderCode_dither
  simp only [ShaderCode.Write_text, ShaderCode.SetConstantsUsed_text, ShaderCode.text_ite,
    ShaderCode.empty_text, String.empty_append, String.append_empty, String.append_assoc,
    ite_append_both, ite_append_then, ite_append_else]
  repeat' first
    | with_reducible apply clean_append
    | with_reducible apply clean_ite
    | with_reducible apply clean_toString
    | with_reducible apply clean_getD
  all_goals decide

/-- The fog block has no h followed by a blank. -/
theorem WriteFog_clean_depth (u : pixel_shader_uid_data) :
    clean 'h' ' '
      ((WriteFog ShaderCode.empty u).text) =
      true := by
  unfold WriteFog
  simp only [ShaderCode.Write_text, ShaderCode.SetConstantsUsed_text, ShaderCode.text_ite,
    ShaderCode.empty_text, String.empty_append, String.append_empty, String.append_assoc,
    ite_append_both, ite_append_then, ite_append_else]
  repeat' first
    | with_reducible apply clean_append
    | with_reducible apply clean_ite
    | with_reducible apply clean_toString
    | with_reducible apply clean_getD
  all_goals decide

/-- The colour output has no h followed by a blank. -/
theorem colorText_clean_depth (api_type : APIType) (u : pixel_shader_uid_data)
    (secondary : Bool) :
    clean 'h' ' '
      (colorText api_type u secondary) =
      true := by
  unfold colorText colorUintText colorRgbText colorAlphaText colorSecondText
  simp only [ShaderCode.Write_text, ShaderCode.SetConstantsUsed_text, ShaderCode.text_ite,
    ShaderCode.empty_text, String.empty_append, String.append_empty, String.append_assoc,
    ite_append_both, ite_append_then, ite_append_else]
  repeat' first
    | with_reducible apply clean_append
    | with_reducible apply clean_ite
    | with_reducible apply clean_toString
    | with_reducible apply clean_getD
  all_goals decide

/-! ## The depth output is written once -/

/-- The loop over the stages has no h followed by a blank. -/
theorem GeneratePixelShaderCode_stages_clean_depth (bugs : DriverDetails)
    (api_type : APIType) (stereo : Bool) (u : pixel_shader_uid_data) :
    clean 'h' ' ' (emitted (fun o => GeneratePixelShaderCode_stages bugs o api_type stereo u)) =
      true := by
  unfold GeneratePixelShaderCode_stages
  apply foldl_clean
  · intro out a
    exact WriteStage_text out bugs u a api_type stereo
  · intro a
    exact WriteStage_clean_depth bugs u a api_type stereo

/-- The loop over the indirect stages has no h followed by a blank. -/
theorem GeneratePixelShaderCode_indirectSamples_clean_depth (api_type : APIType)
    (stereo : Bool) (u : pixel_shader_uid_data) :
    clean 'h' ' '
      (emitted (fun o => GeneratePixelShaderCode_indirectSamples o api_type stereo u)) =
      true := by
  unfold GeneratePixelShaderCode_indirectSamples
  apply foldl_clean
  · intro out a
    exact GeneratePixelShaderCode_indirectSample_text out api_type stereo u a
  · intro a
    exact GeneratePixelShaderCode_indirectSample_clean_depth api_type stereo u a

/-- The fixed-point texture coordinates have no h followed by a blank. -/
theorem GeneratePixelShaderCode_texgens_clean_depth (u : pixel_shader_uid_data) :
    clean 'h' ' ' (emitted (fun o => GeneratePixelShaderCode_texgens o u)) = true := by
  unfold emitted GeneratePixelShaderCode_texgens
  split
  · decide
  · rw [foldl_text _ _ _ (ShaderCode.empty.SetConstantsUsed _ _)]
    · simp only [ShaderCode.SetConstantsUsed_text, ShaderCode.empty_text, String.empty_append]
      apply foldl_clean
      · intro out a
        simp only [emitted, ShaderCode.Write_text, ShaderCode.empty_text, String.empty_append,
          String.append_assoc]
      · intro a
        simp only [emitted, ShaderCode.Write_text, ShaderCode.empty_text, String.empty_append,
          String.append_assoc]
        repeat' first
          | with_reducible apply clean_append
          | with_reducible apply clean_toString
        all_goals decide
    · intro out a
      simp only [emitted, ShaderCode.Write_text, ShaderCode.empty_text, String.empty_append,
        String.append_assoc]

/-- The statements of main before the alpha test do not assign to depth, and end with a line
end. -/
theorem shaderStagesText_depth (ext : Externals)
    (hext : ∀ l, clean 'h' ' ' (ext.GenerateLightingShaderCode l "colors_" "col") = true)
    (g : Globals) (bugs : DriverDetails) (api_type : APIType) (host_config : ShaderHostConfig)
    (u : pixel_shader_uid_data) :
    clean 'h' ' ' (shaderStagesText ext g bugs api_type host_config u) = true ∧
    endsLine (shaderStagesText ext g bugs api_type host_config u) = true := by
  unfold shaderStagesText
  constructor
  · exact clean_append _ _ _ _ GeneratePixelShaderCode_locals_clean_depth
      (clean_append _ _ _ _ (GeneratePixelShaderCode_lighting_clean_depth ext hext _ u)
      (clean_append _ _ _ _ (GeneratePixelShaderCode_texgens_clean_depth u)
      (clean_append _ _ _ _ (GeneratePixelShaderCode_indirectSamples_clean_depth _ _ u)
      (clean_append _ _ _ _ (GeneratePixelShaderCode_stages_clean_depth bugs _ _ u)
      (mirrorText_clean_depth _ _)))))
  · refine endsLine_append _ _ (endsLine_append _ _ (endsLine_append _ _ (endsLine_append _ _
      (endsLine_append _ _ ?_))))
    unfold mirrorText
    exact endsLine_append _ _ (by decide)

/-- The body of main: the statements before the alpha test, the alpha test, the depth, dither
and fog blocks and the colour output. -/
theorem shaderBodyText_parts (ext : Externals) (g : Globals) (bugs : DriverDetails)
    (api_type : APIType) (host_config : ShaderHostConfig) (u : pixel_shader_uid_data) :
    shaderBodyText ext g bugs api_type host_config u =
      shaderStagesText ext g bugs api_type host_config u ++
        ((GeneratePixelShaderCode_alphaTest g bugs ShaderCode.empty api_type u
          (use_dual_source bugs host_config u) (use_shader_blend bugs host_config u)).text ++
        ((GeneratePixelShaderCode_depthToFog ShaderCode.empty api_type host_config u).text ++
        colorText api_type u
          (use_dual_source bugs host_config u || use_shader_blend bugs host_config u))) := by
  unfold shaderBodyText shaderStagesText
  simp only [String.append_assoc]

/-- The text of a depth write. -/
theorem GeneratePixelShaderCode_depthWrite_eq (host_config : ShaderHostConfig)
    (enabled : Bool) :
    (GeneratePixelShaderCode_depthWrite ShaderCode.empty host_config enabled).text =
      if enabled then depthWriteText host_config.backend_reversed_depth_range else "" := by
  unfold GeneratePixelShaderCode_depthWrite depthWriteText
  cases enabled <;> cases host_config.backend_reversed_depth_range <;> rfl

/-- A depth write assigns to depth once. -/
theorem mentions_depthWrite (host_config : ShaderHostConfig) (enabled : Bool) :
    mentions "depth = "
        (GeneratePixelShaderCode_depthWrite ShaderCode.empty host_config enabled).text =
      if enabled then 1 else 0 := by
  rw [GeneratePixelShaderCode_depthWrite_eq]
  unfold depthWriteText
  cases enabled <;> cases host_config.backend_reversed_depth_range <;> decide

/-- The depth, dither and fog blocks assign to depth in the early and in the late depth write
only. -/
theorem mentions_depthToFog (api_type : APIType) (host_config : ShaderHostConfig)
    (u : pixel_shader_uid_data) :
    mentions "depth = "
        (GeneratePixelShaderCode_depthToFog ShaderCode.empty api_type host_config u).text =
      (if (u.per_pixel_depth && u.early_ztest) = true then 1 else 0) +
        (if (u.per_pixel_depth && u.late_ztest) = true then 1 else 0) := by
  rw [GeneratePixelShaderCode_depthToFog_text]
  have he : ShaderCode.empty.text = "" := rfl
  simp only [he, String.empty_append, String.append_assoc]
  have hn : ∀ c ∈ ("depth = " : String).toList, c ≠ '\n' := by decide
  rw [mentions_append _ _ _ hn (zScan_zCoord api_type host_config u).1,
    mentions_append _ _ _ hn zScan_zClampText.1,
    mentions_append _ _ _ hn (zScan_depthWrite host_config _).1,
    mentions_append _ _ _ hn (zScan_zTexture u).1,
    mentions_append _ _ _ hn (zScan_depthWrite host_config _).1,
    mentions_append _ _ _ hn (zScan_dither u).1,
    mentions_eq_zero 'h' ' ' _ _ (by decide)
      (GeneratePixelShaderCode_zCoord_clean_depth api_type host_config u),
    mentions_eq_zero 'h' ' ' _ zClampText (by decide) (by decide),
    mentions_eq_zero 'h' ' ' _ _ (by decide) (GeneratePixelShaderCode_zTexture_clean_depth u),
    mentions_eq_zero 'h' ' ' _ _ (by decide) (GeneratePixelShaderCode_dither_clean_depth u),
    mentions_eq_zero 'h' ' ' _ _ (by decide) (WriteFog_clean_depth u),
    mentions_depthWrite, mentions_depthWrite]
  omega

/-- The text of the alpha test is empty or ends with a line end. -/
theorem GeneratePixelShaderCode_alphaTest_lineAligned (g : Globals) (bugs : DriverDetails)
    (api_type : APIType) (u : pixel_shader_uid_data) (dual blend : Bool) :
    lineAligned
      (GeneratePixelShaderCode_alphaTest g bugs ShaderCode.empty api_type u dual blend).text =
      true := by
  unfold GeneratePixelShaderCode_alphaTest
  split
  · rw [WriteAlphaTest_text]
    exact lineAligned_of_endsLine _ (endsLine_append _ _ (by decide))
  · decide

/-- The statements of the body of main that assign to depth: those of the alpha-test block,
the early depth write and the late depth write. -/
theorem shaderBodyText_depth_writes (ext : Externals)
    (hext : ∀ l, clean 'h' ' ' (ext.GenerateLightingShaderCode l "colors_" "col") = true)
    (g : Globals) (bugs : DriverDetails) (api_type : APIType) (host_config : ShaderHostConfig)
    (u : pixel_shader_uid_data) :
    mentions "depth = " (shaderBodyText ext g bugs api_type host_config u) =
      mentions "depth = "
          (GeneratePixelShaderCode_alphaTest g bugs ShaderCode.empty api_type u
            (use_dual_source bugs host_config u) (use_shader_blend bugs host_config u)).text +
        ((if (u.per_pixel_depth && u.early_ztest) = true then 1 else 0) +
          (if (u.per_pixel_depth && u.late_ztest) = true then 1 else 0)) := by
  rw [shaderBodyText_parts]
  have hn : ∀ c ∈ ("depth = " : String).toList, c ≠ '\n' := by decide
  obtain ⟨hc, hl⟩ := shaderStagesText_depth ext hext g bugs api_type host_config u
  have hdl : lineAligned
      (GeneratePixelShaderCode_depthToFog ShaderCode.empty api_type host_config u).text =
      true := by
    rw [GeneratePixelShaderCode_depthToFog_text]
    exact lineAligned_append _ _ (lineAligned_append _ _ (lineAligned_append _ _
      (lineAligned_append _ _ (lineAligned_append _ _ (lineAligned_append _ _
      (lineAligned_append _ _ (by decide) (zScan_zCoord api_type host_config u).1)
      zScan_zClampText.1) (zScan_depthWrite host_config _).1) (zScan_zTexture u).1)
      (zScan_depthWrite host_config _).1) (zScan_dither u).1) (zScan_WriteFog u).1
  rw [mentions_append _ _ _ hn (lineAligned_of_endsLine _ hl),
    mentions_append _ _ _ hn (GeneratePixelShaderCode_alphaTest_lineAligned _ _ _ _ _ _),
    mentions_append _ _ _ hn hdl,
    mentions_eq_zero 'h' ' ' _ _ (by decide) hc,
    mentions_eq_zero 'h' ' ' _ _ (by decide) (colorText_clean_depth _ _ _),
    mentions_depthToFog]
  omega

/-- The early depth test member of the UID. -/
theorem GetPixelShaderUid_early_ztest (L : UidLayout) (g : Globals) :
    (GetPixelShaderUid L g).early_ztest = g.bpmem.UseEarlyDepthTest := by
  unfold GetPixelShaderUid GetPixelShaderUid_blend
  simp only []
  split <;> rfl

/-- The sample lighting statement has no h followed by a blank. -/
theorem externalsSample_lighting_clean_depth (l : LightingUidData) :
    clean 'h' ' ' (externalsSample.GenerateLightingShaderCode l "colors_" "col") = true := by
  show clean 'h' ' ' ("\t" ++ "col" ++ "0 = " ++ "colors_" ++ "0;\n") = true
  decide

/-- C35. For the UID GetPixelShaderUid builds, the early and the late depth test not being
both in use, the body of the shader assigns to depth outside the alpha-test block exactly
once when per_pixel_depth is set, under the early test and under the late test, and never
when per_pixel_depth is clear: "depth = " occurs in the body once more than, or as often as,
in the text of the alpha test.  The depth block is the declaration of zCoord, its clamp, the
early depth write, the z-texture override, the late depth write, the dithering and the fog,
so the write under the early test comes before the z-texture override and the write under
the late test after it.  When, moreover, an enabled depth test is always done early or late,
one of the two tests is in use whenever per_pixel_depth is set, and the body assigns to depth
exactly once whenever per_pixel_depth is set.  UseEarlyDepthTest and UseLateDepthTest are
methods of BPMemory.h, which is not among the sources; their results are members of the
snapshot.  The lighting text of the other translation unit is taken not to assign to
depth. -/
theorem GeneratePixelShaderCode_depth_written_once (ext : Externals)
    (hext : ∀ l, clean 'h' ' ' (ext.GenerateLightingShaderCode l "colors_" "col") = true)
    (L : UidLayout) (g : Globals) (bugs : DriverDetails) (api_type : APIType)
    (host_config : ShaderHostConfig)
    (hexcl : ¬ (g.bpmem.UseEarlyDepthTest = true ∧ g.bpmem.UseLateDepthTest = true)) :
    -- never when per_pixel_depth is clear
    ((GetPixelShaderUid L g).per_pixel_depth = false →
      mentions "depth = "
          (shaderBodyText ext g bugs api_type host_config (GetPixelShaderUid L g)) =
        mentions "depth = "
          (GeneratePixelShaderCode_alphaTest g bugs ShaderCode.empty api_type
            (GetPixelShaderUid L g) (use_dual_source bugs host_config (GetPixelShaderUid L g))
            (use_shader_blend bugs host_config (GetPixelShaderUid L g))).text) ∧
    -- exactly once under the early test: the early write
    ((GetPixelShaderUid L g).per_pixel_depth = true → g.bpmem.UseEarlyDepthTest = true →
      g.bpmem.UseLateDepthTest = false ∧
      mentions "depth = "
          (shaderBodyText ext g bugs api_type host_config (GetPixelShaderUid L g)) =
        mentions "depth = "
          (GeneratePixelShaderCode_alphaTest g bugs ShaderCode.empty api_type
            (GetPixelShaderUid L g) (use_dual_source bugs host_config (GetPixelShaderUid L g))
            (use_shader_blend bugs host_config (GetPixelShaderUid L g))).text + 1) ∧
    -- exactly once under the late test: the late write
    ((GetPixelShaderUid L g).per_pixel_depth = true → g.bpmem.UseLateDepthTest = true →
      g.bpmem.UseEarlyDepthTest = false ∧
      mentions "depth = "
          (shaderBodyText ext g bugs api_type host_config (GetPixelShaderUid L g)) =
        mentions "depth = "
          (GeneratePixelShaderCode_alphaTest g bugs ShaderCode.empty api_type
            (GetPixelShaderUid L g) (use_dual_source bugs host_config (GetPixelShaderUid L g))
            (use_shader_blend bugs host_config (GetPixelShaderUid L g))).text + 1) ∧
    -- the depth block: the early write before the z-texture override, the late one after it
    (GeneratePixelShaderCode_depthToFog ShaderCode.empty api_type host_config
        (GetPixelShaderUid L g)).text =
      (GeneratePixelShaderCode_zCoord ShaderCode.empty api_type host_config
          (GetPixelShaderUid L g)).text ++
        zClampText ++
        (if ((GetPixelShaderUid L g).per_pixel_depth && g.bpmem.UseEarlyDepthTest) = true then
          depthWriteText host_config.backend_reversed_depth_range else "") ++
        (GeneratePixelShaderCode_zTexture ShaderCode.empty (GetPixelShaderUid L g)).text ++
        (if ((GetPixelShaderUid L g).per_pixel_depth && g.bpmem.UseLateDepthTest) = true then
          depthWriteText host_config.backend_reversed_depth_range else "") ++
        (GeneratePixelShaderCode_dither ShaderCode.empty (GetPixelShaderUid L g)).text ++
        (WriteFog ShaderCode.empty (GetPixelShaderUid L g)).text ∧
    -- whenever per_pixel_depth is set, when an enabled depth test is done early or late
    ((g.bpmem.zmode.testenable = true →
        g.bpmem.UseEarlyDepthTest = true ∨ g.bpmem.UseLateDepthTest = true) →
      ((GetPixelShaderUid L g).per_pixel_depth = true →
        (g.bpmem.UseEarlyDepthTest = true ∧ g.bpmem.UseLateDepthTest = false) ∨
        (g.bpmem.UseEarlyDepthTest = false ∧ g.bpmem.UseLateDepthTest = true)) ∧
      mentions "depth = "
          (shaderBodyText ext g bugs api_type host_config (GetPixelShaderUid L g)) =
        mentions "depth = "
            (GeneratePixelShaderCode_alphaTest g bugs ShaderCode.empty api_type
              (GetPixelShaderUid L g)
              (use_dual_source bugs host_config (GetPixelShaderUid L g))
              (use_shader_blend bugs host_config (GetPixelShaderUid L g))).text +
          (if (GetPixelShaderUid L g).per_pixel_depth = true then 1 else 0)) := by
  have hE := GetPixelShaderUid_early_ztest L g
  have hL := (GetPixelShaderUid_Pretest_late_ztest L g).2
  have hP := GetPixelShaderUid_per_pixel_depth_eq L g
  have hB := shaderBodyText_depth_writes ext hext g bugs api_type host_config
    (GetPixelShaderUid L g)
  rw [hE, hL] at hB
  refine ⟨fun hp => ?_, fun hp he => ?_, fun hp hl => ?_, ?_, fun hsome => ?_⟩
  · rw [hB, hp]
    simp
  · have hl : g.bpmem.UseLateDepthTest = false := by
      cases h : g.bpmem.UseLateDepthTest
      · rfl
      · exact absurd ⟨he, h⟩ hexcl
    refine ⟨hl, ?_⟩
    rw [hB, hp, he, hl]
    simp
  · have he : g.bpmem.UseEarlyDepthTest = false := by
      cases h : g.bpmem.UseEarlyDepthTest
      · rfl
      · exact absurd ⟨h, hl⟩ hexcl
    refine ⟨he, ?_⟩
    rw [hB, hp, he, hl]
    simp
  · rw [GeneratePixelShaderCode_depthToFog_text, GeneratePixelShaderCode_depthWrite_eq,
      GeneratePixelShaderCode_depthWrite_eq, hE, hL]
    have he : ShaderCode.empty.text = "" := rfl
    simp only [he, String.empty_append]
  · have hone : (GetPixelShaderUid L g).per_pixel_depth = true →
        (g.bpmem.UseEarlyDepthTest = true ∧ g.bpmem.UseLateDepthTest = false) ∨
        (g.bpmem.UseEarlyDepthTest = false ∧ g.bpmem.UseLateDepthTest = true) := by
      rw [hP]
      revert hexcl hsome
      cases g.bpmem.UseEarlyDepthTest <;> cases g.bpmem.UseLateDepthTest <;>
        cases g.bpmem.zmode.testenable <;> simp
    refine ⟨hone, ?_⟩
    rw [hB]
    cases hp : (GetPixelShaderUid L g).per_pixel_depth
    · simp
    · rcases hone hp with ⟨h1, h2⟩ | ⟨h1, h2⟩ <;> simp [h1, h2]

/-- The depth write at a snapshot with the late depth test in use: per_pixel_depth is set and
the body assigns to depth once outside the alpha-test block. -/
theorem GeneratePixelShaderCode_depth_written_once_witness :
    ¬ (snapshotLateZ.bpmem.UseEarlyDepthTest = true ∧
        snapshotLateZ.bpmem.UseLateDepthTest = true) ∧
    (GetPixelShaderUid layoutExample snapshotLateZ).per_pixel_depth = true ∧
    snapshotLateZ.bpmem.UseLateDepthTest = true ∧
    (snapshotLateZ.bpmem.UseEarlyDepthTest = false ∧
      mentions "depth = "
          (shaderBodyText externalsSample snapshotLateZ driverSound APIType.OpenGL hostPlain
            (GetPixelShaderUid layoutExample snapshotLateZ)) =
        mentions "depth = "
          (GeneratePixelShaderCode_alphaTest snapshotLateZ driverSound ShaderCode.empty
            APIType.OpenGL (GetPixelShaderUid layoutExample snapshotLateZ)
            (use_dual_source driverSound hostPlain
              (GetPixelShaderUid layoutExample snapshotLateZ))
            (use_shader_blend driverSound hostPlain
              (GetPixelShaderUid layoutExample snapshotLateZ))).text + 1) :=
  ⟨by decide, by decide, by decide,
    (GeneratePixelShaderCode_depth_written_once externalsSample
      externalsSample_lighting_clean_depth layoutExample snapshotLateZ driverSound
      APIType.OpenGL hostPlain (by decide)).2.2.1 (by decide) (by decide)⟩

/-! ## The mask of the indirect stages in use -/

/-- The bit test of lines 232 and 794: bit k of x is set. -/
theorem and_one_shiftLeft_ne_zero (x k : Nat) : x &&& (1 <<< k) ≠ 0 ↔ x.testBit k = true := by
  rw [Nat.one_shiftLeft]
  constructor
  · intro h
    obtain ⟨i, hi⟩ := Nat.ne_zero_implies_bit_true h
    rw [Nat.testBit_and, Nat.testBit_two_pow, Bool.and_eq_true, decide_eq_true_eq] at hi
    obtain ⟨h1, rfl⟩ := hi
    exact h1
  · intro h e
    have : (x &&& 2 ^ k).testBit k = true := by
      rw [Nat.testBit_and, Nat.testBit_two_pow, h]
      simp
    rw [e, Nat.zero_testBit] at this
    exact Bool.noConfusion this

/-- The bits of a mask built by a loop that sets bit b i for the steps i with c i. -/
theorem foldl_or_testBit (c : Nat → Bool) (b : Nat → Nat) (l : List Nat) (init k : Nat) :
    (l.foldl (fun (used : Nat) i => if c i = true then used ||| (1 <<< b i) else used)
      init).testBit k = (init.testBit k || l.any (fun i => c i && b i == k)) := by
  induction l generalizing init with
  | nil => simp
  | cons a l ih =>
    simp only [List.foldl_cons, List.any_cons]
    rw [ih]
    cases hc : c a
    · simp
    · simp only [if_true, Nat.testBit_or, Nat.one_shiftLeft, Nat.testBit_two_pow,
        Bool.true_and, Bool.or_assoc]
      congr 2

/-- The number of indirect stages in the UID. -/
theorem GetPixelShaderUid_genMode_numindstages (L : UidLayout) (g : Globals) :
    (GetPixelShaderUid L g).genMode_numindstages = g.bpmem.genMode.numindstages := by
  have hb : ∀ u, (GetPixelShaderUid_blend g u).genMode_numindstages =
      u.genMode_numindstages := by
    intro u; unfold GetPixelShaderUid_blend; simp only []; split <;> rfl
  have ha : ∀ u, (GetPixelShaderUid_alphaTest g u).genMode_numindstages =
      u.genMode_numindstages := by
    intro u; unfold GetPixelShaderUid_alphaTest; simp only []; split <;> rfl
  have hs : ∀ u, (GetPixelShaderUid_stages g u).genMode_numindstages =
      u.genMode_numindstages := by
    intro u; unfold GetPixelShaderUid_stages
    apply foldl_keep (fun v : pixel_shader_uid_data => v.genMode_numindstages); intro b a; rfl
  have hi : ∀ u, (GetPixelShaderUid_indirect g u).genMode_numindstages =
      u.genMode_numindstages := by
    intro u; unfold GetPixelShaderUid_indirect
    simp only []
    refine Eq.trans (foldl_keep (fun v : pixel_shader_uid_data => v.genMode_numindstages) _ ?_ _
      _) rfl
    intro b a
    split <;> rfl
  have hp : ∀ u, (GetPixelShaderUid_projection g u).genMode_numindstages =
      u.genMode_numindstages := by
    intro u; unfold GetPixelShaderUid_projection
    split
    · apply foldl_keep (fun v : pixel_shader_uid_data => v.genMode_numindstages); intro b a; rfl
    · rfl
  have hl : ∀ u, (GetPixelShaderUid_lighting g u).genMode_numindstages =
      u.genMode_numindstages := by
    intro u; unfold GetPixelShaderUid_lighting; split <;> rfl
  unfold GetPixelShaderUid
  simp only []
  rw [hb, show ∀ u, (GetPixelShaderUid_depthFog g u).genMode_numindstages =
    u.genMode_numindstages from fun _ => rfl, ha,
    show ∀ u, (GetPixelShaderUid_numValues L g u).genMode_numindstages =
      u.genMode_numindstages from fun _ => rfl, hs, hi, hp, hl]
  rfl

/-- The mask nIndirectStagesUsed of the UID: the value the loop of lines 220-229 computes. -/
theorem GetPixelShaderUid_nIndirectStagesUsed (L : UidLayout) (g : Globals) :
    (GetPixelShaderUid L g).nIndirectStagesUsed =
      if g.bpmem.genMode.numindstages > 0 then
        (List.range (g.bpmem.genMode.numtevstages + 1)).foldl
          (fun (used : Nat) i =>
            if ((g.bpmem.tevind i).IsActive &&
                decide ((g.bpmem.tevind i).bt < g.bpmem.genMode.numindstages)) = true
            then used ||| (1 <<< (g.bpmem.tevind i).bt) else used) 0
      else 0 := by
  have hb : ∀ u, (GetPixelShaderUid_blend g u).nIndirectStagesUsed =
      u.nIndirectStagesUsed := by
    intro u; unfold GetPixelShaderUid_blend; simp only []; split <;> rfl
  have ha : ∀ u, (GetPixelShaderUid_alphaTest g u).nIndirectStagesUsed =
      u.nIndirectStagesUsed := by
    intro u; unfold GetPixelShaderUid_alphaTest; simp only []; split <;> rfl
  have hs : ∀ u, (GetPixelShaderUid_stages g u).nIndirectStagesUsed =
      u.nIndirectStagesUsed := by
    intro u; unfold GetPixelShaderUid_stages
    apply foldl_keep (fun v : pixel_shader_uid_data => v.nIndirectStagesUsed); intro b a; rfl
  have hp : ∀ u, (GetPixelShaderUid_projection g u).genMode_numtevstages =
      u.genMode_numtevstages ∧ (GetPixelShaderUid_projection g u).genMode_numindstages =
      u.genMode_numindstages := by
    intro u; unfold GetPixelShaderUid_projection
    split
    · constructor
      · apply foldl_keep (fun v : pixel_shader_uid_data => v.genMode_numtevstages)
        intro b a; rfl
      · apply foldl_keep (fun v : pixel_shader_uid_data => v.genMode_numindstages)
        intro b a; rfl
    · exact ⟨rfl, rfl⟩
  have hl : ∀ u, (GetPixelShaderUid_lighting g u).genMode_numtevstages =
      u.genMode_numtevstages ∧ (GetPixelShaderUid_lighting g u).genMode_numindstages =
      u.genMode_numindstages := by
    intro u; unfold GetPixelShaderUid_lighting; split <;> exact ⟨rfl, rfl⟩
  unfold GetPixelShaderUid
  simp only []
  rw [hb, show ∀ u, (GetPixelShaderUid_depthFog g u).nIndirectStagesUsed =
    u.nIndirectStagesUsed from fun _ => rfl, ha,
    show ∀ u, (GetPixelShaderUid_numValues L g u).nIndirectStagesUsed =
      u.nIndirectStagesUsed from fun _ => rfl, hs]
  unfold GetPixelShaderUid_indirect
  simp only []
  rw [foldl_keep (fun v : pixel_shader_uid_data => v.nIndirectStagesUsed) _ (by
    intro b a
    split <;> rfl)]
  simp only [(hp _).1, (hp _).2, (hl _).1, (hl _).2]
  have h1 : (GetPixelShaderUid_flags g PixelShaderUid.zero).genMode_numtevstages =
      g.bpmem.genMode.numtevstages := rfl
  have h2 : (GetPixelShaderUid_flags g PixelShaderUid.zero).genMode_numindstages =
      g.bpmem.genMode.numindstages := rfl
  rw [h1, h2]

/-- The bits of nIndirectStagesUsed: bit k is set iff some stage of the snapshot has an active
indirect operation on the indirect stage k, and k is below the number of indirect stages. -/
theorem GetPixelShaderUid_nIndirectStagesUsed_testBit (L : UidLayout) (g : Globals) (k : Nat) :
    (GetPixelShaderUid L g).nIndirectStagesUsed.testBit k = true ↔
      k < g.bpmem.genMode.numindstages ∧
      ∃ i, i ≤ g.bpmem.genMode.numtevstages ∧ (g.bpmem.tevind i).IsActive = true ∧
        (g.bpmem.tevind i).bt = k := by
  rw [GetPixelShaderUid_nIndirectStagesUsed]
  by_cases h0 : g.bpmem.genMode.numindstages > 0
  · rw [if_pos h0, foldl_or_testBit, Nat.zero_testBit, Bool.false_or, List.any_eq_true]
    constructor
    · rintro ⟨i, hi, hc⟩
      simp only [Bool.and_eq_true, decide_eq_true_eq, beq_iff_eq] at hc
      obtain ⟨⟨h1, h2⟩, h3⟩ := hc
      exact ⟨h3 ▸ h2, i, by have := List.mem_range.mp hi; omega, h1, h3⟩
    · rintro ⟨hk, i, hi, h1, h3⟩
      refine ⟨i, List.mem_range.mpr (by omega), ?_⟩
      simp only [Bool.and_eq_true, decide_eq_true_eq, beq_iff_eq]
      exact ⟨⟨h1, h3 ▸ hk⟩, h3⟩
  · rw [if_neg h0, Nat.zero_testBit]
    constructor
    · intro h; exact Bool.noConfusion h
    · rintro ⟨hk, _⟩; omega

/-- The indirect members of the slot GetPixelShaderUid fills for stage n: hasindstage tells
whether the indirect stage id of the register is below the number of indirect stages, and the
register is stored when it is. -/
theorem GetPixelShaderUid_stage_indirect (bpmem : BPMemory) (n : Nat) :
    (GetPixelShaderUid_stage bpmem n StageHash.zero).hasindstage =
      decide ((bpmem.tevind n).bt < bpmem.genMode.numindstages) ∧
    (GetPixelShaderUid_stage bpmem n StageHash.zero).tevind =
      if (bpmem.tevind n).bt < bpmem.genMode.numindstages then (bpmem.tevind n).hex else 0 := by
  have hkonst : ∀ s, (GetPixelShaderUid_stage_konst bpmem n s).hasindstage = s.hasindstage ∧
      (GetPixelShaderUid_stage_konst bpmem n s).tevind = s.tevind := by
    intro s; unfold GetPixelShaderUid_stage_konst; simp only []; split <;> exact ⟨rfl, rfl⟩
  have htex : ∀ s, (GetPixelShaderUid_stage_tex bpmem n s).hasindstage = s.hasindstage ∧
      (GetPixelShaderUid_stage_tex bpmem n s).tevind = s.tevind := by
    intro s; unfold GetPixelShaderUid_stage_tex; simp only []; split <;> exact ⟨rfl, rfl⟩
  have hras : ∀ s, (GetPixelShaderUid_stage_ras bpmem n s).hasindstage = s.hasindstage ∧
      (GetPixelShaderUid_stage_ras bpmem n s).tevind = s.tevind := by
    intro s; unfold GetPixelShaderUid_stage_ras; simp only []; split <;> exact ⟨rfl, rfl⟩
  unfold GetPixelShaderUid_stage
  simp only [(hkonst _).1, (hkonst _).2, (htex _).1, (htex _).2, (hras _).1, (hras _).2]
  unfold GetPixelShaderUid_stage_head
  simp only []
  by_cases h : (bpmem.tevind n).bt < bpmem.genMode.numindstages
  · simp only [h, decide_True, if_true]
    exact ⟨trivial, trivial⟩
  · simp only [h, decide_False, Bool.false_eq_true, if_false]
    exact ⟨trivial, rfl⟩

/-! ## The indirect samples a stage reads -/

/-- The text of the indirect operation of a stage: the comment, the bump alpha, the offset,
the wrapped coordinate and the new texture coordinate. -/
theorem WriteStage_indirect_parts_general (bugs : DriverDetails) (n : Nat)
    (tevind : TevStageIndirect) (texcoord : Nat) (has_tex_coord : Bool) :
    emitted (fun o => WriteStage_indirect bugs o n tevind texcoord has_tex_coord) =
      "\t// indirect op\n" ++
        (emitted (fun o => WriteStage_alphabump o tevind) ++
        (stageOffsetText bugs n tevind texcoord has_tex_coord ++
        (emitted (fun o => WriteStage_wrap o tevind texcoord) ++
        (tevcoordUpdateText n tevind.fb_addprev ++ s24Text)))) := by
  unfold stageOffsetText
  conv => lhs; unfold emitted WriteStage_indirect
  simp only [ShaderCode.Write_text, ShaderCode.SetConstantsUsed_text, ShaderCode.text_ite,
    ShaderCode.empty_text, String.empty_append, String.append_empty, String.append_assoc,
    WriteStage_alphabump_text, WriteStage_indcoord_text, WriteStage_indmtx_text,
    WriteStage_wrap_text, WriteStage_tevcoord_text]
  by_cases h : tevind.mid ≠ 0
  · rw [if_pos h, if_pos h]
    simp only [String.append_assoc]
  · rw [if_neg h, if_neg h]
    simp only [String.append_assoc]

/-- The text of a stage: the heading, the indirect operation of a stage that has one, and the
rest. -/
theorem WriteStage_parts (bugs : DriverDetails) (u : pixel_shader_uid_data)
    (n : Nat) (api_type : APIType) (stereo : Bool) :
    emitted (fun o => WriteStage bugs o u n api_type stereo) =
      stageHeadingText n ++
        ((if (u.stagehash.getD n default).hasindstage = true then
            emitted (fun o => WriteStage_indirect bugs o n
              { hex := (u.stagehash.getD n default).tevind, IsActive := false }
              (WriteStage_texcoord u (u.stagehash.getD n default))
              (decide ((u.stagehash.getD n default).tevorders_texcoord <
                u.genMode_numtexgens)))
          else "") ++
        stageCombineText (u.stagehash.getD n default)
          (WriteStage_texcoord u (u.stagehash.getD n default))
          (decide ((u.stagehash.getD n default).tevorders_texcoord < u.genMode_numtexgens))
          stereo api_type) := by
  unfold stageHeadingText stageCombineText
  conv => lhs; unfold emitted WriteStage
  simp only [ShaderCode.Write_text, ShaderCode.SetConstantsUsed_text, ShaderCode.text_ite,
    ShaderCode.empty_text, String.empty_append, String.append_empty, String.append_assoc,
    WriteStage_indirect_text, WriteStage_ras_text, WriteStage_tex_text,
    WriteStage_konst_text, WriteStage_colors_text, WriteStage_inputs_text,
    WriteStage_colorCombine_text, WriteStage_alphaCombine_text]
  cases (u.stagehash.getD n default).hasindstage <;>
    simp only [if_true, if_false, Bool.false_eq_true, String.append_assoc,
      String.empty_append]

/-- What a sample name is, by parts. -/
theorem isSampleName_parts (needle : String) (h : isSampleName needle = true) :
    (∀ c ∈ needle.toList, c ≠ '\n') ∧ hasBigram 'i' 'i' needle.toList = true ∧
    hasBigram 'e' 'x' needle.toList = true ∧ (∀ c ∈ needle.toList.dropLast, c ≠ ' ') := by
  unfold isSampleName at h
  simp only [Bool.and_eq_true, List.all_eq_true, bne_iff_ne, ne_eq] at h
  exact ⟨h.1.1.1, h.1.1.2, h.1.2, h.2⟩

/-- The heading of a stage has no i i and ends with a line end. -/
theorem stageHeadingText_sample (n : Nat) :
    clean 'i' 'i' (stageHeadingText n) = true ∧ endsLine (stageHeadingText n) = true := by
  unfold stageHeadingText
  constructor
  · repeat' first
      | with_reducible apply clean_append
      | with_reducible apply clean_toString
    all_goals decide
  · exact endsLine_append _ _ (by decide)

/-- The text of a stage after its indirect operation has no i i. -/
theorem stageCombineText_clean_sample (stage : StageHash) (texcoord : Nat)
    (has_tex_coord stereo : Bool) (api_type : APIType) :
    clean 'i' 'i' (stageCombineText stage texcoord has_tex_coord stereo api_type) = true := by
  unfold stageCombineText
  exact clean_append _ _ _ _ (WriteStage_ras_clean_stage _ _ isStageMark_sample _ _ _)
    (clean_append _ _ _ _ (WriteStage_tex_clean_stage _ _ isStageMark_sample _ _ _ _ _)
    (clean_append _ _ _ _ (WriteStage_konst_clean_stage _ _ isStageMark_sample _ _ _)
    (clean_append _ _ _ _ (WriteStage_inputs_clean_stage _ _ isStageMark_sample _ _)
    (clean_append _ _ _ _ (WriteStage_colorCombine_clean_stage _ _ isStageMark_sample _)
    (WriteStage_alphaCombine_clean_stage _ _ isStageMark_sample _)))))

/-- No sample name occurs in the product of the indirect coordinate with an offset matrix. -/
theorem WriteStage_indmtx_offset_mentions_sample (bugs : DriverDetails) (n : Nat)
    (tevind : TevStageIndirect) (needle : String) (hN : isSampleName needle = true) :
    mentions needle (emitted (fun o => WriteStage_indmtx_offset bugs o n tevind)) = 0 ∧
    endsLine (emitted (fun o => WriteStage_indmtx_offset bugs o n tevind)) = true := by
  obtain ⟨hn, hii, hex, _⟩ := isSampleName_parts needle hN
  refine ⟨?_, WriteStage_indmtx_offset_endsLine bugs n tevind⟩
  have e : emitted (fun o => WriteStage_indmtx_offset bugs o n tevind) =
      ("\tint2 indtevtrans" ++ toString n ++ " = int2(idot(" ++ I_INDTEXMTX ++
        "[" ++ toString (u32 (2 * ((tevind.mid : Int) - 1))) ++ "].xyz, iindtevcrd" ++
        toString n ++ "), idot(" ++ I_INDTEXMTX ++ "[" ++
        toString (u32 (u32 (2 * ((tevind.mid : Int) - 1)) + 1)) ++ "].xyz, iindtevcrd" ++
        toString n ++ ")) >> 3;\n") ++
      (if bugs.BUG_BROKEN_BITWISE_OP_NEGATION = true then
        "\tint indtexmtx_w_inverse_" ++ toString n ++ " = -" ++ I_INDTEXMTX ++
          "[" ++ toString (u32 (2 * ((tevind.mid : Int) - 1))) ++ "].w;\n" ++
          indtevtrans_shift_right n (u32 (2 * ((tevind.mid : Int) - 1))) ++
          ("\telse indtevtrans" ++ toString n ++ " <<= indtexmtx_w_inverse_" ++ toString n ++
            ";\n")
      else
        indtevtrans_shift_right n (u32 (2 * ((tevind.mid : Int) - 1))) ++
          ("\telse indtevtrans" ++ toString n ++ " <<= (-" ++ I_INDTEXMTX ++ "[" ++
            toString (u32 (2 * ((tevind.mid : Int) - 1))) ++ "].w);\n")) := by
    unfold emitted WriteStage_indmtx_offset
    cases bugs.BUG_BROKEN_BITWISE_OP_NEGATION <;>
      simp only [ShaderCode.Write_text, ShaderCode.SetConstantsUsed_text,
        ShaderCode.empty_text, String.empty_append, String.append_assoc, if_true, if_false,
        Bool.false_eq_true]
  rw [e]
  apply mentions_eq_zero_append 'e' 'x' 'i' 'i' _ _ _ hn hex hii
  · exact lineAligned_of_endsLine _ (endsLine_append _ _ (by decide))
  · repeat' first
      | with_reducible apply clean_append
      | with_reducible apply clean_toString
    all_goals decide
  · repeat' first
      | with_reducible apply clean_append
      | with_reducible apply clean_ite
      | with_reducible apply clean_toString
      | with_reducible apply indtevtrans_shift_right_clean_stage _ _ isStageMark_sample
    all_goals decide

/-- No sample name occurs in the product of the indirect coordinate with the texture
coordinate. -/
theorem WriteStage_indmtx_scale_mentions_sample (bugs : DriverDetails) (n : Nat)
    (tevind : TevStageIndirect) (texcoord base : Nat) (component : String)
    (hc : clean 'e' 'x' component = true) (needle : String)
    (hN : isSampleName needle = true) :
    mentions needle
      (emitted (fun o => WriteStage_indmtx_scale bugs o n tevind texcoord base component)) =
      0 ∧
    endsLine
      (emitted (fun o => WriteStage_indmtx_scale bugs o n tevind texcoord base component)) =
      true := by
  obtain ⟨hn, hii, hex, _⟩ := isSampleName_parts needle hN
  have e : emitted (fun o => WriteStage_indmtx_scale bugs o n tevind texcoord base component) =
      ("\tint2 indtevtrans" ++ toString n ++ " = int2(fixpoint_uv" ++ toString texcoord ++
        " * iindtevcrd" ++ toString n ++ "." ++ component ++ ") >> 8;\n") ++
      (if bugs.BUG_BROKEN_BITWISE_OP_NEGATION = true then
        "\tint  indtexmtx_w_inverse_" ++ toString n ++ " = -" ++ I_INDTEXMTX ++
          "[" ++ toString (u32 (2 * ((tevind.mid : Int) - base))) ++ "].w;\n" ++
          indtevtrans_shift_right n (u32 (2 * ((tevind.mid : Int) - base))) ++
          ("\telse indtevtrans" ++ toString n ++ " <<= (indtexmtx_w_inverse_" ++ toString n ++
            ");\n")
      else
        indtevtrans_shift_right n (u32 (2 * ((tevind.mid : Int) - base))) ++
          ("\telse indtevtrans" ++ toString n ++ " <<= (-" ++ I_INDTEXMTX ++ "[" ++
            toString (u32 (2 * ((tevind.mid : Int) - base))) ++ "].w);\n")) := by
    unfold emitted WriteStage_indmtx_scale
    cases bugs.BUG_BROKEN_BITWISE_OP_NEGATION <;>
      simp only [ShaderCode.Write_text, ShaderCode.SetConstantsUsed_text,
        ShaderCode.empty_text, String.empty_append, String.append_assoc, if_true, if_false,
        Bool.false_eq_true]
  rw [e]
  constructor
  · apply mentions_eq_zero_append 'e' 'x' 'i' 'i' _ _ _ hn hex hii
    · exact lineAligned_of_endsLine _ (endsLine_append _ _ (by decide))
    · repeat' first
        | with_reducible apply clean_append
        | with_reducible apply clean_toString
        | with_reducible exact hc
      all_goals decide
    · repeat' first
        | with_reducible apply clean_append
        | with_reducible apply clean_ite
        | with_reducible apply clean_toString
        | with_reducible apply indtevtrans_shift_right_clean_stage _ _ isStageMark_sample
      all_goals decide
  · apply endsLine_append
    apply endsLine_ite
    · exact endsLine_append _ _ (endsLine_append _ _ (by decide))
    · exact endsLine_append _ _ (endsLine_append _ _ (by decide))

/-- No sample name occurs in the offset a matrix id other than 0 gives. -/
theorem WriteStage_indmtx_mentions_sample (bugs : DriverDetails) (n : Nat)
    (tevind : TevStageIndirect) (texcoord : Nat) (has_tex_coord : Bool) (needle : String)
    (hN : isSampleName needle = true) :
    mentions needle
      (emitted (fun o => WriteStage_indmtx bugs o n tevind texcoord has_tex_coord)) = 0 ∧
    endsLine (emitted (fun o => WriteStage_indmtx bugs o n tevind texcoord has_tex_coord)) =
      true := by
  obtain ⟨hn, hii, hex, _⟩ := isSampleName_parts needle hN
  unfold emitted WriteStage_indmtx
  split
  · exact WriteStage_indmtx_offset_mentions_sample bugs n tevind needle hN
  · split
    · exact WriteStage_indmtx_scale_mentions_sample bugs n tevind texcoord 5 "xx" (by decide)
        needle hN
    · split
      · exact WriteStage_indmtx_scale_mentions_sample bugs n tevind texcoord 9 "yy"
          (by decide) needle hN
      · simp only [ShaderCode.Write_text, ShaderCode.empty_text, String.empty_append]
        constructor
        · apply mentions_eq_zero 'i' 'i' _ _ hii
          repeat' first
            | with_reducible apply clean_append
            | with_reducible apply clean_toString
          all_goals decide
        · exact endsLine_append _ _ (by decide)

/-- The sample names that occur in the indirect coordinate of a stage occur in its reading of
the sample. -/
theorem WriteStage_indcoord_mentions_sample (n : Nat) (tevind : TevStageIndirect)
    (needle : String) (hN : isSampleName needle = true) :
    mentions needle (emitted (fun o => WriteStage_indcoord o n tevind)) =
      mentions needle (sampleReadText tevind) ∧
    endsLine (emitted (fun o => WriteStage_indcoord o n tevind)) = true := by
  obtain ⟨hn, hii, hex, hsp⟩ := isSampleName_parts needle hN
  have hB : endsLine (sampleReadText tevind) = true := by
    unfold sampleReadText
    exact endsLine_append _ _ (by decide)
  have e : ∃ bias, emitted (fun o => WriteStage_indcoord o n tevind) =
      ("\tint3 iindtevcrd" ++ toString n ++ " = ") ++ (sampleReadText tevind ++ bias) ∧
      clean 'e' 'x' bias = true ∧ lineAligned bias = true := by
    refine ⟨(if (tevind.bias == ITB_S || tevind.bias == ITB_T || tevind.bias == ITB_U) = true
      then
        "\tiindtevcrd" ++ toString n ++ "." ++ tev_ind_bias_field.getD tevind.bias "" ++
          " += int(" ++ tev_ind_bias_add.getD tevind.fmt "" ++ ");\n"
      else if (tevind.bias == ITB_ST || tevind.bias == ITB_SU || tevind.bias == ITB_TU) = true
      then
        "\tiindtevcrd" ++ toString n ++ "." ++ tev_ind_bias_field.getD tevind.bias "" ++
          " += int2(" ++ tev_ind_bias_add.getD tevind.fmt "" ++ ", " ++
          tev_ind_bias_add.getD tevind.fmt "" ++ ");\n"
      else if (tevind.bias == ITB_STU) = true then
        "\tiindtevcrd" ++ toString n ++ "." ++ tev_ind_bias_field.getD tevind.bias "" ++
          " += int3(" ++ tev_ind_bias_add.getD tevind.fmt "" ++ ", " ++
          tev_ind_bias_add.getD tevind.fmt "" ++ ", " ++ tev_ind_bias_add.getD tevind.fmt "" ++
          ");\n"
      else ""), ?_, ?_, ?_⟩
    · have el : (" = iindtex" : String) = " = " ++ "iindtex" := by decide
      unfold emitted WriteStage_indcoord sampleReadText
      simp only [ShaderCode.Write_text, ShaderCode.SetConstantsUsed_text, ShaderCode.text_ite,
        ShaderCode.empty_text, String.empty_append, String.append_empty, String.append_assoc,
        ite_append_both, ite_append_then, ite_append_else, el]
    · repeat' first
        | with_reducible apply clean_append
        | with_reducible apply clean_ite
        | with_reducible apply clean_toString
        | with_reducible apply clean_getD
      all_goals decide
    · exact lineAligned_ite _ _ _ (lineAligned_of_endsLine _ (endsLine_append _ _ (by decide)))
        (lineAligned_ite _ _ _ (lineAligned_of_endsLine _ (endsLine_append _ _ (by decide)))
        (lineAligned_ite _ _ _ (lineAligned_of_endsLine _ (endsLine_append _ _ (by decide)))
        (by decide)))
  obtain ⟨bias, e, hbc, hbl⟩ := e
  rw [e]
  constructor
  · rw [mentions_append_of_last ' ' _ _ _ hsp (endsIn_append _ _ _ (by decide)),
      mentions_append _ _ _ hn (lineAligned_of_endsLine _ hB),
      mentions_eq_zero 'e' 'x' _ bias hex hbc]
    have h1 : mentions needle ("\tint3 iindtevcrd" ++ toString n ++ " = ") = 0 := by
      apply mentions_eq_zero 'e' 'x' _ _ hex
      repeat' first
        | with_reducible apply clean_append
        | with_reducible apply clean_toString
      all_goals decide
    rw [h1]
    omega
  · apply endsLine_append
    exact endsLine_append_left _ _ hB hbl

/-- The sample names that occur in the offset of a stage occur in its reading of the sample,
which a matrix id other than 0 brings. -/
theorem stageOffsetText_mentions_sample (bugs : DriverDetails) (n : Nat)
    (tevind : TevStageIndirect) (texcoord : Nat) (has_tex_coord : Bool) (needle : String)
    (hN : isSampleName needle = true) :
    mentions needle (stageOffsetText bugs n tevind texcoord has_tex_coord) =
      (if tevind.mid ≠ 0 then mentions needle (sampleReadText tevind) else 0) ∧
    endsLine (stageOffsetText bugs n tevind texcoord has_tex_coord) = true := by
  obtain ⟨hn, hii, hex, hsp⟩ := isSampleName_parts needle hN
  unfold stageOffsetText
  by_cases h : tevind.mid ≠ 0
  · rw [if_pos h, if_pos h]
    obtain ⟨c1, c2⟩ := WriteStage_indcoord_mentions_sample n tevind needle hN
    obtain ⟨m1, m2⟩ := WriteStage_indmtx_mentions_sample bugs n tevind texcoord has_tex_coord
      needle hN
    constructor
    · rw [mentions_append _ _ _ hn (lineAligned_of_endsLine _ c2), c1, m1]
      rfl
    · exact endsLine_append _ _ m2
  · rw [if_neg h, if_neg h]
    constructor
    · apply mentions_eq_zero 'i' 'i' _ _ hii
      repeat' first
        | with_reducible apply clean_append
        | with_reducible apply clean_toString
      all_goals decide
    · exact endsLine_append _ _ (by decide)

/-- The bump alpha is empty or ends with a line end. -/
theorem WriteStage_alphabump_lineAligned (tevind : TevStageIndirect) :
    lineAligned (emitted (fun o => WriteStage_alphabump o tevind)) = true := by
  unfold emitted WriteStage_alphabump
  simp only [ShaderCode.Write_text, ShaderCode.text_ite, ShaderCode.empty_text,
    String.empty_append]
  apply lineAligned_ite
  · exact lineAligned_of_endsLine _ (endsLine_append _ _ (by decide))
  · decide

/-- The sample names that occur in the indirect operation of a stage occur in its bump alpha
or in its reading of the sample. -/
theorem WriteStage_indirect_mentions_sample (bugs : DriverDetails) (n : Nat)
    (tevind : TevStageIndirect) (texcoord : Nat) (has_tex_coord : Bool) (needle : String)
    (hN : isSampleName needle = true) :
    mentions needle
        (emitted (fun o => WriteStage_indirect bugs o n tevind texcoord has_tex_coord)) =
      mentions needle (emitted (fun o => WriteStage_alphabump o tevind)) +
        (if tevind.mid ≠ 0 then mentions needle (sampleReadText tevind) else 0) ∧
    endsLine (emitted (fun o => WriteStage_indirect bugs o n tevind texcoord has_tex_coord)) =
      true := by
  obtain ⟨hn, hii, hex, hsp⟩ := isSampleName_parts needle hN
  obtain ⟨o1, o2⟩ := stageOffsetText_mentions_sample bugs n tevind texcoord has_tex_coord
    needle hN
  rw [WriteStage_indirect_parts_general]
  constructor
  · rw [mentions_append _ _ _ hn (by decide),
      mentions_append _ _ _ hn (WriteStage_alphabump_lineAligned tevind),
      mentions_append _ _ _ hn (lineAligned_of_endsLine _ o2), o1,
      mentions_eq_zero 'i' 'i' _ "\t// indirect op\n" hii (by decide),
      mentions_eq_zero 'i' 'i' _ (_ ++ (_ ++ s24Text)) hii
        (clean_append _ _ _ _ (WriteStage_wrap_clean_stage _ _ isStageMark_sample _ _)
          (clean_append _ _ _ _ (tevcoordUpdateText_clean_stage _ _ isStageMark_sample _ _)
            (by decide)))]
    omega
  · exact endsLine_append _ _ (endsLine_append _ _ (endsLine_append _ _ (endsLine_append _ _
      (endsLine_append _ _ (by decide)))))

/-- The sample names that occur in the text of a stage occur in the bump alpha or in the
reading of the sample of its indirect operation. -/
theorem WriteStage_mentions_sample (bugs : DriverDetails) (u : pixel_shader_uid_data)
    (n : Nat) (api_type : APIType) (stereo : Bool) (needle : String)
    (hN : isSampleName needle = true) :
    mentions needle (emitted (fun o => WriteStage bugs o u n api_type stereo)) =
      if (u.stagehash.getD n default).hasindstage = true then
        mentions needle (emitted (fun o => WriteStage_alphabump o
          { hex := (u.stagehash.getD n default).tevind, IsActive := false })) +
        (if (TevStageIndirect.mk (u.stagehash.getD n default).tevind false).mid ≠ 0 then
          mentions needle (sampleReadText
            { hex := (u.stagehash.getD n default).tevind, IsActive := false })
        else 0)
      else 0 := by
  obtain ⟨hn, hii, hex, hsp⟩ := isSampleName_parts needle hN
  rw [WriteStage_parts]
  obtain ⟨h1, h2⟩ := stageHeadingText_sample n
  rw [mentions_append _ _ _ hn (lineAligned_of_endsLine _ h2), mentions_eq_zero 'i' 'i' _ _ hii h1]
  cases hind : (u.stagehash.getD n default).hasindstage
  · simp only [Bool.false_eq_true, if_false, String.empty_append]
    rw [mentions_eq_zero 'i' 'i' _ _ hii (stageCombineText_clean_sample _ _ _ _ _)]
  · simp only [if_true]
    obtain ⟨i1, i2⟩ := WriteStage_indirect_mentions_sample bugs n
      { hex := (u.stagehash.getD n default).tevind, IsActive := false }
      (WriteStage_texcoord u (u.stagehash.getD n default))
      (decide ((u.stagehash.getD n default).tevorders_texcoord < u.genMode_numtexgens))
      needle hN
    rw [mentions_append _ _ _ hn (lineAligned_of_endsLine _ i2), i1,
      mentions_eq_zero 'i' 'i' _ _ hii (stageCombineText_clean_sample _ _ _ _ _)]
    omega

/-- The indirect stage id of a register is a two-bit value. -/
theorem TevStageIndirect.bt_lt (t : TevStageIndirect) : t.bt < 4 := by
  unfold TevStageIndirect.bt
  exact Nat.mod_lt _ (by decide)

/-- The bump-alpha selector of a register is a two-bit value. -/
theorem TevStageIndirect.bs_lt (t : TevStageIndirect) : t.bs < 4 := by
  unfold TevStageIndirect.bs
  exact Nat.mod_lt _ (by decide)

/-- The format of a register is a two-bit value. -/
theorem TevStageIndirect.fmt_lt (t : TevStageIndirect) : t.fmt < 4 := by
  unfold TevStageIndirect.fmt
  exact Nat.mod_lt _ (by decide)

set_option maxRecDepth 100000 in
/-- The names iindtex, iindtex followed by a two-bit number and a dot, and iindtex followed
by such a number and a blank are sample names. -/
theorem isSampleName_iindtex (bt : Nat) (h : bt < 4) :
    isSampleName "iindtex" = true ∧ isSampleName ("iindtex" ++ toString bt ++ ".") = true ∧
    isSampleName ("iindtex" ++ toString bt ++ " ") = true := by
  interval_cases bt <;> decide

set_option maxRecDepth 100000 in
/-- The bump alpha of a stage reads the sample of the indirect stage bt of its register, as
iindtex, bt and a dot, when its selector is not OFF. -/
theorem WriteStage_alphabump_reads (tevind : TevStageIndirect) :
    mentions "iindtex" (emitted (fun o => WriteStage_alphabump o tevind)) =
      (if tevind.bs ≠ ITBA_OFF then 1 else 0) ∧
    mentions ("iindtex" ++ toString tevind.bt ++ ".")
        (emitted (fun o => WriteStage_alphabump o tevind)) =
      (if tevind.bs ≠ ITBA_OFF then 1 else 0) ∧
    mentions ("iindtex" ++ toString tevind.bt ++ " ")
        (emitted (fun o => WriteStage_alphabump o tevind)) = 0 := by
  unfold emitted WriteStage_alphabump
  simp only [ShaderCode.Write_text, ShaderCode.text_ite, ShaderCode.empty_text,
    String.empty_append]
  have h1 := tevind.bt_lt
  have h2 := tevind.bs_lt
  have h3 := tevind.fmt_lt
  generalize tevind.bt = bt at h1 ⊢
  generalize tevind.bs = bs at h2 ⊢
  generalize tevind.fmt = fmt at h3 ⊢
  interval_cases bt <;> interval_cases bs <;> interval_cases fmt <;> decide

set_option maxRecDepth 100000 in
/-- The reading of the sample names the sample of the indirect stage bt of the register, as
iindtex, bt and a blank. -/
theorem sampleReadText_reads (tevind : TevStageIndirect) :
    mentions "iindtex" (sampleReadText tevind) = 1 ∧
    mentions ("iindtex" ++ toString tevind.bt ++ ".") (sampleReadText tevind) = 0 ∧
    mentions ("iindtex" ++ toString tevind.bt ++ " ") (sampleReadText tevind) = 1 := by
  unfold sampleReadText
  have h1 := tevind.bt_lt
  have h3 := tevind.fmt_lt
  generalize tevind.bt = bt at h1 ⊢
  generalize tevind.fmt = fmt at h3 ⊢
  interval_cases bt <;> interval_cases fmt <;> decide

/-- A name occurs in a text that starts with it. -/
theorem mentions_prefix_pos (needle rest : String) (h : needle.toList ≠ []) :
    0 < mentions needle (needle ++ rest) := by
  unfold mentions
  simp only [String.toList, String.data_append]
  cases hd : needle.data with
  | nil => exact absurd hd h
  | cons c cs =>
    have hp : (c :: cs).isPrefixOf (c :: cs ++ rest.data) = true := by
      rw [ List.isPrefixOf_iff_prefix]
      exact List.prefix_append _ _
    show 0 < (if (c :: cs).isPrefixOf (c :: (cs ++ rest.data)) then 1 else 0) +
      occurrences (c :: cs) (cs ++ rest.data)
    rw [show c :: (cs ++ rest.data) = c :: cs ++ rest.data from rfl, hp]
    simp

/-- A name occurs in the text of a loop at least as often as in the text of one of its
steps, when every step appends whole lines. -/
theorem foldl_mentions_le {α : Type} (f : ShaderCode → α → ShaderCode)
    (h : ∀ out a, (f out a).text = out.text ++ emitted (fun o => f o a))
    (hl : ∀ a, lineAligned (emitted (fun o => f o a)) = true) (needle : String)
    (hn : ∀ c ∈ needle.toList, c ≠ '\n') (l : List α) (a : α) (ha : a ∈ l) :
    mentions needle (emitted (fun o => f o a)) ≤
      mentions needle (emitted (fun o => l.foldl f o)) := by
  induction l with
  | nil => exact absurd ha (List.not_mem_nil a)
  | cons b l ih =>
    have e : emitted (fun o => (b :: l).foldl f o) =
        emitted (fun o => f o b) ++ emitted (fun o => l.foldl f o) := by
      simp only [emitted, List.foldl_cons]
      rw [foldl_text f h l (f ShaderCode.empty b)]
      rfl
    rw [e, mentions_append _ _ _ hn (hl b)]
    rcases List.mem_cons.mp ha with rfl | hm
    · omega
    · have := ih hm
      omega

/-- The text of SampleTexture ends with a line end. -/
theorem SampleTexture_endsLine (texcoords texswap : String) (texmap : Nat) (stereo : Bool)
    (api_type : APIType) :
    endsLine (emitted (fun o => SampleTexture o texcoords texswap texmap stereo api_type)) =
      true := by
  unfold emitted SampleTexture
  simp only [ShaderCode.Write_text, ShaderCode.SetConstantsUsed_text, ShaderCode.text_ite,
    ShaderCode.empty_text, String.empty_append, String.append_assoc]
  apply endsLine_ite <;>
    (repeat' first
      | with_reducible apply endsLine_append) <;> decide

/-- The sample of a referenced indirect stage: the coordinate, the opening of the declaration
and the texture sample. -/
theorem GeneratePixelShaderCode_indirectSample_parts (api_type : APIType) (stereo : Bool)
    (u : pixel_shader_uid_data) (i : Nat) (hbit : u.nIndirectStagesUsed &&& (1 <<< i) ≠ 0) :
    emitted (fun o => GeneratePixelShaderCode_indirectSample o api_type stereo u i) =
      (if u.GetTevindirefCoord i < u.genMode_numtexgens then
        "\ttempcoord = fixpoint_uv" ++ toString (u.GetTevindirefCoord i) ++ " >> " ++
          I_INDTEXSCALE ++ "[" ++ toString (i / 2) ++ "]." ++
          (if i &&& 1 ≠ 0 then "zw" else "xy") ++ ";\n"
      else "\ttempcoord = int2(0, 0);\n") ++
      (sampleDeclarationText i ++
        emitted (fun o => SampleTexture o "float2(tempcoord)" "abg" (u.GetTevindirefMap i)
          stereo api_type)) := by
  unfold sampleDeclarationText
  show (GeneratePixelShaderCode_indirectSample ShaderCode.empty api_type stereo u i).text = _
  unfold GeneratePixelShaderCode_indirectSample
  rw [if_pos hbit]
  simp only [ShaderCode.Write_text, ShaderCode.SetConstantsUsed_text, ShaderCode.text_ite,
    ShaderCode.empty_text, String.empty_append, String.append_assoc, SampleTexture_text]

/-- The sample of an indirect stage is empty or ends with a line end. -/
theorem GeneratePixelShaderCode_indirectSample_lineAligned (api_type : APIType)
    (stereo : Bool) (u : pixel_shader_uid_data) (i : Nat) :
    lineAligned (emitted (fun o => GeneratePixelShaderCode_indirectSample o api_type stereo u
      i)) = true := by
  by_cases hbit : u.nIndirectStagesUsed &&& (1 <<< i) ≠ 0
  · rw [GeneratePixelShaderCode_indirectSample_parts api_type stereo u i hbit]
    exact lineAligned_of_endsLine _ (endsLine_append _ _ (endsLine_append _ _
      (SampleTexture_endsLine _ _ _ _ _)))
  · show lineAligned
      (GeneratePixelShaderCode_indirectSample ShaderCode.empty api_type stereo u i).text = true
    unfold GeneratePixelShaderCode_indirectSample
    rw [if_neg hbit]
    decide

/-- The loop of lines 792-813 declares the sample of every indirect stage below
genMode_numindstages whose bit of nIndirectStagesUsed is set. -/
theorem GeneratePixelShaderCode_indirectSamples_declares (api_type : APIType)
    (stereo : Bool) (u : pixel_shader_uid_data) (k : Nat) (hk : k < u.genMode_numindstages)
    (hbit : u.nIndirectStagesUsed &&& (1 <<< k) ≠ 0) :
    0 < mentions (sampleDeclarationText k)
      (emitted (fun o => GeneratePixelShaderCode_indirectSamples o api_type stereo u)) := by
  have hn : ∀ c ∈ (sampleDeclarationText k).toList, c ≠ '\n' := by
    unfold sampleDeclarationText
    simp only [String.toList, String.data_append, List.mem_append]
    rintro c ((hc | hc) | hc)
    · revert c; decide
    · intro e
      have := toString_nat_digits k c hc
      rw [e] at this
      exact absurd this (by decide)
    · revert c; decide
  have hne : (sampleDeclarationText k).toList ≠ [] := by
    unfold sampleDeclarationText
    simp only [String.toList, String.data_append]
    intro e
    have := congrArg List.length e
    simp at this
  have hstep : 0 < mentions (sampleDeclarationText k)
      (emitted (fun o => GeneratePixelShaderCode_indirectSample o api_type stereo u k)) := by
    rw [GeneratePixelShaderCode_indirectSample_parts api_type stereo u k hbit,
      mentions_append _ _ _ hn]
    · have := mentions_prefix_pos (sampleDeclarationText k)
        (emitted (fun o => SampleTexture o "float2(tempcoord)" "abg" (u.GetTevindirefMap k)
          stereo api_type)) hne
      omega
    · apply lineAligned_ite
      · exact lineAligned_of_endsLine _ (endsLine_append _ _ (by decide))
      · decide
  unfold GeneratePixelShaderCode_indirectSamples
  have := foldl_mentions_le
    (fun (out : ShaderCode) i => GeneratePixelShaderCode_indirectSample out api_type stereo u i)
    (fun out a => GeneratePixelShaderCode_indirectSample_text out api_type stereo u a)
    (fun a => GeneratePixelShaderCode_indirectSample_lineAligned api_type stereo u a)
    (sampleDeclarationText k) hn (List.range u.genMode_numindstages) k
    (List.mem_range.mpr hk)
  exact Nat.lt_of_lt_of_le hstep this

/-- C36. Indirect samples are declared before use.  For the UID GetPixelShaderUid builds, a
stage's indirect operation being active iff its bump-alpha selector is not OFF or its matrix
id is not 0, and every stage n of the snapshot: every occurrence of iindtex in the text
WriteStage emits for stage n is one of iindtex followed by bt and a dot or a blank, bt being
the indirect stage id of the register of the stage; and when there is one, bt is below
genMode_numindstages, bit bt of nIndirectStagesUsed is set, and the loop of lines 792-813
writes the declaration of iindtex bt.  No bit of nIndirectStagesUsed at or above
genMode_numindstages is set. -/
theorem WriteStage_indirect_samples_declared (L : UidLayout) (g : Globals)
    (hact : ∀ i, (g.bpmem.tevind i).IsActive = true ↔
      ((g.bpmem.tevind i).bs ≠ ITBA_OFF ∨ (g.bpmem.tevind i).mid ≠ 0))
    (n : Nat) (hn : n ≤ g.bpmem.genMode.numtevstages) (hn16 : n < 16)
    (bugs : DriverDetails) (api_type : APIType) (stereo : Bool) :
    mentions "iindtex"
        (emitted (fun o => WriteStage bugs o (GetPixelShaderUid L g) n api_type stereo)) =
      mentions ("iindtex" ++ toString (stageRegister (GetPixelShaderUid L g) n).bt ++ ".")
          (emitted (fun o => WriteStage bugs o (GetPixelShaderUid L g) n api_type stereo)) +
        mentions ("iindtex" ++ toString (stageRegister (GetPixelShaderUid L g) n).bt ++ " ")
          (emitted (fun o => WriteStage bugs o (GetPixelShaderUid L g) n api_type stereo)) ∧
    (0 < mentions "iindtex"
        (emitted (fun o => WriteStage bugs o (GetPixelShaderUid L g) n api_type stereo)) →
      (stageRegister (GetPixelShaderUid L g) n).bt < (GetPixelShaderUid L g).genMode_numindstages ∧
      (GetPixelShaderUid L g).nIndirectStagesUsed &&&
        (1 <<< (stageRegister (GetPixelShaderUid L g) n).bt) ≠ 0 ∧
      0 < mentions (sampleDeclarationText (stageRegister (GetPixelShaderUid L g) n).bt)
        (emitted (fun o => GeneratePixelShaderCode_indirectSamples o api_type stereo
          (GetPixelShaderUid L g)))) ∧
    (∀ k, (GetPixelShaderUid L g).genMode_numindstages ≤ k →
      (GetPixelShaderUid L g).nIndirectStagesUsed &&& (1 <<< k) = 0) := by
  have hstage : (GetPixelShaderUid L g).stagehash.getD n default =
      GetPixelShaderUid_stage g.bpmem n StageHash.zero := by
    rw [GetPixelShaderUid_stagehash_getD, if_pos ⟨by omega, hn16⟩]
  obtain ⟨hind, htev⟩ := GetPixelShaderUid_stage_indirect g.bpmem n
  obtain ⟨n1, n2, n3⟩ := isSampleName_iindtex (stageRegister (GetPixelShaderUid L g) n).bt
    (TevStageIndirect.bt_lt _)
  have m1 := WriteStage_mentions_sample bugs (GetPixelShaderUid L g) n api_type stereo _ n1
  have m2 := WriteStage_mentions_sample bugs (GetPixelShaderUid L g) n api_type stereo _ n2
  have m3 := WriteStage_mentions_sample bugs (GetPixelShaderUid L g) n api_type stereo _ n3
  obtain ⟨a1, a2, a3⟩ := WriteStage_alphabump_reads (stageRegister (GetPixelShaderUid L g) n)
  obtain ⟨r1, r2, r3⟩ := sampleReadText_reads (stageRegister (GetPixelShaderUid L g) n)
  have hreg : (TevStageIndirect.mk ((GetPixelShaderUid L g).stagehash.getD n default).tevind
      false) = stageRegister (GetPixelShaderUid L g) n := rfl
  rw [hreg] at m1 m2 m3
  rw [a1, r1] at m1
  rw [a2, r2] at m2
  rw [a3, r3] at m3
  refine ⟨?_, ?_, ?_⟩
  · rw [m1, m2, m3]
    split_ifs <;> omega
  · intro hpos
    rw [m1] at hpos
    have hi : ((GetPixelShaderUid L g).stagehash.getD n default).hasindstage = true := by
      by_contra hc
      rw [if_neg hc] at hpos
      exact Nat.lt_irrefl 0 hpos
    rw [if_pos hi] at hpos
    have hlt : (g.bpmem.tevind n).bt < g.bpmem.genMode.numindstages := by
      rw [hstage, hind] at hi
      exact of_decide_eq_true hi
    have hhex : (stageRegister (GetPixelShaderUid L g) n).hex = (g.bpmem.tevind n).hex := by
      show ((GetPixelShaderUid L g).stagehash.getD n default).tevind = _
      rw [hstage, htev, if_pos hlt]
    have hbt : (stageRegister (GetPixelShaderUid L g) n).bt = (g.bpmem.tevind n).bt := by
      unfold TevStageIndirect.bt; rw [hhex]
    have hbs : (stageRegister (GetPixelShaderUid L g) n).bs = (g.bpmem.tevind n).bs := by
      unfold TevStageIndirect.bs; rw [hhex]
    have hmid : (stageRegister (GetPixelShaderUid L g) n).mid = (g.bpmem.tevind n).mid := by
      unfold TevStageIndirect.mid; rw [hhex]
    have hactive : (g.bpmem.tevind n).IsActive = true := by
      rw [hact n, ← hbs, ← hmid]
      by_contra hc
      rw [not_or] at hc
      rw [if_neg hc.1, if_neg hc.2] at hpos
      exact Nat.lt_irrefl 0 hpos
    have hk : (stageRegister (GetPixelShaderUid L g) n).bt <
        (GetPixelShaderUid L g).genMode_numindstages := by
      rw [GetPixelShaderUid_genMode_numindstages, hbt]
      exact hlt
    have hbit : (GetPixelShaderUid L g).nIndirectStagesUsed &&&
        (1 <<< (stageRegister (GetPixelShaderUid L g) n).bt) ≠ 0 := by
      rw [and_one_shiftLeft_ne_zero, GetPixelShaderUid_nIndirectStagesUsed_testBit, hbt]
      exact ⟨hlt, n, hn, hactive, rfl⟩
    exact ⟨hk, hbit,
      GeneratePixelShaderCode_indirectSamples_declares api_type stereo _ _ hk hbit⟩
  · intro k hk
    by_contra hc
    have hc2 : (GetPixelShaderUid L g).nIndirectStagesUsed &&& (1 <<< k) ≠ 0 := hc
    rw [and_one_shiftLeft_ne_zero, GetPixelShaderUid_nIndirectStagesUsed_testBit] at hc2
    rw [GetPixelShaderUid_genMode_numindstages] at hk
    omega

/-- The sample register of the witness is active. -/
theorem snapshotIndirect_active (i : Nat) :
    (snapshotIndirect.bpmem.tevind i).IsActive = true ↔
      ((snapshotIndirect.bpmem.tevind i).bs ≠ ITBA_OFF ∨
        (snapshotIndirect.bpmem.tevind i).mid ≠ 0) := by
  show (tevindOfMid 1).IsActive = true ↔
    ((tevindOfMid 1).bs ≠ ITBA_OFF ∨ (tevindOfMid 1).mid ≠ 0)
  decide

set_option maxRecDepth 1000000 in
/-- Stage 0 of a snapshot with one indirect stage and the offset matrix 1: the stage reads
iindtex0, bit 0 of nIndirectStagesUsed is set, and the loop declares iindtex0. -/
theorem WriteStage_indirect_samples_declared_witness :
    (0 ≤ snapshotIndirect.bpmem.genMode.numtevstages ∧ 0 < 16) ∧
    (stageRegister (GetPixelShaderUid layoutExample snapshotIndirect) 0).bt = 0 ∧
    (GetPixelShaderUid layoutExample snapshotIndirect).nIndirectStagesUsed = 1 ∧
    emitted (fun o => GeneratePixelShaderCode_indirectSamples o APIType.OpenGL false
        (GetPixelShaderUid layoutExample snapshotIndirect)) =
      "\ttempcoord = int2(0, 0);\n\tint3 iindtex0 = " ++
        "iround(255.0 * texture(samp[0], float3(float2(tempcoord).xy * texdim[0].xy, " ++
        "0.0))).abg;\n" ∧
    mentions "iindtex"
        (emitted (fun o => WriteStage driverSound o
          (GetPixelShaderUid layoutExample snapshotIndirect) 0 APIType.OpenGL false)) =
      mentions ("iindtex" ++
          toString (stageRegister (GetPixelShaderUid layoutExample snapshotIndirect) 0).bt ++
          ".")
          (emitted (fun o => WriteStage driverSound o
            (GetPixelShaderUid layoutExample snapshotIndirect) 0 APIType.OpenGL false)) +
        mentions ("iindtex" ++
          toString (stageRegister (GetPixelShaderUid layoutExample snapshotIndirect) 0).bt ++
          " ")
          (emitted (fun o => WriteStage driverSound o
            (GetPixelShaderUid layoutExample snapshotIndirect) 0 APIType.OpenGL false)) :=
  ⟨⟨by decide, by decide⟩, by decide, by decide, by decide,
    (WriteStage_indirect_samples_declared layoutExample snapshotIndirect
      snapshotIndirect_active 0 (by decide) (by decide) driverSound APIType.OpenGL false).1⟩

/-! ## The texture coordinates a stage refers to -/

/-- What a coordinate name is, by parts. -/
theorem isCoordName_parts (needle : String) (h : isCoordName needle = true) :
    (∀ c ∈ needle.toList, c ≠ '\n') ∧ hasBigram 'u' 'v' needle.toList = true ∧
    (∀ c ∈ needle.toList.dropLast, c ≠ ' ') ∧ (∀ c ∈ needle.toList.dropLast, c ≠ '(') ∧
    (∀ c ∈ needle.toList.dropLast, c ≠ '.') ∧ (∀ c ∈ needle.toList.dropLast, c ≠ ';') := by
  unfold isCoordName at h
  simp only [Bool.and_eq_true, List.all_eq_true, bne_iff_ne, ne_eq] at h
  exact ⟨h.1.1, h.1.2, fun c hc => (h.2 c hc).1.1.1, fun c hc => (h.2 c hc).1.1.2,
    fun c hc => (h.2 c hc).1.2, fun c hc => (h.2 c hc).2⟩

/-- The occurrences of a name with the pair u v in a use U of a coordinate, set between a
text that ends with c and a text that follows the d at the end of U, neither with the pair,
are its occurrences in U. -/
theorem mentions_use (c d : Char) (needle P U R : String)
    (huv : hasBigram 'u' 'v' needle.toList = true)
    (hc : ∀ x ∈ needle.toList.dropLast, x ≠ c) (hd : ∀ x ∈ needle.toList.dropLast, x ≠ d)
    (hP : endsIn c P = true) (hPc : clean 'u' 'v' P = true) (hU : endsIn d U = true)
    (hR : clean 'u' 'v' R = true) :
    mentions needle (P ++ (U ++ R)) = mentions needle U := by
  rw [mentions_append_of_last c _ _ _ hc hP, mentions_append_of_last d _ _ _ hd hU,
    mentions_eq_zero 'u' 'v' _ P huv hPc, mentions_eq_zero 'u' 'v' _ R huv hR]
  omega

/-- The name of a coordinate followed by a character ends with that character. -/
theorem coordName_endsIn (k : Nat) :
    endsIn '.' (coordName k ".") = true ∧ endsIn ';' (coordName k ";") = true ∧
    endsIn ' ' (coordName k " ") = true := by
  unfold coordName
  exact ⟨endsIn_append _ _ _ (by decide), endsIn_append _ _ _ (by decide),
    endsIn_append _ _ _ (by decide)⟩

/-- The entries of the wrap table have no u v. -/
theorem tev_ind_wrap_start_clean_coord (i : Nat) :
    clean 'u' 'v' (tev_ind_wrap_start.getD i "") = true := by
  apply clean_getD
  · decide
  · decide

/-- The wrapped S coordinate refers to the coordinate of the stage followed by a dot, unless
the selector is ITW_0, and to no other. -/
theorem wrapLineS_uses (tc sw : Nat) :
    (∃ a : Nat, ∀ needle, isCoordName needle = true →
      mentions needle (wrapLineS tc sw) = a * mentions needle (coordName tc ".")) ∧
    endsLine (wrapLineS tc sw) = true := by
  have e1 : ("\twrappedcoord.x = fixpoint_uv" : String) = "\twrappedcoord.x = " ++ "fixpoint_uv" :=
    by decide
  have e2 : (".x & (" : String) = "." ++ "x & (" := by decide
  have e3 : (".x;\n" : String) = "." ++ "x;\n" := by decide
  unfold wrapLineS wrapLookup
  by_cases h1 : (sw == ITW_OFF) = true
  · simp only [h1, if_true]
    refine ⟨⟨1, fun needle hN => ?_⟩, endsLine_append _ _ (by decide)⟩
    obtain ⟨hn, huv, hsp, hbr, hdot, hsc⟩ := isCoordName_parts needle hN
    rw [e1, e3, Nat.one_mul]
    simp only [String.append_assoc]
    have := mentions_use ' ' '.' needle "\twrappedcoord.x = " (coordName tc ".") "x;\n" huv hsp
      hdot (by decide) (by decide) (coordName_endsIn tc).1 (by decide)
    unfold coordName at this ⊢
    simpa only [String.append_assoc] using this
  · by_cases h2 : (sw == ITW_0) = true
    · simp only [h1, h2, if_true, if_false, Bool.false_eq_true]
      refine ⟨⟨0, fun needle hN => ?_⟩, by decide⟩
      obtain ⟨hn, huv, hsp, hbr, hdot, hsc⟩ := isCoordName_parts needle hN
      rw [Nat.zero_mul]
      exact mentions_eq_zero 'u' 'v' _ _ huv (by decide)
    · simp only [h1, h2, if_false, Bool.false_eq_true]
      refine ⟨⟨1, fun needle hN => ?_⟩,
        endsLine_append _ _ (by decide)⟩
      obtain ⟨hn, huv, hsp, hbr, hdot, hsc⟩ := isCoordName_parts needle hN
      rw [e1, e2, Nat.one_mul]
      simp only [String.append_assoc]
      have := mentions_use ' ' '.' needle "\twrappedcoord.x = " (coordName tc ".")
        ("x & (" ++ (tev_ind_wrap_start.getD sw "" ++ " - 1);\n")) huv hsp
        hdot (by decide) (by decide) (coordName_endsIn tc).1
        (clean_append _ _ _ _ (by decide)
          (clean_append _ _ _ _ (tev_ind_wrap_start_clean_coord sw) (by decide)))
      unfold coordName at this ⊢
      simpa only [String.append_assoc] using this

/-- The wrapped T coordinate refers to the coordinate of the stage followed by a dot, unless
the selector is ITW_0, and to no other. -/
theorem wrapLineT_uses (tc tw : Nat) :
    (∃ a : Nat, ∀ needle, isCoordName needle = true →
      mentions needle (wrapLineT tc tw) = a * mentions needle (coordName tc ".")) ∧
    endsLine (wrapLineT tc tw) = true := by
  have e1 : ("\twrappedcoord.y = fixpoint_uv" : String) = "\twrappedcoord.y = " ++ "fixpoint_uv" :=
    by decide
  have e2 : (".y & (" : String) = "." ++ "y & (" := by decide
  have e3 : (".y;\n" : String) = "." ++ "y;\n" := by decide
  unfold wrapLineT wrapLookup
  by_cases h1 : (tw == ITW_OFF) = true
  · simp only [h1, if_true]
    refine ⟨⟨1, fun needle hN => ?_⟩, endsLine_append _ _ (by decide)⟩
    obtain ⟨hn, huv, hsp, hbr, hdot, hsc⟩ := isCoordName_parts needle hN
    rw [e1, e3, Nat.one_mul]
    simp only [String.append_assoc]
    have := mentions_use ' ' '.' needle "\twrappedcoord.y = " (coordName tc ".") "y;\n" huv hsp
      hdot (by decide) (by decide) (coordName_endsIn tc).1 (by decide)
    unfold coordName at this ⊢
    simpa only [String.append_assoc] using this
  · by_cases h2 : (tw == ITW_0) = true
    · simp only [h1, h2, if_true, if_false, Bool.false_eq_true]
      refine ⟨⟨0, fun needle hN => ?_⟩, by decide⟩
      obtain ⟨hn, huv, hsp, hbr, hdot, hsc⟩ := isCoordName_parts needle hN
      rw [Nat.zero_mul]
      exact mentions_eq_zero 'u' 'v' _ _ huv (by decide)
    · simp only [h1, h2, if_false, Bool.false_eq_true]
      refine ⟨⟨1, fun needle hN => ?_⟩,
        endsLine_append _ _ (by decide)⟩
      obtain ⟨hn, huv, hsp, hbr, hdot, hsc⟩ := isCoordName_parts needle hN
      rw [e1, e2, Nat.one_mul]
      simp only [String.append_assoc]
      have := mentions_use ' ' '.' needle "\twrappedcoord.y = " (coordName tc ".")
        ("y & (" ++ (tev_ind_wrap_start.getD tw "" ++ " - 1);\n")) huv hsp
        hdot (by decide) (by decide) (coordName_endsIn tc).1
        (clean_append _ _ _ _ (by decide)
          (clean_append _ _ _ _ (tev_ind_wrap_start_clean_coord tw) (by decide)))
      unfold coordName at this ⊢
      simpa only [String.append_assoc] using this

/-- The wrapped coordinate of a stage refers to the coordinate of the stage followed by a dot
and to no other. -/
theorem WriteStage_wrap_uses (tevind : TevStageIndirect) (tc : Nat) :
    ∃ a : Nat, ∀ needle, isCoordName needle = true →
      mentions needle (emitted (fun o => WriteStage_wrap o tevind tc)) =
        a * mentions needle (coordName tc ".") := by
  obtain ⟨⟨a, ha⟩, hl⟩ := wrapLineS_uses tc tevind.sw
  obtain ⟨⟨b, hb⟩, _⟩ := wrapLineT_uses tc tevind.tw
  refine ⟨a + b, fun needle hN => ?_⟩
  rw [WriteStage_wrap_lines, mentions_append _ _ _ (isCoordName_parts needle hN).1
    (lineAligned_of_endsLine _ hl), ha needle hN, hb needle hN, Nat.add_mul]

/-- The product of the indirect coordinate with the texture coordinate refers once to the
coordinate of the stage followed by a blank and to no other. -/
theorem WriteStage_indmtx_scale_uses (bugs : DriverDetails) (n : Nat)
    (tevind : TevStageIndirect) (tc base : Nat) (component : String)
    (hc : clean 'u' 'v' component = true) (needle : String)
    (hN : isCoordName needle = true) :
    mentions needle
      (emitted (fun o => WriteStage_indmtx_scale bugs o n tevind tc base component)) =
      mentions needle (coordName tc " ") := by
  obtain ⟨hn, huv, hsp, hbr, hdot, hsc⟩ := isCoordName_parts needle hN
  have e1 : (" = int2(fixpoint_uv" : String) = " = int2(" ++ "fixpoint_uv" := by decide
  have e2 : (" * iindtevcrd" : String) = " " ++ "* iindtevcrd" := by decide
  have e : emitted (fun o => WriteStage_indmtx_scale bugs o n tevind tc base component) =
      ("\tint2 indtevtrans" ++ (toString n ++ " = int2(")) ++ (coordName tc " " ++
      ("* iindtevcrd" ++ toString n ++ "." ++ component ++ ") >> 8;\n" ++
      (if bugs.BUG_BROKEN_BITWISE_OP_NEGATION = true then
        "\tint  indtexmtx_w_inverse_" ++ toString n ++ " = -" ++ I_INDTEXMTX ++
          "[" ++ toString (u32 (2 * ((tevind.mid : Int) - base))) ++ "].w;\n" ++
          indtevtrans_shift_right n (u32 (2 * ((tevind.mid : Int) - base))) ++
          ("\telse indtevtrans" ++ toString n ++ " <<= (indtexmtx_w_inverse_" ++ toString n ++
            ");\n")
      else
        indtevtrans_shift_right n (u32 (2 * ((tevind.mid : Int) - base))) ++
          ("\telse indtevtrans" ++ toString n ++ " <<= (-" ++ I_INDTEXMTX ++ "[" ++
            toString (u32 (2 * ((tevind.mid : Int) - base))) ++ "].w);\n")))) := by
    unfold emitted WriteStage_indmtx_scale coordName
    cases bugs.BUG_BROKEN_BITWISE_OP_NEGATION <;>
      simp only [ShaderCode.Write_text, ShaderCode.SetConstantsUsed_text,
        ShaderCode.empty_text, String.empty_append, String.append_assoc, if_true, if_false,
        Bool.false_eq_true, e1, e2]
  rw [e]
  apply mentions_use '(' ' ' needle _ _ _ huv hbr hsp
    (endsIn_append _ _ _ (endsIn_append _ _ _ (by decide))) _ (coordName_endsIn tc).2.2
  · repeat' first
      | with_reducible apply clean_append
      | with_reducible apply clean_ite
      | with_reducible apply clean_toString
      | with_reducible apply indtevtrans_shift_right_clean _ _ isMark_coord
      | with_reducible exact hc
    all_goals decide
  · repeat' first
      | with_reducible apply clean_append
      | with_reducible apply clean_toString
    all_goals decide

/-- The offset a matrix id other than 0 gives refers to the coordinate of the stage followed
by a blank and to no other. -/
theorem WriteStage_indmtx_uses (bugs : DriverDetails) (n : Nat)
    (tevind : TevStageIndirect) (tc : Nat) (has_tex_coord : Bool) :
    ∃ a : Nat, ∀ needle, isCoordName needle = true →
      mentions needle
        (emitted (fun o => WriteStage_indmtx bugs o n tevind tc has_tex_coord)) =
        a * mentions needle (coordName tc " ") := by
  unfold emitted WriteStage_indmtx
  split
  · refine ⟨0, fun needle hN => ?_⟩
    rw [Nat.zero_mul]
    exact mentions_eq_zero 'u' 'v' _ _ (isCoordName_parts needle hN).2.1
      (WriteStage_indmtx_offset_clean _ _ isMark_coord bugs n tevind)
  · split
    · refine ⟨1, fun needle hN => ?_⟩
      rw [Nat.one_mul]
      exact WriteStage_indmtx_scale_uses bugs n tevind tc 5 "xx" (by decide) needle hN
    · split
      · refine ⟨1, fun needle hN => ?_⟩
        rw [Nat.one_mul]
        exact WriteStage_indmtx_scale_uses bugs n tevind tc 9 "yy" (by decide) needle hN
      · refine ⟨0, fun needle hN => ?_⟩
        rw [Nat.zero_mul]
        simp only [ShaderCode.Write_text, ShaderCode.empty_text, String.empty_append]
        apply mentions_eq_zero 'u' 'v' _ _ (isCoordName_parts needle hN).2.1
        repeat' first
          | with_reducible apply clean_append
          | with_reducible apply clean_toString
        all_goals decide

/-- The offset of a stage refers to the coordinate of the stage followed by a blank and to no
other. -/
theorem stageOffsetText_uses (bugs : DriverDetails) (n : Nat)
    (tevind : TevStageIndirect) (tc : Nat) (has_tex_coord : Bool) :
    ∃ a : Nat, ∀ needle, isCoordName needle = true →
      mentions needle (stageOffsetText bugs n tevind tc has_tex_coord) =
        a * mentions needle (coordName tc " ") := by
  unfold stageOffsetText
  by_cases h : tevind.mid ≠ 0
  · rw [if_pos h]
    obtain ⟨a, ha⟩ := WriteStage_indmtx_uses bugs n tevind tc has_tex_coord
    refine ⟨a, fun needle hN => ?_⟩
    obtain ⟨hn, huv, _⟩ := isCoordName_parts needle hN
    rw [mentions_append _ _ _ hn (lineAligned_of_endsLine _
        (WriteStage_indcoord_mentions_sample n tevind "iindtex" (by decide)).2),
      mentions_eq_zero 'u' 'v' _ _ huv (WriteStage_indcoord_clean _ _ isMark_coord n tevind),
      ha needle hN, Nat.zero_add]
  · rw [if_neg h]
    refine ⟨0, fun needle hN => ?_⟩
    rw [Nat.zero_mul]
    apply mentions_eq_zero 'u' 'v' _ _ (isCoordName_parts needle hN).2.1
    repeat' first
      | with_reducible apply clean_append
      | with_reducible apply clean_toString
    all_goals decide

/-- The indirect operation of a stage refers to the coordinate of the stage, followed by a
blank in the offset and by a dot in the wrapped coordinate, and to no other. -/
theorem WriteStage_indirect_uses (bugs : DriverDetails) (n : Nat)
    (tevind : TevStageIndirect) (tc : Nat) (has_tex_coord : Bool) :
    ∃ a b : Nat, ∀ needle, isCoordName needle = true →
      mentions needle
          (emitted (fun o => WriteStage_indirect bugs o n tevind tc has_tex_coord)) =
        a * mentions needle (coordName tc " ") + b * mentions needle (coordName tc ".") := by
  obtain ⟨a, ha⟩ := stageOffsetText_uses bugs n tevind tc has_tex_coord
  obtain ⟨b, hb⟩ := WriteStage_wrap_uses tevind tc
  refine ⟨a, b, fun needle hN => ?_⟩
  obtain ⟨hn, huv, _⟩ := isCoordName_parts needle hN
  rw [WriteStage_indirect_parts_general,
    mentions_append _ _ _ hn (by decide),
    mentions_append _ _ _ hn (WriteStage_alphabump_lineAligned tevind),
    mentions_append _ _ _ hn (lineAligned_of_endsLine _
      (stageOffsetText_mentions_sample bugs n tevind tc has_tex_coord "iindtex"
        (by decide)).2),
    mentions_append _ _ _ hn (lineAligned_of_endsLine _ (WriteStage_wrap_endsLine tevind tc)),
    ha needle hN, hb needle hN,
    mentions_eq_zero 'u' 'v' _ "\t// indirect op\n" huv (by decide),
    mentions_eq_zero 'u' 'v' _ _ huv (WriteStage_alphabump_clean _ _ isMark_coord tevind),
    mentions_eq_zero 'u' 'v' _ (_ ++ s24Text) huv
      (clean_append _ _ _ _ (tevcoordUpdateText_clean _ _ isMark_coord _ _) (by decide))]
  omega

/-- The texture sample of a stage refers to the coordinate of the stage followed by a
semicolon and to no other, and ends with a line end. -/
theorem WriteStage_tex_uses (stage : StageHash) (tc : Nat) (has_tex_coord stereo : Bool)
    (api_type : APIType) :
    (∃ c : Nat, ∀ needle, isCoordName needle = true →
      mentions needle
          (emitted (fun o => WriteStage_tex o stage tc has_tex_coord stereo api_type)) =
        c * mentions needle (coordName tc ";")) ∧
    endsLine (emitted (fun o => WriteStage_tex o stage tc has_tex_coord stereo api_type)) =
      true := by
  have e1 : ("\ttevcoord.xy = fixpoint_uv" : String) = "\ttevcoord.xy = " ++ "fixpoint_uv" :=
    by decide
  have e2 : (";\n" : String) = ";" ++ "\n" := by decide
  have hs : endsLine (emitted (fun o => SampleTexture o "float2(tevcoord.xy + (1 << 6))"
      (String.mk [swapChar stage.tevksel_swap1c, swapChar stage.tevksel_swap2c,
        swapChar stage.tevksel_swap1d, swapChar stage.tevksel_swap2d])
      stage.tevorders_texmap stereo api_type)) = true := SampleTexture_endsLine _ _ _ _ _
  have hc : clean 'u' 'v' (emitted (fun o => SampleTexture o "float2(tevcoord.xy + (1 << 6))"
      (String.mk [swapChar stage.tevksel_swap1c, swapChar stage.tevksel_swap2c,
        swapChar stage.tevksel_swap1d, swapChar stage.tevksel_swap2d])
      stage.tevorders_texmap stereo api_type)) = true :=
    SampleTexture_clean _ _ isMark_coord _ _ _ _ _ (by decide) (clean_swap _ _ isMark_coord _ _ _ _)
  unfold emitted WriteStage_tex
  cases he : stage.tevorders_enable
  · simp only [Bool.false_eq_true, if_false, ShaderCode.Write_text, ShaderCode.empty_text,
      String.empty_append]
    refine ⟨⟨0, fun needle hN => ?_⟩, by decide⟩
    rw [Nat.zero_mul]
    exact mentions_eq_zero 'u' 'v' _ _ (isCoordName_parts needle hN).2.1 (by decide)
  · cases hi : stage.hasindstage
    · cases has_tex_coord
      · simp only [Bool.false_eq_true, if_false, if_true, Bool.not_false, ShaderCode.Write_text,
          ShaderCode.empty_text, String.empty_append, SampleTexture_text, String.append_assoc]
        refine ⟨⟨0, fun needle hN => ?_⟩, endsLine_append _ _ (endsLine_append _ _ hs)⟩
        rw [Nat.zero_mul]
        exact mentions_eq_zero 'u' 'v' _ _ (isCoordName_parts needle hN).2.1
          (clean_append _ _ _ _ (by decide) (clean_append _ _ _ _ (by decide) hc))
      · simp only [Bool.false_eq_true, if_false, if_true, Bool.not_false, ShaderCode.Write_text,
          ShaderCode.empty_text, String.empty_append, SampleTexture_text, String.append_assoc]
        refine ⟨⟨1, fun needle hN => ?_⟩,
          endsLine_append _ _ (endsLine_append _ _ (endsLine_append _ _
            (endsLine_append _ _ hs)))⟩
        obtain ⟨hn, huv, hsp, hbr, hdot, hsc⟩ := isCoordName_parts needle hN
        rw [e1, e2, Nat.one_mul]
        simp only [String.append_assoc]
        have := mentions_use ' ' ';' needle "\ttevcoord.xy = " (coordName tc ";")
          ("\n" ++ ("\ttextemp = " ++ emitted (fun o => SampleTexture o
            "float2(tevcoord.xy + (1 << 6))"
            (String.mk [swapChar stage.tevksel_swap1c, swapChar stage.tevksel_swap2c,
              swapChar stage.tevksel_swap1d, swapChar stage.tevksel_swap2d])
            stage.tevorders_texmap stereo api_type))) huv hsp
          hsc (by decide) (by decide) (coordName_endsIn tc).2.1
          (clean_append _ _ _ _ (by decide) (clean_append _ _ _ _ (by decide) hc))
        unfold coordName at this
        simpa only [String.append_assoc] using this
    · simp only [Bool.false_eq_true, if_false, if_true, Bool.not_true, ShaderCode.Write_text,
        ShaderCode.empty_text, String.empty_append, SampleTexture_text, String.append_assoc]
      refine ⟨⟨0, fun needle hN => ?_⟩, endsLine_append _ _ hs⟩
      rw [Nat.zero_mul]
      exact mentions_eq_zero 'u' 'v' _ _ (isCoordName_parts needle hN).2.1
        (clean_append _ _ _ _ (by decide) hc)

/-- The rasterised colour of a stage is empty or ends with a line end. -/
theorem WriteStage_ras_lineAligned (stage : StageHash) (cc : ColorCombiner)
    (ac : AlphaCombiner) :
    lineAligned (emitted (fun o => WriteStage_ras o stage cc ac)) = true := by
  unfold emitted WriteStage_ras
  simp only [ShaderCode.Write_text, ShaderCode.text_ite, ShaderCode.empty_text,
    String.empty_append]
  apply lineAligned_ite
  · exact lineAligned_of_endsLine _ (endsLine_append _ _ (by decide))
  · decide

/-- The text of a stage after its indirect operation refers to the coordinate of the stage
followed by a semicolon and to no other. -/
theorem stageCombineText_uses (stage : StageHash) (tc : Nat) (has_tex_coord stereo : Bool)
    (api_type : APIType) :
    ∃ c : Nat, ∀ needle, isCoordName needle = true →
      mentions needle (stageCombineText stage tc has_tex_coord stereo api_type) =
        c * mentions needle (coordName tc ";") := by
  obtain ⟨⟨c, hc⟩, hl⟩ := WriteStage_tex_uses stage tc has_tex_coord stereo api_type
  refine ⟨c, fun needle hN => ?_⟩
  obtain ⟨hn, huv, _⟩ := isCoordName_parts needle hN
  unfold stageCombineText
  rw [mentions_append _ _ _ hn (WriteStage_ras_lineAligned _ _ _),
    mentions_append _ _ _ hn (lineAligned_of_endsLine _ hl), hc needle hN,
    mentions_eq_zero 'u' 'v' _ _ huv (WriteStage_ras_clean _ _ isMark_coord _ _ _),
    mentions_eq_zero 'u' 'v' _ (_ ++ (_ ++ (_ ++ _))) huv
      (clean_append _ _ _ _ (WriteStage_konst_clean _ _ isMark_coord _ _ _)
      (clean_append _ _ _ _ (WriteStage_inputs_clean _ _ isMark_coord _ _)
      (clean_append _ _ _ _ (WriteStage_colorCombine_clean _ _ isMark_coord _)
      (WriteStage_alphaCombine_clean _ _ isMark_coord _))))]
  omega

/-- The text of a stage refers to the coordinate WriteStage_texcoord gives for the stage,
followed by a blank, a dot or a semicolon, and to no other. -/
theorem WriteStage_uses (bugs : DriverDetails) (u : pixel_shader_uid_data)
    (n : Nat) (api_type : APIType) (stereo : Bool) :
    ∃ a b c : Nat, ∀ needle, isCoordName needle = true →
      mentions needle (emitted (fun o => WriteStage bugs o u n api_type stereo)) =
        a * mentions needle
            (coordName (WriteStage_texcoord u (u.stagehash.getD n default)) " ") +
          b * mentions needle
            (coordName (WriteStage_texcoord u (u.stagehash.getD n default)) ".") +
          c * mentions needle
            (coordName (WriteStage_texcoord u (u.stagehash.getD n default)) ";") := by
  obtain ⟨c, hc⟩ := stageCombineText_uses (u.stagehash.getD n default)
    (WriteStage_texcoord u (u.stagehash.getD n default))
    (decide ((u.stagehash.getD n default).tevorders_texcoord < u.genMode_numtexgens))
    stereo api_type
  have hh : clean 'u' 'v' (stageHeadingText n) = true := by
    unfold stageHeadingText
    repeat' first
      | with_reducible apply clean_append
      | with_reducible apply clean_toString
    all_goals decide
  cases hind : (u.stagehash.getD n default).hasindstage
  · refine ⟨0, 0, c, fun needle hN => ?_⟩
    obtain ⟨hn, huv, _⟩ := isCoordName_parts needle hN
    rw [WriteStage_parts, hind,
      mentions_append _ _ _ hn (lineAligned_of_endsLine _ (stageHeadingText_sample n).2),
      mentions_eq_zero 'u' 'v' _ _ huv hh]
    simp only [Bool.false_eq_true, if_false, String.empty_append]
    rw [hc needle hN]
    omega
  · obtain ⟨a, b, hab⟩ := WriteStage_indirect_uses bugs n
      { hex := (u.stagehash.getD n default).tevind, IsActive := false }
      (WriteStage_texcoord u (u.stagehash.getD n default))
      (decide ((u.stagehash.getD n default).tevorders_texcoord < u.genMode_numtexgens))
    refine ⟨a, b, c, fun needle hN => ?_⟩
    obtain ⟨hn, huv, _⟩ := isCoordName_parts needle hN
    rw [WriteStage_parts, hind,
      mentions_append _ _ _ hn (lineAligned_of_endsLine _ (stageHeadingText_sample n).2),
      mentions_eq_zero 'u' 'v' _ _ huv hh]
    simp only [if_true]
    rw [mentions_append _ _ _ hn (lineAligned_of_endsLine _
        (WriteStage_indirect_mentions_sample bugs n _ _ _ "iindtex" (by decide)).2),
      hab needle hN, hc needle hN]
    omega

/-- The coordinate a stage uses is declared: it is below genMode_numtexgens, or it is 0 and
no generator is enabled. -/
theorem WriteStage_texcoord_declared (u : pixel_shader_uid_data) (stage : StageHash) :
    WriteStage_texcoord u stage < u.genMode_numtexgens ∨
      (WriteStage_texcoord u stage = 0 ∧ u.genMode_numtexgens = 0) := by
  unfold WriteStage_texcoord
  by_cases h : stage.tevorders_texcoord < u.genMode_numtexgens
  · simp only [h, decide_True, Bool.not_true, Bool.false_eq_true, if_false]
    exact Or.inl trivial
  · simp only [h, decide_False, Bool.not_false, if_true]
    rcases Nat.eq_zero_or_pos u.genMode_numtexgens with h0 | h0
    · exact Or.inr ⟨trivial, h0⟩
    · exact Or.inl h0

set_option maxRecDepth 100000 in
/-- The names of the coordinates below 8: each is a coordinate name, has the text
fixpoint_uv once, and has itself once and no name with another character after the index. -/
theorem coordName_mentions (k : Nat) (hk : k < 8) :
    (isCoordName "fixpoint_uv" = true ∧ isCoordName (coordName k " ") = true ∧
      isCoordName (coordName k ".") = true ∧ isCoordName (coordName k ";") = true) ∧
    (mentions "fixpoint_uv" (coordName k " ") = 1 ∧
      mentions "fixpoint_uv" (coordName k ".") = 1 ∧
      mentions "fixpoint_uv" (coordName k ";") = 1) ∧
    (mentions (coordName k " ") (coordName k " ") = 1 ∧
      mentions (coordName k " ") (coordName k ".") = 0 ∧
      mentions (coordName k " ") (coordName k ";") = 0) ∧
    (mentions (coordName k ".") (coordName k " ") = 0 ∧
      mentions (coordName k ".") (coordName k ".") = 1 ∧
      mentions (coordName k ".") (coordName k ";") = 0) ∧
    (mentions (coordName k ";") (coordName k " ") = 0 ∧
      mentions (coordName k ";") (coordName k ".") = 0 ∧
      mentions (coordName k ";") (coordName k ";") = 1) := by
  interval_cases k <;> decide

/-- Every occurrence of fixpoint_uv in the text of a stage is one of the name of the
coordinate of the stage, when that coordinate is below 8. -/
theorem WriteStage_coordinate_counts (bugs : DriverDetails) (u : pixel_shader_uid_data)
    (n : Nat) (api_type : APIType) (stereo : Bool)
    (h8 : WriteStage_texcoord u (u.stagehash.getD n default) < 8) :
    mentions "fixpoint_uv" (emitted (fun o => WriteStage bugs o u n api_type stereo)) =
      mentions (coordName (WriteStage_texcoord u (u.stagehash.getD n default)) " ")
          (emitted (fun o => WriteStage bugs o u n api_type stereo)) +
        mentions (coordName (WriteStage_texcoord u (u.stagehash.getD n default)) ".")
          (emitted (fun o => WriteStage bugs o u n api_type stereo)) +
        mentions (coordName (WriteStage_texcoord u (u.stagehash.getD n default)) ";")
          (emitted (fun o => WriteStage bugs o u n api_type stereo)) := by
  obtain ⟨a, b, c, h⟩ := WriteStage_uses bugs u n api_type stereo
  obtain ⟨⟨n0, n1, n2, n3⟩, ⟨p1, p2, p3⟩, ⟨q1, q2, q3⟩, ⟨r1, r2, r3⟩, ⟨s1, s2, s3⟩⟩ :=
    coordName_mentions _ h8
  rw [h _ n0, h _ n1, h _ n2, h _ n3, p1, p2, p3, q1, q2, q3, r1, r2, r3, s1, s2, s3]
  omega

/-- The sample of an indirect stage refers to a coordinate only when the coordinate stored
for the indirect stage is below genMode_numtexgens, and then to that coordinate followed by a
blank and to no other. -/
theorem GeneratePixelShaderCode_indirectSample_uses (api_type : APIType) (stereo : Bool)
    (u : pixel_shader_uid_data) (i : Nat) :
    (u.GetTevindirefCoord i < u.genMode_numtexgens ∧
      ∀ needle, isCoordName needle = true →
        mentions needle
            (emitted (fun o => GeneratePixelShaderCode_indirectSample o api_type stereo u i)) =
          mentions needle (coordName (u.GetTevindirefCoord i) " ")) ∨
    clean 'u' 'v'
      (emitted (fun o => GeneratePixelShaderCode_indirectSample o api_type stereo u i)) =
      true := by
  have hs : clean 'u' 'v' (sampleDeclarationText i ++
      emitted (fun o => SampleTexture o "float2(tempcoord)" "abg" (u.GetTevindirefMap i)
        stereo api_type)) = true := by
    unfold sampleDeclarationText
    repeat' first
      | with_reducible apply clean_append
      | with_reducible apply clean_toString
      | with_reducible apply SampleTexture_clean _ _ isMark_coord
    all_goals decide
  have e1 : ("\ttempcoord = fixpoint_uv" : String) = "\ttempcoord = " ++ "fixpoint_uv" := by
    decide
  have e2 : (" >> " : String) = " " ++ ">> " := by decide
  by_cases hbit : u.nIndirectStagesUsed &&& (1 <<< i) ≠ 0
  · rw [GeneratePixelShaderCode_indirectSample_parts api_type stereo u i hbit]
    by_cases hc : u.GetTevindirefCoord i < u.genMode_numtexgens
    · refine Or.inl ⟨hc, fun needle hN => ?_⟩
      obtain ⟨hn, huv, hsp, hbr, hdot, hsc⟩ := isCoordName_parts needle hN
      rw [if_pos hc, e1, e2]
      simp only [String.append_assoc]
      have := mentions_use ' ' ' ' needle "\ttempcoord = "
        (coordName (u.GetTevindirefCoord i) " ")
        (">> " ++ (I_INDTEXSCALE ++ ("[" ++ (toString (i / 2) ++ ("]." ++
          ((if i &&& 1 ≠ 0 then "zw" else "xy") ++ (";\n" ++ (sampleDeclarationText i ++
            emitted (fun o => SampleTexture o "float2(tempcoord)" "abg"
              (u.GetTevindirefMap i) stereo api_type)))))))))
        huv hsp hsp (by decide) (by decide) (coordName_endsIn _).2.2
        (by
          repeat' first
            | with_reducible exact hs
            | with_reducible apply clean_append
            | with_reducible apply clean_ite
            | with_reducible apply clean_toString
          all_goals decide)
      unfold coordName at this ⊢
      simpa only [String.append_assoc] using this
    · refine Or.inr ?_
      rw [if_neg hc]
      exact clean_append _ _ _ _ (by decide) hs
  · refine Or.inr ?_
    show clean 'u' 'v'
      (GeneratePixelShaderCode_indirectSample ShaderCode.empty api_type stereo u i).text = true
    unfold GeneratePixelShaderCode_indirectSample
    rw [if_neg hbit]
    decide

/-- The declaration of a coordinate has no line end and is not empty. -/
theorem coordDeclarationText_line (k : Nat) :
    (∀ c ∈ (coordDeclarationText k).toList, c ≠ '\n') ∧
    (coordDeclarationText k).toList ≠ [] := by
  constructor
  · unfold coordDeclarationText
    simp only [String.toList, String.data_append, List.mem_append]
    rintro c ((hc | hc) | hc)
    · revert c; decide
    · intro e
      have := toString_nat_digits k c hc
      rw [e] at this
      exact absurd this (by decide)
    · revert c; decide
  · unfold coordDeclarationText
    simp only [String.toList, String.data_append]
    intro e
    have := congrArg List.length e
    simp at this

/-- The loop of lines 775-790 declares every coordinate below genMode_numtexgens, and the
coordinate 0 when no generator is enabled. -/
theorem GeneratePixelShaderCode_texgens_declares (u : pixel_shader_uid_data) (k : Nat)
    (hk : k < u.genMode_numtexgens ∨ (k = 0 ∧ u.genMode_numtexgens = 0)) :
    0 < mentions (coordDeclarationText k)
      (emitted (fun o => GeneratePixelShaderCode_texgens o u)) := by
  obtain ⟨hn, hne⟩ := coordDeclarationText_line k
  have e1 : (" = int2(" : String) = " = " ++ "int2(" := by decide
  show 0 < mentions (coordDeclarationText k)
    (GeneratePixelShaderCode_texgens ShaderCode.empty u).text
  unfold GeneratePixelShaderCode_texgens
  rcases hk with hk | ⟨rfl, h0⟩
  · have hz : ¬ (u.genMode_numtexgens == 0) = true := by
      simp only [beq_iff_eq]
      omega
    rw [if_neg hz, foldl_text _ _ _ (ShaderCode.empty.SetConstantsUsed _ _)]
    · simp only [ShaderCode.SetConstantsUsed_text, ShaderCode.empty_text, String.empty_append]
      have hstep := foldl_mentions_le
        (fun (out : ShaderCode) (i : Nat) =>
          ((out.Write ("\tint2 fixpoint_uv" ++ toString i ++ " = int2(")).Write
            ("(tex" ++ toString i ++ ".z == 0.0 ? tex" ++ toString i ++
              ".xy : tex" ++ toString i ++ ".xy / tex" ++ toString i ++ ".z)")).Write
            (" * " ++ I_TEXDIMS ++ "[" ++ toString i ++ "].zw);\n"))
        (fun out a => by
          simp only [emitted, ShaderCode.Write_text, ShaderCode.empty_text,
            String.empty_append, String.append_assoc])
        (fun a => by
          simp only [emitted, ShaderCode.Write_text, ShaderCode.empty_text,
            String.empty_append, String.append_assoc]
          apply lineAligned_of_endsLine
          repeat' first
            | with_reducible apply endsLine_append
          all_goals decide)
        (coordDeclarationText k) hn (List.range u.genMode_numtexgens) k
        (List.mem_range.mpr hk)
      refine Nat.lt_of_lt_of_le ?_ hstep
      simp only [emitted, ShaderCode.Write_text, ShaderCode.empty_text, String.empty_append,
        String.append_assoc, e1]
      have := mentions_prefix_pos (coordDeclarationText k)
        ("int2(" ++ ("(tex" ++ (toString k ++ (".z == 0.0 ? tex" ++ (toString k ++
          (".xy : tex" ++ (toString k ++ (".xy / tex" ++ (toString k ++ (".z)" ++
          (" * " ++ (I_TEXDIMS ++ ("[" ++ (toString k ++ "].zw);\n")))))))))))))) hne
      unfold coordDeclarationText at this
      simpa only [String.append_assoc] using this
    · intro out a
      simp only [emitted, ShaderCode.Write_text, ShaderCode.empty_text, String.empty_append,
        String.append_assoc]
  · have hz : (u.genMode_numtexgens == 0) = true := by
      simp only [beq_iff_eq]
      exact h0
    rw [if_pos hz]
    decide

/-- C37. Fixed-point coordinates are declared before use.  For every UID with
genMode_numtexgens from 0 to 8 and every stage n, whatever its texcoord field: the coordinate
k that WriteStage_texcoord gives the stage is below genMode_numtexgens, or is 0 when
genMode_numtexgens is 0; every occurrence of fixpoint_uv in the text WriteStage emits for the
stage is one of fixpoint_uv followed by k and a blank, a dot or a semicolon; and the texture
coordinate block declares fixpoint_uv with index k.  For every indirect stage i whose
pre-sampling text has an occurrence of fixpoint_uv: the coordinate c stored for i is below
genMode_numtexgens, every occurrence is one of fixpoint_uv followed by c and a blank, and the
texture coordinate block declares fixpoint_uv with index c.  In the body of main the texture
coordinate block comes before the pre-sampling loop, which comes before the stages. -/
theorem GeneratePixelShaderCode_coordinates_declared (ext : Externals) (g : Globals)
    (bugs : DriverDetails) (api_type : APIType) (host_config : ShaderHostConfig)
    (u : pixel_shader_uid_data) (hgen : u.genMode_numtexgens ≤ 8) :
    (∀ n : Nat,
      (WriteStage_texcoord u (u.stagehash.getD n default) < u.genMode_numtexgens ∨
        (WriteStage_texcoord u (u.stagehash.getD n default) = 0 ∧
          u.genMode_numtexgens = 0)) ∧
      mentions "fixpoint_uv"
          (emitted (fun o => WriteStage bugs o u n api_type host_config.stereo)) =
        mentions (coordName (WriteStage_texcoord u (u.stagehash.getD n default)) " ")
            (emitted (fun o => WriteStage bugs o u n api_type host_config.stereo)) +
          mentions (coordName (WriteStage_texcoord u (u.stagehash.getD n default)) ".")
            (emitted (fun o => WriteStage bugs o u n api_type host_config.stereo)) +
          mentions (coordName (WriteStage_texcoord u (u.stagehash.getD n default)) ";")
            (emitted (fun o => WriteStage bugs o u n api_type host_config.stereo)) ∧
      0 < mentions (coordDeclarationText (WriteStage_texcoord u (u.stagehash.getD n default)))
        (emitted (fun o => GeneratePixelShaderCode_texgens o u))) ∧
    (∀ i : Nat,
      0 < mentions "fixpoint_uv"
          (emitted (fun o => GeneratePixelShaderCode_indirectSample o api_type
            host_config.stereo u i)) →
      u.GetTevindirefCoord i < u.genMode_numtexgens ∧
      mentions "fixpoint_uv"
          (emitted (fun o => GeneratePixelShaderCode_indirectSample o api_type
            host_config.stereo u i)) =
        mentions (coordName (u.GetTevindirefCoord i) " ")
          (emitted (fun o => GeneratePixelShaderCode_indirectSample o api_type
            host_config.stereo u i)) ∧
      0 < mentions (coordDeclarationText (u.GetTevindirefCoord i))
        (emitted (fun o => GeneratePixelShaderCode_texgens o u))) ∧
    (∃ before after : String,
      shaderBodyText ext g bugs api_type host_config u =
        before ++ (emitted (fun o => GeneratePixelShaderCode_texgens o u) ++
          (emitted (fun o => GeneratePixelShaderCode_indirectSamples o api_type
            host_config.stereo u) ++
          (emitted (fun o => GeneratePixelShaderCode_stages bugs o api_type
            host_config.stereo u) ++ after)))) := by
  refine ⟨fun n => ?_, fun i hpos => ?_, ?_⟩
  · have hd := WriteStage_texcoord_declared u (u.stagehash.getD n default)
    have h8 : WriteStage_texcoord u (u.stagehash.getD n default) < 8 := by omega
    exact ⟨hd, WriteStage_coordinate_counts bugs u n api_type host_config.stereo h8,
      GeneratePixelShaderCode_texgens_declares u _ hd⟩
  · rcases GeneratePixelShaderCode_indirectSample_uses api_type host_config.stereo u i with
      ⟨hc, h⟩ | h
    · have h8 : u.GetTevindirefCoord i < 8 := by omega
      obtain ⟨⟨n0, n1, _, _⟩, ⟨p1, _, _⟩, ⟨q1, _, _⟩, _, _⟩ := coordName_mentions _ h8
      refine ⟨hc, ?_, GeneratePixelShaderCode_texgens_declares u _ (Or.inl hc)⟩
      rw [h _ n0, h _ n1, p1, q1]
    · rw [mentions_eq_zero 'u' 'v' _ _ (by decide) h] at hpos
      exact absurd hpos (by decide)
  · refine ⟨emitted (fun o => GeneratePixelShaderCode_locals o) ++
      emitted (fun o => GeneratePixelShaderCode_lighting ext
        g.g_ActiveConfig.bEnablePixelLighting o u),
      mirrorText
        (ColorCombiner.mk (u.stagehash.getD u.genMode_numtevstages default).cc).dest
        (AlphaCombiner.mk (u.stagehash.getD u.genMode_numtevstages default).ac).dest ++
      ((GeneratePixelShaderCode_alphaTest g bugs ShaderCode.empty api_type u
          (use_dual_source bugs host_config u) (use_shader_blend bugs host_config u)).text ++
        ((GeneratePixelShaderCode_depthToFog ShaderCode.empty api_type host_config u).text ++
        colorText api_type u
          (use_dual_source bugs host_config u || use_shader_blend bugs host_config u))), ?_⟩
    unfold shaderBodyText
    simp only [String.append_assoc]

set_option maxRecDepth 100000 in
/-- The theorem at two generators and one stage that samples a texture at the coordinate 1:
the stage refers once to fixpoint_uv1, followed by a semicolon, and the coordinate is
declared. -/
theorem GeneratePixelShaderCode_coordinates_declared_witness :
    uidTwoCoordinates.genMode_numtexgens ≤ 8 ∧
    WriteStage_texcoord uidTwoCoordinates (uidTwoCoordinates.stagehash.getD 0 default) = 1 ∧
    mentions "fixpoint_uv1;"
      (emitted (fun o => WriteStage driverSound o uidTwoCoordinates 0 APIType.OpenGL
        hostPlain.stereo)) = 1 ∧
    ((WriteStage_texcoord uidTwoCoordinates (uidTwoCoordinates.stagehash.getD 0 default) <
        uidTwoCoordinates.genMode_numtexgens ∨
        (WriteStage_texcoord uidTwoCoordinates (uidTwoCoordinates.stagehash.getD 0 default) =
          0 ∧ uidTwoCoordinates.genMode_numtexgens = 0)) ∧
      mentions "fixpoint_uv"
          (emitted (fun o => WriteStage driverSound o uidTwoCoordinates 0 APIType.OpenGL
            hostPlain.stereo)) =
        mentions (coordName
            (WriteStage_texcoord uidTwoCoordinates (uidTwoCoordinates.stagehash.getD 0 default))
            " ")
            (emitted (fun o => WriteStage driverSound o uidTwoCoordinates 0 APIType.OpenGL
              hostPlain.stereo)) +
          mentions (coordName
            (WriteStage_texcoord uidTwoCoordinates (uidTwoCoordinates.stagehash.getD 0 default))
            ".")
            (emitted (fun o => WriteStage driverSound o uidTwoCoordinates 0 APIType.OpenGL
              hostPlain.stereo)) +
          mentions (coordName
            (WriteStage_texcoord uidTwoCoordinates (uidTwoCoordinates.stagehash.getD 0 default))
            ";")
            (emitted (fun o => WriteStage driverSound o uidTwoCoordinates 0 APIType.OpenGL
              hostPlain.stereo)) ∧
      0 < mentions (coordDeclarationText
          (WriteStage_texcoord uidTwoCoordinates (uidTwoCoordinates.stagehash.getD 0 default)))
        (emitted (fun o => GeneratePixelShaderCode_texgens o uidTwoCoordinates))) :=
  ⟨by decide, by decide, by decide!,
    (GeneratePixelShaderCode_coordinates_declared externalsSample snapshotEarlyZ driverSound
      APIType.OpenGL hostPlain uidTwoCoordinates (by decide)).1 0⟩

end PixelShaderGen
